import Mathlib

/-!
# ratbag-command over libratbag

A shallow embedding of `tools/ratbag-command.c`, the command line tool of
libratbag, together with the enumerations of `src/libratbag.h` that the tool
uses.

The tool is a client of libratbag, libudev, libevdev and libc.  None of these
is part of the tool: the library is a parameter `Lib W` of every definition,
a deterministic labelled transition system over a world `W`.  A call with its
arguments is a `Call`; the library answers with an `Ans` and a new world.
Every call the tool makes and every text it writes is appended to a trace of
`Event`s, in program order.

Conventions:
* a pointer or handle is an `Int`, `0` is `NULL`;
* `unsigned int` results that bound a loop are reduced with `u32`, `int`
  results that bound a loop with `i32`; other `int` results are taken as they
  are, no arithmetic is done on them;
* `argv` is a list of strings and `argc` is its length.
-/

namespace Ratbag

/-! ## Values of the C types -/

/-- A C pointer or handle; `0` is `NULL`. -/
abbrev Ptr := Int

/-- Reduction of an integer to `unsigned int` (32 bits). -/
def u32 (x : Int) : Int := x % 4294967296

/-- Reduction of an integer to `int` (32 bits, two's complement). -/
def i32 (x : Int) : Int := (x + 2147483648) % 4294967296 - 2147483648

/-! ## Enumerations of libratbag.h -/

/-- The `enum ratbag_log_priority` values the tool passes. -/
def RATBAG_LOG_PRIORITY_RAW : Int := 10

/-- See `RATBAG_LOG_PRIORITY_RAW`. -/
def RATBAG_LOG_PRIORITY_DEBUG : Int := 20

/-- See `RATBAG_LOG_PRIORITY_RAW`. -/
def RATBAG_LOG_PRIORITY_INFO : Int := 30

/-- See `RATBAG_LOG_PRIORITY_RAW`. -/
def RATBAG_LOG_PRIORITY_ERROR : Int := 40

/-- The members of `enum ratbag_capability`. -/
inductive ratbag_capability
  | RATBAG_CAP_NONE
  | RATBAG_CAP_SWITCHABLE_RESOLUTION
  | RATBAG_CAP_SWITCHABLE_PROFILE
  | RATBAG_CAP_BUTTON_KEY
  | RATBAG_CAP_BUTTON_MACROS
  deriving DecidableEq, Repr

/-- The integer value of a capability: `RATBAG_CAP_NONE = 0`, then counting up. -/
def ratbag_capability.val : ratbag_capability → Int
  | RATBAG_CAP_NONE => 0
  | RATBAG_CAP_SWITCHABLE_RESOLUTION => 1
  | RATBAG_CAP_SWITCHABLE_PROFILE => 2
  | RATBAG_CAP_BUTTON_KEY => 3
  | RATBAG_CAP_BUTTON_MACROS => 4

/-- The values of `enum ratbag_button_action_type`. -/
def RATBAG_BUTTON_ACTION_TYPE_UNKNOWN : Int := -1

/-- See `RATBAG_BUTTON_ACTION_TYPE_UNKNOWN`. -/
def RATBAG_BUTTON_ACTION_TYPE_NONE : Int := 0

/-- See `RATBAG_BUTTON_ACTION_TYPE_UNKNOWN`. -/
def RATBAG_BUTTON_ACTION_TYPE_BUTTON : Int := 1

/-- See `RATBAG_BUTTON_ACTION_TYPE_UNKNOWN`. -/
def RATBAG_BUTTON_ACTION_TYPE_SPECIAL : Int := 2

/-- See `RATBAG_BUTTON_ACTION_TYPE_UNKNOWN`. -/
def RATBAG_BUTTON_ACTION_TYPE_KEY : Int := 3

/-- See `RATBAG_BUTTON_ACTION_TYPE_UNKNOWN`. -/
def RATBAG_BUTTON_ACTION_TYPE_MACRO : Int := 4

/-- The type `enum ratbag_button_action_type`. -/
inductive ratbag_button_action_type
  | RATBAG_BUTTON_ACTION_TYPE_UNKNOWN
  | RATBAG_BUTTON_ACTION_TYPE_NONE
  | RATBAG_BUTTON_ACTION_TYPE_BUTTON
  | RATBAG_BUTTON_ACTION_TYPE_SPECIAL
  | RATBAG_BUTTON_ACTION_TYPE_KEY
  | RATBAG_BUTTON_ACTION_TYPE_MACRO
  deriving DecidableEq, Repr

/-- The integer value of an action type: `RATBAG_BUTTON_ACTION_TYPE_UNKNOWN = -1`,
`RATBAG_BUTTON_ACTION_TYPE_NONE = 0`, then counting up. -/
def ratbag_button_action_type.val : ratbag_button_action_type → Int
  | .RATBAG_BUTTON_ACTION_TYPE_UNKNOWN => -1
  | .RATBAG_BUTTON_ACTION_TYPE_NONE => 0
  | .RATBAG_BUTTON_ACTION_TYPE_BUTTON => 1
  | .RATBAG_BUTTON_ACTION_TYPE_SPECIAL => 2
  | .RATBAG_BUTTON_ACTION_TYPE_KEY => 3
  | .RATBAG_BUTTON_ACTION_TYPE_MACRO => 4

/-- The members of `enum ratbag_button_action_type`, in the order of the
declaration. -/
def ratbag_button_action_type.members : List ratbag_button_action_type :=
  [.RATBAG_BUTTON_ACTION_TYPE_UNKNOWN, .RATBAG_BUTTON_ACTION_TYPE_NONE,
   .RATBAG_BUTTON_ACTION_TYPE_BUTTON, .RATBAG_BUTTON_ACTION_TYPE_SPECIAL,
   .RATBAG_BUTTON_ACTION_TYPE_KEY, .RATBAG_BUTTON_ACTION_TYPE_MACRO]

/-- The members of `enum ratbag_button_action_special`, in declaration order. -/
inductive ratbag_button_action_special
  | RATBAG_BUTTON_ACTION_SPECIAL_INVALID
  | RATBAG_BUTTON_ACTION_SPECIAL_UNKNOWN
  | RATBAG_BUTTON_ACTION_SPECIAL_DOUBLECLICK
  | RATBAG_BUTTON_ACTION_SPECIAL_WHEEL_LEFT
  | RATBAG_BUTTON_ACTION_SPECIAL_WHEEL_RIGHT
  | RATBAG_BUTTON_ACTION_SPECIAL_WHEEL_UP
  | RATBAG_BUTTON_ACTION_SPECIAL_WHEEL_DOWN
  | RATBAG_BUTTON_ACTION_SPECIAL_RATCHET_MODE_SWITCH
  | RATBAG_BUTTON_ACTION_SPECIAL_RESOLUTION_CYCLE_UP
  | RATBAG_BUTTON_ACTION_SPECIAL_RESOLUTION_UP
  | RATBAG_BUTTON_ACTION_SPECIAL_RESOLUTION_DOWN
  | RATBAG_BUTTON_ACTION_SPECIAL_PROFILE_CYCLE_UP
  | RATBAG_BUTTON_ACTION_SPECIAL_PROFILE_UP
  | RATBAG_BUTTON_ACTION_SPECIAL_PROFILE_DOWN
  deriving DecidableEq, Repr

/-- The integer value of a special action: `INVALID = -1`,
`UNKNOWN = (1 << 30)`, and every later member is its predecessor plus one. -/
def ratbag_button_action_special.val : ratbag_button_action_special → Int
  | RATBAG_BUTTON_ACTION_SPECIAL_INVALID => -1
  | RATBAG_BUTTON_ACTION_SPECIAL_UNKNOWN => 2 ^ 30
  | RATBAG_BUTTON_ACTION_SPECIAL_DOUBLECLICK => 2 ^ 30 + 1
  | RATBAG_BUTTON_ACTION_SPECIAL_WHEEL_LEFT => 2 ^ 30 + 2
  | RATBAG_BUTTON_ACTION_SPECIAL_WHEEL_RIGHT => 2 ^ 30 + 3
  | RATBAG_BUTTON_ACTION_SPECIAL_WHEEL_UP => 2 ^ 30 + 4
  | RATBAG_BUTTON_ACTION_SPECIAL_WHEEL_DOWN => 2 ^ 30 + 5
  | RATBAG_BUTTON_ACTION_SPECIAL_RATCHET_MODE_SWITCH => 2 ^ 30 + 6
  | RATBAG_BUTTON_ACTION_SPECIAL_RESOLUTION_CYCLE_UP => 2 ^ 30 + 7
  | RATBAG_BUTTON_ACTION_SPECIAL_RESOLUTION_UP => 2 ^ 30 + 8
  | RATBAG_BUTTON_ACTION_SPECIAL_RESOLUTION_DOWN => 2 ^ 30 + 9
  | RATBAG_BUTTON_ACTION_SPECIAL_PROFILE_CYCLE_UP => 2 ^ 30 + 10
  | RATBAG_BUTTON_ACTION_SPECIAL_PROFILE_UP => 2 ^ 30 + 11
  | RATBAG_BUTTON_ACTION_SPECIAL_PROFILE_DOWN => 2 ^ 30 + 12

/-- All members of `enum ratbag_button_action_special`, in declaration order. -/
def ratbag_button_action_special.members : List ratbag_button_action_special :=
  [RATBAG_BUTTON_ACTION_SPECIAL_INVALID, RATBAG_BUTTON_ACTION_SPECIAL_UNKNOWN,
   RATBAG_BUTTON_ACTION_SPECIAL_DOUBLECLICK, RATBAG_BUTTON_ACTION_SPECIAL_WHEEL_LEFT,
   RATBAG_BUTTON_ACTION_SPECIAL_WHEEL_RIGHT, RATBAG_BUTTON_ACTION_SPECIAL_WHEEL_UP,
   RATBAG_BUTTON_ACTION_SPECIAL_WHEEL_DOWN, RATBAG_BUTTON_ACTION_SPECIAL_RATCHET_MODE_SWITCH,
   RATBAG_BUTTON_ACTION_SPECIAL_RESOLUTION_CYCLE_UP, RATBAG_BUTTON_ACTION_SPECIAL_RESOLUTION_UP,
   RATBAG_BUTTON_ACTION_SPECIAL_RESOLUTION_DOWN, RATBAG_BUTTON_ACTION_SPECIAL_PROFILE_CYCLE_UP,
   RATBAG_BUTTON_ACTION_SPECIAL_PROFILE_UP, RATBAG_BUTTON_ACTION_SPECIAL_PROFILE_DOWN]

/-! ## Constants of linux/input.h and of the tool -/

/-- The event type `EV_KEY` of linux/input.h. -/
def EV_KEY : Int := 1

/-- The key code `KEY_VOLUMEDOWN` of linux/input.h. -/
def KEY_VOLUMEDOWN : Int := 114

/-- The key code `KEY_VOLUMEUP` of linux/input.h. -/
def KEY_VOLUMEUP : Int := 115

/-- The member `OPT_VERBOSE` of `enum options`. -/
def OPT_VERBOSE : Int := 0

/-- The member `OPT_HELP` of `enum options`. -/
def OPT_HELP : Int := 1

/-- The member `FLAG_VERBOSE = 1 << 0` of `enum cmd_flags`. -/
def FLAG_VERBOSE : Nat := 1

/-- The member `FLAG_VERBOSE_RAW = 1 << 1` of `enum cmd_flags`. -/
def FLAG_VERBOSE_RAW : Nat := 2

/-! ## The library as a transition system -/

/-- A call of the tool into libratbag, libudev or libc, with its arguments.
Unsigned arguments are given after conversion to `unsigned int`.  Of the
calls of `sprintf`, only one that does not fit is a `Call`: `sprintf size
text` is a call that writes `text` and its terminating NUL into a buffer of
`size` bytes which is too small for them. -/
inductive Call
  | ratbag_create_context
  | ratbag_unref (ratbag : Ptr)
  | ratbag_log_set_priority (ratbag : Ptr) (priority : Int)
  | udev_new
  | udev_unref (udev : Ptr)
  | stat (path : String)
  | udev_device_new_from_devnum (udev : Ptr) (type : Char) (devnum : Int)
  | udev_device_new_from_syspath (udev : Ptr) (path : String)
  | udev_device_unref (udev_device : Ptr)
  | scandir (dir : String)
  | sprintf (size : Nat) (text : String)
  | ratbag_device_new_from_udev_device (ratbag : Ptr) (udev_device : Ptr)
  | ratbag_device_get_name (device : Ptr)
  | ratbag_device_has_capability (device : Ptr) (cap : ratbag_capability)
  | ratbag_device_get_num_buttons (device : Ptr)
  | ratbag_device_get_num_profiles (device : Ptr)
  | ratbag_device_get_profile_by_index (device : Ptr) (index : Int)
  | ratbag_device_unref (device : Ptr)
  | ratbag_profile_is_active (profile : Ptr)
  | ratbag_profile_set_active (profile : Ptr)
  | ratbag_profile_get_num_resolutions (profile : Ptr)
  | ratbag_profile_get_resolution (profile : Ptr) (idx : Int)
  | ratbag_profile_get_button_by_index (profile : Ptr) (index : Int)
  | ratbag_profile_unref (profile : Ptr)
  | ratbag_resolution_get_dpi (resolution : Ptr)
  | ratbag_resolution_get_report_rate (resolution : Ptr)
  | ratbag_resolution_is_active (resolution : Ptr)
  | ratbag_resolution_is_default (resolution : Ptr)
  | ratbag_resolution_set_dpi (resolution : Ptr) (dpi : Int)
  | ratbag_resolution_unref (resolution : Ptr)
  | ratbag_button_get_type (button : Ptr)
  | ratbag_button_get_action_type (button : Ptr)
  | ratbag_button_get_button (button : Ptr)
  | ratbag_button_get_key (button : Ptr) (sz : Int)
  | ratbag_button_get_special (button : Ptr)
  | ratbag_button_set_button (button : Ptr) (btn : Int)
  | ratbag_button_set_key (button : Ptr) (key : Int) (modifiers : List Int)
  | ratbag_button_set_special (button : Ptr) (action : Int)
  | ratbag_button_disable (button : Ptr)
  | ratbag_button_unref (button : Ptr)
  deriving DecidableEq, Repr

/-- The answer of the library to a call: `val` is the returned integer or
pointer; `aux` is an integer stored through an out parameter (`st_rdev` of
`stat`, `*sz` of `ratbag_button_get_key`); `str` is a returned C string,
`none` for `NULL`; `names` are the entry names of a directory read by
`scandir`; `mods` are the modifiers written by `ratbag_button_get_key`. -/
structure Ans where
  val : Int := 0
  aux : Int := 0
  str : Option String := none
  names : List String := []
  mods : List Int := []
  deriving DecidableEq, Repr

/-- The two output streams of the tool. -/
inductive Stream
  | stdout
  | stderr
  deriving DecidableEq, Repr

/-- One observable step of the tool: a text written to a stream, or a call
into the library together with the answer it got. -/
inductive Event
  | out (stream : Stream) (text : String)
  | call (c : Call) (a : Ans)
  deriving DecidableEq, Repr

/-- What `getopt_long` yields over a whole run of the option loop of `main`:
the values `c` it returns before it returns `-1`, each with the value of
`optarg` at that point, and the value of `optind` when it returns `-1`. -/
structure GetoptRun where
  steps : List (Int × Option String)
  optind : Nat
  deriving DecidableEq, Repr

/-- The environment of the tool.  `answer` is the behaviour of the stateful
calls; the other fields are the pure functions and the globals of libc and
libevdev that the tool reads. -/
structure Lib (W : Type) where
  answer : Call → W → Ans × W
  atoi : String → Int
  strerror : Int → String
  errno : W → Int
  libevdev_event_code_from_name : Int → String → Int
  libevdev_event_code_get_name : Int → Int → Option String
  getopt_long : List String → GetoptRun
  program_invocation_short_name : String

/-- The state of a run: the world of the library and the trace so far. -/
structure St (W : Type) where
  world : W
  trace : List Event

variable {W : Type}

/-- Perform a library call: ask the library, record call and answer. -/
def libcall (L : Lib W) (c : Call) (s : St W) : Ans × St W :=
  ((L.answer c s.world).1,
   { world := (L.answer c s.world).2,
     trace := s.trace ++ [Event.call c (L.answer c s.world).1] })

/-- The text `printf` writes on standard output. -/
def printf (text : String) (s : St W) : St W :=
  { world := s.world, trace := s.trace ++ [Event.out Stream.stdout text] }

/-- The function `error`: `"Error: "` and then the formatted message, both on
standard error. -/
def error (text : String) (s : St W) : St W :=
  { world := s.world,
    trace := s.trace ++ [Event.out Stream.stderr "Error: ", Event.out Stream.stderr text] }

/-- The text `printf` writes for `%s` with this argument; glibc writes
`(null)` for `NULL`. -/
def fmt_s (str : Option String) : String := str.getD "(null)"

/-- The text `printf` writes for `%d`. -/
def fmt_d (x : Int) : String := toString x

/-! ## Tables and pure helpers of the tool -/

/-- The static part of a `struct ratbag_cmd`: name, argument synopsis
(`none` for `NULL`) and help text.  The handler itself is attached in
`ratbag_commands`, after the handlers are defined. -/
structure ratbag_cmd where
  name : String
  args : Option String
  help : String
  deriving DecidableEq, Repr

/-- The initialiser `cmd_info`. -/
def cmd_info : ratbag_cmd :=
  { name := "info", args := none,
    help := "Show information about the device's capabilities" }

/-- The initialiser `cmd_list`. -/
def cmd_list : ratbag_cmd :=
  { name := "list", args := none, help := "List the available devices" }

/-- The initialiser `cmd_change_button`. -/
def cmd_change_button : ratbag_cmd :=
  { name := "change-button",
    args := some "X <button|key|special> <number|KEY_FOO|special>",
    help := "Remap button X to the given action in the active profile" }

/-- The initialiser `cmd_switch_etekcity`. -/
def cmd_switch_etekcity : ratbag_cmd :=
  { name := "switch-etekcity", args := none,
    help := "Switch the Etekcity mouse active profile" }

/-- The initialiser `cmd_switch_dpi`. -/
def cmd_switch_dpi : ratbag_cmd :=
  { name := "switch-dpi", args := some "N",
    help := "Switch the resolution of the mouse in the active profile" }

/-- The initialiser `cmd_switch_profile`. -/
def cmd_switch_profile : ratbag_cmd :=
  { name := "switch-profile", args := some "N",
    help := "Set the current active profile to N" }

/-- The entries of the array `ratbag_commands` before its `NULL` terminator. -/
def ratbag_command_table : List ratbag_cmd :=
  [cmd_info, cmd_list, cmd_change_button, cmd_switch_etekcity, cmd_switch_dpi,
   cmd_switch_profile]

/-- The line `usage` prints for one command: the name, the arguments if any,
and `count` of the 20 dots, where `count` is `20 - strlen(name)`, less `1 + strlen(args)`
if there are arguments, and at least 4. -/
def usage_line (cmd : ratbag_cmd) : String :=
  let count0 : Int := 20 - (cmd.name.length : Int)
  let count1 : Int :=
    match cmd.args with
    | some a => count0 - (1 + (a.length : Int))
    | none => count0
  let count : Int := if count1 < 4 then 4 else count1
  "    " ++ cmd.name ++ (if cmd.args.isSome then " " else "") ++ cmd.args.getD "" ++ " "
    ++ String.mk (List.replicate (min count 20).toNat '.') ++ " " ++ cmd.help ++ "\n"

/-- The function `usage`: a header, one line for each command, the options.
All of it goes to standard output. -/
def usage (L : Lib W) (s : St W) : St W :=
  printf ("\nOptions:\n"
      ++ "    --verbose[=raw] ....... Print debugging output, with protocol output if requested.\n"
      ++ "    --help .......... Print this help.\n")
    (ratbag_command_table.foldl (fun t cmd => printf (usage_line cmd) t)
      (printf ("Usage: " ++ L.program_invocation_short_name
          ++ " [options] [command] /sys/class/input/eventX\n"
          ++ "/path/to/device ..... Open the given device only\n"
          ++ "\n"
          ++ "Commands:\n") s))

/-- The members of `enum ratbag_button_type`, in declaration order. -/
inductive ratbag_button_type
  | RATBAG_BUTTON_TYPE_UNKNOWN
  | RATBAG_BUTTON_TYPE_LEFT
  | RATBAG_BUTTON_TYPE_MIDDLE
  | RATBAG_BUTTON_TYPE_RIGHT
  | RATBAG_BUTTON_TYPE_THUMB
  | RATBAG_BUTTON_TYPE_THUMB2
  | RATBAG_BUTTON_TYPE_THUMB3
  | RATBAG_BUTTON_TYPE_THUMB4
  | RATBAG_BUTTON_TYPE_WHEEL_LEFT
  | RATBAG_BUTTON_TYPE_WHEEL_RIGHT
  | RATBAG_BUTTON_TYPE_WHEEL_CLICK
  | RATBAG_BUTTON_TYPE_WHEEL_UP
  | RATBAG_BUTTON_TYPE_WHEEL_DOWN
  | RATBAG_BUTTON_TYPE_WHEEL_RATCHET_MODE_SHIFT
  | RATBAG_BUTTON_TYPE_EXTRA
  | RATBAG_BUTTON_TYPE_SIDE
  | RATBAG_BUTTON_TYPE_PINKIE
  | RATBAG_BUTTON_TYPE_PINKIE2
  | RATBAG_BUTTON_TYPE_RESOLUTION_CYCLE_UP
  | RATBAG_BUTTON_TYPE_RESOLUTION_UP
  | RATBAG_BUTTON_TYPE_RESOLUTION_DOWN
  | RATBAG_BUTTON_TYPE_PROFILE_CYCLE_UP
  | RATBAG_BUTTON_TYPE_PROFILE_UP
  | RATBAG_BUTTON_TYPE_PROFILE_DOWN
  deriving DecidableEq, Repr

/-- The integer value of a button type: `UNKNOWN = 0`, then counting up. -/
def ratbag_button_type.val : ratbag_button_type → Int
  | RATBAG_BUTTON_TYPE_UNKNOWN => 0
  | RATBAG_BUTTON_TYPE_LEFT => 1
  | RATBAG_BUTTON_TYPE_MIDDLE => 2
  | RATBAG_BUTTON_TYPE_RIGHT => 3
  | RATBAG_BUTTON_TYPE_THUMB => 4
  | RATBAG_BUTTON_TYPE_THUMB2 => 5
  | RATBAG_BUTTON_TYPE_THUMB3 => 6
  | RATBAG_BUTTON_TYPE_THUMB4 => 7
  | RATBAG_BUTTON_TYPE_WHEEL_LEFT => 8
  | RATBAG_BUTTON_TYPE_WHEEL_RIGHT => 9
  | RATBAG_BUTTON_TYPE_WHEEL_CLICK => 10
  | RATBAG_BUTTON_TYPE_WHEEL_UP => 11
  | RATBAG_BUTTON_TYPE_WHEEL_DOWN => 12
  | RATBAG_BUTTON_TYPE_WHEEL_RATCHET_MODE_SHIFT => 13
  | RATBAG_BUTTON_TYPE_EXTRA => 14
  | RATBAG_BUTTON_TYPE_SIDE => 15
  | RATBAG_BUTTON_TYPE_PINKIE => 16
  | RATBAG_BUTTON_TYPE_PINKIE2 => 17
  | RATBAG_BUTTON_TYPE_RESOLUTION_CYCLE_UP => 18
  | RATBAG_BUTTON_TYPE_RESOLUTION_UP => 19
  | RATBAG_BUTTON_TYPE_RESOLUTION_DOWN => 20
  | RATBAG_BUTTON_TYPE_PROFILE_CYCLE_UP => 21
  | RATBAG_BUTTON_TYPE_PROFILE_UP => 22
  | RATBAG_BUTTON_TYPE_PROFILE_DOWN => 23

open ratbag_button_type in

/-- The `case` labels of the `switch` in `button_type_to_str`, each with the
string it assigns. -/
def button_type_cases : List (ratbag_button_type × String) :=
  [(RATBAG_BUTTON_TYPE_UNKNOWN, "unknown"),
   (RATBAG_BUTTON_TYPE_LEFT, "left"),
   (RATBAG_BUTTON_TYPE_MIDDLE, "middle"),
   (RATBAG_BUTTON_TYPE_RIGHT, "right"),
   (RATBAG_BUTTON_TYPE_THUMB, "thumb"),
   (RATBAG_BUTTON_TYPE_THUMB2, "thumb2"),
   (RATBAG_BUTTON_TYPE_THUMB3, "thumb3"),
   (RATBAG_BUTTON_TYPE_THUMB4, "thumb4"),
   (RATBAG_BUTTON_TYPE_WHEEL_LEFT, "wheel left"),
   (RATBAG_BUTTON_TYPE_WHEEL_RIGHT, "wheel right"),
   (RATBAG_BUTTON_TYPE_WHEEL_CLICK, "wheel click"),
   (RATBAG_BUTTON_TYPE_WHEEL_UP, "wheel up"),
   (RATBAG_BUTTON_TYPE_WHEEL_DOWN, "wheel down"),
   (RATBAG_BUTTON_TYPE_WHEEL_RATCHET_MODE_SHIFT, "wheel ratchet mode switch"),
   (RATBAG_BUTTON_TYPE_EXTRA, "extra (forward)"),
   (RATBAG_BUTTON_TYPE_SIDE, "side (backward)"),
   (RATBAG_BUTTON_TYPE_PINKIE, "pinkie"),
   (RATBAG_BUTTON_TYPE_PINKIE2, "pinkie2"),
   (RATBAG_BUTTON_TYPE_RESOLUTION_CYCLE_UP, "resolution cycle up"),
   (RATBAG_BUTTON_TYPE_RESOLUTION_UP, "resolution up"),
   (RATBAG_BUTTON_TYPE_RESOLUTION_DOWN, "resolution down"),
   (RATBAG_BUTTON_TYPE_PROFILE_CYCLE_UP, "profile cycle up"),
   (RATBAG_BUTTON_TYPE_PROFILE_UP, "profile up"),
   (RATBAG_BUTTON_TYPE_PROFILE_DOWN, "profile down")]

/-- The function `button_type_to_str`: the string of the first `case` whose
label has the value `type`, and `"UNKNOWN"` if there is none. -/
def button_type_to_str (type : Int) : String :=
  match button_type_cases.find? (fun c => c.1.val = type) with
  | some c => c.2
  | none => "UNKNOWN"

open ratbag_button_action_special in

/-- The `case` labels of the `switch` in `button_action_special_to_str`, each
with the string it assigns. -/
def button_action_special_cases : List (ratbag_button_action_special × String) :=
  [(RATBAG_BUTTON_ACTION_SPECIAL_INVALID, "invalid"),
   (RATBAG_BUTTON_ACTION_SPECIAL_UNKNOWN, "unknown"),
   (RATBAG_BUTTON_ACTION_SPECIAL_DOUBLECLICK, "double click"),
   (RATBAG_BUTTON_ACTION_SPECIAL_WHEEL_LEFT, "wheel left"),
   (RATBAG_BUTTON_ACTION_SPECIAL_WHEEL_RIGHT, "wheel right"),
   (RATBAG_BUTTON_ACTION_SPECIAL_WHEEL_UP, "wheel up"),
   (RATBAG_BUTTON_ACTION_SPECIAL_WHEEL_DOWN, "wheel down"),
   (RATBAG_BUTTON_ACTION_SPECIAL_RATCHET_MODE_SWITCH, "ratchet mode switch"),
   (RATBAG_BUTTON_ACTION_SPECIAL_RESOLUTION_CYCLE_UP, "resolution cycle up"),
   (RATBAG_BUTTON_ACTION_SPECIAL_RESOLUTION_UP, "resolution up"),
   (RATBAG_BUTTON_ACTION_SPECIAL_RESOLUTION_DOWN, "resolution down"),
   (RATBAG_BUTTON_ACTION_SPECIAL_PROFILE_CYCLE_UP, "profile cycle up"),
   (RATBAG_BUTTON_ACTION_SPECIAL_PROFILE_UP, "profile up"),
   (RATBAG_BUTTON_ACTION_SPECIAL_PROFILE_DOWN, "profile down")]

/-- The `switch` of `button_action_special_to_str` on the value `special`
that `ratbag_button_get_special` returned. -/
def special_to_str (special : Int) : String :=
  match button_action_special_cases.find? (fun c => c.1.val = special) with
  | some c => c.2
  | none => "UNKNOWN"

open ratbag_button_action_special in

/-- The array `map` of `str_to_special_action` before its `NULL` entry. -/
def str_to_special_action_map : List (ratbag_button_action_special × String) :=
  [(RATBAG_BUTTON_ACTION_SPECIAL_DOUBLECLICK, "doubleclick"),
   (RATBAG_BUTTON_ACTION_SPECIAL_WHEEL_LEFT, "wheel left"),
   (RATBAG_BUTTON_ACTION_SPECIAL_WHEEL_RIGHT, "wheel right"),
   (RATBAG_BUTTON_ACTION_SPECIAL_WHEEL_UP, "wheel up"),
   (RATBAG_BUTTON_ACTION_SPECIAL_WHEEL_DOWN, "wheel down"),
   (RATBAG_BUTTON_ACTION_SPECIAL_RESOLUTION_CYCLE_UP, "resolution cycle up"),
   (RATBAG_BUTTON_ACTION_SPECIAL_RESOLUTION_UP, "resolution up"),
   (RATBAG_BUTTON_ACTION_SPECIAL_RESOLUTION_DOWN, "resolution down"),
   (RATBAG_BUTTON_ACTION_SPECIAL_PROFILE_CYCLE_UP, "profile cycle up"),
   (RATBAG_BUTTON_ACTION_SPECIAL_PROFILE_UP, "profile up"),
   (RATBAG_BUTTON_ACTION_SPECIAL_PROFILE_DOWN, "profile down")]

/-- The function `str_to_special_action`: the action of the first entry of
the map whose string equals `str`, and `INVALID` if there is none. -/
def str_to_special_action (str : String) : ratbag_button_action_special :=
  match str_to_special_action_map.find? (fun m => m.2 = str) with
  | some m => m.1
  | none => ratbag_button_action_special.RATBAG_BUTTON_ACTION_SPECIAL_INVALID

/-- The helper `strneq` of libratbag-util.h: `strncmp(s1, s2, n) == 0`, the
first `n` characters of the two strings are the same. -/
def strneq (s1 s2 : String) (n : Nat) : Bool := s1.data.take n == s2.data.take n

/-- The function `filter_event_node`: non-zero if and only if the first five
characters of the entry name are `event`. -/
def filter_event_node (d_name : String) : Bool := strneq d_name "event" 5

/-! ## Opening a device -/

/-- The function `udev_device_from_path`: a path that starts with
`/dev/input/event` is resolved through `stat` and its device number, any
other path is taken as a syspath. -/
def udev_device_from_path (L : Lib W) (udev : Ptr) (path : String) (s : St W) : Ptr × St W :=
  if strneq path "/dev/input/event" "/dev/input/event".length then
    let st := libcall L (Call.stat path) s
    if st.1.val = -1 then
      (0, error ("Failed to stat '" ++ path ++ "': " ++ L.strerror (L.errno st.2.world) ++ "\n")
            st.2)
    else
      let d := libcall L (Call.udev_device_new_from_devnum udev 'c' st.1.aux) st.2
      if d.1.val = 0 then
        (0, error ("Can't open '" ++ path ++ "': " ++ L.strerror (L.errno d.2.world) ++ "\n") d.2)
      else (d.1.val, d.2)
  else
    let d := libcall L (Call.udev_device_new_from_syspath udev path) s
    if d.1.val = 0 then
      (0, error ("Can't open '" ++ path ++ "': " ++ L.strerror (L.errno d.2.world) ++ "\n") d.2)
    else (d.1.val, d.2)

/-- The function `ratbag_cmd_open_device`; the result is the device, `0` if
the udev lookup or the device creation failed. -/
def ratbag_cmd_open_device (L : Lib W) (ratbag : Ptr) (path : String) (s : St W) : Ptr × St W :=
  let udev := libcall L Call.udev_new s
  let udev_device := udev_device_from_path L udev.1.val path udev.2
  if udev_device.1 = 0 then
    (0, (libcall L (Call.udev_unref udev.1.val) udev_device.2).2)
  else
    let device :=
      libcall L (Call.ratbag_device_new_from_udev_device ratbag udev_device.1) udev_device.2
    (device.1.val,
     (libcall L (Call.udev_unref udev.1.val)
       (libcall L (Call.udev_device_unref udev_device.1) device.2).2).2)

/-- The search for the active profile, the loop
`for (i = 0; i < ratbag_device_get_num_profiles(device); i++)` of
`ratbag_cmd_change_button`, `ratbag_cmd_switch_dpi` and
`ratbag_cmd_switch_etekcity`.  The result is the value of `profile` after
the loop.  The count is read again before every iteration; it is an
`unsigned int`, so the body runs at most `2 ^ 32` times and a `fuel` of
`2 ^ 32` is never used up (`active_profile_loop_fuel`). -/
def active_profile_loop (L : Lib W) (device : Ptr) : Nat → Int → St W → Ptr × St W
  | 0, _, s => (0, s)
  | fuel + 1, i, s =>
    let n := libcall L (Call.ratbag_device_get_num_profiles device) s
    if i < u32 n.1.val then
      let profile := libcall L (Call.ratbag_device_get_profile_by_index device i) n.2
      let active := libcall L (Call.ratbag_profile_is_active profile.1.val) profile.2
      if active.1.val ≠ 0 then (profile.1.val, active.2)
      else
        active_profile_loop L device fuel (i + 1)
          (libcall L (Call.ratbag_profile_unref profile.1.val) active.2).2
    else (0, n.2)

/-- The search for the active profile, started at index 0. -/
def find_active_profile (L : Lib W) (device : Ptr) (s : St W) : Ptr × St W :=
  active_profile_loop L device 4294967296 0 s

/-! ## info -/

/-- The function `button_action_special_to_str`. -/
def button_action_special_to_str (L : Lib W) (button : Ptr) (s : St W) : String × St W :=
  let special := libcall L (Call.ratbag_button_get_special button) s
  (special_to_str special.1.val, special.2)

/-- The function `button_action_button_to_str`; the button number is an
`unsigned int` written with `%d`. -/
def button_action_button_to_str (L : Lib W) (button : Ptr) (s : St W) : String × St W :=
  let b := libcall L (Call.ratbag_button_get_button button) s
  ("button " ++ fmt_d (i32 b.1.val), b.2)

/-- The function `button_action_key_to_str`; the modifiers buffer has 10
entries. -/
def button_action_key_to_str (L : Lib W) (button : Ptr) (s : St W) : String × St W :=
  let key := libcall L (Call.ratbag_button_get_key button 10) s
  ((L.libevdev_event_code_get_name EV_KEY key.1.val).getD "UNKNOWN", key.2)

/-- The function `button_action_to_str`. -/
def button_action_to_str (L : Lib W) (button : Ptr) (s : St W) : String × St W :=
  let type := libcall L (Call.ratbag_button_get_action_type button) s
  if type.1.val = RATBAG_BUTTON_ACTION_TYPE_BUTTON then
    button_action_button_to_str L button type.2
  else if type.1.val = RATBAG_BUTTON_ACTION_TYPE_KEY then
    button_action_key_to_str L button type.2
  else if type.1.val = RATBAG_BUTTON_ACTION_TYPE_SPECIAL then
    button_action_special_to_str L button type.2
  else if type.1.val = RATBAG_BUTTON_ACTION_TYPE_MACRO then ("macro", type.2)
  else if type.1.val = RATBAG_BUTTON_ACTION_TYPE_NONE then ("none", type.2)
  else ("UNKNOWN", error ("type " ++ fmt_d type.1.val ++ " unknown\n") type.2)

/-- The loop `for (j = 0; j < ratbag_profile_get_num_resolutions(profile); j++)`
of `ratbag_cmd_info`.  The count is an `int` read again before every
iteration, so a `fuel` of `2 ^ 31` is never used up
(`info_resolutions_fuel`).  The two calls in the argument list of the second
`printf` are taken from left to right. -/
def info_resolutions (L : Lib W) (profile : Ptr) : Nat → Int → St W → St W
  | 0, _, s => s
  | fuel + 1, j, s =>
    let n := libcall L (Call.ratbag_profile_get_num_resolutions profile) s
    if j < i32 n.1.val then
      let res := libcall L (Call.ratbag_profile_get_resolution profile j) n.2
      let dpi := libcall L (Call.ratbag_resolution_get_dpi res.1.val) res.2
      let rate := libcall L (Call.ratbag_resolution_get_report_rate res.1.val) dpi.2
      let printed :=
        if dpi.1.val = 0 then
          printf ("      " ++ fmt_d j ++ ": <disabled>\n") rate.2
        else
          let active := libcall L (Call.ratbag_resolution_is_active res.1.val) rate.2
          let dflt := libcall L (Call.ratbag_resolution_is_default res.1.val) active.2
          printf ("      " ++ fmt_d j ++ ": " ++ fmt_d dpi.1.val ++ "dpi @ " ++ fmt_d rate.1.val
              ++ "Hz" ++ (if active.1.val ≠ 0 then " (active)" else "")
              ++ (if dflt.1.val ≠ 0 then " (default)" else "") ++ "\n") dflt.2
      info_resolutions L profile fuel (j + 1)
        (libcall L (Call.ratbag_resolution_unref res.1.val) printed).2
    else n.2

/-- The loop `for (b = 0; b < num_buttons; b++)` of `ratbag_cmd_info`; the
first argument is the number of iterations left, `num_buttons - b`. -/
def info_buttons (L : Lib W) (profile : Ptr) : Nat → Int → St W → St W
  | 0, _, s => s
  | left + 1, b, s =>
    let button := libcall L (Call.ratbag_profile_get_button_by_index profile b) s
    let type := libcall L (Call.ratbag_button_get_type button.1.val) button.2
    let action := button_action_to_str L button.1.val type.2
    info_buttons L profile left (b + 1)
      (libcall L (Call.ratbag_button_unref button.1.val)
        (printf ("    Button: " ++ fmt_d b ++ " type " ++ button_type_to_str type.1.val
            ++ " is mapped to '" ++ action.1 ++ "'\n") action.2)).2

/-- The loop `for (i = 0; i < num_profiles; i++)` of `ratbag_cmd_info`; the
first argument is the number of iterations left, `num_profiles - i`. -/
def info_profiles (L : Lib W) (device : Ptr) (num_buttons : Int) : Nat → Int → St W → St W
  | 0, _, s => s
  | left + 1, i, s =>
    let profile := libcall L (Call.ratbag_device_get_profile_by_index device i) s
    let active := libcall L (Call.ratbag_profile_is_active profile.1.val) profile.2
    let s1 := printf "    Resolutions:\n"
      (printf ("  Profile " ++ fmt_d i ++ (if active.1.val ≠ 0 then " (active)" else "") ++ "\n")
        active.2)
    let s2 := info_resolutions L profile.1.val 2147483648 0 s1
    let s3 := info_buttons L profile.1.val num_buttons.toNat 0 s2
    info_profiles L device num_buttons left (i + 1)
      (libcall L (Call.ratbag_profile_unref profile.1.val) s3).2

/-- The `printf` of one capability token of `ratbag_cmd_info`, guarded by
`ratbag_device_has_capability`. -/
def info_capability (L : Lib W) (device : Ptr) (cap : ratbag_capability) (token : String)
    (s : St W) : St W :=
  let has := libcall L (Call.ratbag_device_has_capability device cap) s
  if has.1.val ≠ 0 then printf token has.2 else has.2

/-- The function `ratbag_cmd_info`.  The counts are stored in `int`
variables. -/
def ratbag_cmd_info (L : Lib W) (ratbag : Ptr) (_flags : Nat) (argv : List String) (s : St W) :
    Int × St W :=
  match argv with
  | [path] =>
    let device := ratbag_cmd_open_device L ratbag path s
    if device.1 = 0 then
      (1, error ("Looks like '" ++ path ++ "' is not supported\n") device.2)
    else
      let name := libcall L (Call.ratbag_device_get_name device.1) device.2
      let s1 := printf "Capabilities:"
        (printf ("Device '" ++ fmt_s name.1.str ++ "' (" ++ path ++ ")\n") name.2)
      let s2 := info_capability L device.1
        ratbag_capability.RATBAG_CAP_SWITCHABLE_RESOLUTION " res" s1
      let s3 := info_capability L device.1
        ratbag_capability.RATBAG_CAP_SWITCHABLE_PROFILE " profile" s2
      let s4 := info_capability L device.1 ratbag_capability.RATBAG_CAP_BUTTON_KEY " btn-key" s3
      let s5 := info_capability L device.1
        ratbag_capability.RATBAG_CAP_BUTTON_MACROS " btn-macros" s4
      let nb := libcall L (Call.ratbag_device_get_num_buttons device.1) (printf "\n" s5)
      let num_buttons := i32 (u32 nb.1.val)
      let np := libcall L (Call.ratbag_device_get_num_profiles device.1)
        (printf ("Number of buttons: " ++ fmt_d num_buttons ++ "\n") nb.2)
      let num_profiles := i32 (u32 np.1.val)
      let s6 := info_profiles L device.1 num_buttons num_profiles.toNat 0
        (printf ("Profiles supported: " ++ fmt_d num_profiles ++ "\n") np.2)
      (0, (libcall L (Call.ratbag_device_unref device.1) s6).2)
  | _ => (1, usage L s)

/-! ## switch-profile -/

/-- The loop `for (i = 0; i < num_profiles; i++)` of
`ratbag_cmd_switch_profile`; the first argument is the number of iterations
left.  The result is the value of `active_profile` after the loop. -/
def switch_profile_loop (L : Lib W) (device : Ptr) : Nat → Int → St W → Ptr × St W
  | 0, _, s => (0, s)
  | left + 1, i, s =>
    let active_profile := libcall L (Call.ratbag_device_get_profile_by_index device i) s
    let active := libcall L (Call.ratbag_profile_is_active active_profile.1.val) active_profile.2
    if active.1.val ≠ 0 then (active_profile.1.val, active.2)
    else
      switch_profile_loop L device left (i + 1)
        (libcall L (Call.ratbag_profile_unref active_profile.1.val) active.2).2

/-- The code after the label `out` of `ratbag_cmd_switch_profile`. -/
def switch_profile_out (L : Lib W) (device profile active_profile : Ptr) (rc : Int) (s : St W) :
    Int × St W :=
  (rc,
   (libcall L (Call.ratbag_device_unref device)
     (libcall L (Call.ratbag_profile_unref active_profile)
       (libcall L (Call.ratbag_profile_unref profile) s).2).2).2)

/-- The function `ratbag_cmd_switch_profile`.  `index` and `num_profiles` are
`int` variables; `index` is converted to `unsigned int` where it is passed to
`ratbag_device_get_profile_by_index`. -/
def ratbag_cmd_switch_profile (L : Lib W) (ratbag : Ptr) (_flags : Nat) (argv : List String)
    (s : St W) : Int × St W :=
  match argv with
  | [arg, path] =>
    let index := L.atoi arg
    let device := ratbag_cmd_open_device L ratbag path s
    if device.1 = 0 then
      (1, error ("Looks like '" ++ path ++ "' is not supported\n") device.2)
    else
      let cap := libcall L
        (Call.ratbag_device_has_capability device.1
          ratbag_capability.RATBAG_CAP_SWITCHABLE_PROFILE) device.2
      if cap.1.val = 0 then
        switch_profile_out L device.1 0 0 1
          (error ("Looks like '" ++ path ++ "' has no switchable profiles\n") cap.2)
      else
        let np := libcall L (Call.ratbag_device_get_num_profiles device.1) cap.2
        let num_profiles := i32 (u32 np.1.val)
        if index > num_profiles then
          switch_profile_out L device.1 0 0 1
            (error ("'" ++ arg ++ "' is not a valid profile\n") np.2)
        else
          let profile :=
            libcall L (Call.ratbag_device_get_profile_by_index device.1 (u32 index)) np.2
          let active := libcall L (Call.ratbag_profile_is_active profile.1.val) profile.2
          if active.1.val ≠ 0 then
            let name := libcall L (Call.ratbag_device_get_name device.1) active.2
            switch_profile_out L device.1 profile.1.val 0 1
              (printf ("'" ++ fmt_s name.1.str ++ "' is already in profile '" ++ fmt_d index
                ++ "'\n") name.2)
          else
            let active_profile := switch_profile_loop L device.1 num_profiles.toNat 0 active.2
            if active_profile.1 = 0 then
              switch_profile_out L device.1 profile.1.val active_profile.1 1
                (error ("Huh hoh, something bad happened, unable to retrieve the profile '"
                  ++ fmt_d index ++ "' \n") active_profile.2)
            else
              let rc := libcall L (Call.ratbag_profile_set_active profile.1.val) active_profile.2
              if rc.1.val = 0 then
                let name := libcall L (Call.ratbag_device_get_name device.1) rc.2
                switch_profile_out L device.1 profile.1.val active_profile.1 rc.1.val
                  (printf ("Switched '" ++ fmt_s name.1.str ++ "' to profile '" ++ fmt_d index
                    ++ "'\n") name.2)
              else
                switch_profile_out L device.1 profile.1.val active_profile.1 rc.1.val rc.2
  | _ => (1, usage L s)

/-! ## switch-etekcity -/

/-- The second condition of `ratbag_cmd_switch_etekcity`, reached when the
first is false: if both buttons have no action, both get their volume key,
with a modifier count of 0, and `commit` is 2; otherwise `commit` stays 0. -/
def switch_etekcity_enable (L : Lib W) (button_6 button_7 : Ptr) (s : St W) : Int × St W :=
  let type_6 := libcall L (Call.ratbag_button_get_action_type button_6) s
  if type_6.1.val = RATBAG_BUTTON_ACTION_TYPE_NONE then
    let type_7 := libcall L (Call.ratbag_button_get_action_type button_7) type_6.2
    if type_7.1.val = RATBAG_BUTTON_ACTION_TYPE_NONE then
      (2, (libcall L (Call.ratbag_button_set_key button_7 KEY_VOLUMEDOWN [])
            (libcall L (Call.ratbag_button_set_key button_6 KEY_VOLUMEUP []) type_7.2).2).2)
    else (0, type_7.2)
  else (0, type_6.2)

/-- The `if` / `else if` of `ratbag_cmd_switch_etekcity`; the result is the
value of `commit`.  `&&` evaluates its right operand only if the left one is
true; `modifiers_sz` is 10 at first and is what the first
`ratbag_button_get_key` left in it at the second. -/
def switch_etekcity_toggle (L : Lib W) (button_6 button_7 : Ptr) (s : St W) : Int × St W :=
  let key_6 := libcall L (Call.ratbag_button_get_key button_6 10) s
  if key_6.1.val = KEY_VOLUMEUP then
    let key_7 := libcall L (Call.ratbag_button_get_key button_7 key_6.1.aux) key_6.2
    if key_7.1.val = KEY_VOLUMEDOWN then
      (1, (libcall L (Call.ratbag_button_disable button_7)
            (libcall L (Call.ratbag_button_disable button_6) key_7.2).2).2)
    else switch_etekcity_enable L button_6 button_7 key_7.2
  else switch_etekcity_enable L button_6 button_7 key_6.2

/-- The code after the label `out` of `ratbag_cmd_switch_etekcity` and of
`ratbag_cmd_switch_dpi`. -/
def profile_device_out (L : Lib W) (device profile : Ptr) (rc : Int) (s : St W) : Int × St W :=
  (rc,
   (libcall L (Call.ratbag_device_unref device)
     (libcall L (Call.ratbag_profile_unref profile) s).2).2)

/-- The function `ratbag_cmd_switch_etekcity`. -/
def ratbag_cmd_switch_etekcity (L : Lib W) (ratbag : Ptr) (_flags : Nat) (argv : List String)
    (s : St W) : Int × St W :=
  match argv with
  | [path] =>
    let device := ratbag_cmd_open_device L ratbag path s
    if device.1 = 0 then
      (1, error ("Looks like '" ++ path ++ "' is not supported\n") device.2)
    else
      let cap := libcall L
        (Call.ratbag_device_has_capability device.1
          ratbag_capability.RATBAG_CAP_SWITCHABLE_PROFILE) device.2
      if cap.1.val = 0 then
        profile_device_out L device.1 0 1
          (error ("Looks like '" ++ path ++ "' has no switchable profiles\n") cap.2)
      else
        let profile := find_active_profile L device.1 cap.2
        if profile.1 = 0 then
          profile_device_out L device.1 profile.1 1
            (error "Huh hoh, something bad happened, unable to retrieve the active profile\n"
              profile.2)
        else
          let button_6 := libcall L (Call.ratbag_profile_get_button_by_index profile.1 6) profile.2
          let button_7 := libcall L (Call.ratbag_profile_get_button_by_index profile.1 7) button_6.2
          let commit := switch_etekcity_toggle L button_6.1.val button_7.1.val button_7.2
          let s1 := (libcall L (Call.ratbag_button_unref button_7.1.val)
            (libcall L (Call.ratbag_button_unref button_6.1.val) commit.2).2).2
          if commit.1 = 0 then profile_device_out L device.1 profile.1 1 s1
          else
            let rc := libcall L (Call.ratbag_profile_set_active profile.1) s1
            if rc.1.val = 0 then
              let name := libcall L (Call.ratbag_device_get_name device.1) rc.2
              profile_device_out L device.1 profile.1 rc.1.val
                (printf ("Switched the current profile of '" ++ fmt_s name.1.str ++ "' to "
                  ++ (if commit.1 = 1 then "not " else "") ++ "report the volume keys\n") name.2)
            else profile_device_out L device.1 profile.1 rc.1.val rc.2
  | _ => (1, usage L s)

/-! ## change-button -/

/-- The values of `action_type` that `ratbag_cmd_change_button` can reach its
`switch` with, each with the variable that holds its argument: `btnkey` for
`RATBAG_BUTTON_ACTION_TYPE_BUTTON` and `RATBAG_BUTTON_ACTION_TYPE_KEY`,
`special` for `RATBAG_BUTTON_ACTION_TYPE_SPECIAL`. -/
inductive button_action
  | button (btnkey : Int)
  | key (btnkey : Int)
  | special (special : ratbag_button_action_special)
  deriving DecidableEq, Repr

/-- The `if` / `else if` chain on `action_str` of `ratbag_cmd_change_button`;
`none` where the function returns 1.  `btnkey` is an `unsigned int`. -/
def change_button_action (L : Lib W) (action_str action_arg : String) (s : St W) :
    Option button_action × St W :=
  if action_str = "button" then
    (some (button_action.button (u32 (L.atoi action_arg))), s)
  else if action_str = "key" then
    if u32 (L.libevdev_event_code_from_name EV_KEY action_arg) = 0 then
      (none, error ("Failed to resolve key " ++ action_arg ++ "\n") s)
    else (some (button_action.key (u32 (L.libevdev_event_code_from_name EV_KEY action_arg))), s)
  else if action_str = "special" then
    if str_to_special_action action_arg
        = ratbag_button_action_special.RATBAG_BUTTON_ACTION_SPECIAL_INVALID then
      (none, error ("Invalid special command '" ++ action_arg ++ "'\n") s)
    else (some (button_action.special (str_to_special_action action_arg)), s)
  else (none, usage L s)

/-- The `switch (action_type)` of `ratbag_cmd_change_button`: the setter that
is called on the button.  `ratbag_button_set_key` gets `NULL` and a modifier
count of 0. -/
def change_button_setter (button : Ptr) : button_action → Call
  | button_action.button btnkey => Call.ratbag_button_set_button button btnkey
  | button_action.key btnkey => Call.ratbag_button_set_key button btnkey []
  | button_action.special special => Call.ratbag_button_set_special button special.val

/-- The code after the label `out` of `ratbag_cmd_change_button`. -/
def change_button_out (L : Lib W) (device profile button : Ptr) (rc : Int) (s : St W) :
    Int × St W :=
  (rc,
   (libcall L (Call.ratbag_device_unref device)
     (libcall L (Call.ratbag_profile_unref profile)
       (libcall L (Call.ratbag_button_unref button) s).2).2).2)

/-- The function `ratbag_cmd_change_button`.  `button_index` is an `int`,
converted to `unsigned int` where it is passed to
`ratbag_profile_get_button_by_index`. -/
def ratbag_cmd_change_button (L : Lib W) (ratbag : Ptr) (_flags : Nat) (argv : List String)
    (s : St W) : Int × St W :=
  match argv with
  | [arg, action_str, action_arg, path] =>
    let button_index := L.atoi arg
    let action := change_button_action L action_str action_arg s
    match action.1 with
    | none => (1, action.2)
    | some act =>
      let device := ratbag_cmd_open_device L ratbag path action.2
      if device.1 = 0 then
        (1, error ("Looks like '" ++ path ++ "' is not supported\n") device.2)
      else
        let cap := libcall L
          (Call.ratbag_device_has_capability device.1 ratbag_capability.RATBAG_CAP_BUTTON_KEY)
          device.2
        if cap.1.val = 0 then
          change_button_out L device.1 0 0 1
            (error ("Looks like '" ++ path ++ "' has no programmable buttons\n") cap.2)
        else
          let profile := find_active_profile L device.1 cap.2
          if profile.1 = 0 then
            change_button_out L device.1 profile.1 0 1
              (error "Huh hoh, something bad happened, unable to retrieve the active profile\n"
                profile.2)
          else
            let button := libcall L
              (Call.ratbag_profile_get_button_by_index profile.1 (u32 button_index)) profile.2
            if button.1.val = 0 then
              change_button_out L device.1 profile.1 button.1.val 1
                (error ("Invalid button number " ++ fmt_d button_index ++ "\n") button.2)
            else
              let rc := libcall L (change_button_setter button.1.val act) button.2
              if rc.1.val ≠ 0 then
                change_button_out L device.1 profile.1 button.1.val rc.1.val
                  (error ("Unable to perform button " ++ fmt_d button_index ++ " mapping "
                    ++ action_str ++ " " ++ action_arg ++ "\n") rc.2)
              else
                let rc2 := libcall L (Call.ratbag_profile_set_active profile.1) rc.2
                if rc2.1.val ≠ 0 then
                  change_button_out L device.1 profile.1 button.1.val rc2.1.val
                    (error ("Unable to apply the current profile: " ++ L.strerror (-rc2.1.val)
                      ++ " (" ++ fmt_d rc2.1.val ++ ")\n") rc2.2)
                else change_button_out L device.1 profile.1 button.1.val rc2.1.val rc2.2
  | _ => (1, usage L s)

/-! ## list -/

/-- The loop `while (++i < n)` of `ratbag_cmd_list_supported_devices` over the
entries of `input_list`; the result is the value of `supported`.

`sprintf(path, "/dev/input/%s", input_list[i]->d_name)` writes the text and
its terminating NUL into `char path[256]`.  A text of 256 bytes or more, that
is an entry name of 245 bytes or more, does not fit: the call writes past the
end of `path` and the behaviour of the program is undefined from there on.
The model has no result for that; it records the call as `Call.sprintf` and
ends the loop with it, so that a run that has left the defined behaviour
shows it in its trace. -/
def list_loop (L : Lib W) (ratbag : Ptr) : List String → Nat → St W → Nat × St W
  | [], supported, s => (supported, s)
  | d_name :: rest, supported, s =>
    if 256 ≤ ("/dev/input/" ++ d_name).utf8ByteSize then
      (supported, (libcall L (Call.sprintf 256 ("/dev/input/" ++ d_name)) s).2)
    else
      let device := ratbag_cmd_open_device L ratbag ("/dev/input/" ++ d_name) s
      if device.1 ≠ 0 then
        let name := libcall L (Call.ratbag_device_get_name device.1) device.2
        list_loop L ratbag rest (supported + 1)
          (libcall L (Call.ratbag_device_unref device.1)
            (printf ("/dev/input/" ++ d_name ++ ":\t" ++ fmt_s name.1.str ++ "\n") name.2)).2
      else list_loop L ratbag rest supported device.2

/-- The order of `alphasort` in the C locale. -/
def alphasort (a b : String) : Prop := a ≤ b

instance : DecidableRel alphasort := fun a b => inferInstanceAs (Decidable (a ≤ b))

/-- The function `ratbag_cmd_list_supported_devices`.  `scandir` answers with
a negative `val` if it fails and with the entry names of the directory
otherwise; it selects the entries with `filter_event_node`, orders them with
`alphasort`, and `n` is the number of entries it selected. -/
def ratbag_cmd_list_supported_devices (L : Lib W) (ratbag : Ptr) (_flags : Nat)
    (argv : List String) (s : St W) : Int × St W :=
  match argv with
  | [] =>
    let n := libcall L (Call.scandir "/dev/input") s
    if n.1.val < 0 then (0, n.2)
    else
      let supported :=
        list_loop L ratbag ((n.1.names.filter filter_event_node).insertionSort alphasort) 0 n.2
      if supported.1 = 0 then (0, printf "No supported devices found\n" supported.2)
      else (0, supported.2)
  | _ => (1, usage L s)

/-! ## switch-dpi -/

/-- The loop `for (i = 0; i < ratbag_profile_get_num_resolutions(profile); i++)`
of `ratbag_cmd_switch_dpi`; the result is the value of `rc` after the loop.
The count is an `int` read again before every iteration, so a `fuel` of
`2 ^ 31` is never used up (`switch_dpi_loop_fuel`).  `dpi` is converted to
`unsigned int` where it is passed to `ratbag_resolution_set_dpi`. -/
def switch_dpi_loop (L : Lib W) (device profile : Ptr) (dpi : Int) :
    Nat → Int → Int → St W → Int × St W
  | 0, _, rc, s => (rc, s)
  | fuel + 1, i, rc, s =>
    let n := libcall L (Call.ratbag_profile_get_num_resolutions profile) s
    if i < i32 n.1.val then
      let res := libcall L (Call.ratbag_profile_get_resolution profile i) n.2
      let active := libcall L (Call.ratbag_resolution_is_active res.1.val) res.2
      if active.1.val ≠ 0 then
        let rc1 := libcall L (Call.ratbag_resolution_set_dpi res.1.val (u32 dpi)) active.2
        if rc1.1.val = 0 then
          let name := libcall L (Call.ratbag_device_get_name device) rc1.2
          switch_dpi_loop L device profile dpi fuel (i + 1) rc1.1.val
            (libcall L (Call.ratbag_resolution_unref res.1.val)
              (printf ("Switched the current resolution profile of '" ++ fmt_s name.1.str
                ++ "' to " ++ fmt_d dpi ++ " dpi\n") name.2)).2
        else
          switch_dpi_loop L device profile dpi fuel (i + 1) rc1.1.val
            (libcall L (Call.ratbag_resolution_unref res.1.val)
              (error ("can't seem to be able to change the dpi: " ++ L.strerror (-rc1.1.val)
                ++ " (" ++ fmt_d rc1.1.val ++ ")\n") rc1.2)).2
      else
        switch_dpi_loop L device profile dpi fuel (i + 1) rc
          (libcall L (Call.ratbag_resolution_unref res.1.val) active.2).2
    else (rc, n.2)

/-- The function `ratbag_cmd_switch_dpi`. -/
def ratbag_cmd_switch_dpi (L : Lib W) (ratbag : Ptr) (_flags : Nat) (argv : List String)
    (s : St W) : Int × St W :=
  match argv with
  | [arg, path] =>
    let dpi := L.atoi arg
    let device := ratbag_cmd_open_device L ratbag path s
    if device.1 = 0 then
      (1, error ("Looks like '" ++ path ++ "' is not supported\n") device.2)
    else
      let cap := libcall L
        (Call.ratbag_device_has_capability device.1
          ratbag_capability.RATBAG_CAP_SWITCHABLE_RESOLUTION) device.2
      if cap.1.val = 0 then
        profile_device_out L device.1 0 1
          (error ("Looks like '" ++ path ++ "' has no switchable resolution\n") cap.2)
      else
        let profile := find_active_profile L device.1 cap.2
        if profile.1 = 0 then
          profile_device_out L device.1 profile.1 1
            (error "Huh hoh, something bad happened, unable to retrieve the active profile\n"
              profile.2)
        else
          let rc := switch_dpi_loop L device.1 profile.1 dpi 2147483648 0 1 profile.2
          profile_device_out L device.1 profile.1 rc.1 rc.2
  | _ => (1, usage L s)

/-! ## main -/

/-- The type of the member `cmd` of `struct ratbag_cmd`. -/
abbrev Handler (W : Type) := Lib W → Ptr → Nat → List String → St W → Int × St W

/-- The array `ratbag_commands` before its `NULL` terminator: each command
with its handler. -/
def ratbag_commands : List (ratbag_cmd × Handler W) :=
  [(cmd_info, ratbag_cmd_info),
   (cmd_list, ratbag_cmd_list_supported_devices),
   (cmd_change_button, ratbag_cmd_change_button),
   (cmd_switch_etekcity, ratbag_cmd_switch_etekcity),
   (cmd_switch_dpi, ratbag_cmd_switch_dpi),
   (cmd_switch_profile, ratbag_cmd_switch_profile)]

/-- How the option loop of `main` ends. -/
inductive OptionsEnd
  | done (flags : Nat)
  | help
  | invalid
  deriving DecidableEq, Repr

/-- The loop `while (1)` of `main` over the values `c` that `getopt_long`
returns, with `optarg` for each. -/
def main_options (L : Lib W) : List (Int × Option String) → Nat → St W → OptionsEnd × St W
  | [], flags, s => (OptionsEnd.done flags, s)
  | (c, optarg) :: rest, flags, s =>
    if c = 104 ∨ c = OPT_HELP then (OptionsEnd.help, usage L s)
    else if c = OPT_VERBOSE then
      if optarg = some "raw" then main_options L rest (flags ||| FLAG_VERBOSE_RAW) s
      else main_options L rest (flags ||| FLAG_VERBOSE) s
    else (OptionsEnd.invalid, usage L s)

/-- The code after the label `out` of `main`. -/
def main_out (L : Lib W) (ratbag : Ptr) (rc : Int) (s : St W) : Int × St W :=
  (rc, (libcall L (Call.ratbag_unref ratbag) s).2)

/-- The function `main`; `argv` holds the program name and the arguments.
`104` is the character `h`. -/
def main (L : Lib W) (argv : List String) (s : St W) : Int × St W :=
  let ratbag := libcall L Call.ratbag_create_context s
  if ratbag.1.val = 0 then
    main_out L ratbag.1.val 0 (error "Can't initialize ratbag\n" ratbag.2)
  else
    let opts := main_options L (L.getopt_long argv).steps 0 ratbag.2
    match opts.1 with
    | OptionsEnd.help => main_out L ratbag.1.val 0 opts.2
    | OptionsEnd.invalid => (1, opts.2)
    | OptionsEnd.done flags =>
      let optind := (L.getopt_long argv).optind
      if optind ≥ argv.length then
        (1, (libcall L (Call.ratbag_unref ratbag.1.val) (usage L opts.2)).2)
      else
        let s1 :=
          if flags &&& FLAG_VERBOSE_RAW ≠ 0 then
            (libcall L (Call.ratbag_log_set_priority ratbag.1.val RATBAG_LOG_PRIORITY_RAW)
              opts.2).2
          else if flags &&& FLAG_VERBOSE ≠ 0 then
            (libcall L (Call.ratbag_log_set_priority ratbag.1.val RATBAG_LOG_PRIORITY_DEBUG)
              opts.2).2
          else opts.2
        let command := argv.getD optind ""
        match ratbag_commands.find? (fun cmd => cmd.1.name = command) with
        | some cmd =>
          let rc := cmd.2 L ratbag.1.val flags (argv.drop (optind + 1)) s1
          main_out L ratbag.1.val rc.1 rc.2
        | none =>
          main_out L ratbag.1.val 1
            (usage L (error ("Invalid command '" ++ command ++ "'\n") s1))

/-! ## Observations on traces -/

/-- A text written on standard error. -/
def Event.is_stderr : Event → Bool
  | Event.out Stream.stderr _ => true
  | _ => false

/-- A text written on standard output. -/
def Event.is_stdout : Event → Bool
  | Event.out Stream.stdout _ => true
  | _ => false

/-- The calls that write a setting to a profile, a resolution or a button. -/
def Call.is_setter : Call → Bool
  | Call.ratbag_profile_set_active _ => true
  | Call.ratbag_resolution_set_dpi _ _ => true
  | Call.ratbag_button_set_button _ _ => true
  | Call.ratbag_button_set_key _ _ _ => true
  | Call.ratbag_button_set_special _ _ => true
  | Call.ratbag_button_disable _ => true
  | _ => false

/-- The operations on a device, a profile, a resolution or a button: every
libratbag call that takes such a handle. -/
def Call.on_handle : Call → Bool
  | Call.ratbag_create_context => false
  | Call.ratbag_unref _ => false
  | Call.ratbag_log_set_priority _ _ => false
  | Call.udev_new => false
  | Call.udev_unref _ => false
  | Call.stat _ => false
  | Call.udev_device_new_from_devnum _ _ _ => false
  | Call.udev_device_new_from_syspath _ _ => false
  | Call.udev_device_unref _ => false
  | Call.scandir _ => false
  | Call.sprintf _ _ => false
  | Call.ratbag_device_new_from_udev_device _ _ => false
  | _ => true

/-- The calls in a trace, each with its answer, in program order. -/
def calls : List Event → List (Call × Ans)
  | [] => []
  | Event.call c a :: rest => (c, a) :: calls rest
  | Event.out _ _ :: rest => calls rest

/-- The texts written on a stream, in program order. -/
def written (stream : Stream) : List Event → List String
  | [] => []
  | Event.out st text :: rest =>
    if st = stream then text :: written stream rest else written stream rest
  | Event.call _ _ :: rest => written stream rest

/-- The start of a run: the world as it is, an empty trace. -/
def St.init (w : W) : St W := { world := w, trace := [] }

/-! ## A mouse, for instances -/

/-- The world of a small mouse: the index of its active profile. -/
structure Mouse where
  active : Int
  deriving DecidableEq, Repr

/-- The behaviour of a mouse with `num_profiles` profiles (handles `100 + i`),
`num_resolutions` resolution modes for each profile (handles
`1000 + 10 * i + j`) of which mode 0 of the active profile is active, and
`num_buttons` buttons (handles `2000 + b`), each mapped to button `b + 1`.
Every path opens the mouse (handle 10); it has every capability. -/
def Mouse.answer (num_profiles num_resolutions num_buttons : Int) : Call → Mouse → Ans × Mouse
  | Call.ratbag_create_context, m => ({ val := 1 }, m)
  | Call.udev_new, m => ({ val := 2 }, m)
  | Call.stat _, m => ({ val := 0, aux := 3397 }, m)
  | Call.udev_device_new_from_devnum _ _ _, m => ({ val := 3 }, m)
  | Call.udev_device_new_from_syspath _ _, m => ({ val := 3 }, m)
  | Call.scandir _, m => ({ val := 3, names := ["mouse0", "event1", "event0", "mice"] }, m)
  | Call.ratbag_device_new_from_udev_device _ _, m => ({ val := 10 }, m)
  | Call.ratbag_device_get_name _, m => ({ str := some "Mouse" }, m)
  | Call.ratbag_device_has_capability _ _, m => ({ val := 1 }, m)
  | Call.ratbag_device_get_num_buttons _, m => ({ val := num_buttons }, m)
  | Call.ratbag_device_get_num_profiles _, m => ({ val := num_profiles }, m)
  | Call.ratbag_device_get_profile_by_index _ i, m =>
    (if 0 ≤ i ∧ i < num_profiles then { val := 100 + i } else { val := 0 }, m)
  | Call.ratbag_profile_is_active p, m => (if p = 100 + m.active then { val := 1 } else {}, m)
  | Call.ratbag_profile_set_active p, m =>
    if 100 ≤ p ∧ p < 100 + num_profiles then ({ val := 0 }, { active := p - 100 })
    else ({ val := -22 }, m)
  | Call.ratbag_profile_get_num_resolutions _, m => ({ val := num_resolutions }, m)
  | Call.ratbag_profile_get_resolution p j, m =>
    (if 0 ≤ j ∧ j < num_resolutions then { val := 1000 + 10 * (p - 100) + j } else {}, m)
  | Call.ratbag_profile_get_button_by_index _ b, m =>
    (if 0 ≤ b ∧ b < num_buttons then { val := 2000 + b } else {}, m)
  | Call.ratbag_resolution_get_dpi _, m => ({ val := 800 }, m)
  | Call.ratbag_resolution_get_report_rate _, m => ({ val := 500 }, m)
  | Call.ratbag_resolution_is_active r, m =>
    (if r = 1000 + 10 * m.active then { val := 1 } else {}, m)
  | Call.ratbag_resolution_is_default r, m =>
    (if r = 1000 + 10 * m.active then { val := 1 } else {}, m)
  | Call.ratbag_button_get_type b, m => ({ val := b - 2000 + 1 }, m)
  | Call.ratbag_button_get_action_type _, m => ({ val := RATBAG_BUTTON_ACTION_TYPE_BUTTON }, m)
  | Call.ratbag_button_get_button b, m => ({ val := b - 2000 + 1 }, m)
  | Call.ratbag_button_get_key _ sz, m => ({ val := 0, aux := sz }, m)
  | Call.ratbag_button_get_special _, m => ({ val := -1 }, m)
  | _, m => ({}, m)

/-- The decimal digits at the start of a list of characters, as a number. -/
def Mouse.digits : List Char → Nat → Nat
  | [], acc => acc
  | c :: rest, acc => if c.isDigit then Mouse.digits rest (10 * acc + (c.toNat - 48)) else acc

/-- An `atoi` for instances: an optional minus sign and decimal digits. -/
def Mouse.atoi (str : String) : Int :=
  match str.data with
  | '-' :: rest => -(Mouse.digits rest 0 : Int)
  | cs => (Mouse.digits cs 0 : Int)

/-- The library of the small mouse; of libevdev it knows the two volume keys. -/
def Mouse.lib (num_profiles num_resolutions num_buttons : Int) : Lib Mouse :=
  { answer := Mouse.answer num_profiles num_resolutions num_buttons
    atoi := Mouse.atoi
    strerror := fun e => "errno " ++ toString e
    errno := fun _ => 0
    libevdev_event_code_from_name := fun _ name =>
      if name = "KEY_VOLUMEUP" then 115 else if name = "KEY_VOLUMEDOWN" then 114 else -1
    libevdev_event_code_get_name := fun _ code =>
      if code = 115 then some "KEY_VOLUMEUP" else if code = 114 then some "KEY_VOLUMEDOWN"
      else none
    getopt_long := fun _ => { steps := [], optind := 1 }
    program_invocation_short_name := "ratbag-command" }

/-- A library in which every call fails: every answer is zero or `NULL`. -/
def no_library : Lib Unit :=
  { answer := fun _ w => ({}, w)
    atoi := Mouse.atoi
    strerror := fun e => "errno " ++ toString e
    errno := fun _ => 0
    libevdev_event_code_from_name := fun _ _ => -1
    libevdev_event_code_get_name := fun _ _ => none
    getopt_long := fun _ => { steps := [], optind := 1 }
    program_invocation_short_name := "ratbag-command" }

/-! ## Runs as sequences of steps -/

/-- `Steps L K s t`: the state `t` is reached from `s` by library calls and
writes, in program order, each of which satisfies `K`. -/
inductive Steps (L : Lib W) (K : Event → Prop) : St W → St W → Prop
  | refl (s : St W) : Steps L K s s
  | call {s t : St W} (c : Call) :
      Steps L K s t → K (Event.call c (L.answer c t.world).1) → Steps L K s (libcall L c t).2
  | out {s t : St W} (stream : Stream) (text : String) :
      Steps L K s t → K (Event.out stream text) →
      Steps L K s { world := t.world, trace := t.trace ++ [Event.out stream text] }

/-- The events of `ratbag_cmd_open_device`: calls into libudev, `stat`, the
creation of the device, and diagnostics. -/
def Event.is_open : Event → Bool
  | Event.call Call.udev_new _ => true
  | Event.call (Call.udev_unref _) _ => true
  | Event.call (Call.stat _) _ => true
  | Event.call (Call.udev_device_new_from_devnum _ _ _) _ => true
  | Event.call (Call.udev_device_new_from_syspath _ _) _ => true
  | Event.call (Call.udev_device_unref _) _ => true
  | Event.call (Call.ratbag_device_new_from_udev_device _ _) _ => true
  | Event.out Stream.stderr _ => true
  | _ => false

/-- The events of the search for the active profile of `device`. -/
def Event.is_search (device : Ptr) : Event → Bool
  | Event.call (Call.ratbag_device_get_num_profiles d) _ => d = device
  | Event.call (Call.ratbag_device_get_profile_by_index d _) _ => d = device
  | Event.call (Call.ratbag_profile_is_active _) _ => true
  | Event.call (Call.ratbag_profile_unref _) _ => true
  | _ => false

/-- The operations on device, profile, resolution and button handles in a
trace. -/
def handle_ops (tr : List Event) : List (Call × Ans) :=
  (calls tr).filter (fun ca => ca.1.on_handle)

/-- The calls in a trace that write a setting. -/
def setter_calls (tr : List Event) : List (Call × Ans) :=
  (calls tr).filter (fun ca => ca.1.is_setter)

/-- The calls that read a device, a profile, a resolution or a button, or
release a profile, resolution or button handle: they write no setting and
leave the device in place. -/
def Call.is_query : Call → Bool
  | Call.ratbag_device_get_name _ => true
  | Call.ratbag_device_has_capability _ _ => true
  | Call.ratbag_device_get_num_buttons _ => true
  | Call.ratbag_device_get_num_profiles _ => true
  | Call.ratbag_device_get_profile_by_index _ _ => true
  | Call.ratbag_profile_is_active _ => true
  | Call.ratbag_profile_get_num_resolutions _ => true
  | Call.ratbag_profile_get_resolution _ _ => true
  | Call.ratbag_profile_get_button_by_index _ _ => true
  | Call.ratbag_profile_unref _ => true
  | Call.ratbag_resolution_get_dpi _ => true
  | Call.ratbag_resolution_get_report_rate _ => true
  | Call.ratbag_resolution_is_active _ => true
  | Call.ratbag_resolution_is_default _ => true
  | Call.ratbag_resolution_unref _ => true
  | Call.ratbag_button_get_type _ => true
  | Call.ratbag_button_get_action_type _ => true
  | Call.ratbag_button_get_button _ => true
  | Call.ratbag_button_get_key _ _ => true
  | Call.ratbag_button_get_special _ => true
  | Call.ratbag_button_unref _ => true
  | _ => false

/-- `ShowsProfiles L Inv device n P active`: in every world that satisfies
`Inv`, the library reports `n` profiles for `device`, hands out the non-`NULL`
handle `P i` for each index `i` below `n`, and reports `P i` active exactly
if `active i`; the calls of `Call.is_query` keep `Inv`. -/
def ShowsProfiles (L : Lib W) (Inv : W → Prop) (device : Ptr) (n : Int) (P : Int → Ptr)
    (active : Int → Prop) : Prop :=
  (∀ c w, c.is_query = true → Inv w → Inv (L.answer c w).2)
  ∧ (∀ w, Inv w → u32 (L.answer (Call.ratbag_device_get_num_profiles device) w).1.val = n)
  ∧ (∀ w i, Inv w → 0 ≤ i → i < n →
      (L.answer (Call.ratbag_device_get_profile_by_index device i) w).1.val = P i ∧ P i ≠ 0)
  ∧ (∀ w i, Inv w → 0 ≤ i → i < n →
      ((L.answer (Call.ratbag_profile_is_active (P i)) w).1.val ≠ 0 ↔ active i))

/-- An event that is not a call that writes a setting. -/
def Event.no_setter : Event → Bool
  | Event.call c _ => !c.is_setter
  | Event.out _ _ => true

/-- `ShowsResolutions L Inv profile m R active`: in every world that satisfies
`Inv`, the library reports `m` resolutions for `profile`, hands out the handle
`R j` for each index `j` below `m`, and reports `R j` active exactly if
`active j`; `ratbag_resolution_set_dpi` keeps `Inv`. -/
def ShowsResolutions (L : Lib W) (Inv : W → Prop) (profile : Ptr) (m : Int) (R : Int → Ptr)
    (active : Int → Prop) : Prop :=
  (∀ w, Inv w → i32 (L.answer (Call.ratbag_profile_get_num_resolutions profile) w).1.val = m)
  ∧ (∀ w j, Inv w → 0 ≤ j → j < m →
      (L.answer (Call.ratbag_profile_get_resolution profile j) w).1.val = R j)
  ∧ (∀ w j, Inv w → 0 ≤ j → j < m →
      ((L.answer (Call.ratbag_resolution_is_active (R j)) w).1.val ≠ 0 ↔ active j))
  ∧ (∀ w r dpi, Inv w → Inv (L.answer (Call.ratbag_resolution_set_dpi r dpi) w).2)

/-- What the resolution loop of switch-dpi does from index `i` on, with `rc`
on entry: `scs` are the setter calls it makes and `result` is `rc` on exit.
Every call is `ratbag_resolution_set_dpi`, with `dpi` as an `unsigned int`, on
a resolution that reports active, and every such resolution gets one; if
none reports active there is no call and `rc` is unchanged; if at most one
reports active there is at most one call, and its result is `rc` on exit. -/
def SwitchDpiCalls (m : Int) (R : Int → Ptr) (active : Int → Prop) (dpi i rc : Int)
    (scs : List (Call × Ans)) (result : Int) : Prop :=
  (∀ ca ∈ scs, ∃ j, i ≤ j ∧ j < m ∧ active j
      ∧ ca.1 = Call.ratbag_resolution_set_dpi (R j) (u32 dpi))
  ∧ (∀ j, i ≤ j → j < m → active j →
      ∃ ans, (Call.ratbag_resolution_set_dpi (R j) (u32 dpi), ans) ∈ scs)
  ∧ ((∀ j, i ≤ j → j < m → ¬ active j) → scs = [] ∧ result = rc)
  ∧ ((∀ j k, i ≤ j → j < m → i ≤ k → k < m → active j → active k → j = k) →
      scs.length ≤ 1 ∧ (∀ ca, scs = [ca] → result = ca.2.val) ∧ (scs = [] → result = rc))

/-- The call `ratbag_profile_set_active`. -/
def Call.is_set_active : Call → Bool
  | Call.ratbag_profile_set_active _ => true
  | _ => false

/-- The call `ratbag_profile_get_button_by_index`. -/
def Call.is_button_lookup : Call → Bool
  | Call.ratbag_profile_get_button_by_index _ _ => true
  | _ => false

/-- The call `ratbag_profile_get_num_resolutions`. -/
def Call.is_num_resolutions : Call → Bool
  | Call.ratbag_profile_get_num_resolutions _ => true
  | _ => false

/-- The trace holds a call of the kind `q`. -/
def called (q : Call → Bool) (tr : List Event) : Prop := ∃ ca ∈ calls tr, q ca.1 = true

/-- The library `L` with the answers of `f` for the calls for which `f` has
one; such a call leaves the world as it is. -/
def Lib.answering (L : Lib W) (f : Call → Option Ans) : Lib W :=
  { L with
    answer := fun c w =>
      match f c with
      | some a => (a, w)
      | none => L.answer c w }

/-- A report rate of 0 Hz for the resolution mode with the handle 1001, mode 1
of profile 0 of the small mouse. -/
def Mouse.rate_zero : Call → Option Ans
  | Call.ratbag_resolution_get_report_rate r => if r = 1001 then some { val := 0 } else none
  | _ => none

/-- The calls a command makes: every call but the three on the context,
`ratbag_create_context`, `ratbag_log_set_priority` and `ratbag_unref`, which
are made by `main`. -/
def Call.in_command : Call → Bool
  | Call.ratbag_create_context => false
  | Call.ratbag_unref _ => false
  | Call.ratbag_log_set_priority _ _ => false
  | _ => true

/-- The events of a command: its writes and the calls of `Call.in_command`. -/
def Event.in_command : Event → Bool
  | Event.call c _ => c.in_command
  | Event.out _ _ => true

/-- The calls of the loops of `ratbag_cmd_info` over the profiles, their
resolution modes and their buttons. -/
def Call.is_walk : Call → Bool
  | Call.ratbag_device_get_profile_by_index _ _ => true
  | Call.ratbag_profile_is_active _ => true
  | Call.ratbag_profile_get_num_resolutions _ => true
  | Call.ratbag_profile_get_resolution _ _ => true
  | Call.ratbag_profile_get_button_by_index _ _ => true
  | Call.ratbag_profile_unref _ => true
  | Call.ratbag_resolution_get_dpi _ => true
  | Call.ratbag_resolution_get_report_rate _ => true
  | Call.ratbag_resolution_is_active _ => true
  | Call.ratbag_resolution_is_default _ => true
  | Call.ratbag_resolution_unref _ => true
  | Call.ratbag_button_get_type _ => true
  | Call.ratbag_button_get_action_type _ => true
  | Call.ratbag_button_get_button _ => true
  | Call.ratbag_button_get_key _ _ => true
  | Call.ratbag_button_get_special _ => true
  | Call.ratbag_button_unref _ => true
  | _ => false

/-- The events of the loops of `ratbag_cmd_info`: writes and the calls of
`Call.is_walk`. -/
def Event.is_walk : Event → Bool
  | Event.call c _ => c.is_walk
  | Event.out _ _ => true

/-- The library `L` with `run` for `getopt_long`. -/
def Lib.with_getopt (L : Lib W) (run : List String → GetoptRun) : Lib W :=
  { L with getopt_long := run }

/-- The call `ratbag_log_set_priority`. -/
def Call.is_log_priority : Call → Bool
  | Call.ratbag_log_set_priority _ _ => true
  | _ => false

/-- The calls of `ratbag_log_set_priority` in a trace, in program order. -/
def log_priority_calls (tr : List Event) : List Call :=
  ((calls tr).filter (fun ca => ca.1.is_log_priority)).map (fun ca => ca.1)

/-- The call `ratbag_device_has_capability`. -/
def Call.is_has_capability : Call → Bool
  | Call.ratbag_device_has_capability _ _ => true
  | _ => false

/-- The calls of `ratbag_device_has_capability` in a trace, each with its
answer, in program order. -/
def capability_calls (tr : List Event) : List (Call × Ans) :=
  (calls tr).filter (fun ca => ca.1.is_has_capability)

/-- The answer 0 to every `ratbag_device_has_capability`: a device with no
capability. -/
def Mouse.no_capability : Call → Option Ans
  | Call.ratbag_device_has_capability _ _ => some { val := 0 }
  | _ => none

/-- The by-index accessors: `ratbag_device_get_profile_by_index`,
`ratbag_profile_get_resolution` and `ratbag_profile_get_button_by_index`. -/
def Call.is_by_index : Call → Bool
  | Call.ratbag_device_get_profile_by_index _ _ => true
  | Call.ratbag_profile_get_resolution _ _ => true
  | Call.ratbag_profile_get_button_by_index _ _ => true
  | _ => false

/-- The calls of the by-index accessors in a trace, in program order. -/
def index_calls (tr : List Event) : List Call :=
  ((calls tr).filter (fun ca => ca.1.is_by_index)).map (fun ca => ca.1)

/-- The calls of `Call.is_query` that take no index. -/
def Call.is_read (c : Call) : Bool := c.is_query && !c.is_by_index

/-- The events that are writes or calls of `Call.is_read`. -/
def Event.is_read : Event → Bool
  | Event.call c _ => c.is_read
  | Event.out _ _ => true

/-- The by-index calls for the profile with index `i`, as the claim on the
indices of info has them: the profile `i` of the device, then each
resolution index below the count `m i` of the profile, in increasing order,
then each button index below `num_buttons`, in increasing order. -/
def claimed_index_calls (device : Ptr) (P : Int → Ptr) (m : Int → Int) (num_buttons : Int)
    (i : Int) : List Call :=
  Call.ratbag_device_get_profile_by_index device i
    :: ((List.range (m i).toNat).map (fun j : Nat => Call.ratbag_profile_get_resolution (P i) j)
      ++ (List.range num_buttons.toNat).map
          (fun b : Nat => Call.ratbag_profile_get_button_by_index (P i) b))

/-! ## The library, as the specification describes it -/

/-- Modelled from the spec: the error kinds of the library (section 7).  Of
libratbag, only the header `libratbag.h` is at hand, not the library; the
definitions of this section follow the specification for what the library
does. -/
inductive Spec.Error
  | InvalidArgument
  | OutOfRange
  | Unsupported
  | InvalidState
  | BackendError
  deriving DecidableEq, Repr

/-- Modelled from the spec: the Action of a Button (section 3), a tagged
variant; the library that holds it is missing.  The payload of `button` is the
logical button number, of `key` the keycode and the ordered modifier codes,
of `special` a member of the fixed enumeration; the payload of `macros` is
left open by the specification. -/
inductive Spec.Action
  | none
  | button (number : Nat)
  | key (keycode : Nat) (modifiers : List Nat)
  | special (special : ratbag_button_action_special)
  | macros
  deriving DecidableEq, Repr

/-- Modelled from the spec: a Button (section 3) of the missing library, with
its fixed physical type and its one Action. -/
structure Spec.Button where
  button_type : Int
  action : Spec.Action
  deriving DecidableEq, Repr

/-- Modelled from the spec: a Resolution (section 3) of the missing library. -/
structure Spec.Resolution where
  dpi : Nat
  report_rate : Nat
  is_active : Bool
  is_default : Bool
  deriving DecidableEq, Repr

/-- Modelled from the spec: a Profile (section 3) of the missing library: the
boolean that says whether it is the active profile of the device, its
resolutions and its buttons.  Its index is its place in the device. -/
structure Spec.Profile where
  is_active : Bool
  resolutions : List Spec.Resolution
  buttons : List Spec.Button
  deriving DecidableEq, Repr

/-- Modelled from the spec: a Device (section 3) of the missing library: name,
capability set, profiles in index order, button count. -/
structure Spec.Device where
  name : String
  capabilities : List ratbag_capability
  profiles : List Spec.Profile
  num_buttons : Nat
  deriving DecidableEq, Repr

/-- Modelled from the spec: the populated device state a backend hands over
when it binds (sections 4.1 and 6), the backends being missing: the resolutions
and buttons of each profile and the index of the profile that is active on
the hardware. -/
structure Spec.Populated where
  name : String
  capabilities : List ratbag_capability
  num_buttons : Nat
  profiles : List (List Spec.Resolution × List Spec.Button)
  active_profile : Nat

/-- Modelled from the spec: a driver of the BackendRegistry (section 6), which
is missing: `recognizes` for a device token and `bind`, which may fail. -/
structure Spec.Backend where
  recognizes : Nat → Bool
  bind : Nat → Option Spec.Populated

/-- Modelled from the spec: `create_device` of the Context (section 4.1), the
library being missing.  The registry is consulted in order and the first
backend that recognizes the token binds; if none does, the operation fails
with `Unsupported`.  The invariants of section 3 hold for every Device, so a
populated state whose active profile is none of its profiles, or that has
more or fewer than one profile without the switchable-profile capability,
produces no Device.  The profile at the reported index is the active one. -/
def Spec.create_device (registry : List Spec.Backend) (token : Nat) :
    Except Spec.Error Spec.Device :=
  match registry.find? (fun backend => backend.recognizes token) with
  | none => Except.error Spec.Error.Unsupported
  | some backend =>
    match backend.bind token with
    | none => Except.error Spec.Error.BackendError
    | some hw =>
      if hw.active_profile < hw.profiles.length
          ∧ (ratbag_capability.RATBAG_CAP_SWITCHABLE_PROFILE ∈ hw.capabilities
            ∨ hw.profiles.length = 1) then
        Except.ok
          { name := hw.name
            capabilities := hw.capabilities
            num_buttons := hw.num_buttons
            profiles := hw.profiles.mapIdx fun i p =>
              { is_active := decide (i = hw.active_profile)
                resolutions := p.1
                buttons := p.2 } }
      else Except.error Spec.Error.BackendError

/-- Modelled from the spec: `is_active` of the Profile with the given index
(section 4.3), the library being missing; there is no Profile for an index
that is not below the count. -/
def Spec.Device.is_active (d : Spec.Device) (index : Nat) : Bool :=
  match d.profiles[index]? with
  | some p => p.is_active
  | none => false

/-- Modelled from the spec: the indices of the profiles of the device that
report `is_active`, for the property "single active profile" of section 8;
the library is missing. -/
def Spec.Device.active_profiles (d : Spec.Device) : List Nat :=
  (List.range d.profiles.length).filter fun index => d.is_active index

/-- Modelled from the spec: `set_active` of the Profile with the given index
(sections 4.2 and 4.3), the library being missing.  `backend_ok` is the
outcome of the backend I/O of the commit; on success the flags are updated:
this profile is active and the previously active one is not. -/
def Spec.Device.set_active (backend_ok : Bool) (d : Spec.Device) (index : Nat) :
    Except Spec.Error Spec.Device :=
  if index < d.profiles.length then
    if backend_ok then
      Except.ok
        { d with
          profiles := d.profiles.mapIdx fun i p => { p with is_active := decide (i = index) } }
    else Except.error Spec.Error.BackendError
  else Except.error Spec.Error.OutOfRange

/-- Modelled from the spec: `button(index)` of the Profile with the index
`profile` (section 4.3), the library being missing: the button as it is now,
which is what a freshly fetched handle shows. -/
def Spec.Device.button (d : Spec.Device) (profile index : Nat) :
    Except Spec.Error Spec.Button :=
  match d.profiles[profile]? with
  | none => Except.error Spec.Error.OutOfRange
  | some p =>
    match p.buttons[index]? with
    | none => Except.error Spec.Error.OutOfRange
    | some button => Except.ok button

/-- Modelled from the spec: what the setters of a Button have in common
(section 4.5 and the write-through rule of section 4.3), the library being
missing.  If the profile is the active one the setter does backend I/O, with
the outcome `backend_ok`; if not, it only updates the state in memory. -/
def Spec.Device.set_action (backend_ok : Bool) (d : Spec.Device) (profile index : Nat)
    (action : Spec.Action) : Except Spec.Error Spec.Device :=
  match d.profiles[profile]? with
  | none => Except.error Spec.Error.OutOfRange
  | some p =>
    if index < p.buttons.length then
      if p.is_active && !backend_ok then Except.error Spec.Error.BackendError
      else
        Except.ok
          { d with
            profiles := d.profiles.modify
              (fun p => { p with
                buttons := p.buttons.modify (fun b => { b with action := action }) index })
              profile }
    else Except.error Spec.Error.OutOfRange

/-- Modelled from the spec: `set_button` (section 4.5), the library being
missing: the Action becomes ButtonNumber with the given payload. -/
def Spec.Device.set_button (backend_ok : Bool) (d : Spec.Device) (profile index : Nat)
    (btn : Nat) : Except Spec.Error Spec.Device :=
  d.set_action backend_ok profile index (Spec.Action.button btn)

/-- Modelled from the spec: `set_key` (section 4.5), the library being
missing: the Action becomes Key with the keycode and the modifiers. -/
def Spec.Device.set_key (backend_ok : Bool) (d : Spec.Device) (profile index : Nat)
    (key : Nat) (modifiers : List Nat) : Except Spec.Error Spec.Device :=
  d.set_action backend_ok profile index (Spec.Action.key key modifiers)

/-- Modelled from the spec: `set_special` (section 4.5), the library being
missing: the Action becomes Special. -/
def Spec.Device.set_special (backend_ok : Bool) (d : Spec.Device) (profile index : Nat)
    (special : ratbag_button_action_special) : Except Spec.Error Spec.Device :=
  d.set_action backend_ok profile index (Spec.Action.special special)

/-- Modelled from the spec: `disable` (section 4.5), the library being
missing: the Action becomes None. -/
def Spec.Device.disable (backend_ok : Bool) (d : Spec.Device) (profile index : Nat) :
    Except Spec.Error Spec.Device :=
  d.set_action backend_ok profile index Spec.Action.none

/-- Modelled from the spec: `get_action_type` (section 4.5), the library being
missing. -/
def Spec.Button.get_action_type (button : Spec.Button) : ratbag_button_action_type :=
  match button.action with
  | Spec.Action.none => ratbag_button_action_type.RATBAG_BUTTON_ACTION_TYPE_NONE
  | Spec.Action.button _ => ratbag_button_action_type.RATBAG_BUTTON_ACTION_TYPE_BUTTON
  | Spec.Action.key _ _ => ratbag_button_action_type.RATBAG_BUTTON_ACTION_TYPE_KEY
  | Spec.Action.special _ => ratbag_button_action_type.RATBAG_BUTTON_ACTION_TYPE_SPECIAL
  | Spec.Action.macros => ratbag_button_action_type.RATBAG_BUTTON_ACTION_TYPE_MACRO

/-- Modelled from the spec: `get_button` (section 4.5), the library being
missing: 0 when the Action is not ButtonNumber. -/
def Spec.Button.get_button (button : Spec.Button) : Nat :=
  match button.action with
  | Spec.Action.button number => number
  | _ => 0

/-- Modelled from the spec: `get_special` (section 4.5), the library being
missing: the Invalid sentinel when the Action is not Special. -/
def Spec.Button.get_special (button : Spec.Button) : ratbag_button_action_special :=
  match button.action with
  | Spec.Action.special special => special
  | _ => ratbag_button_action_special.RATBAG_BUTTON_ACTION_SPECIAL_INVALID

/-- Modelled from the spec: `get_key` (section 4.5), the library being
missing.  `modifiers` is the buffer of the caller and `sz` its capacity; the
result is the keycode, the buffer and the value left in `sz`.  When the
Action is not Key the result is 0 and buffer and `sz` are as they were.  When
it is Key, the modifiers are written to the start of the buffer, as many as
the capacity allows, and `sz` is the number written. -/
def Spec.Button.get_key (button : Spec.Button) (modifiers : List Nat) (sz : Nat) :
    Nat × List Nat × Nat :=
  match button.action with
  | Spec.Action.key keycode mods =>
    (keycode, mods.take sz ++ modifiers.drop (mods.take sz).length, (mods.take sz).length)
  | _ => (0, modifiers, sz)

/-- A resolution mode for instances. -/
def Spec.mouse_mode : Spec.Resolution :=
  { dpi := 800, report_rate := 500, is_active := false, is_default := false }

/-- The buttons of a profile for instances: one mapped to the button number
1, one to the key 115 with the modifiers 29 and 42. -/
def Spec.mouse_buttons : List Spec.Button :=
  [{ button_type := 1, action := Spec.Action.button 1 },
   { button_type := 2, action := Spec.Action.key 115 [29, 42] }]

/-- A backend for instances: it recognizes the token 1 and hands over a
mouse with two profiles, the second one active, each with one resolution and
two buttons. -/
def Spec.mouse_backend : Spec.Backend :=
  { recognizes := fun token => token == 1
    bind := fun _ =>
      some
        { name := "Mouse"
          capabilities := [ratbag_capability.RATBAG_CAP_SWITCHABLE_PROFILE,
            ratbag_capability.RATBAG_CAP_BUTTON_KEY]
          num_buttons := 2
          profiles := List.replicate 2 ([Spec.mouse_mode], Spec.mouse_buttons)
          active_profile := 1 } }

/-- The mouse of `Spec.mouse_backend`, for instances. -/
def Spec.mouse : Spec.Device :=
  { name := "Mouse"
    capabilities := [ratbag_capability.RATBAG_CAP_SWITCHABLE_PROFILE,
      ratbag_capability.RATBAG_CAP_BUTTON_KEY]
    num_buttons := 2
    profiles :=
      [{ is_active := false, resolutions := [Spec.mouse_mode], buttons := Spec.mouse_buttons },
       { is_active := true, resolutions := [Spec.mouse_mode], buttons := Spec.mouse_buttons }] }

/-- The members of `enum ratbag_button_type`, in the order of the
declaration. -/
def ratbag_button_type.members : List ratbag_button_type :=
  [RATBAG_BUTTON_TYPE_UNKNOWN, RATBAG_BUTTON_TYPE_LEFT, RATBAG_BUTTON_TYPE_MIDDLE,
   RATBAG_BUTTON_TYPE_RIGHT, RATBAG_BUTTON_TYPE_THUMB, RATBAG_BUTTON_TYPE_THUMB2,
   RATBAG_BUTTON_TYPE_THUMB3, RATBAG_BUTTON_TYPE_THUMB4, RATBAG_BUTTON_TYPE_WHEEL_LEFT,
   RATBAG_BUTTON_TYPE_WHEEL_RIGHT, RATBAG_BUTTON_TYPE_WHEEL_CLICK,
   RATBAG_BUTTON_TYPE_WHEEL_UP, RATBAG_BUTTON_TYPE_WHEEL_DOWN,
   RATBAG_BUTTON_TYPE_WHEEL_RATCHET_MODE_SHIFT, RATBAG_BUTTON_TYPE_EXTRA,
   RATBAG_BUTTON_TYPE_SIDE, RATBAG_BUTTON_TYPE_PINKIE, RATBAG_BUTTON_TYPE_PINKIE2,
   RATBAG_BUTTON_TYPE_RESOLUTION_CYCLE_UP, RATBAG_BUTTON_TYPE_RESOLUTION_UP,
   RATBAG_BUTTON_TYPE_RESOLUTION_DOWN, RATBAG_BUTTON_TYPE_PROFILE_CYCLE_UP,
   RATBAG_BUTTON_TYPE_PROFILE_UP, RATBAG_BUTTON_TYPE_PROFILE_DOWN]

/-- The call `ratbag_unref`, which releases the context. -/
def Call.is_context_unref : Call → Bool
  | Call.ratbag_unref _ => true
  | _ => false

/-- The calls of `ratbag_unref` in a trace, in program order. -/
def context_unref_calls (tr : List Event) : List Call :=
  ((calls tr).filter (fun ca => ca.1.is_context_unref)).map (fun ca => ca.1)

/-- The call `ratbag_device_unref`. -/
def Call.is_device_unref : Call → Bool
  | Call.ratbag_device_unref _ => true
  | _ => false

/-- The calls of `ratbag_device_unref` in a trace, in program order. -/
def device_unref_calls (tr : List Event) : List Call :=
  ((calls tr).filter (fun ca => ca.1.is_device_unref)).map (fun ca => ca.1)

/-- The call `sprintf` that does not fit in its buffer. -/
def Call.is_sprintf : Call → Bool
  | Call.sprintf _ _ => true
  | _ => false

/-- No `/dev/input`: `scandir` fails. -/
def Mouse.no_directory : Call → Option Ans
  | Call.scandir _ => some { val := -1 }
  | _ => none

/-- One entry in `/dev/input`, with a name of 245 bytes: `event` and 240
times `x`. -/
def Mouse.long_entry : Call → Option Ans
  | Call.scandir _ =>
    some { val := 1, names := ["event" ++ String.mk (List.replicate 240 'x')] }
  | _ => none

/-- A keyboard at `/dev/input/event1`: the node has the device number 7, its
udev device is 4, and `ratbag_device_new_from_udev_device` has no driver for
it. -/
def Mouse.with_keyboard : Call → Option Ans
  | Call.stat path => if path = "/dev/input/event1" then some { val := 0, aux := 7 } else none
  | Call.udev_device_new_from_devnum _ _ devnum => if devnum = 7 then some { val := 4 } else none
  | Call.ratbag_device_new_from_udev_device _ udev_device =>
    if udev_device = 4 then some { val := 0 } else none
  | _ => none

/-- Modelled from the spec: the place of the Button behind a button handle of
the missing library, the index of its Profile and its index in the Profile.
The handle of the Button `index` of the Profile `profile` is
`1 + 4294967296 * profile + index`; the index is an `unsigned int` in
`libratbag.h`, so it is below `2 ^ 32`. -/
def Spec.button_place (handle : Ptr) : Nat × Nat :=
  (((handle - 1) / 4294967296).toNat, ((handle - 1) % 4294967296).toNat)

/-- Modelled from the spec: the Button behind a button handle of the missing
library, as it is now in the Device; `none` for `NULL` and for a handle that
no Button has. -/
def Spec.Device.button_of (d : Spec.Device) (handle : Ptr) : Option Spec.Button :=
  if 1 ≤ handle then
    match d.button (Spec.button_place handle).1 (Spec.button_place handle).2 with
    | Except.ok button => some button
    | Except.error _ => none
  else none

/-- Modelled from the spec: the return value of a setter of the missing
library and the Device after it (section 7): 0 and the new state on success,
a negative value and the state as it was on failure. -/
def Spec.Device.committed (d : Spec.Device) (r : Except Spec.Error Spec.Device) :
    Ans × Spec.Device :=
  match r with
  | Except.ok d2 => ({ val := 0 }, d2)
  | Except.error _ => ({ val := -1 }, d)

/-- Modelled from the spec: the answers of the missing library for one Device,
every call succeeding: udev finds a node for every path, the backend binds
it, and the backend I/O of every commit succeeds.  The world is the Device of
the specification (section 3); the getters and setters of a Button are
`Spec.Button.get_action_type`, `Spec.Button.get_key`, `Spec.Device.set_key`
and `Spec.Device.disable` (section 4.5), `set_active` is
`Spec.Device.set_active` (section 4.3).  The handle of the Device is 1, the
handle of the Profile with the index `i` is `1 + i`.  A call that is not
listed returns 0 or `NULL` and leaves the Device as it is. -/
def Spec.answer : Call → Spec.Device → Ans × Spec.Device
  | Call.ratbag_create_context, d => ({ val := 1 }, d)
  | Call.udev_new, d => ({ val := 1 }, d)
  | Call.stat _, d => ({ val := 0, aux := 1 }, d)
  | Call.udev_device_new_from_devnum _ _ _, d => ({ val := 1 }, d)
  | Call.udev_device_new_from_syspath _ _, d => ({ val := 1 }, d)
  | Call.ratbag_device_new_from_udev_device _ _, d => ({ val := 1 }, d)
  | Call.ratbag_device_get_name _, d => ({ str := some d.name }, d)
  | Call.ratbag_device_has_capability _ cap, d =>
    ({ val := if cap ∈ d.capabilities then 1 else 0 }, d)
  | Call.ratbag_device_get_num_buttons _, d => ({ val := d.num_buttons }, d)
  | Call.ratbag_device_get_num_profiles _, d => ({ val := d.profiles.length }, d)
  | Call.ratbag_device_get_profile_by_index _ index, d =>
    ({ val := if 0 ≤ index ∧ index < d.profiles.length then 1 + index else 0 }, d)
  | Call.ratbag_profile_is_active profile, d =>
    ({ val := if 1 ≤ profile ∧ d.is_active (profile - 1).toNat = true then 1 else 0 }, d)
  | Call.ratbag_profile_set_active profile, d =>
    if 1 ≤ profile then d.committed (d.set_active true (profile - 1).toNat)
    else ({ val := -1 }, d)
  | Call.ratbag_profile_get_button_by_index profile index, d =>
    if 1 ≤ profile ∧ 0 ≤ index ∧ index < 4294967296 then
      match d.button (profile - 1).toNat index.toNat with
      | Except.ok _ => ({ val := 1 + 4294967296 * (profile - 1) + index }, d)
      | Except.error _ => ({ val := 0 }, d)
    else ({ val := 0 }, d)
  | Call.ratbag_button_get_action_type button, d =>
    match d.button_of button with
    | some b => ({ val := b.get_action_type.val }, d)
    | none => ({ val := -1 }, d)
  | Call.ratbag_button_get_key button sz, d =>
    match d.button_of button with
    | some b =>
      ({ val := (b.get_key [] sz.toNat).1
         aux := (b.get_key [] sz.toNat).2.2
         mods := (b.get_key [] sz.toNat).2.1.map Int.ofNat }, d)
    | none => ({ val := 0, aux := sz }, d)
  | Call.ratbag_button_set_key button key modifiers, d =>
    match d.button_of button with
    | some _ =>
      d.committed
        (d.set_key true (Spec.button_place button).1 (Spec.button_place button).2 key.toNat
          (modifiers.map Int.toNat))
    | none => ({ val := -1 }, d)
  | Call.ratbag_button_disable button, d =>
    match d.button_of button with
    | some _ =>
      d.committed (d.disable true (Spec.button_place button).1 (Spec.button_place button).2)
    | none => ({ val := -1 }, d)
  | _, d => ({}, d)

/-- Modelled from the spec: the missing library for one Device, with the
answers of `Spec.answer`. -/
def Spec.lib : Lib Spec.Device :=
  { answer := Spec.answer
    atoi := Mouse.atoi
    strerror := fun e => "errno " ++ toString e
    errno := fun _ => 0
    libevdev_event_code_from_name := fun _ name =>
      if name = "KEY_VOLUMEUP" then 115 else if name = "KEY_VOLUMEDOWN" then 114 else -1
    libevdev_event_code_get_name := fun _ code =>
      if code = 115 then some "KEY_VOLUMEUP" else if code = 114 then some "KEY_VOLUMEDOWN"
      else none
    getopt_long := fun _ => { steps := [], optind := 1 }
    program_invocation_short_name := "ratbag-command" }

/-- A device for instances, in the shape of an Etekcity mouse: one profile,
which is active, with eight buttons, the buttons 6 and 7 with the given
actions. -/
def Spec.etekcity (action_6 action_7 : Spec.Action) : Spec.Device :=
  { name := "Etekcity"
    capabilities := [ratbag_capability.RATBAG_CAP_SWITCHABLE_PROFILE,
      ratbag_capability.RATBAG_CAP_BUTTON_KEY]
    num_buttons := 8
    profiles :=
      [{ is_active := true
         resolutions := [Spec.mouse_mode]
         buttons :=
           (List.range 6).map (fun b => { button_type := b + 1, action := Spec.Action.button (b + 1) })
             ++ [{ button_type := 0, action := action_6 },
                 { button_type := 0, action := action_7 }] }] }

/-- Two runs of switch-etekcity on the library of the specification, one
after the other: the status of each run and the Device after each. -/
def Spec.etekcity_twice (ratbag : Ptr) (flags : Nat) (path : String) (d : Spec.Device) :
    (Int × Spec.Device) × (Int × Spec.Device) :=
  let first := ratbag_cmd_switch_etekcity Spec.lib ratbag flags [path] (St.init d)
  let second := ratbag_cmd_switch_etekcity Spec.lib ratbag flags [path] (St.init first.2.world)
  ((first.1, first.2.world), (second.1, second.2.world))

/-- The device `d2` is the device `d` with the buttons 6 and 7 of the profile
`a` replaced by `x6` and `x7`: the same capabilities, as many profiles, the
same profile active, every other button as it is in `d`. -/
def Spec.Device.Changed (d d2 : Spec.Device) (a : Nat) (x6 x7 : Spec.Button) : Prop :=
  d2.capabilities = d.capabilities
  ∧ d2.profiles.length = d.profiles.length
  ∧ (∀ j, d2.is_active j = d.is_active j)
  ∧ (∀ q j, d2.button q j
      = if q = a ∧ j = 6 then Except.ok x6
        else if q = a ∧ j = 7 then Except.ok x7 else d.button q j)

/-- The four kinds of handle that the tool obtains from libratbag. -/
inductive HandleKind
  | device
  | profile
  | resolution
  | button
  deriving DecidableEq, Repr

/-- The kind of handle a call returns a new reference to:
`ratbag_device_new_from_udev_device`, `ratbag_device_get_profile_by_index`,
`ratbag_profile_get_resolution` and `ratbag_profile_get_button_by_index`; the
handle is the returned pointer. -/
def Call.obtains : Call → Option HandleKind
  | Call.ratbag_device_new_from_udev_device _ _ => some HandleKind.device
  | Call.ratbag_device_get_profile_by_index _ _ => some HandleKind.profile
  | Call.ratbag_profile_get_resolution _ _ => some HandleKind.resolution
  | Call.ratbag_profile_get_button_by_index _ _ => some HandleKind.button
  | _ => none

/-- The handle an unref call releases. -/
def Call.releases : Call → Option (HandleKind × Ptr)
  | Call.ratbag_device_unref device => some (HandleKind.device, device)
  | Call.ratbag_profile_unref profile => some (HandleKind.profile, profile)
  | Call.ratbag_resolution_unref resolution => some (HandleKind.resolution, resolution)
  | Call.ratbag_button_unref button => some (HandleKind.button, button)
  | _ => none

/-- The handle a call other than an unref works on: the first argument of
every libratbag call on a device, a profile, a resolution or a button. -/
def Call.works_on : Call → Option (HandleKind × Ptr)
  | Call.ratbag_device_get_name device => some (HandleKind.device, device)
  | Call.ratbag_device_has_capability device _ => some (HandleKind.device, device)
  | Call.ratbag_device_get_num_buttons device => some (HandleKind.device, device)
  | Call.ratbag_device_get_num_profiles device => some (HandleKind.device, device)
  | Call.ratbag_device_get_profile_by_index device _ => some (HandleKind.device, device)
  | Call.ratbag_profile_is_active profile => some (HandleKind.profile, profile)
  | Call.ratbag_profile_set_active profile => some (HandleKind.profile, profile)
  | Call.ratbag_profile_get_num_resolutions profile => some (HandleKind.profile, profile)
  | Call.ratbag_profile_get_resolution profile _ => some (HandleKind.profile, profile)
  | Call.ratbag_profile_get_button_by_index profile _ => some (HandleKind.profile, profile)
  | Call.ratbag_resolution_get_dpi resolution => some (HandleKind.resolution, resolution)
  | Call.ratbag_resolution_get_report_rate resolution =>
    some (HandleKind.resolution, resolution)
  | Call.ratbag_resolution_is_active resolution => some (HandleKind.resolution, resolution)
  | Call.ratbag_resolution_is_default resolution => some (HandleKind.resolution, resolution)
  | Call.ratbag_resolution_set_dpi resolution _ => some (HandleKind.resolution, resolution)
  | Call.ratbag_button_get_type button => some (HandleKind.button, button)
  | Call.ratbag_button_get_action_type button => some (HandleKind.button, button)
  | Call.ratbag_button_get_button button => some (HandleKind.button, button)
  | Call.ratbag_button_get_key button _ => some (HandleKind.button, button)
  | Call.ratbag_button_get_special button => some (HandleKind.button, button)
  | Call.ratbag_button_set_button button _ => some (HandleKind.button, button)
  | Call.ratbag_button_set_key button _ _ => some (HandleKind.button, button)
  | Call.ratbag_button_set_special button _ => some (HandleKind.button, button)
  | Call.ratbag_button_disable button => some (HandleKind.button, button)
  | _ => none

/-- A handle may be passed to a call if it is `NULL` or a reference to it is
held. -/
def usable (held : List (HandleKind × Ptr)) (h : HandleKind × Ptr) : Prop :=
  h.2 = 0 ∨ h ∈ held

instance (held : List (HandleKind × Ptr)) (h : HandleKind × Ptr) : Decidable (usable held h) :=
  inferInstanceAs (Decidable (h.2 = 0 ∨ h ∈ held))

/-- The references held after a returned pointer is stored: one more for a
pointer that is not `NULL`. -/
def push (kind : HandleKind) (p : Ptr) (held : List (HandleKind × Ptr)) :
    List (HandleKind × Ptr) :=
  if p = 0 then held else (kind, p) :: held

/-- The references held after a call that is not an unref: one more if the
call returns a handle that is not `NULL`. -/
def obtained (c : Call) (a : Ans) (held : List (HandleKind × Ptr)) : List (HandleKind × Ptr) :=
  match c.obtains with
  | some kind => push kind a.val held
  | none => held

/-- One step of the bookkeeping of references, `held` being the references
held before the event, one entry for each.  An unref of `NULL` does nothing;
an unref of a handle gives up one reference to it, and there is no next state
if none is held.  Any other call needs its handle to be `NULL` or held, and a
pointer it returns that is not `NULL` is one more reference. -/
def track_event (held : List (HandleKind × Ptr)) : Event → Option (List (HandleKind × Ptr))
  | Event.out _ _ => some held
  | Event.call c a =>
    match c.releases, c.works_on with
    | some h, _ => if h.2 = 0 then some held else if h ∈ held then some (held.erase h) else none
    | none, some h => if usable held h then some (obtained c a held) else none
    | none, none => some (obtained c a held)

/-- The bookkeeping of references along a trace. -/
def track : List Event → List (HandleKind × Ptr) → Option (List (HandleKind × Ptr))
  | [], held => some held
  | e :: rest, held => (track_event held e).bind (track rest)

/-- A trace is balanced if the bookkeeping, started with no reference, gets
through it and ends with no reference: every handle obtained is released by
one unref, and no handle is released or used without a reference to it. -/
def balanced (tr : List Event) : Prop := track tr [] = some []

instance (tr : List Event) : Decidable (balanced tr) :=
  inferInstanceAs (Decidable (track tr [] = some []))

/-- The state `s` is reached with the references `held`. -/
def Held (s : St W) (held : List (HandleKind × Ptr)) : Prop := track s.trace [] = some held

/-! ## Theorems -/

/-! ### Steps of the helpers -/

theorem Steps.mono {L : Lib W} {K K2 : Event → Prop} {s t : St W}
    (h : Steps L K s t) (hk : ∀ e, K e → K2 e) : Steps L K2 s t := by
  induction h with
  | refl => exact Steps.refl _
  | call c _ hc ih => exact Steps.call c ih (hk _ hc)
  | out st tx _ hc ih => exact Steps.out st tx ih (hk _ hc)

theorem Steps.trans {L : Lib W} {K : Event → Prop} {s t u : St W}
    (h1 : Steps L K s t) (h2 : Steps L K t u) : Steps L K s u := by
  induction h2 with
  | refl => exact h1
  | call c _ hk ih => exact Steps.call c ih hk
  | out st tx _ hk ih => exact Steps.out st tx ih hk

theorem Steps.trace_eq {L : Lib W} {K : Event → Prop} {s t : St W} (h : Steps L K s t) :
    ∃ ext, t.trace = s.trace ++ ext ∧ ∀ e ∈ ext, K e := by
  induction h with
  | refl => exact ⟨[], by simp, by simp⟩
  | @call t c _ hc ih =>
    obtain ⟨ext, he, hall⟩ := ih
    refine ⟨ext ++ [Event.call c (L.answer c t.world).1], by simp [libcall, he], ?_⟩
    intro e he2
    rcases List.mem_append.1 he2 with h1 | h1
    · exact hall e h1
    · rw [List.mem_singleton.1 h1]; exact hc
  | out st tx _ hc ih =>
    obtain ⟨ext, he, hall⟩ := ih
    refine ⟨ext ++ [Event.out st tx], by simp [he], ?_⟩
    intro e he2
    rcases List.mem_append.1 he2 with h1 | h1
    · exact hall e h1
    · rw [List.mem_singleton.1 h1]; exact hc

theorem Steps.world_inv {L : Lib W} {K : Event → Prop} {s t : St W} (h : Steps L K s t)
    (Inv : W → Prop)
    (hinv : ∀ c w, K (Event.call c (L.answer c w).1) → Inv w → Inv (L.answer c w).2)
    (hs : Inv s.world) : Inv t.world := by
  induction h with
  | refl => exact hs
  | call c _ hc ih => exact hinv c _ hc ih
  | out st tx _ hc ih => exact ih

theorem Steps.printf {L : Lib W} {K : Event → Prop} {s t : St W} (text : String)
    (h : Steps L K s t) (hk : K (Event.out Stream.stdout text)) :
    Steps L K s (printf text t) :=
  Steps.out Stream.stdout text h hk

theorem Steps.error {L : Lib W} {K : Event → Prop} {s t : St W} (text : String)
    (h : Steps L K s t) (hk : ∀ e : Event, e.is_stderr = true → K e) :
    Steps L K s (error text t) := by
  have h2 := Steps.out Stream.stderr text
    (Steps.out Stream.stderr "Error: " h (hk _ rfl)) (hk _ rfl)
  simpa [Ratbag.error] using h2

theorem Steps.usage {L : Lib W} {K : Event → Prop} {s t : St W}
    (h : Steps L K s t) (hk : ∀ e : Event, e.is_stdout = true → K e) :
    Steps L K s (usage L t) := by
  unfold Ratbag.usage
  apply Steps.printf _ _ (hk _ rfl)
  have : ∀ (l : List ratbag_cmd) (u : St W), Steps L K s u →
      Steps L K s (l.foldl (fun t cmd => Ratbag.printf (usage_line cmd) t) u) := by
    intro l
    induction l with
    | nil => intro u hu; exact hu
    | cons c l ih => intro u hu; exact ih _ (Steps.printf _ hu (hk _ rfl))
  exact this _ _ (Steps.printf _ h (hk _ rfl))

theorem Steps.udev_device_from_path {L : Lib W} {K : Event → Prop} {s t : St W}
    (udev : Ptr) (path : String) (h : Steps L K s t) (hk : ∀ e : Event, e.is_open = true → K e) :
    Steps L K s (udev_device_from_path L udev path t).2 := by
  have he : ∀ e : Event, e.is_stderr = true → K e := by
    intro e h1
    cases e with
    | out st tx => cases st <;> first | exact hk _ rfl | simp [Event.is_stderr] at h1
    | call c a => simp [Event.is_stderr] at h1
  unfold Ratbag.udev_device_from_path
  dsimp only
  split_ifs
  · exact Steps.error _ (Steps.call _ h (hk _ rfl)) he
  · exact Steps.error _ (Steps.call _ (Steps.call _ h (hk _ rfl)) (hk _ rfl)) he
  · exact Steps.call _ (Steps.call _ h (hk _ rfl)) (hk _ rfl)
  · exact Steps.error _ (Steps.call _ h (hk _ rfl)) he
  · exact Steps.call _ h (hk _ rfl)

theorem Steps.open_device {L : Lib W} {K : Event → Prop} {s t : St W}
    (ratbag : Ptr) (path : String) (h : Steps L K s t)
    (hk : ∀ e : Event, e.is_open = true → K e) :
    Steps L K s (ratbag_cmd_open_device L ratbag path t).2 := by
  unfold Ratbag.ratbag_cmd_open_device
  dsimp only
  split_ifs
  · exact Steps.call _ (Steps.udev_device_from_path _ _ (Steps.call _ h (hk _ rfl)) hk) (hk _ rfl)
  · exact Steps.call _ (Steps.call _ (Steps.call _
      (Steps.udev_device_from_path _ _ (Steps.call _ h (hk _ rfl)) hk) (hk _ rfl)) (hk _ rfl))
      (hk _ rfl)

theorem Steps.active_profile_loop {L : Lib W} {K : Event → Prop} {s : St W}
    (device : Ptr) (hk : ∀ e : Event, e.is_search device = true → K e)
    (fuel : Nat) (i : Int) (t : St W) (h : Steps L K s t) :
    Steps L K s (active_profile_loop L device fuel i t).2 := by
  induction fuel generalizing i t with
  | zero => exact h
  | succ fuel ih =>
    rw [Ratbag.active_profile_loop]
    dsimp only
    have hs : ∀ (a : Ans), (Event.call (Call.ratbag_device_get_num_profiles device) a).is_search
        device = true := by intro a; simp [Event.is_search]
    have hp : ∀ (j : Int) (a : Ans),
        (Event.call (Call.ratbag_device_get_profile_by_index device j) a).is_search
        device = true := by intro j a; simp [Event.is_search]
    split_ifs
    · exact Steps.call _ (Steps.call _ (Steps.call _ h (hk _ (hs _))) (hk _ (hp _ _))) (hk _ rfl)
    · exact ih _ _ (Steps.call _ (Steps.call _ (Steps.call _ (Steps.call _ h (hk _ (hs _)))
        (hk _ (hp _ _))) (hk _ rfl)) (hk _ rfl))
    · exact Steps.call _ h (hk _ (hs _))


/-! ### The enumeration of special actions -/
open ratbag_button_action_special in

/-- C10: the sentinel `RATBAG_BUTTON_ACTION_SPECIAL_INVALID` is -1; the other
thirteen members of `enum ratbag_button_action_special` are numbered
consecutively from `UNKNOWN = 2 ^ 30` to `PROFILE_DOWN = 2 ^ 30 + 12`; the
values of the members are pairwise distinct, so a member has the value of
`INVALID` only if it is `INVALID`. -/
theorem special_invalid_unambiguous :
    RATBAG_BUTTON_ACTION_SPECIAL_INVALID.val = -1
    ∧ RATBAG_BUTTON_ACTION_SPECIAL_UNKNOWN.val = 2 ^ 30
    ∧ RATBAG_BUTTON_ACTION_SPECIAL_PROFILE_DOWN.val = 2 ^ 30 + 12
    ∧ (∀ s : ratbag_button_action_special, s ∈ ratbag_button_action_special.members)
    ∧ ratbag_button_action_special.members.head? = some RATBAG_BUTTON_ACTION_SPECIAL_INVALID
    ∧ ratbag_button_action_special.members.tail.map ratbag_button_action_special.val
        = (List.range 13).map (fun k : Nat => (2 : Int) ^ 30 + (k : Int))
    ∧ (∀ s t : ratbag_button_action_special, s.val = t.val ↔ s = t)
    ∧ (∀ s : ratbag_button_action_special,
        s.val = RATBAG_BUTTON_ACTION_SPECIAL_INVALID.val ↔ s = RATBAG_BUTTON_ACTION_SPECIAL_INVALID) := by
  refine ⟨by decide, by decide, by decide, ?_, by decide, by decide, ?_, ?_⟩
  · intro s; cases s <;> decide
  · intro s t; cases s <;> cases t <;> decide
  · intro s; cases s <;> decide

/-! ### Traces, and handlers without a device -/

theorem Steps.all_events {L : Lib W} {K : Event → Prop} {w : W} {t : St W}
    (h : Steps L K (St.init w) t) : ∀ e ∈ t.trace, K e := by
  obtain ⟨ext, he, hall⟩ := h.trace_eq
  intro e hmem
  rw [he] at hmem
  simpa [St.init] using hall e (by simpa [St.init] using hmem)

theorem calls_append (l1 l2 : List Event) : calls (l1 ++ l2) = calls l1 ++ calls l2 := by
  induction l1 with
  | nil => rfl
  | cons e l ih => cases e <;> simp [calls, ih]

theorem mem_calls {c : Call} {a : Ans} {tr : List Event} :
    (c, a) ∈ calls tr ↔ Event.call c a ∈ tr := by
  induction tr with
  | nil => simp [calls]
  | cons e l ih => cases e <;> simp [calls, ih]

theorem handle_ops_eq_nil {tr : List Event}
    (h : ∀ e ∈ tr, e.is_open = true) : handle_ops tr = [] := by
  unfold handle_ops
  rw [List.filter_eq_nil_iff]
  rintro ⟨c, a⟩ hmem
  have := h _ (mem_calls.1 hmem)
  cases c <;> first | exact Bool.false_ne_true | cases this

theorem change_button_action_state (L : Lib W) (action_str action_arg : String) (s : St W)
    (act : button_action) (h : (change_button_action L action_str action_arg s).1 = some act) :
    (change_button_action L action_str action_arg s).2 = s := by
  unfold change_button_action at h ⊢
  split_ifs at h ⊢ <;> simp_all

/-- C4: if `ratbag_cmd_open_device` yields no device, each of info,
switch-etekcity, switch-dpi, switch-profile and change-button (called with
the right number of arguments and, for change-button, an action that
`change_button_action` accepts) returns a non-zero status and performs no
operation on a device, profile, resolution or button handle. -/
theorem no_device_no_operation (L : Lib W) (ratbag : Ptr) (flags : Nat) (path : String) (w : W)
    (h : (ratbag_cmd_open_device L ratbag path (St.init w)).1 = 0) :
    ((ratbag_cmd_info L ratbag flags [path] (St.init w)).1 ≠ 0
      ∧ handle_ops (ratbag_cmd_info L ratbag flags [path] (St.init w)).2.trace = [])
    ∧ ((ratbag_cmd_switch_etekcity L ratbag flags [path] (St.init w)).1 ≠ 0
      ∧ handle_ops (ratbag_cmd_switch_etekcity L ratbag flags [path] (St.init w)).2.trace = [])
    ∧ (∀ arg : String,
      (ratbag_cmd_switch_dpi L ratbag flags [arg, path] (St.init w)).1 ≠ 0
      ∧ handle_ops (ratbag_cmd_switch_dpi L ratbag flags [arg, path] (St.init w)).2.trace = [])
    ∧ (∀ arg : String,
      (ratbag_cmd_switch_profile L ratbag flags [arg, path] (St.init w)).1 ≠ 0
      ∧ handle_ops (ratbag_cmd_switch_profile L ratbag flags [arg, path] (St.init w)).2.trace = [])
    ∧ (∀ (arg action_str action_arg : String) (act : button_action),
      (change_button_action L action_str action_arg (St.init w)).1 = some act →
      (ratbag_cmd_change_button L ratbag flags [arg, action_str, action_arg, path]
          (St.init w)).1 ≠ 0
      ∧ handle_ops (ratbag_cmd_change_button L ratbag flags [arg, action_str, action_arg, path]
          (St.init w)).2.trace = []) := by
  have key : ∀ text, handle_ops
      (error text (ratbag_cmd_open_device L ratbag path (St.init w)).2).trace = [] := by
    intro text
    apply handle_ops_eq_nil
    exact Steps.all_events
      (Steps.error text (Steps.open_device ratbag path (Steps.refl _) (fun _ h => h))
        (fun e he => by cases e with
          | out st tx => cases st <;> simp_all [Event.is_stderr, Event.is_open]
          | call c a => simp [Event.is_stderr] at he))
  refine ⟨?_, ?_, ?_, ?_, ?_⟩
  · simp [ratbag_cmd_info, h, key]
  · simp [ratbag_cmd_switch_etekcity, h, key]
  · intro arg; simp [ratbag_cmd_switch_dpi, h, key]
  · intro arg; simp [ratbag_cmd_switch_profile, h, key]
  · intro arg action_str action_arg act hact
    have hst := change_button_action_state L action_str action_arg _ act hact
    simp [ratbag_cmd_change_button, hact, hst, h, key]

/-- An instance of `no_device_no_operation`: a library that opens nothing. -/
theorem no_device_no_operation_witness :
    (ratbag_cmd_open_device no_library 1 "/dev/input/event0" (St.init ())).1 = 0
    ∧ (ratbag_cmd_info no_library 1 0 ["/dev/input/event0"] (St.init ())).1 ≠ 0
    ∧ handle_ops (ratbag_cmd_info no_library 1 0 ["/dev/input/event0"] (St.init ())).2.trace
        = [] :=
  ⟨by decide, (no_device_no_operation no_library 1 0 "/dev/input/event0" () (by decide)).1⟩

/-! ### main without a context -/

/-- C1 (as the code behaves): if `ratbag_create_context` returns `NULL`,
`main` writes `Can't initialize ratbag` on standard error and returns 0, for
every argument vector. -/
theorem main_no_context_returns_zero (L : Lib W) (argv : List String) (w : W)
    (h : (L.answer Call.ratbag_create_context w).1.val = 0) :
    (main L argv (St.init w)).1 = 0
    ∧ written Stream.stderr (main L argv (St.init w)).2.trace
        = ["Error: ", "Can't initialize ratbag\n"] := by
  simp [main, libcall, St.init, h, main_out, error, written]

/-- An instance of `main_no_context_returns_zero`: `info` on an event node,
with a library whose context creation fails. -/
theorem main_no_context_returns_zero_witness :
    (no_library.answer Call.ratbag_create_context ()).1.val = 0
    ∧ (main no_library ["ratbag-command", "info", "/dev/input/event0"] (St.init ())).1 = 0
    ∧ written Stream.stderr
        (main no_library ["ratbag-command", "info", "/dev/input/event0"] (St.init ())).2.trace
        = ["Error: ", "Can't initialize ratbag\n"] :=
  ⟨by decide, main_no_context_returns_zero no_library _ () (by decide)⟩

/-! ### The search for the active profile -/

theorem u32_lt (x : Int) : u32 x < 4294967296 := by
  unfold u32; omega

theorem u32_nonneg (x : Int) : 0 ≤ u32 x := by
  unfold u32; omega

theorem active_profile_loop_fuel (L : Lib W) (device : Ptr) (fuel : Nat) (i : Int) (s : St W)
    (hi : i < 4294967296) (hf : 4294967296 - i ≤ fuel) :
    active_profile_loop L device (fuel + 1) i s = active_profile_loop L device fuel i s := by
  induction fuel generalizing i s with
  | zero => omega
  | succ fuel ih =>
    rw [active_profile_loop, active_profile_loop.eq_def _ _ (fuel + 1)]
    dsimp only
    split_ifs with h1 h2
    · rfl
    · have := u32_lt (libcall L (Call.ratbag_device_get_num_profiles device) s).1.val
      exact ih _ _ (by omega) (by omega)
    · rfl

theorem active_profile_loop_finds {L : Lib W} {Inv : W → Prop} {device : Ptr} {n : Int}
    {P : Int → Ptr} {active : Int → Prop} (hL : ShowsProfiles L Inv device n P active)
    (a : Int) (han : a < n) (hact : active a) (hlow : ∀ i, 0 ≤ i → i < a → ¬ active i)
    (fuel : Nat) (i : Int) (s : St W) (hs : Inv s.world) (h0 : 0 ≤ i) (hia : i ≤ a)
    (hf : a - i < fuel) :
    (active_profile_loop L device fuel i s).1 = P a
    ∧ Inv (active_profile_loop L device fuel i s).2.world := by
  obtain ⟨hstable, hnum, hprof, hactive⟩ := hL
  induction fuel generalizing i s with
  | zero => omega
  | succ fuel ih =>
    rw [active_profile_loop]
    dsimp only
    have hn := hnum s.world hs
    have hw1 : Inv (libcall L (Call.ratbag_device_get_num_profiles device) s).2.world :=
      hstable _ _ rfl hs
    have hp := hprof _ i hw1 h0 (by omega)
    have hw2 : Inv (libcall L (Call.ratbag_device_get_profile_by_index device i)
        (libcall L (Call.ratbag_device_get_num_profiles device) s).2).2.world :=
      hstable _ _ rfl hw1
    have ha := hactive _ i hw2 h0 (by omega)
    have hcond : i < u32 (libcall L (Call.ratbag_device_get_num_profiles device) s).1.val := by
      show i < u32 (L.answer _ s.world).1.val
      rw [hn]; omega
    rw [if_pos hcond]
    have hpe : (libcall L (Call.ratbag_device_get_profile_by_index device i)
        (libcall L (Call.ratbag_device_get_num_profiles device) s).2).1.val = P i := hp.1
    rw [hpe]
    by_cases hia2 : i = a
    · subst hia2
      have hnz : (libcall L (Call.ratbag_profile_is_active (P i))
          (libcall L (Call.ratbag_device_get_profile_by_index device i)
            (libcall L (Call.ratbag_device_get_num_profiles device) s).2).2).1.val ≠ 0 :=
        ha.2 hact
      rw [if_pos hnz]
      exact ⟨rfl, hstable _ _ rfl hw2⟩
    · have hz : ¬ (libcall L (Call.ratbag_profile_is_active (P i))
          (libcall L (Call.ratbag_device_get_profile_by_index device i)
            (libcall L (Call.ratbag_device_get_num_profiles device) s).2).2).1.val ≠ 0 :=
        fun h => hlow i h0 (by omega) (ha.1 h)
      rw [if_neg hz]
      exact ih _ _ (hstable _ _ rfl (hstable _ _ rfl hw2)) (by omega) (by omega) (by omega)

/-- The search from index 0 with the fuel of `find_active_profile`: it ends
at the lowest active profile, whose handle is not `NULL`, and keeps the
invariant. -/
theorem find_active_profile_search (L : Lib W) (Inv : W → Prop) (device : Ptr) (n : Int)
    (P : Int → Ptr) (active : Int → Prop) (hL : ShowsProfiles L Inv device n P active)
    (a : Int) (h0 : 0 ≤ a) (han : a < n) (hact : active a)
    (hlow : ∀ i, 0 ≤ i → i < a → ¬ active i) (s : St W) (hs : Inv s.world) :
    (find_active_profile L device s).1 = P a
    ∧ (find_active_profile L device s).1 ≠ 0
    ∧ Inv (find_active_profile L device s).2.world := by
  have hn : n < 4294967296 := by
    rw [← hL.2.1 s.world hs]; exact u32_lt _
  have h := active_profile_loop_finds hL a han hact hlow 4294967296 0 s hs (le_refl 0) h0
    (by omega)
  refine ⟨h.1, ?_, h.2⟩
  unfold find_active_profile
  rw [h.1]
  exact (hL.2.2.1 s.world a hs h0 han).2

/-- C5: if the library shows `n` profiles of which index `a` is the lowest that
reports active (the only one, under the invariant of one active profile), the
search loop of change-button, switch-dpi and switch-etekcity ends with
`profile` holding the profile of index `a`, which is not `NULL`: the branch
`unable to retrieve the active profile`, taken if `profile` is `NULL`, is not
reached.  The world after the search still satisfies the invariant. -/
theorem find_active_profile_finds (L : Lib W) (Inv : W → Prop) (device : Ptr) (n : Int)
    (P : Int → Ptr) (active : Int → Prop) (hL : ShowsProfiles L Inv device n P active)
    (a : Int) (h0 : 0 ≤ a) (han : a < n) (hact : active a)
    (hlow : ∀ i, 0 ≤ i → i < a → ¬ active i) (s : St W) (hs : Inv s.world) :
    (find_active_profile L device s).1 = P a
    ∧ (find_active_profile L device s).1 ≠ 0
    ∧ Inv (find_active_profile L device s).2.world := by
  have hn : n < 4294967296 := by
    rw [← hL.2.1 s.world hs]; exact u32_lt _
  have h := active_profile_loop_finds hL a han hact hlow 4294967296 0 s hs (le_refl 0) h0
    (by omega)
  refine ⟨h.1, ?_, h.2⟩
  unfold find_active_profile
  rw [h.1]
  exact (hL.2.2.1 s.world a hs h0 han).2

theorem mouse_shows_profiles (np nr nb : Int) (hnp : 0 ≤ np) (hnp2 : np < 4294967296) (a : Int) :
    ShowsProfiles (Mouse.lib np nr nb) (fun m => m.active = a) 10 np (fun i => 100 + i)
      (fun i => i = a) := by
  refine ⟨?_, ?_, ?_, ?_⟩
  · intro c w hc hw
    cases c <;> first | exact hw | cases hc
  · intro w _
    simp [Mouse.lib, Mouse.answer, u32]
    omega
  · intro w i _ h0 hi
    simp only [Mouse.lib, Mouse.answer, h0, hi, and_self, if_true, true_and]
    change ¬ ((100 : Int) + i = 0)
    omega
  · intro w i hw h0 hi
    simp [Mouse.lib, Mouse.answer, hw]
    split_ifs <;> simp_all

/-- An instance of `find_active_profile_finds`: the mouse with three profiles
of which profile 1 is active. -/
theorem find_active_profile_finds_witness :
    (find_active_profile (Mouse.lib 3 2 8) 10 (St.init { active := 1 })).1 = 100 + 1
    ∧ (find_active_profile (Mouse.lib 3 2 8) 10 (St.init { active := 1 })).1 ≠ 0
    ∧ (find_active_profile (Mouse.lib 3 2 8) 10 (St.init { active := 1 })).2.world.active = 1 :=
  find_active_profile_finds (Mouse.lib 3 2 8) (fun m => m.active = 1) 10 3 (fun i => 100 + i)
    (fun i => i = 1) (mouse_shows_profiles 3 2 8 (by decide) (by decide) 1) 1 (by decide)
    (by decide) rfl (fun i _ h1 h2 => by omega) (St.init { active := 1 }) rfl

/-! ### Setter calls -/

@[simp] theorem libcall_fst (L : Lib W) (c : Call) (s : St W) :
    (libcall L c s).1 = (L.answer c s.world).1 := rfl

@[simp] theorem libcall_world (L : Lib W) (c : Call) (s : St W) :
    (libcall L c s).2.world = (L.answer c s.world).2 := rfl

@[simp] theorem libcall_trace (L : Lib W) (c : Call) (s : St W) :
    (libcall L c s).2.trace = s.trace ++ [Event.call c (L.answer c s.world).1] := rfl

@[simp] theorem printf_world (text : String) (s : St W) : (printf text s).world = s.world := rfl

@[simp] theorem printf_trace (text : String) (s : St W) :
    (printf text s).trace = s.trace ++ [Event.out Stream.stdout text] := rfl

@[simp] theorem error_world (text : String) (s : St W) : (error text s).world = s.world := rfl

@[simp] theorem error_trace (text : String) (s : St W) :
    (error text s).trace
      = s.trace ++ [Event.out Stream.stderr "Error: ", Event.out Stream.stderr text] := rfl

theorem setter_calls_append (l1 l2 : List Event) :
    setter_calls (l1 ++ l2) = setter_calls l1 ++ setter_calls l2 := by
  simp [setter_calls, calls_append]

@[simp] theorem setter_calls_nil : setter_calls [] = [] := rfl

@[simp] theorem setter_calls_cons_out (st : Stream) (tx : String) (l : List Event) :
    setter_calls (Event.out st tx :: l) = setter_calls l := rfl

@[simp] theorem setter_calls_cons_call (c : Call) (a : Ans) (l : List Event) :
    setter_calls (Event.call c a :: l)
      = if c.is_setter then (c, a) :: setter_calls l else setter_calls l := by
  simp only [setter_calls, calls, List.filter_cons]

theorem setter_calls_eq_nil {tr : List Event} (h : ∀ e ∈ tr, e.no_setter = true) :
    setter_calls tr = [] := by
  induction tr with
  | nil => rfl
  | cons e l ih =>
    have h1 := h e (List.mem_cons_self _ _)
    have h2 := ih (fun e he => h e (List.mem_cons_of_mem _ he))
    cases e with
    | out st tx => simpa using h2
    | call c a =>
      simp only [Event.no_setter, Bool.not_eq_true'] at h1
      simp [h1, h2]

theorem Steps.setter_calls {L : Lib W} {s t : St W}
    (h : Steps L (fun e => e.no_setter = true) s t) :
    setter_calls t.trace = setter_calls s.trace := by
  obtain ⟨ext, he, hall⟩ := h.trace_eq
  rw [he, setter_calls_append, setter_calls_eq_nil hall, List.append_nil]

theorem is_open_no_setter (e : Event) (h : e.is_open = true) : e.no_setter = true := by
  cases e with
  | out st tx => rfl
  | call c a => cases c <;> first | rfl | cases h

theorem is_search_no_setter (device : Ptr) (e : Event) (h : e.is_search device = true) :
    e.no_setter = true := by
  cases e with
  | out st tx => rfl
  | call c a => cases c <;> first | rfl | cases h

theorem Steps.switch_profile_loop {L : Lib W} {K : Event → Prop} {s : St W}
    (device : Ptr) (hk : ∀ e : Event, e.is_search device = true → K e)
    (left : Nat) (i : Int) (t : St W) (h : Steps L K s t) :
    Steps L K s (switch_profile_loop L device left i t).2 := by
  induction left generalizing i t with
  | zero => exact h
  | succ left ih =>
    rw [Ratbag.switch_profile_loop]
    have hp : ∀ (j : Int) (a : Ans),
        (Event.call (Call.ratbag_device_get_profile_by_index device j) a).is_search
        device = true := by intro j a; simp [Event.is_search]
    split_ifs
    · exact Steps.call _ (Steps.call _ h (hk _ (hp _ _))) (hk _ rfl)
    · exact ih _ _ (Steps.call _ (Steps.call _ (Steps.call _ h (hk _ (hp _ _))) (hk _ rfl))
        (hk _ rfl))

theorem switch_profile_loop_finds {L : Lib W} {Inv : W → Prop} {device : Ptr} {n : Int}
    {P : Int → Ptr} {active : Int → Prop} (hL : ShowsProfiles L Inv device n P active)
    (a : Int) (han : a < n) (hact : active a) (hlow : ∀ i, 0 ≤ i → i < a → ¬ active i)
    (left : Nat) (i : Int) (s : St W) (hs : Inv s.world) (h0 : 0 ≤ i) (hia : i ≤ a)
    (hf : a - i < left) :
    (switch_profile_loop L device left i s).1 = P a := by
  obtain ⟨hstable, hnum, hprof, hactive⟩ := hL
  induction left generalizing i s with
  | zero => omega
  | succ left ih =>
    rw [switch_profile_loop]
    have hp := hprof _ i hs h0 (by omega)
    have hw2 : Inv (libcall L (Call.ratbag_device_get_profile_by_index device i) s).2.world :=
      hstable _ _ rfl hs
    have ha := hactive _ i hw2 h0 (by omega)
    simp only [libcall_fst, libcall_world] at ha hw2 ⊢
    rw [hp.1]
    by_cases hia2 : i = a
    · subst hia2
      rw [if_pos (ha.2 hact)]
    · rw [if_neg (fun h => hlow i h0 (by omega) (ha.1 h))]
      exact ih _ _ (hstable _ _ rfl (hstable _ _ rfl hw2)) (by omega) (by omega) (by omega)

theorem exists_lowest (active : Int → Prop) (n a : Int) (h0 : 0 ≤ a) (han : a < n)
    (hact : active a) :
    ∃ b, 0 ≤ b ∧ b < n ∧ active b ∧ ∀ i, 0 ≤ i → i < b → ¬ active i := by
  classical
  have hex : ∃ k : Nat, active (k : Int) := ⟨a.toNat, by rwa [Int.toNat_of_nonneg h0]⟩
  refine ⟨(Nat.find hex : Int), by omega, ?_, Nat.find_spec hex, ?_⟩
  · have : Nat.find hex ≤ a.toNat := Nat.find_min' hex (by rwa [Int.toNat_of_nonneg h0])
    omega
  · intro i hi0 hlt hi
    have h1 : active ((i.toNat : Nat) : Int) := by rwa [Int.toNat_of_nonneg hi0]
    have := Nat.find_min' hex h1
    omega

theorem i32_of_range (x : Int) (h0 : 0 ≤ x) (h1 : x < 2147483648) : i32 x = x := by
  unfold i32; omega

theorem u32_of_range (x : Int) (h0 : 0 ≤ x) (h1 : x < 4294967296) : u32 x = x := by
  unfold u32; omega

theorem is_query_no_setter (c : Call) (h : c.is_query = true) : c.is_setter = false := by
  cases c <;> first | rfl | cases h

theorem Steps.query {L : Lib W} {Inv : W → Prop} {s t : St W}
    (hstable : ∀ c w, c.is_query = true → Inv w → Inv (L.answer c w).2)
    (c : Call) (hc : c.is_query = true)
    (h : Steps L (fun e => e.no_setter = true) s t) (hinv : Inv t.world) :
    Steps L (fun e => e.no_setter = true) s (libcall L c t).2 ∧ Inv (libcall L c t).2.world :=
  ⟨Steps.call c h (by simp [Event.no_setter, is_query_no_setter c hc]), hstable c _ hc hinv⟩

/-! ### switch-profile -/

/-- C9: on a device with switchable profiles, of fewer than `2 ^ 31` profiles
(the count is kept in an `int`), switch-profile with a valid index `N` of a
profile that does not report active, while some profile does, calls exactly
one setter: `ratbag_profile_set_active` on the profile of index `N`; the
status it returns is the result of that call. -/
theorem switch_profile_sets_requested (L : Lib W) (Inv : W → Prop) (device : Ptr) (n : Int)
    (P : Int → Ptr) (active : Int → Prop) (hL : ShowsProfiles L Inv device n P active)
    (ratbag : Ptr) (flags : Nat) (arg path : String) (w : W)
    (hopen : (ratbag_cmd_open_device L ratbag path (St.init w)).1 = device) (hdev : device ≠ 0)
    (hinv : Inv (ratbag_cmd_open_device L ratbag path (St.init w)).2.world)
    (hcap : ∀ w, Inv w → (L.answer (Call.ratbag_device_has_capability device
      ratbag_capability.RATBAG_CAP_SWITCHABLE_PROFILE) w).1.val ≠ 0)
    (hn : n < 2147483648) (hN0 : 0 ≤ L.atoi arg) (hNn : L.atoi arg < n)
    (hNa : ¬ active (L.atoi arg)) (a : Int) (ha0 : 0 ≤ a) (han : a < n) (hact : active a) :
    ∃ ans : Ans,
      setter_calls (ratbag_cmd_switch_profile L ratbag flags [arg, path] (St.init w)).2.trace
        = [(Call.ratbag_profile_set_active (P (L.atoi arg)), ans)]
      ∧ (ratbag_cmd_switch_profile L ratbag flags [arg, path] (St.init w)).1 = ans.val := by
  obtain ⟨b, hb0, hbn, hbact, hblow⟩ := exists_lowest active n a ha0 han hact
  have hs1 : Steps L (fun e => e.no_setter = true) (St.init w)
      (ratbag_cmd_open_device L ratbag path (St.init w)).2 :=
    Steps.open_device ratbag path (Steps.refl _) is_open_no_setter
  have hi1 := hinv
  unfold ratbag_cmd_switch_profile
  dsimp only
  generalize ratbag_cmd_open_device L ratbag path (St.init w) = od at hopen hs1 hi1 ⊢
  obtain ⟨d, s1⟩ := od
  simp only at hopen hs1 hi1 ⊢
  subst hopen
  obtain ⟨hstable, hnum, hprof, hactive⟩ := id hL
  rw [if_neg hdev]
  -- the capability
  have hc : (libcall L (Call.ratbag_device_has_capability d
      ratbag_capability.RATBAG_CAP_SWITCHABLE_PROFILE) s1).1.val ≠ 0 := hcap _ hi1
  obtain ⟨hs2, hi2⟩ := Steps.query hstable (Call.ratbag_device_has_capability d
      ratbag_capability.RATBAG_CAP_SWITCHABLE_PROFILE) rfl hs1 hi1
  generalize libcall L (Call.ratbag_device_has_capability d
      ratbag_capability.RATBAG_CAP_SWITCHABLE_PROFILE) s1 = r2 at hc hs2 hi2 ⊢
  obtain ⟨a2, s2⟩ := r2
  simp only at hc hs2 hi2 ⊢
  rw [if_neg hc]
  -- the number of profiles
  have hnp : u32 (libcall L (Call.ratbag_device_get_num_profiles d) s2).1.val = n := hnum _ hi2
  obtain ⟨hs3, hi3⟩ := Steps.query hstable (Call.ratbag_device_get_num_profiles d) rfl hs2 hi2
  generalize libcall L (Call.ratbag_device_get_num_profiles d) s2 = r3 at hnp hs3 hi3 ⊢
  obtain ⟨a3, s3⟩ := r3
  simp only at hnp hs3 hi3 ⊢
  rw [hnp, i32_of_range n (by omega) hn, if_neg (by omega), u32_of_range _ hN0 (by omega)]
  -- the requested profile
  have hp : (libcall L (Call.ratbag_device_get_profile_by_index d (L.atoi arg)) s3).1.val
      = P (L.atoi arg) := (hprof _ _ hi3 hN0 hNn).1
  obtain ⟨hs4, hi4⟩ := Steps.query hstable
    (Call.ratbag_device_get_profile_by_index d (L.atoi arg)) rfl hs3 hi3
  generalize libcall L (Call.ratbag_device_get_profile_by_index d (L.atoi arg)) s3 = r4
    at hp hs4 hi4 ⊢
  obtain ⟨a4, s4⟩ := r4
  simp only at hp hs4 hi4 ⊢
  rw [hp]
  have hna : ¬ (libcall L (Call.ratbag_profile_is_active (P (L.atoi arg))) s4).1.val ≠ 0 :=
    fun h => hNa ((hactive _ _ hi4 hN0 hNn).1 h)
  obtain ⟨hs5, hi5⟩ := Steps.query hstable
    (Call.ratbag_profile_is_active (P (L.atoi arg))) rfl hs4 hi4
  generalize libcall L (Call.ratbag_profile_is_active (P (L.atoi arg))) s4 = r5 at hna hs5 hi5 ⊢
  obtain ⟨a5, s5⟩ := r5
  simp only at hna hs5 hi5 ⊢
  rw [if_neg hna]
  -- the search for the active profile
  have hfind := switch_profile_loop_finds hL b hbn hbact hblow n.toNat 0 s5 hi5 (le_refl 0) hb0
    (by omega)
  have hs6 : Steps L (fun e => e.no_setter = true) (St.init w)
      (switch_profile_loop L d n.toNat 0 s5).2 :=
    Steps.switch_profile_loop d (is_search_no_setter d) _ _ _ hs5
  generalize switch_profile_loop L d n.toNat 0 s5 = r6 at hfind hs6 ⊢
  obtain ⟨p6, s6⟩ := r6
  simp only at hfind hs6 ⊢
  rw [hfind, if_neg (hprof _ _ hi3 hb0 hbn).2]
  have hset : setter_calls s6.trace = [] := hs6.setter_calls
  refine ⟨(libcall L (Call.ratbag_profile_set_active (P (L.atoi arg))) s6).1, ?_, ?_⟩
  · split_ifs <;>
      simp [switch_profile_out, setter_calls_append, hset, Call.is_setter]
  · split_ifs <;> rfl

/-- An instance of `switch_profile_sets_requested`: the mouse with three
profiles, profile 0 active, asked for profile 2. -/
theorem switch_profile_sets_requested_witness :
    ∃ ans : Ans,
      setter_calls (ratbag_cmd_switch_profile (Mouse.lib 3 2 8) 1 0 ["2", "/dev/input/event0"]
          (St.init { active := 0 })).2.trace
        = [(Call.ratbag_profile_set_active (100 + Mouse.atoi "2"), ans)]
      ∧ (ratbag_cmd_switch_profile (Mouse.lib 3 2 8) 1 0 ["2", "/dev/input/event0"]
          (St.init { active := 0 })).1 = ans.val :=
  switch_profile_sets_requested (Mouse.lib 3 2 8) (fun m => m.active = 0) 10 3
    (fun i => 100 + i) (fun i => i = 0) (mouse_shows_profiles 3 2 8 (by decide) (by decide) 0)
    1 0 "2" "/dev/input/event0" { active := 0 } (by decide) (by decide) rfl
    (fun _ _ => by simp [Mouse.lib, Mouse.answer]) (by decide) (by decide) (by decide) (by decide) 0 (by decide)
    (by decide) rfl

/-! ### change-button -/

theorem written_append (st : Stream) (l1 l2 : List Event) :
    written st (l1 ++ l2) = written st l1 ++ written st l2 := by
  induction l1 with
  | nil => rfl
  | cons e l ih =>
    cases e with
    | out s2 tx => by_cases h : s2 = st <;> simp [written, h, ih]
    | call c a => simp [written, ih]

/-- The state of change-button when it has found the active profile. -/
theorem change_button_reaches_lookup (L : Lib W) (Inv : W → Prop) (device : Ptr) (n : Int)
    (P : Int → Ptr) (active : Int → Prop) (hL : ShowsProfiles L Inv device n P active)
    (ratbag : Ptr) (flags : Nat) (arg action_str action_arg path : String) (w : W)
    (act : button_action)
    (hact : (change_button_action L action_str action_arg (St.init w)).1 = some act)
    (hopen : (ratbag_cmd_open_device L ratbag path (St.init w)).1 = device) (hdev : device ≠ 0)
    (hinv : Inv (ratbag_cmd_open_device L ratbag path (St.init w)).2.world)
    (hcap : ∀ w, Inv w → (L.answer (Call.ratbag_device_has_capability device
      ratbag_capability.RATBAG_CAP_BUTTON_KEY) w).1.val ≠ 0)
    (a : Int) (ha0 : 0 ≤ a) (han : a < n) (hactive : active a)
    (hlow : ∀ i, 0 ≤ i → i < a → ¬ active i) :
    ∃ s : St W, Steps L (fun e => e.no_setter = true) (St.init w) s ∧ Inv s.world
      ∧ ratbag_cmd_change_button L ratbag flags [arg, action_str, action_arg, path] (St.init w)
        = (if (libcall L (Call.ratbag_profile_get_button_by_index (P a) (u32 (L.atoi arg)))
              s).1.val = 0 then
            change_button_out L device (P a)
              (libcall L (Call.ratbag_profile_get_button_by_index (P a) (u32 (L.atoi arg)))
                s).1.val 1
              (error ("Invalid button number " ++ fmt_d (L.atoi arg) ++ "\n")
                (libcall L (Call.ratbag_profile_get_button_by_index (P a) (u32 (L.atoi arg)))
                  s).2)
          else
            let button :=
              libcall L (Call.ratbag_profile_get_button_by_index (P a) (u32 (L.atoi arg))) s
            let rc := libcall L (change_button_setter button.1.val act) button.2
            if rc.1.val ≠ 0 then
              change_button_out L device (P a) button.1.val rc.1.val
                (error ("Unable to perform button " ++ fmt_d (L.atoi arg) ++ " mapping "
                  ++ action_str ++ " " ++ action_arg ++ "\n") rc.2)
            else
              let rc2 := libcall L (Call.ratbag_profile_set_active (P a)) rc.2
              if rc2.1.val ≠ 0 then
                change_button_out L device (P a) button.1.val rc2.1.val
                  (error ("Unable to apply the current profile: " ++ L.strerror (-rc2.1.val)
                    ++ " (" ++ fmt_d rc2.1.val ++ ")\n") rc2.2)
              else change_button_out L device (P a) button.1.val rc2.1.val rc2.2) := by
  have hst := change_button_action_state L action_str action_arg _ act hact
  have hs1 : Steps L (fun e => e.no_setter = true) (St.init w)
      (ratbag_cmd_open_device L ratbag path (St.init w)).2 :=
    Steps.open_device ratbag path (Steps.refl _) is_open_no_setter
  have hi1 := hinv
  unfold ratbag_cmd_change_button
  dsimp only
  generalize change_button_action L action_str action_arg (St.init w) = pa at hact hst ⊢
  obtain ⟨o, s0⟩ := pa
  simp only at hact hst
  subst hact hst
  dsimp only
  generalize ratbag_cmd_open_device L ratbag path (St.init w) = od at hopen hs1 hi1 ⊢
  obtain ⟨d, s1⟩ := od
  simp only at hopen hs1 hi1 ⊢
  subst hopen
  obtain ⟨hstable, hnum, hprof, hact2⟩ := id hL
  rw [if_neg hdev]
  have hc : (libcall L (Call.ratbag_device_has_capability d
      ratbag_capability.RATBAG_CAP_BUTTON_KEY) s1).1.val ≠ 0 := hcap _ hi1
  obtain ⟨hs2, hi2⟩ := Steps.query hstable (Call.ratbag_device_has_capability d
      ratbag_capability.RATBAG_CAP_BUTTON_KEY) rfl hs1 hi1
  generalize libcall L (Call.ratbag_device_has_capability d
      ratbag_capability.RATBAG_CAP_BUTTON_KEY) s1 = r2 at hc hs2 hi2 ⊢
  obtain ⟨a2, s2⟩ := r2
  simp only at hc hs2 hi2 ⊢
  rw [if_neg hc]
  obtain ⟨hf1, hf2, hf3⟩ := find_active_profile_search L Inv d n P active hL a ha0 han hactive
    hlow s2 hi2
  have hs3 : Steps L (fun e => e.no_setter = true) (St.init w) (find_active_profile L d s2).2 :=
    Steps.active_profile_loop d (is_search_no_setter d) _ _ _ hs2
  generalize find_active_profile L d s2 = r3 at hf1 hf2 hf3 hs3 ⊢
  obtain ⟨p3, s3⟩ := r3
  simp only at hf1 hf2 hf3 hs3 ⊢
  subst hf1
  rw [if_neg hf2]
  exact ⟨s3, hs3, hf3, rfl⟩

/-- C6: on a device with the button-key capability whose lowest active
profile has index `a`, and with a button index for which
`ratbag_profile_get_button_by_index` hands out a button, change-button calls
one setter on that button, `ratbag_button_set_button` for `button`,
`ratbag_button_set_key` without modifiers for `key`, `ratbag_button_set_special`
for `special`, each with the parsed value; if that call returns 0, and only
then, it calls `ratbag_profile_set_active` once, on the active profile; these
are all the setter calls it makes, and it returns 0 exactly if both calls
returned 0. -/
theorem change_button_sets_and_commits (L : Lib W) (Inv : W → Prop) (device : Ptr) (n : Int)
    (P : Int → Ptr) (active : Int → Prop) (hL : ShowsProfiles L Inv device n P active)
    (ratbag : Ptr) (flags : Nat) (arg action_str action_arg path : String) (w : W)
    (act : button_action)
    (hact : (change_button_action L action_str action_arg (St.init w)).1 = some act)
    (hopen : (ratbag_cmd_open_device L ratbag path (St.init w)).1 = device) (hdev : device ≠ 0)
    (hinv : Inv (ratbag_cmd_open_device L ratbag path (St.init w)).2.world)
    (hcap : ∀ w, Inv w → (L.answer (Call.ratbag_device_has_capability device
      ratbag_capability.RATBAG_CAP_BUTTON_KEY) w).1.val ≠ 0)
    (a : Int) (ha0 : 0 ≤ a) (han : a < n) (hactive : active a)
    (hlow : ∀ i, 0 ≤ i → i < a → ¬ active i)
    (button : Ptr) (hb : button ≠ 0)
    (hbutton : ∀ w, Inv w → (L.answer
      (Call.ratbag_profile_get_button_by_index (P a) (u32 (L.atoi arg))) w).1.val = button) :
    ((action_str = "button"
        ∧ change_button_setter button act
          = Call.ratbag_button_set_button button (u32 (L.atoi action_arg)))
      ∨ (action_str = "key"
        ∧ change_button_setter button act
          = Call.ratbag_button_set_key button
              (u32 (L.libevdev_event_code_from_name EV_KEY action_arg)) [])
      ∨ (action_str = "special"
        ∧ change_button_setter button act
          = Call.ratbag_button_set_special button (str_to_special_action action_arg).val))
    ∧ ∃ a1 a2 : Ans,
      setter_calls (ratbag_cmd_change_button L ratbag flags [arg, action_str, action_arg, path]
          (St.init w)).2.trace
        = (change_button_setter button act, a1)
            :: (if a1.val = 0 then [(Call.ratbag_profile_set_active (P a), a2)] else [])
      ∧ ((ratbag_cmd_change_button L ratbag flags [arg, action_str, action_arg, path]
          (St.init w)).1 = 0 ↔ a1.val = 0 ∧ a2.val = 0) := by
  constructor
  · unfold change_button_action at hact
    split_ifs at hact with h1 h2 h3 h4 h5 <;> simp at hact <;> subst hact
    · exact Or.inl ⟨h1, rfl⟩
    · exact Or.inr (Or.inl ⟨h2, rfl⟩)
    · exact Or.inr (Or.inr ⟨h4, rfl⟩)
  · obtain ⟨s, hs, hi, heq⟩ := change_button_reaches_lookup L Inv device n P active hL ratbag
      flags arg action_str action_arg path w act hact hopen hdev hinv hcap a ha0 han hactive hlow
    rw [heq]
    have hbv : (libcall L (Call.ratbag_profile_get_button_by_index (P a) (u32 (L.atoi arg)))
        s).1.val = button := hbutton _ hi
    have hs2 : Steps L (fun e => e.no_setter = true) (St.init w)
        (libcall L (Call.ratbag_profile_get_button_by_index (P a) (u32 (L.atoi arg))) s).2 :=
      Steps.call _ hs rfl
    generalize libcall L (Call.ratbag_profile_get_button_by_index (P a) (u32 (L.atoi arg))) s
      = rb at hbv hs2 ⊢
    obtain ⟨ab, sb⟩ := rb
    simp only at hbv hs2 ⊢
    subst hbv
    rw [if_neg hb]
    have hset : setter_calls sb.trace = [] := hs2.setter_calls
    have hsetter : (change_button_setter ab.val act).is_setter = true := by
      cases act <;> rfl
    refine ⟨(libcall L (change_button_setter ab.val act) sb).1,
      (libcall L (Call.ratbag_profile_set_active (P a))
        (libcall L (change_button_setter ab.val act) sb).2).1, ?_, ?_⟩
    · split_ifs with h1 h2 h3 h4 <;>
        simp_all [change_button_out, setter_calls_append, Call.is_setter]
    · split_ifs with h1 h2 <;> simp_all [change_button_out]

/-- An instance of `change_button_sets_and_commits`: button 3 of the mouse is
mapped to button 5 in the active profile 1. -/
theorem change_button_sets_and_commits_witness :
    (("button" = "button"
        ∧ change_button_setter 2003 (button_action.button 5)
          = Call.ratbag_button_set_button 2003 (u32 (Mouse.atoi "5")))
      ∨ ("button" = "key"
        ∧ change_button_setter 2003 (button_action.button 5)
          = Call.ratbag_button_set_key 2003
              (u32 ((Mouse.lib 3 2 8).libevdev_event_code_from_name EV_KEY "5")) [])
      ∨ ("button" = "special"
        ∧ change_button_setter 2003 (button_action.button 5)
          = Call.ratbag_button_set_special 2003 (str_to_special_action "5").val))
    ∧ ∃ a1 a2 : Ans,
      setter_calls (ratbag_cmd_change_button (Mouse.lib 3 2 8) 1 0
          ["3", "button", "5", "/dev/input/event0"] (St.init { active := 1 })).2.trace
        = (change_button_setter 2003 (button_action.button 5), a1)
            :: (if a1.val = 0 then [(Call.ratbag_profile_set_active (100 + 1), a2)] else [])
      ∧ ((ratbag_cmd_change_button (Mouse.lib 3 2 8) 1 0
          ["3", "button", "5", "/dev/input/event0"] (St.init { active := 1 })).1 = 0
        ↔ a1.val = 0 ∧ a2.val = 0) :=
  change_button_sets_and_commits (Mouse.lib 3 2 8) (fun m => m.active = 1) 10 3
    (fun i => 100 + i) (fun i => i = 1) (mouse_shows_profiles 3 2 8 (by decide) (by decide) 1)
    1 0 "3" "button" "5" "/dev/input/event0" { active := 1 } (button_action.button 5)
    (by decide) (by decide) (by decide) rfl (fun _ _ => by simp [Mouse.lib, Mouse.answer])
    1 (by decide) (by decide) rfl (fun i _ _ _ => by omega) 2003 (by decide)
    (fun _ _ => rfl)

/-- C7: let `ratbag_profile_get_button_by_index` return `NULL` for every index
that is not below the button count (a count of at most `2 ^ 31`).  On a device
with the button-key capability and an active profile, change-button with a
button index (an `int`) that is negative or not below the count returns a
non-zero status, calls no setter, neither on a button nor
`ratbag_profile_set_active`, and writes `Invalid button number` with the
index on standard error. -/
theorem change_button_rejects_missing_button (L : Lib W) (Inv : W → Prop) (device : Ptr)
    (n : Int) (P : Int → Ptr) (active : Int → Prop)
    (hL : ShowsProfiles L Inv device n P active)
    (ratbag : Ptr) (flags : Nat) (arg action_str action_arg path : String) (w : W)
    (act : button_action)
    (hact : (change_button_action L action_str action_arg (St.init w)).1 = some act)
    (hopen : (ratbag_cmd_open_device L ratbag path (St.init w)).1 = device) (hdev : device ≠ 0)
    (hinv : Inv (ratbag_cmd_open_device L ratbag path (St.init w)).2.world)
    (hcap : ∀ w, Inv w → (L.answer (Call.ratbag_device_has_capability device
      ratbag_capability.RATBAG_CAP_BUTTON_KEY) w).1.val ≠ 0)
    (a : Int) (ha0 : 0 ≤ a) (han : a < n) (hactive : active a)
    (hlow : ∀ i, 0 ≤ i → i < a → ¬ active i)
    (num_buttons : Int) (hnb : num_buttons ≤ 2147483648)
    (hcontract : ∀ w p i, Inv w → num_buttons ≤ i →
      (L.answer (Call.ratbag_profile_get_button_by_index p i) w).1.val = 0)
    (hint : -2147483648 ≤ L.atoi arg ∧ L.atoi arg < 2147483648)
    (hidx : L.atoi arg < 0 ∨ num_buttons ≤ L.atoi arg) :
    (ratbag_cmd_change_button L ratbag flags [arg, action_str, action_arg, path]
        (St.init w)).1 ≠ 0
    ∧ setter_calls (ratbag_cmd_change_button L ratbag flags
        [arg, action_str, action_arg, path] (St.init w)).2.trace = []
    ∧ ("Invalid button number " ++ fmt_d (L.atoi arg) ++ "\n")
      ∈ written Stream.stderr (ratbag_cmd_change_button L ratbag flags
        [arg, action_str, action_arg, path] (St.init w)).2.trace := by
  obtain ⟨s, hs, hi, heq⟩ := change_button_reaches_lookup L Inv device n P active hL ratbag
    flags arg action_str action_arg path w act hact hopen hdev hinv hcap a ha0 han hactive hlow
  rw [heq]
  have hge : num_buttons ≤ u32 (L.atoi arg) := by
    unfold u32; omega
  have hbv : (libcall L (Call.ratbag_profile_get_button_by_index (P a) (u32 (L.atoi arg)))
      s).1.val = 0 := hcontract _ _ _ hi hge
  have hs2 : Steps L (fun e => e.no_setter = true) (St.init w)
      (libcall L (Call.ratbag_profile_get_button_by_index (P a) (u32 (L.atoi arg))) s).2 :=
    Steps.call _ hs rfl
  rw [if_pos hbv]
  generalize libcall L (Call.ratbag_profile_get_button_by_index (P a) (u32 (L.atoi arg))) s
    = rb at hbv hs2 ⊢
  obtain ⟨ab, sb⟩ := rb
  simp only at hbv hs2 ⊢
  have hset : setter_calls sb.trace = [] := hs2.setter_calls
  refine ⟨by simp [change_button_out], ?_, ?_⟩
  · simp [change_button_out, setter_calls_append, hset, Call.is_setter]
  · simp [change_button_out, written_append, written]

/-- An instance of `change_button_rejects_missing_button`: button -1 of the
mouse with eight buttons. -/
theorem change_button_rejects_missing_button_witness :
    (ratbag_cmd_change_button (Mouse.lib 3 2 8) 1 0 ["-1", "button", "5", "/dev/input/event0"]
        (St.init { active := 1 })).1 ≠ 0
    ∧ setter_calls (ratbag_cmd_change_button (Mouse.lib 3 2 8) 1 0
        ["-1", "button", "5", "/dev/input/event0"] (St.init { active := 1 })).2.trace = []
    ∧ ("Invalid button number " ++ fmt_d ((Mouse.lib 3 2 8).atoi "-1") ++ "\n")
      ∈ written Stream.stderr (ratbag_cmd_change_button (Mouse.lib 3 2 8) 1 0
        ["-1", "button", "5", "/dev/input/event0"] (St.init { active := 1 })).2.trace :=
  change_button_rejects_missing_button (Mouse.lib 3 2 8) (fun m => m.active = 1) 10 3
    (fun i => 100 + i) (fun i => i = 1) (mouse_shows_profiles 3 2 8 (by decide) (by decide) 1)
    1 0 "-1" "button" "5" "/dev/input/event0" { active := 1 } (button_action.button 5)
    (by decide) (by decide) (by decide) rfl (fun _ _ => by simp [Mouse.lib, Mouse.answer])
    1 (by decide) (by decide) rfl (fun i _ _ _ => by omega) 8 (by decide)
    (fun w p i _ h => by
      have h2 : ¬ (0 ≤ i ∧ i < 8) := by omega
      simp [Mouse.lib, Mouse.answer, h2])
    (by decide) (by decide)

/-! ### switch-dpi -/

theorem i32_lt (x : Int) : i32 x < 2147483648 := by
  unfold i32; omega

theorem switch_dpi_loop_fuel (L : Lib W) (device profile : Ptr) (dpi : Int) (fuel : Nat)
    (i rc : Int) (s : St W) (hi : i < 2147483648) (hf : 2147483648 - i ≤ fuel) :
    switch_dpi_loop L device profile dpi (fuel + 1) i rc s
      = switch_dpi_loop L device profile dpi fuel i rc s := by
  induction fuel generalizing i rc s with
  | zero => omega
  | succ fuel ih =>
    rw [switch_dpi_loop, switch_dpi_loop.eq_def _ _ _ _ (fuel + 1)]
    dsimp only
    have := i32_lt (libcall L (Call.ratbag_profile_get_num_resolutions profile) s).1.val
    split_ifs with h1 h2 h3
    · exact ih _ _ _ (by omega) (by omega)
    · exact ih _ _ _ (by omega) (by omega)
    · exact ih _ _ _ (by omega) (by omega)
    · rfl

theorem info_resolutions_fuel (L : Lib W) (profile : Ptr) (fuel : Nat) (j : Int) (s : St W)
    (hj : j < 2147483648) (hf : 2147483648 - j ≤ fuel) :
    info_resolutions L profile (fuel + 1) j s = info_resolutions L profile fuel j s := by
  induction fuel generalizing j s with
  | zero => omega
  | succ fuel ih =>
    rw [info_resolutions.eq_def L profile (fuel + 1 + 1) j s,
      info_resolutions.eq_def L profile (fuel + 1) j s]
    dsimp only
    have := i32_lt (libcall L (Call.ratbag_profile_get_num_resolutions profile) s).1.val
    by_cases h1 : j < i32 (libcall L (Call.ratbag_profile_get_num_resolutions profile) s).1.val
    · rw [if_pos h1, if_pos h1]
      exact ih _ _ (by omega) (by omega)
    · rw [if_neg h1, if_neg h1]

theorem switch_dpi_loop_calls {L : Lib W} {Inv : W → Prop} {profile : Ptr} {m : Int}
    {R : Int → Ptr} {active : Int → Prop}
    (hstable : ∀ c w, c.is_query = true → Inv w → Inv (L.answer c w).2)
    (hR : ShowsResolutions L Inv profile m R active) (device : Ptr) (dpi : Int)
    (fuel : Nat) (i rc : Int) (s : St W) (hs : Inv s.world) (h0 : 0 ≤ i) (hf : m - i < fuel) :
    ∃ scs : List (Call × Ans),
      setter_calls (switch_dpi_loop L device profile dpi fuel i rc s).2.trace
        = setter_calls s.trace ++ scs
      ∧ SwitchDpiCalls m R active dpi i rc scs
          (switch_dpi_loop L device profile dpi fuel i rc s).1 := by
  obtain ⟨hnum, hres, hact, hset⟩ := hR
  induction fuel generalizing i rc s with
  | zero =>
    refine ⟨[], by simp [switch_dpi_loop], by simp, ?_, fun _ => ⟨rfl, rfl⟩,
      fun _ => ⟨by simp, ?_, fun _ => rfl⟩⟩
    · intro j hj1 hj2; omega
    · intro ca hca
      simp at hca
  | succ fuel ih =>
    rw [switch_dpi_loop]
    dsimp only
    have hn : i32 (libcall L (Call.ratbag_profile_get_num_resolutions profile) s).1.val = m :=
      hnum _ hs
    have hi1 : Inv (libcall L (Call.ratbag_profile_get_num_resolutions profile) s).2.world :=
      hstable _ _ rfl hs
    have ht1 : setter_calls (libcall L (Call.ratbag_profile_get_num_resolutions profile)
        s).2.trace = setter_calls s.trace := by
      simp [setter_calls_append, Call.is_setter]
    generalize libcall L (Call.ratbag_profile_get_num_resolutions profile) s = r1
      at hn hi1 ht1 ⊢
    obtain ⟨a1, s1⟩ := r1
    simp only at hn hi1 ht1 ⊢
    rw [hn]
    by_cases him : i < m
    · rw [if_pos him]
      have hr : (libcall L (Call.ratbag_profile_get_resolution profile i) s1).1.val = R i :=
        hres _ _ hi1 h0 him
      have hi2 : Inv (libcall L (Call.ratbag_profile_get_resolution profile i) s1).2.world :=
        hstable _ _ rfl hi1
      have ht2 : setter_calls (libcall L (Call.ratbag_profile_get_resolution profile i)
          s1).2.trace = setter_calls s.trace := by
        simp [setter_calls_append, Call.is_setter, ht1]
      generalize libcall L (Call.ratbag_profile_get_resolution profile i) s1 = r2
        at hr hi2 ht2 ⊢
      obtain ⟨a2, s2⟩ := r2
      simp only at hr hi2 ht2 ⊢
      rw [hr]
      have ha : (libcall L (Call.ratbag_resolution_is_active (R i)) s2).1.val ≠ 0 ↔ active i :=
        hact _ _ hi2 h0 him
      have hi3 : Inv (libcall L (Call.ratbag_resolution_is_active (R i)) s2).2.world :=
        hstable _ _ rfl hi2
      have ht3 : setter_calls (libcall L (Call.ratbag_resolution_is_active (R i))
          s2).2.trace = setter_calls s.trace := by
        simp [setter_calls_append, Call.is_setter, ht2]
      generalize libcall L (Call.ratbag_resolution_is_active (R i)) s2 = r3 at ha hi3 ht3 ⊢
      obtain ⟨a3, s3⟩ := r3
      simp only at ha hi3 ht3 ⊢
      by_cases hai : active i
      · rw [if_pos (ha.2 hai)]
        have hi4 : Inv (libcall L (Call.ratbag_resolution_set_dpi (R i) (u32 dpi))
            s3).2.world := hset _ _ _ hi3
        have ht4 : setter_calls (libcall L (Call.ratbag_resolution_set_dpi (R i) (u32 dpi))
            s3).2.trace = setter_calls s.trace
              ++ [(Call.ratbag_resolution_set_dpi (R i) (u32 dpi),
                (libcall L (Call.ratbag_resolution_set_dpi (R i) (u32 dpi)) s3).1)] := by
          simp [setter_calls_append, Call.is_setter, ht3]
        generalize libcall L (Call.ratbag_resolution_set_dpi (R i) (u32 dpi)) s3 = r4
          at hi4 ht4 ⊢
        obtain ⟨a4, s4⟩ := r4
        simp only at hi4 ht4 ⊢
        have key : ∀ s5 : St W, Inv s5.world →
            setter_calls s5.trace = setter_calls s.trace
              ++ [(Call.ratbag_resolution_set_dpi (R i) (u32 dpi), a4)] →
            ∃ scs : List (Call × Ans),
              setter_calls (switch_dpi_loop L device profile dpi fuel (i + 1) a4.val s5).2.trace
                = setter_calls s.trace ++ scs
              ∧ SwitchDpiCalls m R active dpi i rc scs
                  (switch_dpi_loop L device profile dpi fuel (i + 1) a4.val s5).1 := by
          intro s5 hi5 ht5
          obtain ⟨scs, h1, h2, h5, h3, h4⟩ := ih (i + 1) a4.val s5 hi5 (by omega) (by omega)
          refine ⟨(Call.ratbag_resolution_set_dpi (R i) (u32 dpi), a4) :: scs, ?_, ?_, ?_, ?_, ?_⟩
          · rw [h1, ht5]; simp
          · intro ca hca
            rcases List.mem_cons.1 hca with h | h
            · exact ⟨i, le_refl i, him, hai, by rw [h]⟩
            · obtain ⟨j, hj1, hj2, hj3, hj4⟩ := h2 ca h
              exact ⟨j, by omega, hj2, hj3, hj4⟩
          · intro j hj1 hj2 hj3
            by_cases hji : j = i
            · subst hji
              exact ⟨a4, List.mem_cons_self _ _⟩
            · obtain ⟨ans, hans⟩ := h5 j (by omega) hj2 hj3
              exact ⟨ans, List.mem_cons_of_mem _ hans⟩
          · intro hnone
            exact absurd hai (hnone i (le_refl i) him)
          · intro hone
            have hrest : ∀ j, i + 1 ≤ j → j < m → ¬ active j := by
              intro j hj1 hj2 hj3
              have := hone i j (le_refl i) him (by omega) hj2 hai hj3
              omega
            obtain ⟨hnil, hrc⟩ := h3 hrest
            subst hnil
            refine ⟨by simp, ?_, by simp⟩
            intro ca hca
            simp only [List.cons.injEq, and_true] at hca
            rw [hrc, ← hca]
        split_ifs with hz
        · exact key _ (hstable _ _ rfl (hstable _ _ rfl hi4))
            (by simp [setter_calls_append, Call.is_setter, ht4])
        · exact key _ (hstable _ _ rfl hi4)
            (by simp [setter_calls_append, Call.is_setter, ht4])
      · rw [if_neg (fun h => hai (ha.1 h))]
        obtain ⟨scs, h1, h2, h5, h3, h4⟩ := ih (i + 1) rc
          (libcall L (Call.ratbag_resolution_unref (R i)) s3).2 (hstable _ _ rfl hi3)
          (by omega) (by omega)
        refine ⟨scs, ?_, ?_, ?_, ?_, ?_⟩
        · rw [h1]; simp [setter_calls_append, Call.is_setter, ht3]
        · intro ca hca
          obtain ⟨j, hj1, hj2, hj3, hj4⟩ := h2 ca hca
          exact ⟨j, by omega, hj2, hj3, hj4⟩
        · intro j hj1 hj2 hj3
          have hji : j ≠ i := fun h => hai (h ▸ hj3)
          exact h5 j (by omega) hj2 hj3
        · intro hnone
          exact h3 (fun j hj1 hj2 => hnone j (by omega) hj2)
        · intro hone
          exact h4 (fun j k hj1 hj2 hk1 hk2 => hone j k (by omega) hj2 (by omega) hk2)
    · rw [if_neg him]
      refine ⟨[], by simp [ht1], by simp, ?_, fun _ => ⟨rfl, rfl⟩,
        fun _ => ⟨by simp, ?_, fun _ => rfl⟩⟩
      · intro j hj1 hj2; omega
      · intro ca hca
        simp at hca

/-- C8: on a device with switchable resolution whose lowest active profile
has index `a`, switch-dpi calls no setter but `ratbag_resolution_set_dpi`,
only on resolutions of that profile that report active, each time with the
dpi of the command line (as an `unsigned int`), and every resolution that
reports active gets one such call.  If no resolution reports active there is
no call and the status is 1.  If at most one resolution reports active there
is at most one call, and where there is one the status is its result. -/
theorem switch_dpi_sets_active_resolution (L : Lib W) (Inv : W → Prop) (device : Ptr) (n : Int)
    (P : Int → Ptr) (active : Int → Prop) (hL : ShowsProfiles L Inv device n P active)
    (ratbag : Ptr) (flags : Nat) (arg path : String) (w : W)
    (hopen : (ratbag_cmd_open_device L ratbag path (St.init w)).1 = device) (hdev : device ≠ 0)
    (hinv : Inv (ratbag_cmd_open_device L ratbag path (St.init w)).2.world)
    (hcap : ∀ w, Inv w → (L.answer (Call.ratbag_device_has_capability device
      ratbag_capability.RATBAG_CAP_SWITCHABLE_RESOLUTION) w).1.val ≠ 0)
    (a : Int) (ha0 : 0 ≤ a) (han : a < n) (hactive : active a)
    (hlow : ∀ i, 0 ≤ i → i < a → ¬ active i)
    (m : Int) (R : Int → Ptr) (res_active : Int → Prop)
    (hR : ShowsResolutions L Inv (P a) m R res_active) :
    (∀ ca ∈ setter_calls (ratbag_cmd_switch_dpi L ratbag flags [arg, path] (St.init w)).2.trace,
        ∃ j, 0 ≤ j ∧ j < m ∧ res_active j
          ∧ ca.1 = Call.ratbag_resolution_set_dpi (R j) (u32 (L.atoi arg)))
    ∧ (∀ j, 0 ≤ j → j < m → res_active j → ∃ ans,
        (Call.ratbag_resolution_set_dpi (R j) (u32 (L.atoi arg)), ans)
          ∈ setter_calls (ratbag_cmd_switch_dpi L ratbag flags [arg, path] (St.init w)).2.trace)
    ∧ ((∀ j, 0 ≤ j → j < m → ¬ res_active j) →
        setter_calls (ratbag_cmd_switch_dpi L ratbag flags [arg, path] (St.init w)).2.trace = []
        ∧ (ratbag_cmd_switch_dpi L ratbag flags [arg, path] (St.init w)).1 = 1)
    ∧ ((∀ j k, 0 ≤ j → j < m → 0 ≤ k → k < m → res_active j → res_active k → j = k) →
        (setter_calls
          (ratbag_cmd_switch_dpi L ratbag flags [arg, path] (St.init w)).2.trace).length ≤ 1
        ∧ ∀ ca,
          setter_calls (ratbag_cmd_switch_dpi L ratbag flags [arg, path] (St.init w)).2.trace
            = [ca] →
          (ratbag_cmd_switch_dpi L ratbag flags [arg, path] (St.init w)).1 = ca.2.val) := by
  have hs1 : Steps L (fun e => e.no_setter = true) (St.init w)
      (ratbag_cmd_open_device L ratbag path (St.init w)).2 :=
    Steps.open_device ratbag path (Steps.refl _) is_open_no_setter
  have hi1 := hinv
  unfold ratbag_cmd_switch_dpi
  dsimp only
  generalize ratbag_cmd_open_device L ratbag path (St.init w) = od at hopen hs1 hi1 ⊢
  obtain ⟨d, s1⟩ := od
  simp only at hopen hs1 hi1 ⊢
  subst hopen
  obtain ⟨hstable, hnum, hprof, hact2⟩ := id hL
  rw [if_neg hdev]
  have hc : (libcall L (Call.ratbag_device_has_capability d
      ratbag_capability.RATBAG_CAP_SWITCHABLE_RESOLUTION) s1).1.val ≠ 0 := hcap _ hi1
  obtain ⟨hs2, hi2⟩ := Steps.query hstable (Call.ratbag_device_has_capability d
      ratbag_capability.RATBAG_CAP_SWITCHABLE_RESOLUTION) rfl hs1 hi1
  generalize libcall L (Call.ratbag_device_has_capability d
      ratbag_capability.RATBAG_CAP_SWITCHABLE_RESOLUTION) s1 = r2 at hc hs2 hi2 ⊢
  obtain ⟨a2, s2⟩ := r2
  simp only at hc hs2 hi2 ⊢
  rw [if_neg hc]
  obtain ⟨hf1, hf2, hf3⟩ := find_active_profile_search L Inv d n P active hL a ha0 han hactive
    hlow s2 hi2
  have hs3 : Steps L (fun e => e.no_setter = true) (St.init w) (find_active_profile L d s2).2 :=
    Steps.active_profile_loop d (is_search_no_setter d) _ _ _ hs2
  generalize find_active_profile L d s2 = r3 at hf1 hf2 hf3 hs3 ⊢
  obtain ⟨p3, s3⟩ := r3
  simp only at hf1 hf2 hf3 hs3 ⊢
  subst hf1
  rw [if_neg hf2]
  have hm : m < 2147483648 := by
    rw [← hR.1 _ hf3]; exact i32_lt _
  obtain ⟨scs, h1, h2, h5, h3, h4⟩ := switch_dpi_loop_calls hstable hR d (L.atoi arg)
    2147483648 0 1 s3 hf3 (le_refl 0) (by omega)
  have hset : setter_calls s3.trace = [] := hs3.setter_calls
  have htr : setter_calls (profile_device_out L d (P a)
      (switch_dpi_loop L d (P a) (L.atoi arg) 2147483648 0 1 s3).1
      (switch_dpi_loop L d (P a) (L.atoi arg) 2147483648 0 1 s3).2).2.trace = scs := by
    simp [profile_device_out, setter_calls_append, Call.is_setter, h1, hset]
  rw [htr]
  refine ⟨h2, h5, h3, fun hone => ⟨(h4 hone).1, (h4 hone).2.1⟩⟩

theorem mouse_shows_resolutions (np nr nb : Int) (hnr : 0 ≤ nr) (hnr2 : nr < 2147483648)
    (a : Int) :
    ShowsResolutions (Mouse.lib np nr nb) (fun m => m.active = a) (100 + a) nr
      (fun j => 1000 + 10 * a + j) (fun j => j = 0) := by
  refine ⟨?_, ?_, ?_, ?_⟩
  · intro w _
    simp [Mouse.lib, Mouse.answer, i32]
    omega
  · intro w j _ h0 hj
    simp [Mouse.lib, Mouse.answer, h0, hj]
  · intro w j hw h0 hj
    simp [Mouse.lib, Mouse.answer, hw]
    split_ifs with h <;> simp_all
  · intro w r dpi hw
    exact hw

/-- An instance of `switch_dpi_sets_active_resolution`: the mouse with two
resolutions in each profile, profile 1 active, set to 1600 dpi. -/
theorem switch_dpi_sets_active_resolution_witness :
    ∃ ans, (Call.ratbag_resolution_set_dpi (1000 + 10 * 1 + 0) (u32 (Mouse.atoi "1600")), ans)
      ∈ setter_calls (ratbag_cmd_switch_dpi (Mouse.lib 3 2 8) 1 0 ["1600", "/dev/input/event0"]
          (St.init { active := 1 })).2.trace :=
  (switch_dpi_sets_active_resolution (Mouse.lib 3 2 8) (fun m => m.active = 1) 10 3
    (fun i => 100 + i) (fun i => i = 1) (mouse_shows_profiles 3 2 8 (by decide) (by decide) 1)
    1 0 "1600" "/dev/input/event0" { active := 1 } (by decide) (by decide) rfl
    (fun _ _ => by simp [Mouse.lib, Mouse.answer])
    1 (by decide) (by decide) rfl (fun i _ _ _ => by omega) 2 (fun j => 1000 + 10 * 1 + j)
    (fun j => j = 0) (mouse_shows_resolutions 3 2 8 (by decide) (by decide) 1)).2.1
    0 (by decide) (by decide) rfl

/-! ### switch-profile and the range of the index -/

theorem Steps.mem_trace {L : Lib W} {K : Event → Prop} {s t : St W} (h : Steps L K s t)
    {e : Event} (he : e ∈ s.trace) : e ∈ t.trace := by
  obtain ⟨ext, hext, _⟩ := h.trace_eq
  rw [hext]
  exact List.mem_append_left _ he

/-- C2 (as the code behaves): on a device with switchable profiles that
reports `n` profiles, switch-profile with the index `n`, or with a negative
index, passes the range check `index > num_profiles` and calls
`ratbag_device_get_profile_by_index` with that index as an `unsigned int`,
which is not below `n`. -/
theorem switch_profile_fetches_out_of_range (L : Lib W) (Inv : W → Prop) (device : Ptr)
    (n : Int) (P : Int → Ptr) (active : Int → Prop)
    (hL : ShowsProfiles L Inv device n P active)
    (ratbag : Ptr) (flags : Nat) (arg path : String) (w : W)
    (hopen : (ratbag_cmd_open_device L ratbag path (St.init w)).1 = device) (hdev : device ≠ 0)
    (hinv : Inv (ratbag_cmd_open_device L ratbag path (St.init w)).2.world)
    (hcap : ∀ w, Inv w → (L.answer (Call.ratbag_device_has_capability device
      ratbag_capability.RATBAG_CAP_SWITCHABLE_PROFILE) w).1.val ≠ 0)
    (hn : n < 2147483648) (hint : -2147483648 ≤ L.atoi arg)
    (hidx : L.atoi arg = n ∨ L.atoi arg < 0) :
    n ≤ u32 (L.atoi arg)
    ∧ ∃ ans : Ans,
      (Call.ratbag_device_get_profile_by_index device (u32 (L.atoi arg)), ans)
        ∈ calls (ratbag_cmd_switch_profile L ratbag flags [arg, path] (St.init w)).2.trace := by
  have hs1 : Steps L (fun e => e.no_setter = true) (St.init w)
      (ratbag_cmd_open_device L ratbag path (St.init w)).2 :=
    Steps.open_device ratbag path (Steps.refl _) is_open_no_setter
  have hi1 := hinv
  unfold ratbag_cmd_switch_profile
  dsimp only
  generalize ratbag_cmd_open_device L ratbag path (St.init w) = od at hopen hs1 hi1 ⊢
  obtain ⟨d, s1⟩ := od
  simp only at hopen hs1 hi1 ⊢
  subst hopen
  obtain ⟨hstable, hnum, hprof, hactive⟩ := id hL
  rw [if_neg hdev]
  have hc : (libcall L (Call.ratbag_device_has_capability d
      ratbag_capability.RATBAG_CAP_SWITCHABLE_PROFILE) s1).1.val ≠ 0 := hcap _ hi1
  obtain ⟨hs2, hi2⟩ := Steps.query hstable (Call.ratbag_device_has_capability d
      ratbag_capability.RATBAG_CAP_SWITCHABLE_PROFILE) rfl hs1 hi1
  generalize libcall L (Call.ratbag_device_has_capability d
      ratbag_capability.RATBAG_CAP_SWITCHABLE_PROFILE) s1 = r2 at hc hs2 hi2 ⊢
  obtain ⟨a2, s2⟩ := r2
  simp only at hc hs2 hi2 ⊢
  rw [if_neg hc]
  have hnp : u32 (libcall L (Call.ratbag_device_get_num_profiles d) s2).1.val = n := hnum _ hi2
  have hn0 : 0 ≤ n := by rw [← hnp]; exact u32_nonneg _
  generalize libcall L (Call.ratbag_device_get_num_profiles d) s2 = r3 at hnp ⊢
  obtain ⟨a3, s3⟩ := r3
  simp only at hnp ⊢
  rw [hnp, i32_of_range n hn0 hn, if_neg (by omega)]
  have hmem : Event.call (Call.ratbag_device_get_profile_by_index d (u32 (L.atoi arg)))
      (libcall L (Call.ratbag_device_get_profile_by_index d (u32 (L.atoi arg))) s3).1
      ∈ (libcall L (Call.ratbag_device_get_profile_by_index d (u32 (L.atoi arg))) s3).2.trace := by
    simp
  generalize libcall L (Call.ratbag_device_get_profile_by_index d (u32 (L.atoi arg))) s3 = r4
    at hmem ⊢
  obtain ⟨a4, s4⟩ := r4
  simp only at hmem ⊢
  have hloop : ∀ t : St W, Event.call (Call.ratbag_device_get_profile_by_index d
      (u32 (L.atoi arg))) a4 ∈ t.trace →
      Event.call (Call.ratbag_device_get_profile_by_index d (u32 (L.atoi arg))) a4
        ∈ (switch_profile_loop L d n.toNat 0 t).2.trace := fun t ht =>
    (Steps.switch_profile_loop (K := fun _ => True) d (fun _ _ => trivial) _ _ _
      (Steps.refl t)).mem_trace ht
  refine ⟨by unfold u32; omega, a4, mem_calls.2 ?_⟩
  split_ifs
  · simp [switch_profile_out, hmem]
  · simp only [switch_profile_out, libcall_trace, error_trace, List.mem_append]
    exact Or.inl (Or.inl (Or.inl (Or.inl (hloop _ (by simp [hmem])))))
  · simp only [switch_profile_out, libcall_trace, printf_trace, List.mem_append]
    exact Or.inl (Or.inl (Or.inl (Or.inl (Or.inl (Or.inl (hloop _ (by simp [hmem])))))))
  · simp only [switch_profile_out, libcall_trace, List.mem_append]
    exact Or.inl (Or.inl (Or.inl (Or.inl (hloop _ (by simp [hmem])))))

/-- An instance of `switch_profile_fetches_out_of_range`: the mouse with one
profile, asked for profile 1. -/
theorem switch_profile_fetches_out_of_range_witness :
    (1 : Int) ≤ u32 (Mouse.atoi "1")
    ∧ ∃ ans : Ans,
      (Call.ratbag_device_get_profile_by_index 10 (u32 (Mouse.atoi "1")), ans)
        ∈ calls (ratbag_cmd_switch_profile (Mouse.lib 1 2 8) 1 0 ["1", "/dev/input/event0"]
          (St.init { active := 0 })).2.trace :=
  switch_profile_fetches_out_of_range (Mouse.lib 1 2 8) (fun m => m.active = 0) 10 1
    (fun i => 100 + i) (fun i => i = 0) (mouse_shows_profiles 1 2 8 (by decide) (by decide) 0)
    1 0 "1" "/dev/input/event0" { active := 0 } (by decide) (by decide) rfl
    (fun _ _ => by simp [Mouse.lib, Mouse.answer]) (by decide) (by decide) (Or.inl (by decide))

/-! ### Failures and diagnostics -/

theorem Steps.switch_dpi_loop {L : Lib W} {s : St W} (device profile : Ptr) (dpi : Int)
    (fuel : Nat) (i rc : Int) (t : St W) (h : Steps L (fun _ => True) s t) :
    Steps L (fun _ => True) s (switch_dpi_loop L device profile dpi fuel i rc t).2 := by
  induction fuel generalizing i rc t with
  | zero => exact h
  | succ fuel ih =>
    rw [Ratbag.switch_dpi_loop]
    dsimp only
    split_ifs
    · exact ih _ _ _ (Steps.call _ (Steps.printf _ (Steps.call _ (Steps.call _ (Steps.call _
        (Steps.call _ (Steps.call _ h trivial) trivial) trivial) trivial) trivial) trivial)
        trivial)
    · exact ih _ _ _ (Steps.call _ (Steps.error _ (Steps.call _ (Steps.call _
        (Steps.call _ (Steps.call _ h trivial) trivial) trivial) trivial) (fun _ _ => trivial))
        trivial)
    · exact ih _ _ _ (Steps.call _ (Steps.call _ (Steps.call _ (Steps.call _ h trivial) trivial)
        trivial) trivial)
    · exact Steps.call _ h trivial

theorem Steps.switch_etekcity_toggle {L : Lib W} {s : St W} (button_6 button_7 : Ptr)
    (t : St W) (h : Steps L (fun _ => True) s t) :
    Steps L (fun _ => True) s (switch_etekcity_toggle L button_6 button_7 t).2 := by
  have he : ∀ u : St W, Steps L (fun _ => True) s u →
      Steps L (fun _ => True) s (switch_etekcity_enable L button_6 button_7 u).2 := by
    intro u hu
    unfold switch_etekcity_enable
    dsimp only
    split_ifs
    · exact Steps.call _ (Steps.call _ (Steps.call _ (Steps.call _ hu trivial) trivial) trivial)
        trivial
    · exact Steps.call _ (Steps.call _ hu trivial) trivial
    · exact Steps.call _ hu trivial
  unfold Ratbag.switch_etekcity_toggle
  dsimp only
  split_ifs
  · exact Steps.call _ (Steps.call _ (Steps.call _ (Steps.call _ h trivial) trivial) trivial)
      trivial
  · exact he _ (Steps.call _ (Steps.call _ h trivial) trivial)
  · exact he _ (Steps.call _ h trivial)

theorem Steps.wrote_stderr {L : Lib W} {K : Event → Prop} {s t : St W} (h : Steps L K s t)
    (hs : written Stream.stderr s.trace ≠ []) : written Stream.stderr t.trace ≠ [] := by
  obtain ⟨ext, hext, _⟩ := h.trace_eq
  rw [hext, written_append]
  simp [hs]

@[simp] theorem written_libcall (L : Lib W) (st : Stream) (c : Call) (s : St W) :
    written st (libcall L c s).2.trace = written st s.trace := by
  simp [written_append, written]

@[simp] theorem written_stderr_error (text : String) (s : St W) :
    written Stream.stderr (error text s).trace ≠ [] := by
  simp [written_append, written]

@[simp] theorem written_stderr_printf (text : String) (s : St W) :
    written Stream.stderr (printf text s).trace = written Stream.stderr s.trace := by
  simp [written_append, written]

theorem switch_dpi_loop_status (L : Lib W) (device profile : Ptr) (dpi : Int) (fuel : Nat)
    (i rc : Int) (s : St W)
    (h : (switch_dpi_loop L device profile dpi fuel i rc s).1 ≠ 0) :
    written Stream.stderr (switch_dpi_loop L device profile dpi fuel i rc s).2.trace ≠ []
    ∨ ((switch_dpi_loop L device profile dpi fuel i rc s).1 = rc
      ∧ setter_calls (switch_dpi_loop L device profile dpi fuel i rc s).2.trace
        = setter_calls s.trace) := by
  induction fuel generalizing i rc s with
  | zero => exact Or.inr ⟨rfl, rfl⟩
  | succ fuel ih =>
    rw [switch_dpi_loop] at h ⊢
    dsimp only at h ⊢
    split_ifs at h ⊢ with h1 h2 h3
    · rcases ih _ _ _ h with h4 | ⟨h4, _⟩
      · exact Or.inl h4
      · rw [h4] at h; exact absurd h3 h
    · exact Or.inl ((Steps.switch_dpi_loop device profile dpi fuel _ _ _
        (Steps.refl _)).wrote_stderr (by simp [written_append, written]))
    · rcases ih _ _ _ h with h4 | ⟨h4, h5⟩
      · exact Or.inl h4
      · refine Or.inr ⟨h4, ?_⟩
        rw [h5]
        simp [setter_calls_append, Call.is_setter]
    · refine Or.inr ⟨rfl, ?_⟩
      simp [setter_calls_append, Call.is_setter]

theorem switch_dpi_loop_reached (L : Lib W) (device profile : Ptr) (dpi : Int) (fuel : Nat)
    (i rc : Int) (s : St W) :
    called Call.is_num_resolutions
      (switch_dpi_loop L device profile dpi (fuel + 1) i rc s).2.trace := by
  have hmem : Event.call (Call.ratbag_profile_get_num_resolutions profile)
      (libcall L (Call.ratbag_profile_get_num_resolutions profile) s).1
      ∈ (libcall L (Call.ratbag_profile_get_num_resolutions profile) s).2.trace := by simp
  have hsteps : Steps L (fun _ => True)
      (libcall L (Call.ratbag_profile_get_num_resolutions profile) s).2
      (switch_dpi_loop L device profile dpi (fuel + 1) i rc s).2 := by
    rw [switch_dpi_loop]
    dsimp only
    split_ifs
    · exact Steps.switch_dpi_loop _ _ _ _ _ _ _ (Steps.call _ (Steps.printf _ (Steps.call _
        (Steps.call _ (Steps.call _ (Steps.call _ (Steps.refl _) trivial) trivial) trivial)
        trivial) trivial) trivial)
    · exact Steps.switch_dpi_loop _ _ _ _ _ _ _ (Steps.call _ (Steps.error _ (Steps.call _
        (Steps.call _ (Steps.call _ (Steps.refl _) trivial) trivial) trivial)
        (fun _ _ => trivial)) trivial)
    · exact Steps.switch_dpi_loop _ _ _ _ _ _ _ (Steps.call _ (Steps.call _ (Steps.call _
        (Steps.refl _) trivial) trivial) trivial)
    · exact Steps.refl _
  exact ⟨_, mem_calls.2 (hsteps.mem_trace hmem), rfl⟩

theorem info_status (L : Lib W) (ratbag : Ptr) (flags : Nat) (argv : List String) (w : W)
    (h : (ratbag_cmd_info L ratbag flags argv (St.init w)).1 ≠ 0) :
    written Stream.stderr (ratbag_cmd_info L ratbag flags argv (St.init w)).2.trace ≠ []
    ∨ (ratbag_cmd_info L ratbag flags argv (St.init w)).2.trace = (usage L (St.init w)).trace := by
  unfold ratbag_cmd_info at h ⊢
  split at h
  · dsimp only at h ⊢
    split_ifs at h ⊢
    · exact Or.inl (by simp [written_append, written])
    · exact absurd rfl h
  · exact Or.inr rfl

theorem list_status (L : Lib W) (ratbag : Ptr) (flags : Nat) (argv : List String) (w : W)
    (h : (ratbag_cmd_list_supported_devices L ratbag flags argv (St.init w)).1 ≠ 0) :
    (ratbag_cmd_list_supported_devices L ratbag flags argv (St.init w)).2.trace
      = (usage L (St.init w)).trace := by
  unfold ratbag_cmd_list_supported_devices at h ⊢
  split at h
  · dsimp only at h ⊢
    split_ifs at h ⊢ <;> exact absurd rfl h
  · rfl

theorem change_button_status (L : Lib W) (ratbag : Ptr) (flags : Nat) (argv : List String)
    (w : W) (h : (ratbag_cmd_change_button L ratbag flags argv (St.init w)).1 ≠ 0) :
    written Stream.stderr (ratbag_cmd_change_button L ratbag flags argv (St.init w)).2.trace ≠ []
    ∨ (ratbag_cmd_change_button L ratbag flags argv (St.init w)).2.trace
      = (usage L (St.init w)).trace := by
  unfold ratbag_cmd_change_button at h ⊢
  split at h
  · rename_i arg action_str action_arg path
    dsimp only at h ⊢
    split at h
    · rename_i hnone
      unfold change_button_action at hnone ⊢
      split_ifs at hnone ⊢ <;> first
        | (left; simp [written_append, written]; done)
        | (right; rfl)
    · split_ifs at h ⊢ with h1 h2 h3 h4 h5 h6
      · exact Or.inl (by simp [written_append, written])
      · exact Or.inl (by simp [change_button_out, written_append, written])
      · exact Or.inl (by simp [change_button_out, written_append, written])
      · exact Or.inl (by simp [change_button_out, written_append, written])
      · exact Or.inl (by simp [change_button_out, written_append, written])
      · exact Or.inl (by simp [change_button_out, written_append, written])
      · simp only [change_button_out] at h
        simp only [ne_eq, not_not] at h6
        exact absurd h6 h
  · exact Or.inr rfl

theorem mem_libcall {L : Lib W} {c : Call} {s : St W} {e : Event} (h : e ∈ s.trace) :
    e ∈ (libcall L c s).2.trace := List.mem_append_left _ h

theorem mem_printf {text : String} {s : St W} {e : Event} (h : e ∈ s.trace) :
    e ∈ (printf text s).trace := List.mem_append_left _ h

theorem called_append (q : Call → Bool) (l1 l2 : List Event) :
    called q (l1 ++ l2) ↔ called q l1 ∨ called q l2 := by
  simp only [called, calls_append, List.mem_append]
  constructor
  · rintro ⟨ca, h | h, hq⟩
    · exact Or.inl ⟨ca, h, hq⟩
    · exact Or.inr ⟨ca, h, hq⟩
  · rintro (⟨ca, h, hq⟩ | ⟨ca, h, hq⟩)
    · exact ⟨ca, Or.inl h, hq⟩
    · exact ⟨ca, Or.inr h, hq⟩

@[simp] theorem called_nil (q : Call → Bool) : called q [] ↔ False := by
  simp [called, calls]

@[simp] theorem called_cons_call (q : Call → Bool) (c : Call) (a : Ans) (l : List Event) :
    called q (Event.call c a :: l) ↔ q c = true ∨ called q l := by
  simp [called, calls]

@[simp] theorem called_cons_out (q : Call → Bool) (st : Stream) (tx : String) (l : List Event) :
    called q (Event.out st tx :: l) ↔ called q l := by
  simp [called, calls]

theorem called_of_mem {q : Call → Bool} {tr : List Event} {c : Call} {a : Ans}
    (h : Event.call c a ∈ tr) (hq : q c = true) : called q tr :=
  ⟨(c, a), mem_calls.2 h, hq⟩

theorem switch_dpi_status (L : Lib W) (ratbag : Ptr) (flags : Nat) (argv : List String)
    (w : W) (h : (ratbag_cmd_switch_dpi L ratbag flags argv (St.init w)).1 ≠ 0) :
    written Stream.stderr (ratbag_cmd_switch_dpi L ratbag flags argv (St.init w)).2.trace ≠ []
    ∨ (ratbag_cmd_switch_dpi L ratbag flags argv (St.init w)).2.trace
      = (usage L (St.init w)).trace
    ∨ (called Call.is_num_resolutions
        (ratbag_cmd_switch_dpi L ratbag flags argv (St.init w)).2.trace
      ∧ setter_calls (ratbag_cmd_switch_dpi L ratbag flags argv (St.init w)).2.trace = []) := by
  unfold ratbag_cmd_switch_dpi at h ⊢
  split at h
  · rename_i arg path
    dsimp only at h ⊢
    split_ifs at h ⊢ with h1 h2 h3
    · exact Or.inl (by simp [written_append, written])
    · exact Or.inl (by simp [profile_device_out, written_append, written])
    · exact Or.inl (by simp [profile_device_out, written_append, written])
    · simp only [profile_device_out] at h ⊢
      have hs : Steps L (fun e => e.no_setter = true) (St.init w)
          (find_active_profile L (ratbag_cmd_open_device L ratbag path (St.init w)).1
            (libcall L (Call.ratbag_device_has_capability
              (ratbag_cmd_open_device L ratbag path (St.init w)).1
              ratbag_capability.RATBAG_CAP_SWITCHABLE_RESOLUTION)
              (ratbag_cmd_open_device L ratbag path (St.init w)).2).2).2 :=
        Steps.active_profile_loop _ (is_search_no_setter _) _ _ _
          (Steps.call _ (Steps.open_device ratbag path (Steps.refl _) is_open_no_setter) rfl)
      have hset := hs.setter_calls
      generalize find_active_profile L (ratbag_cmd_open_device L ratbag path (St.init w)).1
            (libcall L (Call.ratbag_device_has_capability
              (ratbag_cmd_open_device L ratbag path (St.init w)).1
              ratbag_capability.RATBAG_CAP_SWITCHABLE_RESOLUTION)
              (ratbag_cmd_open_device L ratbag path (St.init w)).2).2 = r3 at h hset ⊢
      obtain ⟨p3, s3⟩ := r3
      simp only at h hset ⊢
      rcases switch_dpi_loop_status L _ _ _ _ _ _ _ h with h4 | ⟨_, h5⟩
      · exact Or.inl (by simpa [written_append, written] using h4)
      · refine Or.inr (Or.inr ⟨?_, ?_⟩)
        · obtain ⟨ca, hca, hq⟩ := switch_dpi_loop_reached L
            (ratbag_cmd_open_device L ratbag path (St.init w)).1 p3 (L.atoi arg) 2147483647 0 1 s3
          exact ⟨ca, by simp [calls_append, hca], hq⟩
        · have h0 : setter_calls (St.init w).trace = [] := rfl
          simp [setter_calls_append, Call.is_setter, h5, hset, h0]
  · exact Or.inr (Or.inl rfl)

theorem switch_etekcity_status (L : Lib W) (ratbag : Ptr) (flags : Nat) (argv : List String)
    (w : W) (h : (ratbag_cmd_switch_etekcity L ratbag flags argv (St.init w)).1 ≠ 0) :
    written Stream.stderr
        (ratbag_cmd_switch_etekcity L ratbag flags argv (St.init w)).2.trace ≠ []
    ∨ (ratbag_cmd_switch_etekcity L ratbag flags argv (St.init w)).2.trace
      = (usage L (St.init w)).trace
    ∨ called Call.is_button_lookup
        (ratbag_cmd_switch_etekcity L ratbag flags argv (St.init w)).2.trace := by
  unfold ratbag_cmd_switch_etekcity at h ⊢
  split at h
  · rename_i path
    dsimp only at h ⊢
    split_ifs at h ⊢ with h1 h2 h3
    · exact Or.inl (by simp [written_append, written])
    · exact Or.inl (by simp [profile_device_out, written_append, written])
    · exact Or.inl (by simp [profile_device_out, written_append, written])
    all_goals
      refine Or.inr (Or.inr ?_)
      generalize find_active_profile L (ratbag_cmd_open_device L ratbag path (St.init w)).1
            (libcall L (Call.ratbag_device_has_capability
              (ratbag_cmd_open_device L ratbag path (St.init w)).1
              ratbag_capability.RATBAG_CAP_SWITCHABLE_PROFILE)
              (ratbag_cmd_open_device L ratbag path (St.init w)).2).2 = r3
      obtain ⟨p3, s3⟩ := r3
      dsimp only
      have hmem : Event.call (Call.ratbag_profile_get_button_by_index p3 6)
          (libcall L (Call.ratbag_profile_get_button_by_index p3 6) s3).1
          ∈ (switch_etekcity_toggle L
              (libcall L (Call.ratbag_profile_get_button_by_index p3 6) s3).1.val
              (libcall L (Call.ratbag_profile_get_button_by_index p3 7)
                (libcall L (Call.ratbag_profile_get_button_by_index p3 6) s3).2).1.val
              (libcall L (Call.ratbag_profile_get_button_by_index p3 7)
                (libcall L (Call.ratbag_profile_get_button_by_index p3 6) s3).2).2).2.trace :=
        (Steps.switch_etekcity_toggle _ _ _ (Steps.refl _)).mem_trace (by simp)
      refine called_of_mem (c := Call.ratbag_profile_get_button_by_index p3 6)
        (a := (libcall L (Call.ratbag_profile_get_button_by_index p3 6) s3).1) ?_ rfl
      unfold profile_device_out
      repeat first
        | exact hmem
        | apply mem_libcall
        | apply mem_printf
  · exact Or.inr (Or.inl rfl)

theorem switch_profile_status (L : Lib W) (ratbag : Ptr) (flags : Nat) (argv : List String)
    (w : W) (h : (ratbag_cmd_switch_profile L ratbag flags argv (St.init w)).1 ≠ 0) :
    written Stream.stderr
        (ratbag_cmd_switch_profile L ratbag flags argv (St.init w)).2.trace ≠ []
    ∨ (ratbag_cmd_switch_profile L ratbag flags argv (St.init w)).2.trace
      = (usage L (St.init w)).trace
    ∨ (∃ (name : Option String) (index : Int),
        ("'" ++ fmt_s name ++ "' is already in profile '" ++ fmt_d index ++ "'\n")
          ∈ written Stream.stdout
            (ratbag_cmd_switch_profile L ratbag flags argv (St.init w)).2.trace)
    ∨ called Call.is_set_active
        (ratbag_cmd_switch_profile L ratbag flags argv (St.init w)).2.trace := by
  unfold ratbag_cmd_switch_profile at h ⊢
  split at h
  · rename_i arg path
    dsimp only at h ⊢
    split_ifs at h ⊢ with h1 h2 h3 h4 h5 h6
    · exact Or.inl (by simp [written_append, written])
    · exact Or.inl (by simp [switch_profile_out, written_append, written])
    · exact Or.inl (by simp [switch_profile_out, written_append, written])
    · refine Or.inr (Or.inr (Or.inl ?_))
      apply Exists.intro
      apply Exists.intro
      simp only [switch_profile_out, written_libcall]
      rw [printf_trace, written_append]
      exact List.mem_append_right _ (List.mem_singleton_self _)
    · exact Or.inl (by simp [switch_profile_out, written_append, written])
    · exact Or.inr (Or.inr (Or.inr
        (by simp [switch_profile_out, called_append, Call.is_set_active])))
    · exact Or.inr (Or.inr (Or.inr
        (by simp [switch_profile_out, called_append, Call.is_set_active])))
  · exact Or.inr (Or.inl rfl)

/-- C3 (as stated, refuted at concrete inputs): a handler can return a
non-zero status with nothing written on standard error.  info without a path
prints the usage text on standard output; switch-profile asked for the active
profile prints its notice on standard output; switch-etekcity on a mouse
whose buttons 6 and 7 are mapped to buttons, and switch-dpi on a mouse without
resolutions, return 1 and write nothing at all. -/
theorem nonzero_status_without_diagnostic :
    ((ratbag_cmd_info no_library 1 0 [] (St.init ())).1 ≠ 0
      ∧ written Stream.stderr (ratbag_cmd_info no_library 1 0 [] (St.init ())).2.trace = [])
    ∧ ((ratbag_cmd_switch_profile (Mouse.lib 3 2 8) 1 0 ["1", "/dev/input/event0"]
          (St.init { active := 1 })).1 ≠ 0
      ∧ written Stream.stderr (ratbag_cmd_switch_profile (Mouse.lib 3 2 8) 1 0
          ["1", "/dev/input/event0"] (St.init { active := 1 })).2.trace = [])
    ∧ ((ratbag_cmd_switch_etekcity (Mouse.lib 3 2 8) 1 0 ["/dev/input/event0"]
          (St.init { active := 1 })).1 ≠ 0
      ∧ written Stream.stderr (ratbag_cmd_switch_etekcity (Mouse.lib 3 2 8) 1 0
          ["/dev/input/event0"] (St.init { active := 1 })).2.trace = []
      ∧ written Stream.stdout (ratbag_cmd_switch_etekcity (Mouse.lib 3 2 8) 1 0
          ["/dev/input/event0"] (St.init { active := 1 })).2.trace = [])
    ∧ ((ratbag_cmd_switch_dpi (Mouse.lib 3 0 8) 1 0 ["800", "/dev/input/event0"]
          (St.init { active := 1 })).1 ≠ 0
      ∧ written Stream.stderr (ratbag_cmd_switch_dpi (Mouse.lib 3 0 8) 1 0
          ["800", "/dev/input/event0"] (St.init { active := 1 })).2.trace = []
      ∧ written Stream.stdout (ratbag_cmd_switch_dpi (Mouse.lib 3 0 8) 1 0
          ["800", "/dev/input/event0"] (St.init { active := 1 })).2.trace = []) := by
  decide

/-- C3 (amended): whenever a handler returns a non-zero status, it has written
a diagnostic on standard error, or its whole trace is the usage text on
standard output (wrong number of arguments, unknown action word), or, for
switch-profile, it has written the notice `is already in profile` on standard
output.  Nothing is said of the runs of switch-etekcity that reach the lookup
of the buttons, of the runs of switch-dpi that reach the resolution loop and
call no setter, and of the runs of switch-profile that call
`ratbag_profile_set_active`. -/
theorem nonzero_status_is_reported (L : Lib W) (ratbag : Ptr) (flags : Nat)
    (argv : List String) (w : W) :
    ((ratbag_cmd_info L ratbag flags argv (St.init w)).1 ≠ 0 →
      written Stream.stderr (ratbag_cmd_info L ratbag flags argv (St.init w)).2.trace ≠ []
      ∨ (ratbag_cmd_info L ratbag flags argv (St.init w)).2.trace
        = (usage L (St.init w)).trace)
    ∧ ((ratbag_cmd_list_supported_devices L ratbag flags argv (St.init w)).1 ≠ 0 →
      (ratbag_cmd_list_supported_devices L ratbag flags argv (St.init w)).2.trace
        = (usage L (St.init w)).trace)
    ∧ ((ratbag_cmd_change_button L ratbag flags argv (St.init w)).1 ≠ 0 →
      written Stream.stderr
          (ratbag_cmd_change_button L ratbag flags argv (St.init w)).2.trace ≠ []
      ∨ (ratbag_cmd_change_button L ratbag flags argv (St.init w)).2.trace
        = (usage L (St.init w)).trace)
    ∧ ((ratbag_cmd_switch_etekcity L ratbag flags argv (St.init w)).1 ≠ 0 →
      written Stream.stderr
          (ratbag_cmd_switch_etekcity L ratbag flags argv (St.init w)).2.trace ≠ []
      ∨ (ratbag_cmd_switch_etekcity L ratbag flags argv (St.init w)).2.trace
        = (usage L (St.init w)).trace
      ∨ called Call.is_button_lookup
          (ratbag_cmd_switch_etekcity L ratbag flags argv (St.init w)).2.trace)
    ∧ ((ratbag_cmd_switch_dpi L ratbag flags argv (St.init w)).1 ≠ 0 →
      written Stream.stderr (ratbag_cmd_switch_dpi L ratbag flags argv (St.init w)).2.trace ≠ []
      ∨ (ratbag_cmd_switch_dpi L ratbag flags argv (St.init w)).2.trace
        = (usage L (St.init w)).trace
      ∨ (called Call.is_num_resolutions
          (ratbag_cmd_switch_dpi L ratbag flags argv (St.init w)).2.trace
        ∧ setter_calls (ratbag_cmd_switch_dpi L ratbag flags argv (St.init w)).2.trace = []))
    ∧ ((ratbag_cmd_switch_profile L ratbag flags argv (St.init w)).1 ≠ 0 →
      written Stream.stderr
          (ratbag_cmd_switch_profile L ratbag flags argv (St.init w)).2.trace ≠ []
      ∨ (ratbag_cmd_switch_profile L ratbag flags argv (St.init w)).2.trace
        = (usage L (St.init w)).trace
      ∨ (∃ (name : Option String) (index : Int),
          ("'" ++ fmt_s name ++ "' is already in profile '" ++ fmt_d index ++ "'\n")
            ∈ written Stream.stdout
              (ratbag_cmd_switch_profile L ratbag flags argv (St.init w)).2.trace)
      ∨ called Call.is_set_active
          (ratbag_cmd_switch_profile L ratbag flags argv (St.init w)).2.trace) :=
  ⟨info_status L ratbag flags argv w, list_status L ratbag flags argv w,
    change_button_status L ratbag flags argv w, switch_etekcity_status L ratbag flags argv w,
    switch_dpi_status L ratbag flags argv w, switch_profile_status L ratbag flags argv w⟩

/-! ### The action types and their texts (C11) -/

/-- C11: `enum ratbag_button_action_type` has exactly six members, with the
pairwise distinct values -1 (unknown), 0 (none), 1 (button), 2 (special),
3 (key) and 4 (macro), which are the values `button_action_to_str` compares
with; and `button_action_to_str` gives a text for every value the library
reports: for button the text `button N` with the number of
`ratbag_button_get_button`, for key the name libevdev has for the key of
`ratbag_button_get_key` (`UNKNOWN` if it has none), for special the name of
the special action of `ratbag_button_get_special`, for macro `macro`, for
none `none`, all without a diagnostic, and for unknown or any value that is
no member `UNKNOWN`, after an error message with the value on standard
error.  The name of a special action is the one listed here for each of the
fourteen members of `enum ratbag_button_action_special`, and `UNKNOWN` for a
value that is the value of no member. -/
theorem button_action_to_str_total (L : Lib W) (button : Ptr) (s : St W) :
    (∀ t : ratbag_button_action_type, t ∈ ratbag_button_action_type.members)
    ∧ ratbag_button_action_type.members.length = 6
    ∧ ratbag_button_action_type.members.map ratbag_button_action_type.val = [-1, 0, 1, 2, 3, 4]
    ∧ Function.Injective ratbag_button_action_type.val
    ∧ [RATBAG_BUTTON_ACTION_TYPE_UNKNOWN, RATBAG_BUTTON_ACTION_TYPE_NONE,
        RATBAG_BUTTON_ACTION_TYPE_BUTTON, RATBAG_BUTTON_ACTION_TYPE_SPECIAL,
        RATBAG_BUTTON_ACTION_TYPE_KEY, RATBAG_BUTTON_ACTION_TYPE_MACRO]
        = ratbag_button_action_type.members.map ratbag_button_action_type.val
    ∧ (∀ type s1, libcall L (Call.ratbag_button_get_action_type button) s = (type, s1) →
        (type.val = 1 →
          button_action_to_str L button s
            = ("button " ++ fmt_d (i32 (libcall L (Call.ratbag_button_get_button button) s1).1.val),
               (libcall L (Call.ratbag_button_get_button button) s1).2))
        ∧ (type.val = 3 →
          button_action_to_str L button s
            = ((L.libevdev_event_code_get_name EV_KEY
                  (libcall L (Call.ratbag_button_get_key button 10) s1).1.val).getD "UNKNOWN",
               (libcall L (Call.ratbag_button_get_key button 10) s1).2))
        ∧ (type.val = 2 →
          button_action_to_str L button s
            = (special_to_str (libcall L (Call.ratbag_button_get_special button) s1).1.val,
               (libcall L (Call.ratbag_button_get_special button) s1).2))
        ∧ (type.val = 4 → button_action_to_str L button s = ("macro", s1))
        ∧ (type.val = 0 → button_action_to_str L button s = ("none", s1))
        ∧ (type.val ∈ [0, 1, 2, 3, 4] →
            written Stream.stderr (button_action_to_str L button s).2.trace
              = written Stream.stderr s.trace)
        ∧ ((type.val = -1 ∨ ∀ t : ratbag_button_action_type, type.val ≠ t.val) →
          button_action_to_str L button s
            = ("UNKNOWN",
               { world := s1.world,
                 trace := s1.trace ++ [Event.out Stream.stderr "Error: ",
                   Event.out Stream.stderr ("type " ++ fmt_d type.val ++ " unknown\n")] })))
    ∧ (ratbag_button_action_special.members.map (fun sp => (sp, special_to_str sp.val))
        = [(ratbag_button_action_special.RATBAG_BUTTON_ACTION_SPECIAL_INVALID, "invalid"),
           (ratbag_button_action_special.RATBAG_BUTTON_ACTION_SPECIAL_UNKNOWN, "unknown"),
           (ratbag_button_action_special.RATBAG_BUTTON_ACTION_SPECIAL_DOUBLECLICK,
             "double click"),
           (ratbag_button_action_special.RATBAG_BUTTON_ACTION_SPECIAL_WHEEL_LEFT, "wheel left"),
           (ratbag_button_action_special.RATBAG_BUTTON_ACTION_SPECIAL_WHEEL_RIGHT,
             "wheel right"),
           (ratbag_button_action_special.RATBAG_BUTTON_ACTION_SPECIAL_WHEEL_UP, "wheel up"),
           (ratbag_button_action_special.RATBAG_BUTTON_ACTION_SPECIAL_WHEEL_DOWN, "wheel down"),
           (ratbag_button_action_special.RATBAG_BUTTON_ACTION_SPECIAL_RATCHET_MODE_SWITCH,
             "ratchet mode switch"),
           (ratbag_button_action_special.RATBAG_BUTTON_ACTION_SPECIAL_RESOLUTION_CYCLE_UP,
             "resolution cycle up"),
           (ratbag_button_action_special.RATBAG_BUTTON_ACTION_SPECIAL_RESOLUTION_UP,
             "resolution up"),
           (ratbag_button_action_special.RATBAG_BUTTON_ACTION_SPECIAL_RESOLUTION_DOWN,
             "resolution down"),
           (ratbag_button_action_special.RATBAG_BUTTON_ACTION_SPECIAL_PROFILE_CYCLE_UP,
             "profile cycle up"),
           (ratbag_button_action_special.RATBAG_BUTTON_ACTION_SPECIAL_PROFILE_UP, "profile up"),
           (ratbag_button_action_special.RATBAG_BUTTON_ACTION_SPECIAL_PROFILE_DOWN,
             "profile down")])
    ∧ (∀ special : Int, (∀ sp : ratbag_button_action_special, sp.val ≠ special) →
        special_to_str special = "UNKNOWN") := by
  refine ⟨fun t => by cases t <;> decide, rfl, rfl, ?_, rfl, ?_, by decide, ?_⟩
  · intro a b h
    cases a <;> cases b <;> first | rfl | exact absurd h (by decide)
  rotate_left
  · intro special h
    unfold special_to_str
    rw [List.find?_eq_none.mpr]
    intro c _
    simpa using h c.1
  · intro type s1 h
    have hu : ∀ v : Int, v ≠ 0 → v ≠ 1 → v ≠ 2 → v ≠ 3 → v ≠ 4 →
        button_action_to_str L button s
          = ("UNKNOWN", error ("type " ++ fmt_d type.val ++ " unknown\n") s1) ∨ type.val ≠ v := by
      intro v h0 h1 h2 h3 h4
      by_cases hv : type.val = v
      · left
        subst hv
        simp only [button_action_to_str, h, RATBAG_BUTTON_ACTION_TYPE_BUTTON,
          RATBAG_BUTTON_ACTION_TYPE_KEY, RATBAG_BUTTON_ACTION_TYPE_SPECIAL,
          RATBAG_BUTTON_ACTION_TYPE_MACRO, RATBAG_BUTTON_ACTION_TYPE_NONE,
          if_neg h0, if_neg h1, if_neg h2, if_neg h3, if_neg h4]
      · exact Or.inr hv
    refine ⟨?_, ?_, ?_, ?_, ?_, ?_, ?_⟩
    · intro ht
      simp [button_action_to_str, button_action_button_to_str, h, ht,
        RATBAG_BUTTON_ACTION_TYPE_BUTTON]
    · intro ht
      simp [button_action_to_str, button_action_key_to_str, h, ht,
        RATBAG_BUTTON_ACTION_TYPE_BUTTON, RATBAG_BUTTON_ACTION_TYPE_KEY]
    · intro ht
      simp [button_action_to_str, button_action_special_to_str, h, ht,
        RATBAG_BUTTON_ACTION_TYPE_BUTTON, RATBAG_BUTTON_ACTION_TYPE_KEY,
        RATBAG_BUTTON_ACTION_TYPE_SPECIAL]
    · intro ht
      simp [button_action_to_str, h, ht,
        RATBAG_BUTTON_ACTION_TYPE_BUTTON, RATBAG_BUTTON_ACTION_TYPE_KEY,
        RATBAG_BUTTON_ACTION_TYPE_SPECIAL, RATBAG_BUTTON_ACTION_TYPE_MACRO]
    · intro ht
      simp [button_action_to_str, h, ht,
        RATBAG_BUTTON_ACTION_TYPE_BUTTON, RATBAG_BUTTON_ACTION_TYPE_KEY,
        RATBAG_BUTTON_ACTION_TYPE_SPECIAL, RATBAG_BUTTON_ACTION_TYPE_MACRO,
        RATBAG_BUTTON_ACTION_TYPE_NONE]
    · intro ht
      have hs1 : written Stream.stderr s1.trace = written Stream.stderr s.trace := by
        have := congrArg (fun r => written Stream.stderr r.2.trace) h
        simpa [written_append, written] using this.symm
      simp only [List.mem_cons, List.mem_singleton, List.not_mem_nil, or_false] at ht
      rcases ht with ht | ht | ht | ht | ht <;>
        simp [button_action_to_str, button_action_button_to_str, button_action_key_to_str,
          button_action_special_to_str, h, ht, hs1, written_append, written,
          RATBAG_BUTTON_ACTION_TYPE_BUTTON, RATBAG_BUTTON_ACTION_TYPE_KEY,
          RATBAG_BUTTON_ACTION_TYPE_SPECIAL, RATBAG_BUTTON_ACTION_TYPE_MACRO,
          RATBAG_BUTTON_ACTION_TYPE_NONE]
    · intro ht
      have key : button_action_to_str L button s
          = ("UNKNOWN", error ("type " ++ fmt_d type.val ++ " unknown\n") s1) := by
        rcases ht with ht | ht
        · rcases hu (-1) (by decide) (by decide) (by decide) (by decide) (by decide) with h' | h'
          · exact h'
          · exact absurd ht h'
        · rcases hu type.val (ht .RATBAG_BUTTON_ACTION_TYPE_NONE)
              (ht .RATBAG_BUTTON_ACTION_TYPE_BUTTON) (ht .RATBAG_BUTTON_ACTION_TYPE_SPECIAL)
              (ht .RATBAG_BUTTON_ACTION_TYPE_KEY) (ht .RATBAG_BUTTON_ACTION_TYPE_MACRO) with h' | h'
          · exact h'
          · exact absurd rfl h'
      rw [key]
      simp [error, printf]

/-! ### The button number of change-button (C20) -/

/-- C20: change-button with the action `button` does not check the number.
On a device with the button-key capability, an active profile and a button
at the given index, an argument for which `atoi` gives a number below 1
(`0`, a negative number, a text that is no number) is passed to
`ratbag_button_set_button` all the same, converted to `unsigned int`: as 0, or
as a number of at least `2 ^ 31` for a negative one; the status is 0 if the
library accepts the call and `ratbag_profile_set_active` succeeds. -/
theorem change_button_passes_number_below_one (L : Lib W) (Inv : W → Prop) (device : Ptr)
    (n : Int) (P : Int → Ptr) (active : Int → Prop)
    (hL : ShowsProfiles L Inv device n P active)
    (ratbag : Ptr) (flags : Nat) (arg action_arg path : String) (w : W)
    (hopen : (ratbag_cmd_open_device L ratbag path (St.init w)).1 = device) (hdev : device ≠ 0)
    (hinv : Inv (ratbag_cmd_open_device L ratbag path (St.init w)).2.world)
    (hcap : ∀ w, Inv w → (L.answer (Call.ratbag_device_has_capability device
      ratbag_capability.RATBAG_CAP_BUTTON_KEY) w).1.val ≠ 0)
    (a : Int) (ha0 : 0 ≤ a) (han : a < n) (hactive : active a)
    (hlow : ∀ i, 0 ≤ i → i < a → ¬ active i)
    (button : Ptr) (hb : button ≠ 0)
    (hbutton : ∀ w, Inv w → (L.answer
      (Call.ratbag_profile_get_button_by_index (P a) (u32 (L.atoi arg))) w).1.val = button)
    (hint : -2147483648 ≤ L.atoi action_arg) (hbad : L.atoi action_arg < 1) :
    (u32 (L.atoi action_arg) = 0 ∨ 2147483648 ≤ u32 (L.atoi action_arg))
    ∧ ∃ a1 a2 : Ans,
      setter_calls (ratbag_cmd_change_button L ratbag flags [arg, "button", action_arg, path]
          (St.init w)).2.trace
        = (Call.ratbag_button_set_button button (u32 (L.atoi action_arg)), a1)
            :: (if a1.val = 0 then [(Call.ratbag_profile_set_active (P a), a2)] else [])
      ∧ ((ratbag_cmd_change_button L ratbag flags [arg, "button", action_arg, path]
          (St.init w)).1 = 0 ↔ a1.val = 0 ∧ a2.val = 0) := by
  constructor
  · unfold u32; omega
  · obtain ⟨s, hs, hi, heq⟩ := change_button_reaches_lookup L Inv device n P active hL ratbag
      flags arg "button" action_arg path w (button_action.button (u32 (L.atoi action_arg))) rfl
      hopen hdev hinv hcap a ha0 han hactive hlow
    rw [heq]
    have hbv : (libcall L (Call.ratbag_profile_get_button_by_index (P a) (u32 (L.atoi arg)))
        s).1.val = button := hbutton _ hi
    have hs2 : Steps L (fun e => e.no_setter = true) (St.init w)
        (libcall L (Call.ratbag_profile_get_button_by_index (P a) (u32 (L.atoi arg))) s).2 :=
      Steps.call _ hs rfl
    generalize libcall L (Call.ratbag_profile_get_button_by_index (P a) (u32 (L.atoi arg))) s
      = rb at hbv hs2 ⊢
    obtain ⟨ab, sb⟩ := rb
    simp only at hbv hs2 ⊢
    subst hbv
    rw [if_neg hb]
    have hset : setter_calls sb.trace = [] := hs2.setter_calls
    refine ⟨(libcall L (Call.ratbag_button_set_button ab.val (u32 (L.atoi action_arg))) sb).1,
      (libcall L (Call.ratbag_profile_set_active (P a))
        (libcall L (Call.ratbag_button_set_button ab.val (u32 (L.atoi action_arg))) sb).2).1,
      ?_, ?_⟩
    · simp only [change_button_setter]
      split_ifs with h1 h2 h3 h4 <;>
        simp_all [change_button_out, setter_calls_append, Call.is_setter]
    · simp only [change_button_setter]
      split_ifs with h1 h2 <;> simp_all [change_button_out]

/-- An instance of `change_button_passes_number_below_one`: with the argument
`0`, button 3 of the mouse is set to the button number 0 and the profile is
committed; the status is 0. -/
theorem change_button_passes_number_below_one_witness :
    (u32 (Mouse.atoi "0") = 0 ∨ 2147483648 ≤ u32 (Mouse.atoi "0"))
    ∧ ∃ a1 a2 : Ans,
      setter_calls (ratbag_cmd_change_button (Mouse.lib 3 2 8) 1 0
          ["3", "button", "0", "/dev/input/event0"] (St.init { active := 1 })).2.trace
        = (Call.ratbag_button_set_button 2003 (u32 (Mouse.atoi "0")), a1)
            :: (if a1.val = 0 then [(Call.ratbag_profile_set_active (100 + 1), a2)] else [])
      ∧ ((ratbag_cmd_change_button (Mouse.lib 3 2 8) 1 0
          ["3", "button", "0", "/dev/input/event0"] (St.init { active := 1 })).1 = 0
        ↔ a1.val = 0 ∧ a2.val = 0) :=
  change_button_passes_number_below_one (Mouse.lib 3 2 8) (fun m => m.active = 1) 10 3
    (fun i => 100 + i) (fun i => i = 1) (mouse_shows_profiles 3 2 8 (by decide) (by decide) 1)
    1 0 "3" "0" "/dev/input/event0" { active := 1 }
    (by decide) (by decide) rfl (fun _ _ => by simp [Mouse.lib, Mouse.answer])
    1 (by decide) (by decide) rfl (fun i _ _ _ => by omega) 2003 (by decide)
    (fun _ _ => rfl) (by decide) (by decide)

/-- Runs of change-button with the action `button` on the small mouse,
evaluated: the arguments `0`, `-2` and `x` reach `ratbag_button_set_button`
as 0, 4294967294 and 0, and each run returns 0. -/
theorem change_button_number_below_one_runs :
    ([ "0", "-2", "x" ].map fun action_arg =>
      let r := ratbag_cmd_change_button (Mouse.lib 3 2 8) 1 0
        ["3", "button", action_arg, "/dev/input/event0"] (St.init { active := 1 })
      (r.1, (setter_calls r.2.trace).map (fun ca => ca.1)))
    = [(0, [Call.ratbag_button_set_button 2003 0, Call.ratbag_profile_set_active 101]),
       (0, [Call.ratbag_button_set_button 2003 4294967294, Call.ratbag_profile_set_active 101]),
       (0, [Call.ratbag_button_set_button 2003 0, Call.ratbag_profile_set_active 101])] := by
  decide

/-! ### Disabled resolution modes in info (C17) -/

/-- C17: the resolution loop of info looks at the dpi only.  For a mode, at a
valid index `j`, whose dpi is not 0 and whose report rate is 0 Hz, the
iteration of the loop writes one line on standard output, the line with the
dpi, the rate `0Hz` and the markers of `ratbag_resolution_is_active` and
`ratbag_resolution_is_default`, where the line `<disabled>` is documented. -/
theorem info_prints_mode_with_rate_zero (L : Lib W) (profile : Ptr) (fuel : Nat) (j : Int)
    (s : St W) (n res dpi rate : Ans × St W)
    (hn : libcall L (Call.ratbag_profile_get_num_resolutions profile) s = n)
    (hj : j < i32 n.1.val)
    (hres : libcall L (Call.ratbag_profile_get_resolution profile j) n.2 = res)
    (hdpi : libcall L (Call.ratbag_resolution_get_dpi res.1.val) res.2 = dpi)
    (hrate : libcall L (Call.ratbag_resolution_get_report_rate res.1.val) dpi.2 = rate)
    (hd : dpi.1.val ≠ 0) (hr : rate.1.val = 0) :
    ∃ (active dflt : Ans) (s1 : St W),
      info_resolutions L profile (fuel + 1) j s = info_resolutions L profile fuel (j + 1) s1
      ∧ written Stream.stdout s1.trace
        = written Stream.stdout s.trace
          ++ ["      " ++ fmt_d j ++ ": " ++ fmt_d dpi.1.val ++ "dpi @ " ++ fmt_d 0 ++ "Hz"
              ++ (if active.val ≠ 0 then " (active)" else "")
              ++ (if dflt.val ≠ 0 then " (default)" else "") ++ "\n"] := by
  have t1 : written Stream.stdout rate.2.trace = written Stream.stdout s.trace := by
    rw [← hrate, ← hdpi, ← hres, ← hn]
    simp [written_append, written]
  have h : info_resolutions L profile (fuel + 1) j s
      = info_resolutions L profile fuel (j + 1)
        (libcall L (Call.ratbag_resolution_unref res.1.val)
          (printf ("      " ++ fmt_d j ++ ": " ++ fmt_d dpi.1.val ++ "dpi @ " ++ fmt_d rate.1.val
              ++ "Hz"
              ++ (if (libcall L (Call.ratbag_resolution_is_active res.1.val) rate.2).1.val ≠ 0
                  then " (active)" else "")
              ++ (if (libcall L (Call.ratbag_resolution_is_default res.1.val)
                    (libcall L (Call.ratbag_resolution_is_active res.1.val) rate.2).2).1.val ≠ 0
                  then " (default)" else "") ++ "\n")
            (libcall L (Call.ratbag_resolution_is_default res.1.val)
              (libcall L (Call.ratbag_resolution_is_active res.1.val) rate.2).2).2)).2 := by
    rw [info_resolutions]
    simp only [hn, if_pos hj, hres, hdpi, hrate, if_neg hd]
  refine ⟨(libcall L (Call.ratbag_resolution_is_active res.1.val) rate.2).1,
    (libcall L (Call.ratbag_resolution_is_default res.1.val)
      (libcall L (Call.ratbag_resolution_is_active res.1.val) rate.2).2).1, _, h, ?_⟩
  simp [written_append, written, t1, hr]

/-- An instance of `info_prints_mode_with_rate_zero`: mode 1 of profile 0 of
the small mouse, with 800 dpi and a report rate of 0 Hz. -/
theorem info_prints_mode_with_rate_zero_witness :
    ∃ dpi : Ans × St Mouse, dpi.1.val = 800
      ∧ ∃ (active dflt : Ans) (s1 : St Mouse),
      info_resolutions ((Mouse.lib 1 2 0).answering Mouse.rate_zero) 100 (0 + 1) 1
          (St.init { active := 0 })
        = info_resolutions ((Mouse.lib 1 2 0).answering Mouse.rate_zero) 100 0 (1 + 1) s1
      ∧ written Stream.stdout s1.trace
        = written Stream.stdout (St.init ({ active := 0 } : Mouse)).trace
          ++ ["      " ++ fmt_d 1 ++ ": " ++ fmt_d dpi.1.val ++ "dpi @ " ++ fmt_d 0 ++ "Hz"
              ++ (if active.val ≠ 0 then " (active)" else "")
              ++ (if dflt.val ≠ 0 then " (default)" else "") ++ "\n"] :=
by
  refine ⟨_, ?_,
    info_prints_mode_with_rate_zero ((Mouse.lib 1 2 0).answering Mouse.rate_zero) 100 0 1
      (St.init { active := 0 }) _ _ _ _ rfl (by decide) rfl rfl rfl (by decide) (by decide)⟩
  decide

/-- The whole run of info on the small mouse with one profile and two modes,
mode 1 with 800 dpi and a report rate of 0 Hz: the status is 0 and the mode
is listed as `1: 800dpi @ 0Hz`. -/
theorem info_run_with_rate_zero :
    let r := ratbag_cmd_info ((Mouse.lib 1 2 0).answering Mouse.rate_zero) 1 0
      ["/dev/input/event0"] (St.init { active := 0 })
    r.1 = 0
    ∧ written Stream.stdout r.2.trace
      = ["Device 'Mouse' (/dev/input/event0)\n", "Capabilities:", " res", " profile", " btn-key",
         " btn-macros", "\n", "Number of buttons: 0\n", "Profiles supported: 1\n",
         "  Profile 0 (active)\n", "    Resolutions:\n",
         "      0: 800dpi @ 500Hz (active) (default)\n", "      1: 800dpi @ 0Hz\n"] := by
  decide

/-! ### The events of the commands -/

theorem is_walk_query (c : Call) (h : c.is_walk = true) : c.is_query = true := by
  cases c <;> first | rfl | cases h

theorem is_walk_in_command (e : Event) (h : e.is_walk = true) : e.in_command = true := by
  cases e with
  | out st tx => rfl
  | call c a => cases c <;> first | rfl | cases h

theorem is_open_in_command (e : Event) (h : e.is_open = true) : e.in_command = true := by
  cases e with
  | out st tx => rfl
  | call c a => cases c <;> first | rfl | cases h

theorem is_search_in_command (device : Ptr) (e : Event) (h : e.is_search device = true) :
    e.in_command = true := by
  cases e with
  | out st tx => rfl
  | call c a => cases c <;> first | rfl | cases h

theorem Steps.button_action_to_str {L : Lib W} {K : Event → Prop} {s : St W}
    (hk : ∀ e : Event, e.is_walk = true → K e) (button : Ptr) (t : St W) (h : Steps L K s t) :
    Steps L K s (button_action_to_str L button t).2 := by
  unfold Ratbag.button_action_to_str button_action_button_to_str button_action_key_to_str
    button_action_special_to_str
  dsimp only
  split_ifs
  · exact Steps.call _ (Steps.call _ h (hk _ rfl)) (hk _ rfl)
  · exact Steps.call _ (Steps.call _ h (hk _ rfl)) (hk _ rfl)
  · exact Steps.call _ (Steps.call _ h (hk _ rfl)) (hk _ rfl)
  · exact Steps.call _ h (hk _ rfl)
  · exact Steps.call _ h (hk _ rfl)
  · exact Steps.error _ (Steps.call _ h (hk _ rfl)) (fun e _ => hk e (by cases e <;> first | rfl | contradiction))

theorem Steps.ite {L : Lib W} {K : Event → Prop} {s a b : St W} {c : Prop} [Decidable c]
    (ha : Steps L K s a) (hb : Steps L K s b) : Steps L K s (if c then a else b) := by
  split_ifs <;> assumption

theorem Steps.ite_snd {L : Lib W} {K : Event → Prop} {s : St W} {α : Type} {a b : α × St W}
    {c : Prop} [Decidable c] (ha : Steps L K s a.2) (hb : Steps L K s b.2) :
    Steps L K s (if c then a else b).2 := by
  split_ifs <;> assumption

theorem Steps.info_resolutions {L : Lib W} {K : Event → Prop} {s : St W}
    (hk : ∀ e : Event, e.is_walk = true → K e) (profile : Ptr)
    (fuel : Nat) (j : Int) (t : St W) (h : Steps L K s t) :
    Steps L K s (info_resolutions L profile fuel j t) := by
  induction fuel generalizing j t with
  | zero => exact h
  | succ fuel ih =>
    rw [Ratbag.info_resolutions]
    dsimp only
    refine Steps.ite (ih _ _ (Steps.call _ (Steps.ite ?_ ?_) (hk _ rfl))) ?_
    all_goals
      repeat first
        | exact h
        | refine Steps.printf _ ?_ (hk _ rfl)
        | refine Steps.call _ ?_ (hk _ rfl)

theorem Steps.info_buttons {L : Lib W} {K : Event → Prop} {s : St W}
    (hk : ∀ e : Event, e.is_walk = true → K e) (profile : Ptr)
    (left : Nat) (b : Int) (t : St W) (h : Steps L K s t) :
    Steps L K s (info_buttons L profile left b t) := by
  induction left generalizing b t with
  | zero => exact h
  | succ left ih =>
    rw [Ratbag.info_buttons]
    exact ih _ _ (Steps.call _ (Steps.printf _ (Steps.button_action_to_str hk _ _
      (Steps.call _ (Steps.call _ h (hk _ rfl)) (hk _ rfl))) (hk _ rfl)) (hk _ rfl))

theorem Steps.info_profiles {L : Lib W} {K : Event → Prop} {s : St W}
    (hk : ∀ e : Event, e.is_walk = true → K e) (device : Ptr) (num_buttons : Int)
    (left : Nat) (i : Int) (t : St W) (h : Steps L K s t) :
    Steps L K s (info_profiles L device num_buttons left i t) := by
  induction left generalizing i t with
  | zero => exact h
  | succ left ih =>
    rw [Ratbag.info_profiles]
    exact ih _ _ (Steps.call _ (Steps.info_buttons hk _ _ _ _ (Steps.info_resolutions hk _ _ _ _
      (Steps.printf _ (Steps.printf _ (Steps.call _ (Steps.call _ h (hk _ rfl)) (hk _ rfl))
        (hk _ rfl)) (hk _ rfl)))) (hk _ rfl))

theorem Steps.stderr_in_command {K : Event → Prop}
    (hk : ∀ e : Event, e.in_command = true → K e) (e : Event) (h : e.is_stderr = true) : K e :=
  hk e (by cases e <;> first | rfl | cases h)

theorem Steps.stdout_in_command {K : Event → Prop}
    (hk : ∀ e : Event, e.in_command = true → K e) (e : Event) (h : e.is_stdout = true) : K e :=
  hk e (by cases e <;> first | rfl | cases h)

theorem Steps.switch_dpi_loop_command {L : Lib W} {K : Event → Prop} {s : St W}
    (hk : ∀ e : Event, e.in_command = true → K e) (device profile : Ptr) (dpi : Int)
    (fuel : Nat) (i rc : Int) (t : St W) (h : Steps L K s t) :
    Steps L K s (Ratbag.switch_dpi_loop L device profile dpi fuel i rc t).2 := by
  induction fuel generalizing i rc t with
  | zero => exact h
  | succ fuel ih =>
    rw [Ratbag.switch_dpi_loop]
    dsimp only
    refine Steps.ite_snd (Steps.ite_snd (Steps.ite_snd (ih _ _ _ ?_) (ih _ _ _ ?_)) (ih _ _ _ ?_))
      ?_
    all_goals
      repeat first
        | exact h
        | refine Steps.printf _ ?_ (hk _ rfl)
        | refine Steps.error _ ?_ (Steps.stderr_in_command hk)
        | refine Steps.call _ ?_ (hk _ rfl)

theorem Steps.switch_etekcity_toggle_command {L : Lib W} {K : Event → Prop} {s : St W}
    (hk : ∀ e : Event, e.in_command = true → K e) (button_6 button_7 : Ptr)
    (t : St W) (h : Steps L K s t) :
    Steps L K s (Ratbag.switch_etekcity_toggle L button_6 button_7 t).2 := by
  have he : ∀ u : St W, Steps L K s u →
      Steps L K s (switch_etekcity_enable L button_6 button_7 u).2 := by
    intro u hu
    unfold switch_etekcity_enable
    dsimp only
    refine Steps.ite_snd (Steps.ite_snd ?_ ?_) ?_
    all_goals
      repeat first
        | exact hu
        | refine Steps.call _ ?_ (hk _ rfl)
  unfold Ratbag.switch_etekcity_toggle
  dsimp only
  refine Steps.ite_snd (Steps.ite_snd ?_ (he _ ?_)) (he _ ?_)
  all_goals
    repeat first
      | exact h
      | refine Steps.call _ ?_ (hk _ rfl)

theorem Steps.list_loop {L : Lib W} {K : Event → Prop} {s : St W}
    (hk : ∀ e : Event, e.in_command = true → K e) (ratbag : Ptr)
    (input_list : List String) (supported : Nat) (t : St W) (h : Steps L K s t) :
    Steps L K s (list_loop L ratbag input_list supported t).2 := by
  induction input_list generalizing supported t with
  | nil => exact h
  | cons d_name rest ih =>
    rw [Ratbag.list_loop]
    dsimp only
    refine Steps.ite_snd (Steps.call _ h (hk _ rfl)) (Steps.ite_snd (ih _ _ ?_) (ih _ _ ?_))
    all_goals
      repeat first
        | exact h
        | refine Steps.open_device _ _ ?_ (fun e he => hk e (is_open_in_command e he))
        | refine Steps.printf _ ?_ (hk _ rfl)
        | refine Steps.call _ ?_ (hk _ rfl)

theorem Steps.ratbag_cmd_list_supported_devices {L : Lib W} {K : Event → Prop} {s : St W}
    (hk : ∀ e : Event, e.in_command = true → K e) (ratbag : Ptr) (flags : Nat)
    (argv : List String) (t : St W) (h : Steps L K s t) :
    Steps L K s (ratbag_cmd_list_supported_devices L ratbag flags argv t).2 := by
  unfold Ratbag.ratbag_cmd_list_supported_devices
  split
  · dsimp only
    refine Steps.ite_snd ?_ (Steps.ite_snd ?_ ?_)
    all_goals
      repeat first
        | exact h
        | refine Steps.list_loop hk _ _ _ _ ?_
        | refine Steps.printf _ ?_ (hk _ rfl)
        | refine Steps.call _ ?_ (hk _ rfl)
  · exact Steps.usage h (Steps.stdout_in_command hk)

theorem Steps.info_capability {L : Lib W} {K : Event → Prop} {s : St W}
    (hk : ∀ e : Event, e.in_command = true → K e) (device : Ptr) (cap : ratbag_capability)
    (token : String) (t : St W) (h : Steps L K s t) :
    Steps L K s (info_capability L device cap token t) := by
  unfold Ratbag.info_capability
  exact Steps.ite (Steps.printf _ (Steps.call _ h (hk _ rfl)) (hk _ rfl))
    (Steps.call _ h (hk _ rfl))

theorem Steps.ratbag_cmd_info {L : Lib W} {K : Event → Prop} {s : St W}
    (hk : ∀ e : Event, e.in_command = true → K e) (ratbag : Ptr) (flags : Nat)
    (argv : List String) (t : St W) (h : Steps L K s t) :
    Steps L K s (ratbag_cmd_info L ratbag flags argv t).2 := by
  unfold Ratbag.ratbag_cmd_info
  split
  · rename_i path
    have ho := Steps.open_device ratbag path h (fun e he => hk e (is_open_in_command e he))
    exact Steps.ite_snd (Steps.error _ ho (Steps.stderr_in_command hk))
      (Steps.call _ (Steps.info_profiles (fun e he => hk e (is_walk_in_command e he)) _ _ _ _ _
        (Steps.printf _ (Steps.call _ (Steps.printf _ (Steps.call _ (Steps.printf _
          (Steps.info_capability hk _ _ _ _ (Steps.info_capability hk _ _ _ _
            (Steps.info_capability hk _ _ _ _ (Steps.info_capability hk _ _ _ _
              (Steps.printf _ (Steps.printf _ (Steps.call _ ho (hk _ rfl)) (hk _ rfl))
                (hk _ rfl))))))
          (hk _ rfl)) (hk _ rfl)) (hk _ rfl)) (hk _ rfl)) (hk _ rfl))) (hk _ rfl))
  · exact Steps.usage h (Steps.stdout_in_command hk)

theorem Steps.ratbag_cmd_switch_etekcity {L : Lib W} {K : Event → Prop} {s : St W}
    (hk : ∀ e : Event, e.in_command = true → K e) (ratbag : Ptr) (flags : Nat)
    (argv : List String) (t : St W) (h : Steps L K s t) :
    Steps L K s (ratbag_cmd_switch_etekcity L ratbag flags argv t).2 := by
  unfold Ratbag.ratbag_cmd_switch_etekcity profile_device_out
  split
  · dsimp only
    repeat first
      | refine Steps.switch_etekcity_toggle_command hk _ _ _ ?_
      | refine Steps.active_profile_loop _ (fun e he => hk e (is_search_in_command _ e he))
          _ _ _ ?_
      | refine Steps.open_device _ _ ?_ (fun e he => hk e (is_open_in_command e he))
      | exact h
      | refine Steps.error _ ?_ (Steps.stderr_in_command hk)
      | refine Steps.printf _ ?_ (hk _ rfl)
      | refine Steps.call _ ?_ (hk _ rfl)
      | refine Steps.ite_snd ?_ ?_
      | refine Steps.ite ?_ ?_
  · exact Steps.usage h (Steps.stdout_in_command hk)

theorem Steps.ratbag_cmd_switch_dpi {L : Lib W} {K : Event → Prop} {s : St W}
    (hk : ∀ e : Event, e.in_command = true → K e) (ratbag : Ptr) (flags : Nat)
    (argv : List String) (t : St W) (h : Steps L K s t) :
    Steps L K s (ratbag_cmd_switch_dpi L ratbag flags argv t).2 := by
  unfold Ratbag.ratbag_cmd_switch_dpi profile_device_out
  split
  · dsimp only
    repeat first
      | refine Steps.switch_dpi_loop_command hk _ _ _ _ _ _ _ ?_
      | refine Steps.active_profile_loop _ (fun e he => hk e (is_search_in_command _ e he))
          _ _ _ ?_
      | refine Steps.open_device _ _ ?_ (fun e he => hk e (is_open_in_command e he))
      | exact h
      | refine Steps.error _ ?_ (Steps.stderr_in_command hk)
      | refine Steps.printf _ ?_ (hk _ rfl)
      | refine Steps.call _ ?_ (hk _ rfl)
      | refine Steps.ite_snd ?_ ?_
      | refine Steps.ite ?_ ?_
  · exact Steps.usage h (Steps.stdout_in_command hk)

theorem Steps.ratbag_cmd_switch_profile {L : Lib W} {K : Event → Prop} {s : St W}
    (hk : ∀ e : Event, e.in_command = true → K e) (ratbag : Ptr) (flags : Nat)
    (argv : List String) (t : St W) (h : Steps L K s t) :
    Steps L K s (ratbag_cmd_switch_profile L ratbag flags argv t).2 := by
  unfold Ratbag.ratbag_cmd_switch_profile switch_profile_out
  split
  · dsimp only
    repeat first
      | refine Steps.switch_profile_loop _ (fun e he => hk e (is_search_in_command _ e he))
          _ _ _ ?_
      | refine Steps.open_device _ _ ?_ (fun e he => hk e (is_open_in_command e he))
      | exact h
      | refine Steps.error _ ?_ (Steps.stderr_in_command hk)
      | refine Steps.printf _ ?_ (hk _ rfl)
      | refine Steps.call _ ?_ (hk _ rfl)
      | refine Steps.ite_snd ?_ ?_
      | refine Steps.ite ?_ ?_
  · exact Steps.usage h (Steps.stdout_in_command hk)

theorem Steps.change_button_action {L : Lib W} {K : Event → Prop} {s : St W}
    (hk : ∀ e : Event, e.in_command = true → K e) (action_str action_arg : String)
    (t : St W) (h : Steps L K s t) :
    Steps L K s (change_button_action L action_str action_arg t).2 := by
  unfold Ratbag.change_button_action
  repeat first
    | exact h
    | refine Steps.ite_snd ?_ ?_
    | refine Steps.error _ ?_ (Steps.stderr_in_command hk)
    | refine Steps.usage ?_ (Steps.stdout_in_command hk)

theorem Steps.ratbag_cmd_change_button {L : Lib W} {K : Event → Prop} {s : St W}
    (hk : ∀ e : Event, e.in_command = true → K e) (ratbag : Ptr) (flags : Nat)
    (argv : List String) (t : St W) (h : Steps L K s t) :
    Steps L K s (ratbag_cmd_change_button L ratbag flags argv t).2 := by
  unfold Ratbag.ratbag_cmd_change_button change_button_out
  split
  · dsimp only
    split
    · exact Steps.change_button_action hk _ _ _ h
    · rename_i act _
      repeat first
        | refine Steps.active_profile_loop _ (fun e he => hk e (is_search_in_command _ e he))
            _ _ _ ?_
        | refine Steps.open_device _ _ ?_ (fun e he => hk e (is_open_in_command e he))
        | refine Steps.change_button_action hk _ _ _ ?_
        | exact h
        | refine Steps.error _ ?_ (Steps.stderr_in_command hk)
        | refine Steps.printf _ ?_ (hk _ rfl)
        | refine Steps.call _ ?_ (hk _ rfl)
        | refine Steps.call _ ?_ (hk _ (by cases act <;> rfl))
        | refine Steps.ite_snd ?_ ?_
  · exact Steps.usage h (Steps.stdout_in_command hk)

/-- Every command writes and makes calls of `Call.in_command` only. -/
theorem Steps.command {L : Lib W} {K : Event → Prop} {s : St W}
    (hk : ∀ e : Event, e.in_command = true → K e) (cmd : ratbag_cmd × Handler W)
    (hcmd : cmd ∈ ratbag_commands) (ratbag : Ptr) (flags : Nat)
    (argv : List String) (t : St W) (h : Steps L K s t) :
    Steps L K s (cmd.2 L ratbag flags argv t).2 := by
  simp only [ratbag_commands, List.mem_cons, List.mem_singleton, List.not_mem_nil,
    or_false] at hcmd
  rcases hcmd with rfl | rfl | rfl | rfl | rfl | rfl
  · exact Steps.ratbag_cmd_info hk ratbag flags argv t h
  · exact Steps.ratbag_cmd_list_supported_devices hk ratbag flags argv t h
  · exact Steps.ratbag_cmd_change_button hk ratbag flags argv t h
  · exact Steps.ratbag_cmd_switch_etekcity hk ratbag flags argv t h
  · exact Steps.ratbag_cmd_switch_dpi hk ratbag flags argv t h
  · exact Steps.ratbag_cmd_switch_profile hk ratbag flags argv t h

/-! ### main with a command word (C13, C19) -/

theorem main_options_done (L : Lib W) (steps : List (Int × Option String)) (flags : Nat)
    (s : St W) (f : Nat) (h : (main_options L steps flags s).1 = OptionsEnd.done f) :
    main_options L steps flags s = (OptionsEnd.done f, s) := by
  induction steps generalizing flags with
  | nil =>
    simp only [main_options] at h ⊢
    rw [h]
  | cons o rest ih =>
    obtain ⟨c, optarg⟩ := o
    rw [main_options] at h ⊢
    by_cases h1 : c = 104 ∨ c = OPT_HELP
    · rw [if_pos h1] at h
      cases h
    · rw [if_neg h1] at h ⊢
      by_cases h2 : c = OPT_VERBOSE
      · rw [if_pos h2] at h ⊢
        by_cases h3 : optarg = some "raw"
        · rw [if_pos h3] at h ⊢
          exact ih _ h
        · rw [if_neg h3] at h ⊢
          exact ih _ h
      · rw [if_neg h2] at h
        cases h

/-- The run of `main` when there is a context, the options are read to their
end, and a command word is left. -/
theorem main_with_command (L : Lib W) (argv : List String) (w : W) (flags : Nat)
    (hctx : (libcall L Call.ratbag_create_context (St.init w)).1.val ≠ 0)
    (hopts : (main_options L (L.getopt_long argv).steps 0
      (libcall L Call.ratbag_create_context (St.init w)).2).1 = OptionsEnd.done flags)
    (hword : (L.getopt_long argv).optind < argv.length) :
    main L argv (St.init w)
      = (let ratbag := libcall L Call.ratbag_create_context (St.init w)
         let s1 :=
           if flags &&& FLAG_VERBOSE_RAW ≠ 0 then
             (libcall L (Call.ratbag_log_set_priority ratbag.1.val RATBAG_LOG_PRIORITY_RAW)
               ratbag.2).2
           else if flags &&& FLAG_VERBOSE ≠ 0 then
             (libcall L (Call.ratbag_log_set_priority ratbag.1.val RATBAG_LOG_PRIORITY_DEBUG)
               ratbag.2).2
           else ratbag.2
         match ratbag_commands.find?
             (fun cmd => cmd.1.name = argv.getD (L.getopt_long argv).optind "") with
         | some cmd =>
           main_out L ratbag.1.val
             (cmd.2 L ratbag.1.val flags (argv.drop ((L.getopt_long argv).optind + 1)) s1).1
             (cmd.2 L ratbag.1.val flags (argv.drop ((L.getopt_long argv).optind + 1)) s1).2
         | none =>
           main_out L ratbag.1.val 1
             (usage L (error ("Invalid command '"
               ++ argv.getD (L.getopt_long argv).optind "" ++ "'\n") s1))) := by
  have hdone := main_options_done L _ _ _ _ hopts
  unfold main
  simp only [if_neg hctx, hdone, if_neg (not_le.mpr hword)]

theorem find_command (word : String) (cmd : ratbag_cmd × Handler W)
    (hcmd : cmd ∈ ratbag_commands) (hname : cmd.1.name = word) :
    ratbag_commands.find? (fun c => c.1.name = word) = some cmd := by
  simp only [ratbag_commands, List.mem_cons, List.mem_singleton, List.not_mem_nil,
    or_false] at hcmd
  subst hname
  rcases hcmd with rfl | rfl | rfl | rfl | rfl | rfl <;> rfl

theorem find_no_command (word : String)
    (hnone : ∀ cmd ∈ ratbag_commands (W := W), cmd.1.name ≠ word) :
    (ratbag_commands (W := W)).find? (fun c => c.1.name = word) = none := by
  rw [List.find?_eq_none]
  intro cmd hcmd
  simpa using hnone cmd hcmd

/-- The state in which `main` looks up the command word is reached by calls
on the context only. -/
theorem Steps.log_priority {L : Lib W} {K : Event → Prop} {s : St W}
    (hk : ∀ e : Event, e.in_command = false → K e) (ratbag : Ptr) (flags : Nat) (t : St W)
    (h : Steps L K s t) :
    Steps L K s
      (if flags &&& FLAG_VERBOSE_RAW ≠ 0 then
         (libcall L (Call.ratbag_log_set_priority ratbag RATBAG_LOG_PRIORITY_RAW) t).2
       else if flags &&& FLAG_VERBOSE ≠ 0 then
         (libcall L (Call.ratbag_log_set_priority ratbag RATBAG_LOG_PRIORITY_DEBUG) t).2
       else t) :=
  Steps.ite (Steps.call _ h (hk _ rfl)) (Steps.ite (Steps.call _ h (hk _ rfl)) h)

/-- C13: the command table has the six names info, list, change-button,
switch-etekcity, switch-dpi and switch-profile, no two the same.  When there
is a context, the options are read to their end with `flags`, and the word
`argv[optind]` is left, then `main` reaches the lookup by calls on the context
only; if an entry of the table has the word as its name, `main` runs the
handler of that entry on the arguments after the word, releases the context
and returns the status of the handler; if no entry has, it writes
`Invalid command` and the usage, releases the context and returns 1, without
running a handler. -/
theorem main_runs_named_command (L : Lib W) (argv : List String) (w : W) (flags : Nat)
    (hctx : (libcall L Call.ratbag_create_context (St.init w)).1.val ≠ 0)
    (hopts : (main_options L (L.getopt_long argv).steps 0
      (libcall L Call.ratbag_create_context (St.init w)).2).1 = OptionsEnd.done flags)
    (hword : (L.getopt_long argv).optind < argv.length) :
    (ratbag_commands (W := W)).map (fun cmd => cmd.1.name)
      = ["info", "list", "change-button", "switch-etekcity", "switch-dpi", "switch-profile"]
    ∧ ((ratbag_commands (W := W)).map (fun cmd => cmd.1.name)).Nodup
    ∧ argv = argv.take (L.getopt_long argv).optind
        ++ argv.getD (L.getopt_long argv).optind ""
          :: argv.drop ((L.getopt_long argv).optind + 1)
    ∧ ∃ s1 : St W, Steps L (fun e => e.in_command = false) (St.init w) s1
      ∧ (∀ cmd ∈ ratbag_commands,
          cmd.1.name = argv.getD (L.getopt_long argv).optind "" →
          (main L argv (St.init w)).1
            = (cmd.2 L (libcall L Call.ratbag_create_context (St.init w)).1.val flags
                (argv.drop ((L.getopt_long argv).optind + 1)) s1).1
          ∧ (main L argv (St.init w)).2
            = (libcall L
                (Call.ratbag_unref (libcall L Call.ratbag_create_context (St.init w)).1.val)
                (cmd.2 L (libcall L Call.ratbag_create_context (St.init w)).1.val flags
                  (argv.drop ((L.getopt_long argv).optind + 1)) s1).2).2)
      ∧ ((∀ cmd ∈ ratbag_commands (W := W),
            cmd.1.name ≠ argv.getD (L.getopt_long argv).optind "") →
          (main L argv (St.init w)).1 = 1
          ∧ (main L argv (St.init w)).2
            = (libcall L
                (Call.ratbag_unref (libcall L Call.ratbag_create_context (St.init w)).1.val)
                (usage L (error ("Invalid command '"
                  ++ argv.getD (L.getopt_long argv).optind "" ++ "'\n") s1))).2) := by
  have hs0 : Steps L (fun e => e.in_command = false) (St.init w)
      (libcall L Call.ratbag_create_context (St.init w)).2 :=
    Steps.call Call.ratbag_create_context (Steps.refl _) rfl
  have hnames : (ratbag_commands (W := W)).map (fun cmd => cmd.1.name)
      = ["info", "list", "change-button", "switch-etekcity", "switch-dpi", "switch-profile"] :=
    rfl
  refine ⟨hnames, by rw [hnames]; decide, ?_, _,
    Steps.log_priority (fun _ he => he)
      (libcall L Call.ratbag_create_context (St.init w)).1.val flags _ hs0, ?_, ?_⟩
  · rw [List.getD_eq_getElem _ _ hword, ← List.drop_eq_getElem_cons hword,
      List.take_append_drop]
  · intro cmd hcmd hname
    rw [main_with_command L argv w flags hctx hopts hword]
    simp only [find_command _ cmd hcmd hname, main_out, and_self]
  · intro hnone
    rw [main_with_command L argv w flags hctx hopts hword]
    simp only [find_no_command _ hnone, main_out, and_self]

/-- An instance of `main_runs_named_command`: `ratbag-command switch-dpi 1600
/dev/input/event0` on the small mouse. -/
theorem main_runs_named_command_witness :
    (ratbag_commands (W := Mouse)).map (fun cmd => cmd.1.name)
      = ["info", "list", "change-button", "switch-etekcity", "switch-dpi", "switch-profile"]
    ∧ ((ratbag_commands (W := Mouse)).map (fun cmd => cmd.1.name)).Nodup
    ∧ ["ratbag-command", "switch-dpi", "1600", "/dev/input/event0"]
      = ["ratbag-command", "switch-dpi", "1600", "/dev/input/event0"].take
          ((Mouse.lib 3 2 8).getopt_long
            ["ratbag-command", "switch-dpi", "1600", "/dev/input/event0"]).optind
        ++ ["ratbag-command", "switch-dpi", "1600", "/dev/input/event0"].getD
            ((Mouse.lib 3 2 8).getopt_long
              ["ratbag-command", "switch-dpi", "1600", "/dev/input/event0"]).optind ""
          :: ["ratbag-command", "switch-dpi", "1600", "/dev/input/event0"].drop
            (((Mouse.lib 3 2 8).getopt_long
              ["ratbag-command", "switch-dpi", "1600", "/dev/input/event0"]).optind + 1)
    ∧ ∃ s1 : St Mouse,
      Steps (Mouse.lib 3 2 8) (fun e => e.in_command = false) (St.init { active := 1 }) s1
      ∧ (∀ cmd ∈ ratbag_commands,
          cmd.1.name = ["ratbag-command", "switch-dpi", "1600", "/dev/input/event0"].getD
            ((Mouse.lib 3 2 8).getopt_long
              ["ratbag-command", "switch-dpi", "1600", "/dev/input/event0"]).optind "" →
          (main (Mouse.lib 3 2 8) ["ratbag-command", "switch-dpi", "1600", "/dev/input/event0"]
              (St.init { active := 1 })).1
            = (cmd.2 (Mouse.lib 3 2 8)
                (libcall (Mouse.lib 3 2 8) Call.ratbag_create_context
                  (St.init { active := 1 })).1.val 0
                (["ratbag-command", "switch-dpi", "1600", "/dev/input/event0"].drop
                  (((Mouse.lib 3 2 8).getopt_long
                    ["ratbag-command", "switch-dpi", "1600", "/dev/input/event0"]).optind + 1))
                s1).1
          ∧ (main (Mouse.lib 3 2 8) ["ratbag-command", "switch-dpi", "1600", "/dev/input/event0"]
              (St.init { active := 1 })).2
            = (libcall (Mouse.lib 3 2 8)
                (Call.ratbag_unref (libcall (Mouse.lib 3 2 8) Call.ratbag_create_context
                  (St.init { active := 1 })).1.val)
                (cmd.2 (Mouse.lib 3 2 8)
                  (libcall (Mouse.lib 3 2 8) Call.ratbag_create_context
                    (St.init { active := 1 })).1.val 0
                  (["ratbag-command", "switch-dpi", "1600", "/dev/input/event0"].drop
                    (((Mouse.lib 3 2 8).getopt_long
                      ["ratbag-command", "switch-dpi", "1600", "/dev/input/event0"]).optind + 1))
                  s1).2).2)
      ∧ ((∀ cmd ∈ ratbag_commands (W := Mouse),
            cmd.1.name ≠ ["ratbag-command", "switch-dpi", "1600", "/dev/input/event0"].getD
              ((Mouse.lib 3 2 8).getopt_long
                ["ratbag-command", "switch-dpi", "1600", "/dev/input/event0"]).optind "") →
          (main (Mouse.lib 3 2 8) ["ratbag-command", "switch-dpi", "1600", "/dev/input/event0"]
              (St.init { active := 1 })).1 = 1
          ∧ (main (Mouse.lib 3 2 8) ["ratbag-command", "switch-dpi", "1600", "/dev/input/event0"]
              (St.init { active := 1 })).2
            = (libcall (Mouse.lib 3 2 8)
                (Call.ratbag_unref (libcall (Mouse.lib 3 2 8) Call.ratbag_create_context
                  (St.init { active := 1 })).1.val)
                (usage (Mouse.lib 3 2 8) (error ("Invalid command '"
                  ++ ["ratbag-command", "switch-dpi", "1600", "/dev/input/event0"].getD
                    ((Mouse.lib 3 2 8).getopt_long
                      ["ratbag-command", "switch-dpi", "1600", "/dev/input/event0"]).optind ""
                  ++ "'\n") s1))).2) :=
  main_runs_named_command (Mouse.lib 3 2 8)
    ["ratbag-command", "switch-dpi", "1600", "/dev/input/event0"] { active := 1 } 0
    (by decide) rfl (by decide)

theorem Steps.calls_filter {L : Lib W} {K : Event → Prop} {s t : St W} (q : Call → Bool)
    (h : Steps L K s t) (hk : ∀ c a, K (Event.call c a) → q c = false) :
    (calls t.trace).filter (fun ca => q ca.1) = (calls s.trace).filter (fun ca => q ca.1) := by
  induction h with
  | refl => rfl
  | call c _ hc ih =>
    rw [libcall_trace, calls_append, List.filter_append, ih]
    simp [calls, hk _ _ hc]
  | out st tx _ hc ih =>
    rw [← ih]
    simp [calls_append, calls]

theorem verbose_flags (flags : Nat) (h : flags < 4) :
    flags ||| FLAG_VERBOSE_RAW < 4 ∧ flags ||| FLAG_VERBOSE < 4
    ∧ (flags ||| FLAG_VERBOSE_RAW) &&& FLAG_VERBOSE_RAW ≠ 0
    ∧ (flags ||| FLAG_VERBOSE) &&& FLAG_VERBOSE ≠ 0
    ∧ ((flags ||| FLAG_VERBOSE_RAW) &&& FLAG_VERBOSE ≠ 0 ↔ flags &&& FLAG_VERBOSE ≠ 0)
    ∧ ((flags ||| FLAG_VERBOSE) &&& FLAG_VERBOSE_RAW ≠ 0 ↔ flags &&& FLAG_VERBOSE_RAW ≠ 0) := by
  interval_cases flags <;> decide

/-- The flags after a run of options that are all `--verbose`: the raw flag is
set exactly if it was set or an option has the argument `raw`, the verbose
flag exactly if it was set or an option has another argument or none. -/
theorem main_options_verbose (L : Lib W) (steps : List (Int × Option String)) (flags : Nat)
    (s : St W) (hv : ∀ o ∈ steps, o.1 = OPT_VERBOSE) (hf : flags < 4) :
    ∃ f, main_options L steps flags s = (OptionsEnd.done f, s)
      ∧ (f &&& FLAG_VERBOSE_RAW ≠ 0
          ↔ flags &&& FLAG_VERBOSE_RAW ≠ 0 ∨ ∃ o ∈ steps, o.2 = some "raw")
      ∧ (f &&& FLAG_VERBOSE ≠ 0
          ↔ flags &&& FLAG_VERBOSE ≠ 0 ∨ ∃ o ∈ steps, o.2 ≠ some "raw") := by
  induction steps generalizing flags with
  | nil => exact ⟨flags, rfl, by simp, by simp⟩
  | cons o rest ih =>
    obtain ⟨c, optarg⟩ := o
    have hc : c = OPT_VERBOSE := hv (c, optarg) (List.mem_cons_self _ _)
    have hrest : ∀ o ∈ rest, o.1 = OPT_VERBOSE := fun o ho => hv o (List.mem_cons_of_mem _ ho)
    obtain ⟨b1, b2, b3, b4, b5, b6⟩ := verbose_flags flags hf
    subst hc
    rw [main_options, if_neg (by decide), if_pos rfl]
    by_cases h3 : optarg = some "raw"
    · rw [if_pos h3]
      obtain ⟨f, hf1, hf2, hf3⟩ := ih _ hrest b1
      refine ⟨f, hf1, ?_, ?_⟩
      · rw [hf2]
        simp [b3, h3]
      · rw [hf3, b5]
        simp [h3]
    · rw [if_neg h3]
      obtain ⟨f, hf1, hf2, hf3⟩ := ih _ hrest b2
      refine ⟨f, hf1, ?_, ?_⟩
      · rw [hf2, b6]
        simp [h3]
      · rw [hf3]
        simp [b4, h3]

theorem in_command_no_log_priority (e : Event) (h : e.in_command = true) (c : Call) (a : Ans)
    (he : e = Event.call c a) : c.is_log_priority = false := by
  subst he
  cases c <;> first | rfl | cases h

/-- The calls of `ratbag_log_set_priority` in a run of `main` with a command
word are those made before the command word is looked up. -/
theorem main_log_priority_calls (L : Lib W) (argv : List String) (w : W) (flags : Nat)
    (hctx : (libcall L Call.ratbag_create_context (St.init w)).1.val ≠ 0)
    (hopts : (main_options L (L.getopt_long argv).steps 0
      (libcall L Call.ratbag_create_context (St.init w)).2).1 = OptionsEnd.done flags)
    (hword : (L.getopt_long argv).optind < argv.length) :
    log_priority_calls (main L argv (St.init w)).2.trace
      = log_priority_calls
        (if flags &&& FLAG_VERBOSE_RAW ≠ 0 then
           (libcall L (Call.ratbag_log_set_priority
             (libcall L Call.ratbag_create_context (St.init w)).1.val RATBAG_LOG_PRIORITY_RAW)
             (libcall L Call.ratbag_create_context (St.init w)).2).2
         else if flags &&& FLAG_VERBOSE ≠ 0 then
           (libcall L (Call.ratbag_log_set_priority
             (libcall L Call.ratbag_create_context (St.init w)).1.val RATBAG_LOG_PRIORITY_DEBUG)
             (libcall L Call.ratbag_create_context (St.init w)).2).2
         else (libcall L Call.ratbag_create_context (St.init w)).2).trace := by
  rw [main_with_command L argv w flags hctx hopts hword]
  dsimp only
  generalize (if flags &&& FLAG_VERBOSE_RAW ≠ 0 then
           (libcall L (Call.ratbag_log_set_priority
             (libcall L Call.ratbag_create_context (St.init w)).1.val RATBAG_LOG_PRIORITY_RAW)
             (libcall L Call.ratbag_create_context (St.init w)).2).2
         else if flags &&& FLAG_VERBOSE ≠ 0 then
           (libcall L (Call.ratbag_log_set_priority
             (libcall L Call.ratbag_create_context (St.init w)).1.val RATBAG_LOG_PRIORITY_DEBUG)
             (libcall L Call.ratbag_create_context (St.init w)).2).2
         else (libcall L Call.ratbag_create_context (St.init w)).2) = s1
  have hk : ∀ e : Event, e.in_command = true →
      ∀ c a, e = Event.call c a → c.is_log_priority = false :=
    in_command_no_log_priority
  have hq : ∀ (c : Call) (a : Ans),
      (fun e : Event => ∀ c a, e = Event.call c a → c.is_log_priority = false)
        (Event.call c a) → c.is_log_priority = false :=
    fun c a h => h c a rfl
  unfold log_priority_calls
  cases hfind : ratbag_commands.find?
      (fun cmd => cmd.1.name = argv.getD (L.getopt_long argv).optind "") with
  | some cmd =>
    have hmem : cmd ∈ ratbag_commands := List.mem_of_find?_eq_some hfind
    have hst : Steps L (fun e : Event => ∀ c a, e = Event.call c a → c.is_log_priority = false)
        s1 (main_out L (libcall L Call.ratbag_create_context (St.init w)).1.val
          (cmd.2 L (libcall L Call.ratbag_create_context (St.init w)).1.val flags
            (argv.drop ((L.getopt_long argv).optind + 1)) s1).1
          (cmd.2 L (libcall L Call.ratbag_create_context (St.init w)).1.val flags
            (argv.drop ((L.getopt_long argv).optind + 1)) s1).2).2 :=
      Steps.call _ (Steps.command hk cmd hmem _ _ _ _ (Steps.refl _))
        (fun c a h => by cases h; rfl)
    exact congrArg _ (hst.calls_filter Call.is_log_priority hq)
  | none =>
    have hst : Steps L (fun e : Event => ∀ c a, e = Event.call c a → c.is_log_priority = false)
        s1 (main_out L (libcall L Call.ratbag_create_context (St.init w)).1.val 1
          (usage L (error ("Invalid command '"
            ++ argv.getD (L.getopt_long argv).optind "" ++ "'\n") s1))).2 :=
      Steps.call _ (Steps.usage (Steps.error _ (Steps.refl _) (Steps.stderr_in_command hk))
        (Steps.stdout_in_command hk)) (fun c a h => by cases h; rfl)
    exact congrArg _ (hst.calls_filter Call.is_log_priority hq)

/-- C19: when there is a context, every option is `--verbose` and a command
word is left, the calls of `ratbag_log_set_priority` in the whole run of
`main` are: one call with `RATBAG_LOG_PRIORITY_RAW` on the context if some
option has the argument `raw`; else one call with `RATBAG_LOG_PRIORITY_DEBUG`
if there is an option; else none.  The priorities are 10 (raw), 20 (debug),
30 (info) and 40 (error), so every priority that is at least debug is at
least raw. -/
theorem main_sets_log_priority (L : Lib W) (argv : List String) (w : W)
    (hctx : (libcall L Call.ratbag_create_context (St.init w)).1.val ≠ 0)
    (hverbose : ∀ o ∈ (L.getopt_long argv).steps, o.1 = OPT_VERBOSE)
    (hword : (L.getopt_long argv).optind < argv.length) :
    ((∃ o ∈ (L.getopt_long argv).steps, o.2 = some "raw") →
        log_priority_calls (main L argv (St.init w)).2.trace
          = [Call.ratbag_log_set_priority
              (libcall L Call.ratbag_create_context (St.init w)).1.val RATBAG_LOG_PRIORITY_RAW])
    ∧ ((L.getopt_long argv).steps ≠ [] →
        (∀ o ∈ (L.getopt_long argv).steps, o.2 ≠ some "raw") →
        log_priority_calls (main L argv (St.init w)).2.trace
          = [Call.ratbag_log_set_priority
              (libcall L Call.ratbag_create_context (St.init w)).1.val
              RATBAG_LOG_PRIORITY_DEBUG])
    ∧ ((L.getopt_long argv).steps = [] →
        log_priority_calls (main L argv (St.init w)).2.trace = [])
    ∧ [RATBAG_LOG_PRIORITY_RAW, RATBAG_LOG_PRIORITY_DEBUG, RATBAG_LOG_PRIORITY_INFO,
        RATBAG_LOG_PRIORITY_ERROR] = [10, 20, 30, 40]
    ∧ ∀ priority : Int, RATBAG_LOG_PRIORITY_DEBUG ≤ priority →
        RATBAG_LOG_PRIORITY_RAW ≤ priority := by
  obtain ⟨f, hf1, hf2, hf3⟩ := main_options_verbose L (L.getopt_long argv).steps 0
    (libcall L Call.ratbag_create_context (St.init w)).2 hverbose (by decide)
  have hopts : (main_options L (L.getopt_long argv).steps 0
      (libcall L Call.ratbag_create_context (St.init w)).2).1 = OptionsEnd.done f := by
    rw [hf1]
  rw [main_log_priority_calls L argv w f hctx hopts hword]
  have h0 : log_priority_calls (libcall L Call.ratbag_create_context (St.init w)).2.trace
      = [] := rfl
  have hraw : ∀ (p : Int) (t : St W),
      log_priority_calls (libcall L (Call.ratbag_log_set_priority
        (libcall L Call.ratbag_create_context (St.init w)).1.val p) t).2.trace
      = log_priority_calls t.trace ++ [Call.ratbag_log_set_priority
        (libcall L Call.ratbag_create_context (St.init w)).1.val p] := by
    intro p t
    simp [log_priority_calls, calls_append, calls, Call.is_log_priority]
  simp only [FLAG_VERBOSE_RAW, FLAG_VERBOSE, Nat.zero_and, ne_eq, not_true_eq_false,
    false_or] at hf2 hf3
  refine ⟨?_, ?_, ?_, rfl, ?_⟩
  · intro hr
    rw [if_pos (by simpa [FLAG_VERBOSE_RAW] using hf2.mpr hr), hraw, h0]; rfl
  · intro hne hnr
    have h2 : ¬ f &&& FLAG_VERBOSE_RAW ≠ 0 := by
      simp only [FLAG_VERBOSE_RAW, ne_eq]
      rw [hf2]
      rintro ⟨o, ho, hr⟩
      exact hnr o ho hr
    have h1 : f &&& FLAG_VERBOSE ≠ 0 := by
      simp only [FLAG_VERBOSE, ne_eq]
      rw [hf3]
      obtain ⟨o, ho⟩ := List.exists_mem_of_ne_nil _ hne
      exact ⟨o, ho, hnr o ho⟩
    rw [if_neg h2, if_pos h1, hraw, h0]; rfl
  · intro hnil
    have h2 : ¬ f &&& FLAG_VERBOSE_RAW ≠ 0 := by
      simp only [FLAG_VERBOSE_RAW, ne_eq]
      rw [hf2, hnil]
      simp
    have h1 : ¬ f &&& FLAG_VERBOSE ≠ 0 := by
      simp only [FLAG_VERBOSE, ne_eq]
      rw [hf3, hnil]
      simp
    rw [if_neg h2, if_neg h1, h0]
  · intro priority h
    simp only [RATBAG_LOG_PRIORITY_DEBUG, RATBAG_LOG_PRIORITY_RAW] at h ⊢
    omega

/-- An instance of `main_sets_log_priority`: the command `info` on the small
mouse after the options `--verbose=raw` and `--verbose`, for which
`getopt_long` reports the two options and leaves `optind` at 3. -/
theorem main_sets_log_priority_witness :
    ((∃ o ∈ (((Mouse.lib 1 1 1).with_getopt
          (fun _ => { steps := [(OPT_VERBOSE, some "raw"), (OPT_VERBOSE, none)], optind := 3 })
          ).getopt_long
          ["ratbag-command", "--verbose=raw", "--verbose", "info", "/dev/input/event0"]).steps,
          o.2 = some "raw") →
        log_priority_calls (main ((Mouse.lib 1 1 1).with_getopt
          (fun _ => { steps := [(OPT_VERBOSE, some "raw"), (OPT_VERBOSE, none)], optind := 3 }))
          ["ratbag-command", "--verbose=raw", "--verbose", "info", "/dev/input/event0"]
          (St.init { active := 0 })).2.trace
          = [Call.ratbag_log_set_priority
              (libcall ((Mouse.lib 1 1 1).with_getopt
                (fun _ =>
                  { steps := [(OPT_VERBOSE, some "raw"), (OPT_VERBOSE, none)], optind := 3 }))
                Call.ratbag_create_context (St.init { active := 0 })).1.val
              RATBAG_LOG_PRIORITY_RAW])
    ∧ ((((Mouse.lib 1 1 1).with_getopt
          (fun _ => { steps := [(OPT_VERBOSE, some "raw"), (OPT_VERBOSE, none)], optind := 3 })
          ).getopt_long
          ["ratbag-command", "--verbose=raw", "--verbose", "info", "/dev/input/event0"]).steps
          ≠ [] →
        (∀ o ∈ (((Mouse.lib 1 1 1).with_getopt
          (fun _ => { steps := [(OPT_VERBOSE, some "raw"), (OPT_VERBOSE, none)], optind := 3 })
          ).getopt_long
          ["ratbag-command", "--verbose=raw", "--verbose", "info", "/dev/input/event0"]).steps,
          o.2 ≠ some "raw") →
        log_priority_calls (main ((Mouse.lib 1 1 1).with_getopt
          (fun _ => { steps := [(OPT_VERBOSE, some "raw"), (OPT_VERBOSE, none)], optind := 3 }))
          ["ratbag-command", "--verbose=raw", "--verbose", "info", "/dev/input/event0"]
          (St.init { active := 0 })).2.trace
          = [Call.ratbag_log_set_priority
              (libcall ((Mouse.lib 1 1 1).with_getopt
                (fun _ =>
                  { steps := [(OPT_VERBOSE, some "raw"), (OPT_VERBOSE, none)], optind := 3 }))
                Call.ratbag_create_context (St.init { active := 0 })).1.val
              RATBAG_LOG_PRIORITY_DEBUG])
    ∧ ((((Mouse.lib 1 1 1).with_getopt
          (fun _ => { steps := [(OPT_VERBOSE, some "raw"), (OPT_VERBOSE, none)], optind := 3 })
          ).getopt_long
          ["ratbag-command", "--verbose=raw", "--verbose", "info", "/dev/input/event0"]).steps
          = [] →
        log_priority_calls (main ((Mouse.lib 1 1 1).with_getopt
          (fun _ => { steps := [(OPT_VERBOSE, some "raw"), (OPT_VERBOSE, none)], optind := 3 }))
          ["ratbag-command", "--verbose=raw", "--verbose", "info", "/dev/input/event0"]
          (St.init { active := 0 })).2.trace = [])
    ∧ [RATBAG_LOG_PRIORITY_RAW, RATBAG_LOG_PRIORITY_DEBUG, RATBAG_LOG_PRIORITY_INFO,
        RATBAG_LOG_PRIORITY_ERROR] = [10, 20, 30, 40]
    ∧ ∀ priority : Int, RATBAG_LOG_PRIORITY_DEBUG ≤ priority →
        RATBAG_LOG_PRIORITY_RAW ≤ priority :=
  main_sets_log_priority ((Mouse.lib 1 1 1).with_getopt
      (fun _ => { steps := [(OPT_VERBOSE, some "raw"), (OPT_VERBOSE, none)], optind := 3 }))
    ["ratbag-command", "--verbose=raw", "--verbose", "info", "/dev/input/event0"]
    { active := 0 } (by decide) (by decide) (by decide)

/-- The runs of `main` on the small mouse with the two options `--verbose=raw`
and `--verbose`, with `--verbose` alone and with no option: the calls of
`ratbag_log_set_priority` are one with 10, one with 20, and none. -/
theorem main_log_priority_runs :
    ([[(OPT_VERBOSE, some "raw"), (OPT_VERBOSE, none)], [(OPT_VERBOSE, none)], []].map
      fun steps =>
        log_priority_calls (main ((Mouse.lib 1 1 1).with_getopt
            (fun _ => { steps := steps, optind := 1 }))
          ["ratbag-command", "info", "/dev/input/event0"] (St.init { active := 0 })).2.trace)
    = [[Call.ratbag_log_set_priority 1 10], [Call.ratbag_log_set_priority 1 20], []] := by
  decide

/-! ### The capabilities line of info (C12) -/

theorem info_capability_obs (L : Lib W) (device : Ptr) (cap : ratbag_capability)
    (token : String) (s : St W) :
    written Stream.stdout (info_capability L device cap token s).trace
      = written Stream.stdout s.trace
        ++ (if (libcall L (Call.ratbag_device_has_capability device cap) s).1.val ≠ 0
            then [token] else [])
    ∧ capability_calls (info_capability L device cap token s).trace
      = capability_calls s.trace
        ++ [(Call.ratbag_device_has_capability device cap,
            (libcall L (Call.ratbag_device_has_capability device cap) s).1)] := by
  unfold info_capability capability_calls
  dsimp only
  split_ifs <;> simp [written_append, written, calls_append, calls, Call.is_has_capability]

theorem capability_calls_append (l1 l2 : List Event) :
    capability_calls (l1 ++ l2) = capability_calls l1 ++ capability_calls l2 := by
  simp [capability_calls, calls_append]

theorem capability_calls_out (tr : List Event) (st : Stream) (text : String) :
    capability_calls (tr ++ [Event.out st text]) = capability_calls tr := by
  rw [capability_calls_append]
  exact List.append_nil _

theorem capability_calls_call (tr : List Event) (c : Call) (a : Ans)
    (h : c.is_has_capability = false) :
    capability_calls (tr ++ [Event.call c a]) = capability_calls tr := by
  rw [capability_calls_append]
  simp [capability_calls, calls, h]

theorem Steps.written {L : Lib W} {K : Event → Prop} {s t : St W} (st : Stream)
    (h : Steps L K s t) :
    ∃ more, Ratbag.written st t.trace = Ratbag.written st s.trace ++ more := by
  obtain ⟨ext, hext, _⟩ := h.trace_eq
  exact ⟨Ratbag.written st ext, by rw [hext, written_append]⟩

theorem Steps.written_eq {L : Lib W} {K : Event → Prop} {s t : St W} (st : Stream)
    (h : Steps L K s t) (hk : ∀ text, ¬ K (Event.out st text)) :
    Ratbag.written st t.trace = Ratbag.written st s.trace := by
  induction h with
  | refl => rfl
  | call c _ hc ih => rw [written_libcall, ih]
  | out st2 tx _ hc ih =>
    rw [← ih, written_append]
    have : st2 ≠ st := fun h => hk tx (h ▸ hc)
    simp [Ratbag.written, this]

/-- C12: for a device that opens, info returns 0, whatever
`ratbag_device_has_capability` answers.  It asks for the four capabilities
once each, in the order switchable resolution, switchable profile, button
key, button macros, and what it writes on standard output is the device
line, `Capabilities:`, then of the tokens ` res`, ` profile`, ` btn-key`,
` btn-macros`, in this order, those for which the answer was not 0, then the
end of the line and the line with the number of buttons. -/
theorem info_lists_capabilities (L : Lib W) (ratbag : Ptr) (flags : Nat) (path : String)
    (w : W) (hdev : (ratbag_cmd_open_device L ratbag path (St.init w)).1 ≠ 0) :
    (ratbag_cmd_info L ratbag flags [path] (St.init w)).1 = 0
    ∧ ∃ (res profile key macros : Ans) (name : Option String) (num_buttons : Int)
        (rest : List String),
      capability_calls (ratbag_cmd_info L ratbag flags [path] (St.init w)).2.trace
        = [(Call.ratbag_device_has_capability
              (ratbag_cmd_open_device L ratbag path (St.init w)).1
              ratbag_capability.RATBAG_CAP_SWITCHABLE_RESOLUTION, res),
           (Call.ratbag_device_has_capability
              (ratbag_cmd_open_device L ratbag path (St.init w)).1
              ratbag_capability.RATBAG_CAP_SWITCHABLE_PROFILE, profile),
           (Call.ratbag_device_has_capability
              (ratbag_cmd_open_device L ratbag path (St.init w)).1
              ratbag_capability.RATBAG_CAP_BUTTON_KEY, key),
           (Call.ratbag_device_has_capability
              (ratbag_cmd_open_device L ratbag path (St.init w)).1
              ratbag_capability.RATBAG_CAP_BUTTON_MACROS, macros)]
      ∧ written Stream.stdout (ratbag_cmd_info L ratbag flags [path] (St.init w)).2.trace
        = ["Device '" ++ fmt_s name ++ "' (" ++ path ++ ")\n", "Capabilities:"]
          ++ (if res.val ≠ 0 then [" res"] else [])
          ++ (if profile.val ≠ 0 then [" profile"] else [])
          ++ (if key.val ≠ 0 then [" btn-key"] else [])
          ++ (if macros.val ≠ 0 then [" btn-macros"] else [])
          ++ ["\n", "Number of buttons: " ++ fmt_d num_buttons ++ "\n"] ++ rest := by
  have hopen : Steps L (fun e => e.is_open = true) (St.init w)
      (ratbag_cmd_open_device L ratbag path (St.init w)).2 :=
    Steps.open_device ratbag path (Steps.refl _) (fun _ h => h)
  have hw0 : written Stream.stdout (ratbag_cmd_open_device L ratbag path (St.init w)).2.trace
      = [] := hopen.written_eq Stream.stdout (fun text h => by cases h)
  have hc0 : capability_calls (ratbag_cmd_open_device L ratbag path (St.init w)).2.trace
      = [] := hopen.calls_filter Call.is_has_capability
        (fun c a h => by cases c <;> first | rfl | cases h)
  unfold ratbag_cmd_info
  dsimp only
  rw [if_neg hdev]
  generalize ratbag_cmd_open_device L ratbag path (St.init w) = d at hw0 hc0 ⊢
  obtain ⟨device, s0⟩ := d
  dsimp only at hw0 hc0 ⊢
  refine ⟨rfl, ?_⟩
  -- the device line and `Capabilities:`
  have hw1 : written Stream.stdout
      (printf "Capabilities:"
        (printf ("Device '" ++ fmt_s (libcall L (Call.ratbag_device_get_name device) s0).1.str
          ++ "' (" ++ path ++ ")\n") (libcall L (Call.ratbag_device_get_name device) s0).2)).trace
      = ["Device '" ++ fmt_s (libcall L (Call.ratbag_device_get_name device) s0).1.str
          ++ "' (" ++ path ++ ")\n", "Capabilities:"] := by
    simp [written_append, written, hw0]
  have hc1 : capability_calls
      (printf "Capabilities:"
        (printf ("Device '" ++ fmt_s (libcall L (Call.ratbag_device_get_name device) s0).1.str
          ++ "' (" ++ path ++ ")\n") (libcall L (Call.ratbag_device_get_name device) s0).2)).trace
      = [] := by
    rw [printf_trace, printf_trace, libcall_trace, capability_calls_append,
      capability_calls_append, capability_calls_append, hc0]
    rfl
  generalize (libcall L (Call.ratbag_device_get_name device) s0).1.str = name at hw1 hc1 ⊢
  generalize printf "Capabilities:" (printf ("Device '" ++ fmt_s name ++ "' (" ++ path ++ ")\n")
    (libcall L (Call.ratbag_device_get_name device) s0).2) = s1 at hw1 hc1 ⊢
  -- the four tokens
  obtain ⟨hw2, hc2⟩ := info_capability_obs L device
    ratbag_capability.RATBAG_CAP_SWITCHABLE_RESOLUTION " res" s1
  generalize (libcall L (Call.ratbag_device_has_capability device
    ratbag_capability.RATBAG_CAP_SWITCHABLE_RESOLUTION) s1).1 = a1 at hw2 hc2
  generalize info_capability L device
    ratbag_capability.RATBAG_CAP_SWITCHABLE_RESOLUTION " res" s1 = s2 at hw2 hc2 ⊢
  obtain ⟨hw3, hc3⟩ := info_capability_obs L device
    ratbag_capability.RATBAG_CAP_SWITCHABLE_PROFILE " profile" s2
  generalize (libcall L (Call.ratbag_device_has_capability device
    ratbag_capability.RATBAG_CAP_SWITCHABLE_PROFILE) s2).1 = a2 at hw3 hc3
  generalize info_capability L device
    ratbag_capability.RATBAG_CAP_SWITCHABLE_PROFILE " profile" s2 = s3 at hw3 hc3 ⊢
  obtain ⟨hw4, hc4⟩ := info_capability_obs L device
    ratbag_capability.RATBAG_CAP_BUTTON_KEY " btn-key" s3
  generalize (libcall L (Call.ratbag_device_has_capability device
    ratbag_capability.RATBAG_CAP_BUTTON_KEY) s3).1 = a3 at hw4 hc4
  generalize info_capability L device
    ratbag_capability.RATBAG_CAP_BUTTON_KEY " btn-key" s3 = s4 at hw4 hc4 ⊢
  obtain ⟨hw5, hc5⟩ := info_capability_obs L device
    ratbag_capability.RATBAG_CAP_BUTTON_MACROS " btn-macros" s4
  generalize (libcall L (Call.ratbag_device_has_capability device
    ratbag_capability.RATBAG_CAP_BUTTON_MACROS) s4).1 = a4 at hw5 hc5
  generalize info_capability L device
    ratbag_capability.RATBAG_CAP_BUTTON_MACROS " btn-macros" s4 = s5 at hw5 hc5 ⊢
  rw [hw4, hw3, hw2, hw1] at hw5
  rw [hc4, hc3, hc2, hc1] at hc5
  clear hw4 hw3 hw2 hw1 hc4 hc3 hc2 hc1 hw0 hc0
  -- the counts and the loop over the profiles
  have hwnb : written Stream.stdout
      (libcall L (Call.ratbag_device_get_num_buttons device) (printf "\n" s5)).2.trace
      = written Stream.stdout s5.trace ++ ["\n"] := by
    simp [written_append, written]
  have hcnb : capability_calls
      (libcall L (Call.ratbag_device_get_num_buttons device) (printf "\n" s5)).2.trace
      = capability_calls s5.trace := by
    rw [libcall_trace, printf_trace,
      capability_calls_call _ (Call.ratbag_device_get_num_buttons device) _ rfl,
      capability_calls_out]
  generalize libcall L (Call.ratbag_device_get_num_buttons device) (printf "\n" s5) = nb
    at hwnb hcnb ⊢
  obtain ⟨nba, snb⟩ := nb
  dsimp only at hwnb hcnb ⊢
  have hwnp : written Stream.stdout
      (printf ("Profiles supported: " ++ fmt_d (i32 (u32
          (libcall L (Call.ratbag_device_get_num_profiles device)
            (printf ("Number of buttons: " ++ fmt_d (i32 (u32 nba.val)) ++ "\n") snb)).1.val))
          ++ "\n")
        (libcall L (Call.ratbag_device_get_num_profiles device)
          (printf ("Number of buttons: " ++ fmt_d (i32 (u32 nba.val)) ++ "\n") snb)).2).trace
      = written Stream.stdout snb.trace
        ++ ["Number of buttons: " ++ fmt_d (i32 (u32 nba.val)) ++ "\n",
            "Profiles supported: " ++ fmt_d (i32 (u32
              (libcall L (Call.ratbag_device_get_num_profiles device)
                (printf ("Number of buttons: " ++ fmt_d (i32 (u32 nba.val)) ++ "\n")
                  snb)).1.val)) ++ "\n"] := by
    simp [written_append, written]
  have hcnp : capability_calls
      (printf ("Profiles supported: " ++ fmt_d (i32 (u32
          (libcall L (Call.ratbag_device_get_num_profiles device)
            (printf ("Number of buttons: " ++ fmt_d (i32 (u32 nba.val)) ++ "\n") snb)).1.val))
          ++ "\n")
        (libcall L (Call.ratbag_device_get_num_profiles device)
          (printf ("Number of buttons: " ++ fmt_d (i32 (u32 nba.val)) ++ "\n") snb)).2).trace
      = capability_calls snb.trace := by
    rw [printf_trace, libcall_trace, printf_trace, capability_calls_out,
      capability_calls_call _ (Call.ratbag_device_get_num_profiles device) _ rfl,
      capability_calls_out]
  generalize (libcall L (Call.ratbag_device_get_num_profiles device)
      (printf ("Number of buttons: " ++ fmt_d (i32 (u32 nba.val)) ++ "\n") snb)).1.val = npv
    at hwnp hcnp ⊢
  generalize printf ("Profiles supported: " ++ fmt_d (i32 (u32 npv)) ++ "\n")
      (libcall L (Call.ratbag_device_get_num_profiles device)
        (printf ("Number of buttons: " ++ fmt_d (i32 (u32 nba.val)) ++ "\n") snb)).2 = s6
    at hwnp hcnp ⊢
  have hwalk : Steps L (fun e => e.is_walk = true) s6
      (info_profiles L device (i32 (u32 nba.val)) (i32 (u32 npv)).toNat 0 s6) :=
    Steps.info_profiles (fun _ h => h) _ _ _ _ _ (Steps.refl _)
  obtain ⟨more, hmore⟩ := hwalk.written Stream.stdout
  have hc7 : capability_calls
      (info_profiles L device (i32 (u32 nba.val)) (i32 (u32 npv)).toNat 0 s6).trace
      = capability_calls s6.trace :=
    hwalk.calls_filter Call.is_has_capability
      (fun c a h => by cases c <;> first | rfl | cases h)
  refine ⟨a1, a2, a3, a4, name, i32 (u32 nba.val),
    ("Profiles supported: " ++ fmt_d (i32 (u32 npv)) ++ "\n") :: more, ?_, ?_⟩
  · rw [libcall_trace, capability_calls_call _ (Call.ratbag_device_unref device) _ rfl, hc7,
      hcnp, hcnb, hc5]
    rfl
  · rw [written_libcall, hmore, hwnp, hwnb, hw5]
    simp

/-- An instance of `info_lists_capabilities`: the small mouse with no
capability. -/
theorem info_lists_capabilities_witness :
    (ratbag_cmd_info ((Mouse.lib 1 1 1).answering Mouse.no_capability) 1 0
        ["/dev/input/event0"] (St.init { active := 0 })).1 = 0
    ∧ ∃ (res profile key macros : Ans) (name : Option String) (num_buttons : Int)
        (rest : List String),
      capability_calls (ratbag_cmd_info ((Mouse.lib 1 1 1).answering Mouse.no_capability) 1 0
          ["/dev/input/event0"] (St.init { active := 0 })).2.trace
        = [(Call.ratbag_device_has_capability
              (ratbag_cmd_open_device ((Mouse.lib 1 1 1).answering Mouse.no_capability) 1
                "/dev/input/event0" (St.init { active := 0 })).1
              ratbag_capability.RATBAG_CAP_SWITCHABLE_RESOLUTION, res),
           (Call.ratbag_device_has_capability
              (ratbag_cmd_open_device ((Mouse.lib 1 1 1).answering Mouse.no_capability) 1
                "/dev/input/event0" (St.init { active := 0 })).1
              ratbag_capability.RATBAG_CAP_SWITCHABLE_PROFILE, profile),
           (Call.ratbag_device_has_capability
              (ratbag_cmd_open_device ((Mouse.lib 1 1 1).answering Mouse.no_capability) 1
                "/dev/input/event0" (St.init { active := 0 })).1
              ratbag_capability.RATBAG_CAP_BUTTON_KEY, key),
           (Call.ratbag_device_has_capability
              (ratbag_cmd_open_device ((Mouse.lib 1 1 1).answering Mouse.no_capability) 1
                "/dev/input/event0" (St.init { active := 0 })).1
              ratbag_capability.RATBAG_CAP_BUTTON_MACROS, macros)]
      ∧ written Stream.stdout
          (ratbag_cmd_info ((Mouse.lib 1 1 1).answering Mouse.no_capability) 1 0
            ["/dev/input/event0"] (St.init { active := 0 })).2.trace
        = ["Device '" ++ fmt_s name ++ "' (" ++ "/dev/input/event0" ++ ")\n", "Capabilities:"]
          ++ (if res.val ≠ 0 then [" res"] else [])
          ++ (if profile.val ≠ 0 then [" profile"] else [])
          ++ (if key.val ≠ 0 then [" btn-key"] else [])
          ++ (if macros.val ≠ 0 then [" btn-macros"] else [])
          ++ ["\n", "Number of buttons: " ++ fmt_d num_buttons ++ "\n"] ++ rest :=
  info_lists_capabilities ((Mouse.lib 1 1 1).answering Mouse.no_capability) 1 0
    "/dev/input/event0" { active := 0 } (by decide)

/-- The runs of info on the small mouse with no capability and with every
capability, evaluated: the first line after the device line is
`Capabilities:` alone, and `Capabilities: res profile btn-key btn-macros`;
both runs return 0. -/
theorem info_capabilities_runs :
    ([(Mouse.lib 1 0 0).answering Mouse.no_capability, Mouse.lib 1 0 0].map fun L =>
      let r := ratbag_cmd_info L 1 0 ["/dev/input/event0"] (St.init { active := 0 })
      (r.1, (written Stream.stdout r.2.trace).take 8))
    = [(0, ["Device 'Mouse' (/dev/input/event0)\n", "Capabilities:", "\n",
            "Number of buttons: 0\n", "Profiles supported: 1\n", "  Profile 0 (active)\n",
            "    Resolutions:\n"]),
       (0, ["Device 'Mouse' (/dev/input/event0)\n", "Capabilities:", " res", " profile",
            " btn-key", " btn-macros", "\n", "Number of buttons: 0\n"])] := by
  decide

/-! ### The indices info passes to the by-index accessors (C18) -/

theorem index_calls_append (l1 l2 : List Event) :
    index_calls (l1 ++ l2) = index_calls l1 ++ index_calls l2 := by
  simp [index_calls, calls_append]

theorem index_calls_call (L : Lib W) (c : Call) (s : St W) :
    index_calls (libcall L c s).2.trace
      = index_calls s.trace ++ (if c.is_by_index then [c] else []) := by
  rw [libcall_trace, index_calls_append]
  by_cases h : c.is_by_index = true <;> simp [index_calls, calls, h]

theorem index_calls_printf (text : String) (s : St W) :
    index_calls (printf text s).trace = index_calls s.trace := by
  rw [printf_trace, index_calls_append]
  exact List.append_nil _

theorem is_read_query (c : Call) (h : c.is_read = true) : c.is_query = true := by
  unfold Call.is_read at h
  simp only [Bool.and_eq_true] at h
  exact h.1

theorem is_read_no_index (c : Call) (h : c.is_read = true) : c.is_by_index = false := by
  unfold Call.is_read at h
  simp only [Bool.and_eq_true, Bool.not_eq_true'] at h
  exact h.2

theorem Steps.index_calls {L : Lib W} {s t : St W}
    (h : Steps L (fun e => e.is_read = true) s t) :
    Ratbag.index_calls t.trace = Ratbag.index_calls s.trace := by
  unfold Ratbag.index_calls
  rw [h.calls_filter Call.is_by_index (fun c _ hc => is_read_no_index c hc)]

theorem Steps.read_inv {L : Lib W} {s t : St W} {Inv : W → Prop}
    (hstable : ∀ c w, c.is_query = true → Inv w → Inv (L.answer c w).2)
    (h : Steps L (fun e => e.is_read = true) s t) (hs : Inv s.world) : Inv t.world :=
  h.world_inv Inv (fun c w hc hw => hstable c w (is_read_query c hc) hw) hs

theorem Steps.button_action_to_str_read {L : Lib W} {s : St W} (button : Ptr) (t : St W)
    (h : Steps L (fun e => e.is_read = true) s t) :
    Steps L (fun e => e.is_read = true) s (Ratbag.button_action_to_str L button t).2 := by
  unfold Ratbag.button_action_to_str button_action_button_to_str button_action_key_to_str
    button_action_special_to_str
  dsimp only
  split_ifs
  · exact Steps.call _ (Steps.call _ h rfl) rfl
  · exact Steps.call _ (Steps.call _ h rfl) rfl
  · exact Steps.call _ (Steps.call _ h rfl) rfl
  · exact Steps.call _ h rfl
  · exact Steps.call _ h rfl
  · exact Steps.error _ (Steps.call _ h rfl) (fun e _ => by cases e <;> first | rfl | contradiction)

/-- The button loop of info asks for the indices `b`, `b + 1`, ... of its
`left` iterations, each once, and keeps the invariant. -/
theorem info_buttons_index_calls (L : Lib W) (Inv : W → Prop)
    (hstable : ∀ c w, c.is_query = true → Inv w → Inv (L.answer c w).2) (profile : Ptr)
    (left : Nat) (b : Int) (s : St W) (hs : Inv s.world) :
    index_calls (info_buttons L profile left b s).trace
      = index_calls s.trace
        ++ (List.range left).map
          (fun k : Nat => Call.ratbag_profile_get_button_by_index profile (b + k))
    ∧ Inv (info_buttons L profile left b s).world := by
  induction left generalizing b s with
  | zero => exact ⟨by simp [info_buttons], hs⟩
  | succ left ih =>
    rw [info_buttons]
    have h1 : Inv (libcall L (Call.ratbag_profile_get_button_by_index profile b) s).2.world :=
      hstable _ _ rfl hs
    have h2 := index_calls_call L (Call.ratbag_profile_get_button_by_index profile b) s
    generalize libcall L (Call.ratbag_profile_get_button_by_index profile b) s = rb at h1 h2 ⊢
    obtain ⟨button, sb⟩ := rb
    dsimp only at h1 h2 ⊢
    have hst : Steps L (fun e => e.is_read = true) sb
        (libcall L (Call.ratbag_button_unref button.val)
          (printf ("    Button: " ++ fmt_d b ++ " type "
              ++ button_type_to_str (libcall L (Call.ratbag_button_get_type button.val) sb).1.val
              ++ " is mapped to '"
              ++ (button_action_to_str L button.val
                  (libcall L (Call.ratbag_button_get_type button.val) sb).2).1 ++ "'\n")
            (button_action_to_str L button.val
              (libcall L (Call.ratbag_button_get_type button.val) sb).2).2)).2 :=
      Steps.call (Call.ratbag_button_unref button.val)
        (Steps.printf _ (Steps.button_action_to_str_read _ _
          (Steps.call (Call.ratbag_button_get_type button.val) (Steps.refl sb) rfl)) rfl) rfl
    obtain ⟨ih1, ih2⟩ := ih (b + 1) _ (hst.read_inv hstable h1)
    refine ⟨?_, ih2⟩
    rw [ih1, hst.index_calls, h2, List.range_succ_eq_map, List.map_cons, List.map_map]
    simp only [Call.is_by_index, if_true, List.append_assoc, List.singleton_append, Nat.cast_zero,
      add_zero]
    congr 2
    apply List.map_congr_left
    intro k _
    simp only [Function.comp, Nat.cast_succ]
    congr 1
    omega

/-- The resolution loop of info, for a profile with a stable count `m`, asks
for the indices from `j` up to `m`, each once, and keeps the invariant; the
fuel is not used up. -/
theorem info_resolutions_index_calls (L : Lib W) (Inv : W → Prop)
    (hstable : ∀ c w, c.is_query = true → Inv w → Inv (L.answer c w).2) (profile : Ptr)
    (m : Int)
    (hm : ∀ w, Inv w →
      i32 (L.answer (Call.ratbag_profile_get_num_resolutions profile) w).1.val = m)
    (fuel : Nat) (j : Int) (s : St W) (hs : Inv s.world) (hfuel : (m - j).toNat < fuel) :
    index_calls (info_resolutions L profile fuel j s).trace
      = index_calls s.trace
        ++ (List.range (m - j).toNat).map
          (fun k : Nat => Call.ratbag_profile_get_resolution profile (j + k))
    ∧ Inv (info_resolutions L profile fuel j s).world := by
  induction fuel generalizing j s with
  | zero => omega
  | succ fuel ih =>
    rw [info_resolutions]
    have hn : i32 (libcall L (Call.ratbag_profile_get_num_resolutions profile) s).1.val = m :=
      hm _ hs
    have h1 : Inv (libcall L (Call.ratbag_profile_get_num_resolutions profile) s).2.world :=
      hstable _ _ rfl hs
    have h2 := index_calls_call L (Call.ratbag_profile_get_num_resolutions profile) s
    generalize libcall L (Call.ratbag_profile_get_num_resolutions profile) s = rn at hn h1 h2 ⊢
    obtain ⟨n, sn⟩ := rn
    dsimp only at hn h1 h2 ⊢
    rw [hn]
    simp only [Call.is_by_index, Bool.false_eq_true, if_false, List.append_nil] at h2
    by_cases hj : j < m
    · rw [if_pos hj]
      have h3 : Inv (libcall L (Call.ratbag_profile_get_resolution profile j) sn).2.world :=
        hstable _ _ rfl h1
      have h4 := index_calls_call L (Call.ratbag_profile_get_resolution profile j) sn
      generalize libcall L (Call.ratbag_profile_get_resolution profile j) sn = rr at h3 h4 ⊢
      obtain ⟨res, sr⟩ := rr
      dsimp only at h3 h4 ⊢
      have hst : Steps L (fun e => e.is_read = true) sr
          (libcall L (Call.ratbag_resolution_unref res.val)
            (if (libcall L (Call.ratbag_resolution_get_dpi res.val) sr).1.val = 0 then
              printf ("      " ++ fmt_d j ++ ": <disabled>\n")
                (libcall L (Call.ratbag_resolution_get_report_rate res.val)
                  (libcall L (Call.ratbag_resolution_get_dpi res.val) sr).2).2
            else
              printf ("      " ++ fmt_d j ++ ": "
                  ++ fmt_d (libcall L (Call.ratbag_resolution_get_dpi res.val) sr).1.val
                  ++ "dpi @ "
                  ++ fmt_d (libcall L (Call.ratbag_resolution_get_report_rate res.val)
                      (libcall L (Call.ratbag_resolution_get_dpi res.val) sr).2).1.val
                  ++ "Hz"
                  ++ (if (libcall L (Call.ratbag_resolution_is_active res.val)
                        (libcall L (Call.ratbag_resolution_get_report_rate res.val)
                          (libcall L (Call.ratbag_resolution_get_dpi res.val) sr).2).2).1.val ≠ 0
                      then " (active)" else "")
                  ++ (if (libcall L (Call.ratbag_resolution_is_default res.val)
                        (libcall L (Call.ratbag_resolution_is_active res.val)
                          (libcall L (Call.ratbag_resolution_get_report_rate res.val)
                            (libcall L (Call.ratbag_resolution_get_dpi res.val)
                              sr).2).2).2).1.val ≠ 0
                      then " (default)" else "") ++ "\n")
                (libcall L (Call.ratbag_resolution_is_default res.val)
                  (libcall L (Call.ratbag_resolution_is_active res.val)
                    (libcall L (Call.ratbag_resolution_get_report_rate res.val)
                      (libcall L (Call.ratbag_resolution_get_dpi res.val) sr).2).2).2).2)).2 := by
        have hr : Steps L (fun e => e.is_read = true) sr
            (libcall L (Call.ratbag_resolution_get_report_rate res.val)
              (libcall L (Call.ratbag_resolution_get_dpi res.val) sr).2).2 :=
          Steps.call (Call.ratbag_resolution_get_report_rate res.val)
            (Steps.call (Call.ratbag_resolution_get_dpi res.val) (Steps.refl sr) rfl) rfl
        exact Steps.call (Call.ratbag_resolution_unref res.val)
          (Steps.ite (Steps.printf _ hr rfl)
            (Steps.printf _ (Steps.call (Call.ratbag_resolution_is_default res.val)
              (Steps.call (Call.ratbag_resolution_is_active res.val) hr rfl) rfl) rfl)) rfl
      obtain ⟨ih1, ih2⟩ := ih (j + 1) _ (hst.read_inv hstable h3) (by omega)
      refine ⟨?_, ih2⟩
      rw [ih1, hst.index_calls, h4, h2]
      have hsucc : (m - j).toNat = (m - (j + 1)).toNat + 1 := by omega
      rw [hsucc, List.range_succ_eq_map, List.map_cons, List.map_map]
      simp only [Call.is_by_index, if_true, List.append_assoc, List.singleton_append,
        Nat.cast_zero, add_zero]
      congr 2
      apply List.map_congr_left
      intro k _
      simp only [Function.comp, Nat.cast_succ]
      congr 1
      omega
    · rw [if_neg hj]
      have h0 : (m - j).toNat = 0 := by omega
      rw [h0]
      exact ⟨by simp [h2], h1⟩

/-- The profile loop of info asks for the profile indices from `i` up to `n`,
each once, and after each profile for its resolution and button indices. -/
theorem info_profiles_index_calls (L : Lib W) (Inv : W → Prop) (device : Ptr) (n : Int)
    (P : Int → Ptr) (active : Int → Prop) (hL : ShowsProfiles L Inv device n P active)
    (m : Int → Int)
    (hm : ∀ i w, 0 ≤ i → i < n → Inv w →
      i32 (L.answer (Call.ratbag_profile_get_num_resolutions (P i)) w).1.val = m i)
    (num_buttons : Int) (left : Nat) (i : Int) (s : St W) (hs : Inv s.world) (hi : 0 ≤ i)
    (hleft : i + left = n) :
    index_calls (info_profiles L device num_buttons left i s).trace
      = index_calls s.trace
        ++ (List.range left).flatMap
          (fun k : Nat => claimed_index_calls device P m num_buttons (i + k)) := by
  obtain ⟨hstable, _, hP, _⟩ := hL
  induction left generalizing i s with
  | zero => simp [info_profiles]
  | succ left ih =>
    rw [info_profiles]
    have hp : (libcall L (Call.ratbag_device_get_profile_by_index device i) s).1.val = P i :=
      (hP _ i hs hi (by push_cast at hleft; omega)).1
    have h1 : Inv (libcall L (Call.ratbag_device_get_profile_by_index device i) s).2.world :=
      hstable _ _ rfl hs
    have h2 := index_calls_call L (Call.ratbag_device_get_profile_by_index device i) s
    generalize libcall L (Call.ratbag_device_get_profile_by_index device i) s = rp at hp h1 h2 ⊢
    obtain ⟨profile, sp⟩ := rp
    dsimp only at hp h1 h2 ⊢
    rw [hp]
    have hst : Steps L (fun e => e.is_read = true) sp
        (printf "    Resolutions:\n"
          (printf ("  Profile " ++ fmt_d i
              ++ (if (libcall L (Call.ratbag_profile_is_active (P i)) sp).1.val ≠ 0
                  then " (active)" else "") ++ "\n")
            (libcall L (Call.ratbag_profile_is_active (P i)) sp).2)) :=
      Steps.printf _ (Steps.printf _
        (Steps.call (Call.ratbag_profile_is_active (P i)) (Steps.refl sp) rfl) rfl) rfl
    have h3 := hst.read_inv hstable h1
    have h4 := hst.index_calls
    generalize printf "    Resolutions:\n"
          (printf ("  Profile " ++ fmt_d i
              ++ (if (libcall L (Call.ratbag_profile_is_active (P i)) sp).1.val ≠ 0
                  then " (active)" else "") ++ "\n")
            (libcall L (Call.ratbag_profile_is_active (P i)) sp).2) = s1 at h3 h4 ⊢
    obtain ⟨h5, h6⟩ := info_resolutions_index_calls L Inv hstable (P i) (m i)
      (fun w hw => hm i w hi (by push_cast at hleft; omega) hw) 2147483648 0 s1 h3
      (by
        have := i32_lt (L.answer (Call.ratbag_profile_get_num_resolutions (P i)) s1.world).1.val
        rw [hm i _ hi (by push_cast at hleft; omega) h3] at this
        omega)
    generalize info_resolutions L (P i) 2147483648 0 s1 = s2 at h5 h6 ⊢
    obtain ⟨h7, h8⟩ := info_buttons_index_calls L Inv hstable (P i) num_buttons.toNat 0 s2 h6
    generalize info_buttons L (P i) num_buttons.toNat 0 s2 = s3 at h7 h8 ⊢
    have h9 : Inv (libcall L (Call.ratbag_profile_unref (P i)) s3).2.world :=
      hstable _ _ rfl h8
    have hrest : ((List.range left).flatMap
          fun k : Nat => claimed_index_calls device P m num_buttons (i + 1 + k))
        = (List.range left).flatMap
          fun k : Nat => claimed_index_calls device P m num_buttons (i + (k.succ : Nat)) := by
      apply List.flatMap_congr
      intro k _
      congr 1
      push_cast
      omega
    rw [ih (i + 1) _ h9 (by omega) (by push_cast at hleft ⊢; omega), index_calls_call, h7, h5,
      h4, h2, List.range_succ_eq_map, List.flatMap_cons, List.flatMap_map, hrest]
    simp [claimed_index_calls, Call.is_by_index]

theorem Steps.info_capability_read {L : Lib W} {s : St W} (device : Ptr)
    (cap : ratbag_capability) (token : String) (t : St W)
    (h : Steps L (fun e => e.is_read = true) s t) :
    Steps L (fun e => e.is_read = true) s (Ratbag.info_capability L device cap token t) := by
  unfold Ratbag.info_capability
  exact Steps.ite
    (Steps.printf _ (Steps.call (Call.ratbag_device_has_capability device cap) h rfl) rfl)
    (Steps.call (Call.ratbag_device_has_capability device cap) h rfl)

/-- C18: let the device report `n` profiles, fewer than `2 ^ 31`, with the
handles `P i`, let the profile `P i` report `m i` resolution modes and the
device `num_buttons` buttons, all of it stable under the calls that read.
Then the calls that info makes to the three by-index accessors are, in this
order: for each profile index from 0 up to `n`, the profile with that index,
then each resolution index of that profile from 0 up to `m i`, then each
button index from 0 up to `num_buttons`; each once, and no other. -/
theorem info_visits_every_index (L : Lib W) (Inv : W → Prop) (device : Ptr) (n : Int)
    (P : Int → Ptr) (active : Int → Prop) (hL : ShowsProfiles L Inv device n P active)
    (m : Int → Int)
    (hm : ∀ i w, 0 ≤ i → i < n → Inv w →
      i32 (L.answer (Call.ratbag_profile_get_num_resolutions (P i)) w).1.val = m i)
    (num_buttons : Int)
    (hnb : ∀ w, Inv w →
      i32 (u32 (L.answer (Call.ratbag_device_get_num_buttons device) w).1.val) = num_buttons)
    (hn : n < 2147483648)
    (ratbag : Ptr) (flags : Nat) (path : String) (w : W)
    (hopen : (ratbag_cmd_open_device L ratbag path (St.init w)).1 = device) (hdev : device ≠ 0)
    (hinv : Inv (ratbag_cmd_open_device L ratbag path (St.init w)).2.world) :
    index_calls (ratbag_cmd_info L ratbag flags [path] (St.init w)).2.trace
      = (List.range n.toNat).flatMap
          (fun i : Nat => claimed_index_calls device P m num_buttons i) := by
  have hstable := hL.1
  have hnp := hL.2.1
  have hs0 : Steps L (fun e => e.is_open = true) (St.init w)
      (ratbag_cmd_open_device L ratbag path (St.init w)).2 :=
    Steps.open_device ratbag path (Steps.refl _) (fun _ h => h)
  have hc0 : index_calls (ratbag_cmd_open_device L ratbag path (St.init w)).2.trace = [] := by
    unfold index_calls
    rw [hs0.calls_filter Call.is_by_index (fun c a h => by cases c <;> first | rfl | cases h)]
    rfl
  unfold ratbag_cmd_info
  dsimp only
  rw [hopen, if_neg hdev]
  generalize (ratbag_cmd_open_device L ratbag path (St.init w)).2 = s0 at hinv hc0 ⊢
  -- up to the end of the capabilities line
  have hst5 : Steps L (fun e => e.is_read = true) s0
      (printf "\n"
        (info_capability L device ratbag_capability.RATBAG_CAP_BUTTON_MACROS " btn-macros"
          (info_capability L device ratbag_capability.RATBAG_CAP_BUTTON_KEY " btn-key"
            (info_capability L device ratbag_capability.RATBAG_CAP_SWITCHABLE_PROFILE " profile"
              (info_capability L device ratbag_capability.RATBAG_CAP_SWITCHABLE_RESOLUTION " res"
                (printf "Capabilities:"
                  (printf ("Device '"
                      ++ fmt_s (libcall L (Call.ratbag_device_get_name device) s0).1.str
                      ++ "' (" ++ path ++ ")\n")
                    (libcall L (Call.ratbag_device_get_name device) s0).2))))))) :=
    Steps.printf _ (Steps.info_capability_read _ _ _ _ (Steps.info_capability_read _ _ _ _
      (Steps.info_capability_read _ _ _ _ (Steps.info_capability_read _ _ _ _
        (Steps.printf _ (Steps.printf _
          (Steps.call (Call.ratbag_device_get_name device) (Steps.refl s0) rfl) rfl) rfl)))))
      rfl
  have hi5 := hst5.read_inv hstable hinv
  have hc5 := hst5.index_calls
  rw [hc0] at hc5
  generalize (printf "\n"
        (info_capability L device ratbag_capability.RATBAG_CAP_BUTTON_MACROS " btn-macros"
          (info_capability L device ratbag_capability.RATBAG_CAP_BUTTON_KEY " btn-key"
            (info_capability L device ratbag_capability.RATBAG_CAP_SWITCHABLE_PROFILE " profile"
              (info_capability L device ratbag_capability.RATBAG_CAP_SWITCHABLE_RESOLUTION " res"
                (printf "Capabilities:"
                  (printf ("Device '"
                      ++ fmt_s (libcall L (Call.ratbag_device_get_name device) s0).1.str
                      ++ "' (" ++ path ++ ")\n")
                    (libcall L (Call.ratbag_device_get_name device) s0).2))))))) = s5
    at hi5 hc5 ⊢
  -- the two counts
  have hnbv : i32 (u32 (libcall L (Call.ratbag_device_get_num_buttons device) s5).1.val)
      = num_buttons := hnb _ hi5
  have hinb : Inv (libcall L (Call.ratbag_device_get_num_buttons device) s5).2.world :=
    hstable _ _ rfl hi5
  have hcnb := index_calls_call L (Call.ratbag_device_get_num_buttons device) s5
  generalize libcall L (Call.ratbag_device_get_num_buttons device) s5 = rnb
    at hnbv hinb hcnb ⊢
  obtain ⟨nb, snb⟩ := rnb
  dsimp only at hnbv hinb hcnb ⊢
  rw [hnbv]
  have hnpv : u32 (libcall L (Call.ratbag_device_get_num_profiles device)
      (printf ("Number of buttons: " ++ fmt_d num_buttons ++ "\n") snb)).1.val = n :=
    hnp _ hinb
  have hinp : Inv (libcall L (Call.ratbag_device_get_num_profiles device)
      (printf ("Number of buttons: " ++ fmt_d num_buttons ++ "\n") snb)).2.world :=
    hstable _ _ rfl hinb
  have hcnp := index_calls_call L (Call.ratbag_device_get_num_profiles device)
    (printf ("Number of buttons: " ++ fmt_d num_buttons ++ "\n") snb)
  rw [index_calls_printf] at hcnp
  generalize libcall L (Call.ratbag_device_get_num_profiles device)
      (printf ("Number of buttons: " ++ fmt_d num_buttons ++ "\n") snb) = rnp
    at hnpv hinp hcnp ⊢
  obtain ⟨np, snp⟩ := rnp
  dsimp only at hnpv hinp hcnp ⊢
  have hn0 : 0 ≤ n := hnpv ▸ u32_nonneg _
  rw [hnpv, i32_of_range n hn0 hn]
  -- the loop over the profiles
  rw [index_calls_call,
    info_profiles_index_calls L Inv device n P active hL m hm num_buttons n.toNat 0
      (printf ("Profiles supported: " ++ fmt_d n ++ "\n") snp) hinp (le_refl 0) (by omega),
    index_calls_printf, hcnp, hcnb, hc5]
  simp [Call.is_by_index]

/-- An instance of `info_visits_every_index`: the small mouse with two
profiles, two resolution modes for each and three buttons. -/
theorem info_visits_every_index_witness :
    index_calls (ratbag_cmd_info (Mouse.lib 2 2 3) 1 0 ["/dev/input/event0"]
        (St.init { active := 0 })).2.trace
      = (List.range (2 : Int).toNat).flatMap
          (fun i : Nat => claimed_index_calls 10 (fun i => 100 + i) (fun _ => 2) 3 i) :=
  info_visits_every_index (Mouse.lib 2 2 3) (fun m => m.active = 0) 10 2
    (fun i => 100 + i) (fun i => i = 0) (mouse_shows_profiles 2 2 3 (by decide) (by decide) 0)
    (fun _ => 2) (fun _ _ _ _ _ => rfl) 3 (fun _ _ => rfl) (by decide)
    1 0 "/dev/input/event0" { active := 0 } (by decide) (by decide) rfl

set_option maxRecDepth 8192 in
/-- The by-index calls of info on the small mouse with two profiles, two
resolution modes for each and three buttons, written out. -/
theorem info_index_calls_run :
    index_calls (ratbag_cmd_info (Mouse.lib 2 2 3) 1 0 ["/dev/input/event0"]
        (St.init { active := 0 })).2.trace
      = [Call.ratbag_device_get_profile_by_index 10 0,
         Call.ratbag_profile_get_resolution 100 0, Call.ratbag_profile_get_resolution 100 1,
         Call.ratbag_profile_get_button_by_index 100 0,
         Call.ratbag_profile_get_button_by_index 100 1,
         Call.ratbag_profile_get_button_by_index 100 2,
         Call.ratbag_device_get_profile_by_index 10 1,
         Call.ratbag_profile_get_resolution 101 0, Call.ratbag_profile_get_resolution 101 1,
         Call.ratbag_profile_get_button_by_index 101 0,
         Call.ratbag_profile_get_button_by_index 101 1,
         Call.ratbag_profile_get_button_by_index 101 2] := by
  decide

/-! ### The library as the specification describes it (C14, C15, C16) -/

theorem range_filter_eq (n a : Nat) (h : a < n) :
    (List.range n).filter (fun i => decide (i = a)) = [a] := by
  induction n with
  | zero => omega
  | succ n ih =>
    rw [List.range_succ, List.filter_append]
    by_cases hn : a = n
    · subst hn
      have : (List.range a).filter (fun i => decide (i = a)) = [] := by
        rw [List.filter_eq_nil_iff]
        intro i hi
        have := List.mem_range.mp hi
        simp
        omega
      rw [this]
      simp
    · rw [ih (by omega)]
      have : ¬ n = a := fun h => hn h.symm
      simp [this]

theorem active_profiles_mapIdx (d : Spec.Device) (a : Nat) (ha : a < d.profiles.length)
    (f : Nat → Spec.Profile → Spec.Profile)
    (hf : ∀ i p, (f i p).is_active = decide (i = a)) :
    ({ d with profiles := d.profiles.mapIdx f } : Spec.Device).active_profiles = [a]
    ∧ ∀ j, ({ d with profiles := d.profiles.mapIdx f } : Spec.Device).is_active j = true
        ↔ j = a := by
  have hact : ∀ j, ({ d with profiles := d.profiles.mapIdx f } : Spec.Device).is_active j
      = decide (j < d.profiles.length ∧ j = a) := by
    intro j
    simp only [Spec.Device.is_active, List.getElem?_mapIdx]
    by_cases hj : j < d.profiles.length
    · rw [List.getElem?_eq_getElem hj]
      simp [hf, hj]
    · rw [List.getElem?_eq_none (by omega)]
      simp [hj]
  constructor
  · unfold Spec.Device.active_profiles
    simp only [List.length_mapIdx]
    rw [← range_filter_eq d.profiles.length a ha]
    apply List.filter_congr
    intro j hj
    rw [hact j]
    have := List.mem_range.mp hj
    simp [this]
  · intro j
    rw [hact j]
    simp
    omega

/-- C14: in the library as the specification describes it, a device that
`create_device` produces has exactly one profile that reports `is_active`,
and after a successful `set_active` on the profile with the index `index`
the device has its profiles as before, the profile `index` reports
`is_active` and no other profile does. -/
theorem single_active_profile :
    (∀ (registry : List Spec.Backend) (token : Nat) (d : Spec.Device),
      Spec.create_device registry token = Except.ok d →
      ∃ a, a < d.profiles.length ∧ d.active_profiles = [a]
        ∧ ∀ j, d.is_active j = true ↔ j = a)
    ∧ (∀ (backend_ok : Bool) (d : Spec.Device) (index : Nat) (d2 : Spec.Device),
      d.set_active backend_ok index = Except.ok d2 →
      d2.profiles.length = d.profiles.length ∧ d2.active_profiles = [index]
        ∧ ∀ j, d2.is_active j = true ↔ j = index) := by
  constructor
  · intro registry token d h
    unfold Spec.create_device at h
    split at h
    · cases h
    · split at h
      · cases h
      · rename_i hw _
        split_ifs at h with hc
        · cases h
          have key := active_profiles_mapIdx
            { name := hw.name, capabilities := hw.capabilities, num_buttons := hw.num_buttons,
              profiles := hw.profiles.mapIdx fun _ p =>
                { is_active := false, resolutions := p.1, buttons := p.2 } }
            hw.active_profile (by simpa using hc.1)
            (fun i p => { p with is_active := decide (i = hw.active_profile) })
            (fun _ _ => rfl)
          have hm : (hw.profiles.mapIdx fun (_ : Nat) (p : List Spec.Resolution × List Spec.Button) =>
              ({ is_active := false, resolutions := p.1, buttons := p.2 } : Spec.Profile)).mapIdx
                (fun i p => { p with is_active := decide (i = hw.active_profile) })
              = hw.profiles.mapIdx fun i p =>
                { is_active := decide (i = hw.active_profile), resolutions := p.1,
                  buttons := p.2 } := by
            apply List.ext_getElem?
            intro i
            simp only [List.getElem?_mapIdx, Option.map_map]
            rfl
          simp only [hm] at key
          exact ⟨hw.active_profile, by simpa using hc.1, key.1, key.2⟩
  · intro backend_ok d index d2 h
    unfold Spec.Device.set_active at h
    split_ifs at h with h1 h2
    cases h
    obtain ⟨k1, k2⟩ := active_profiles_mapIdx d index h1
      (fun i p => { p with is_active := decide (i = index) }) (fun _ _ => rfl)
    exact ⟨by simp, k1, k2⟩

/-- An instance of `single_active_profile`: the mouse that `create_device`
produces from `Spec.mouse_backend` has the one active profile 1, and after
`set_active` on profile 0 the one active profile is 0. -/
theorem single_active_profile_witness :
    (Spec.create_device [Spec.mouse_backend] 1 = Except.ok Spec.mouse
      ∧ ∃ a, a < Spec.mouse.profiles.length ∧ Spec.mouse.active_profiles = [a]
        ∧ ∀ j, Spec.mouse.is_active j = true ↔ j = a)
    ∧ ∃ d2, Spec.mouse.set_active true 0 = Except.ok d2
      ∧ d2.profiles.length = Spec.mouse.profiles.length ∧ d2.active_profiles = [0]
        ∧ ∀ j, d2.is_active j = true ↔ j = 0 :=
  ⟨⟨rfl, single_active_profile.1 [Spec.mouse_backend] 1 Spec.mouse rfl⟩,
    _, rfl, single_active_profile.2 true Spec.mouse 0 _ rfl⟩

/-- The button that a successful setter leaves at its place. -/
theorem button_after_set_action (backend_ok : Bool) (d : Spec.Device) (profile index : Nat)
    (action : Spec.Action) (d2 : Spec.Device)
    (h : d.set_action backend_ok profile index action = Except.ok d2) :
    ∃ button : Spec.Button, d2.button profile index = Except.ok button
      ∧ button.action = action := by
  unfold Spec.Device.set_action at h
  split at h
  · cases h
  · rename_i p hp
    split_ifs at h with h1 h2
    cases h
    refine ⟨{ (p.buttons[index]) with action := action }, ?_, rfl⟩
    simp only [Spec.Device.button, List.getElem?_modify_eq, hp, Option.map_eq_map,
      Option.map_some', List.getElem?_eq_getElem h1]

/-- C15: in the library as the specification describes it, after a
successful `set_button` with the number `x` the button, fetched again, has
the action type button and `get_button` returns `x`; after a successful
`set_key` it has the action type key and `get_key` returns the keycode, and
with a buffer that has room for them the modifiers; after a successful
`set_special` it has the action type special and `get_special` returns the
value; after a successful `disable` it has the action type none and
`get_button` and `get_key` return 0. -/
theorem action_round_trip (backend_ok : Bool) (d : Spec.Device) (profile index : Nat)
    (d2 : Spec.Device) :
    (∀ x, d.set_button backend_ok profile index x = Except.ok d2 →
      ∃ button, d2.button profile index = Except.ok button
        ∧ button.get_button = x
        ∧ button.get_action_type
          = ratbag_button_action_type.RATBAG_BUTTON_ACTION_TYPE_BUTTON)
    ∧ (∀ key modifiers, d.set_key backend_ok profile index key modifiers = Except.ok d2 →
      ∃ button, d2.button profile index = Except.ok button
        ∧ (∀ buffer sz, (button.get_key buffer sz).1 = key)
        ∧ (∀ buffer sz, modifiers.length ≤ sz →
            (button.get_key buffer sz).2.1.take modifiers.length = modifiers
            ∧ (button.get_key buffer sz).2.2 = modifiers.length)
        ∧ button.get_action_type = ratbag_button_action_type.RATBAG_BUTTON_ACTION_TYPE_KEY)
    ∧ (∀ special, d.set_special backend_ok profile index special = Except.ok d2 →
      ∃ button, d2.button profile index = Except.ok button
        ∧ button.get_special = special
        ∧ button.get_action_type
          = ratbag_button_action_type.RATBAG_BUTTON_ACTION_TYPE_SPECIAL)
    ∧ (d.disable backend_ok profile index = Except.ok d2 →
      ∃ button, d2.button profile index = Except.ok button
        ∧ button.get_action_type = ratbag_button_action_type.RATBAG_BUTTON_ACTION_TYPE_NONE
        ∧ button.get_button = 0
        ∧ ∀ buffer sz, (button.get_key buffer sz).1 = 0) := by
  refine ⟨?_, ?_, ?_, ?_⟩
  · intro x h
    obtain ⟨button, hb, ha⟩ := button_after_set_action _ _ _ _ _ _ h
    exact ⟨button, hb, by simp [Spec.Button.get_button, ha],
      by simp [Spec.Button.get_action_type, ha]⟩
  · intro key modifiers h
    obtain ⟨button, hb, ha⟩ := button_after_set_action _ _ _ _ _ _ h
    refine ⟨button, hb, ?_, ?_, by simp [Spec.Button.get_action_type, ha]⟩
    · intro buffer sz
      simp [Spec.Button.get_key, ha]
    · intro buffer sz hsz
      simp [Spec.Button.get_key, ha, List.take_of_length_le hsz]
  · intro special h
    obtain ⟨button, hb, ha⟩ := button_after_set_action _ _ _ _ _ _ h
    exact ⟨button, hb, by simp [Spec.Button.get_special, ha],
      by simp [Spec.Button.get_action_type, ha]⟩
  · intro h
    obtain ⟨button, hb, ha⟩ := button_after_set_action _ _ _ _ _ _ h
    exact ⟨button, hb, by simp [Spec.Button.get_action_type, ha],
      by simp [Spec.Button.get_button, ha], fun _ _ => by simp [Spec.Button.get_key, ha]⟩

/-- An instance of `action_round_trip`: button 0 of the active profile 1 of
the mouse is set to the button number 5, and button 1 of profile 0 is
disabled. -/
theorem action_round_trip_witness :
    (∃ d2, Spec.mouse.set_button true 1 0 5 = Except.ok d2
      ∧ ∃ button, d2.button 1 0 = Except.ok button
        ∧ button.get_button = 5
        ∧ button.get_action_type
          = ratbag_button_action_type.RATBAG_BUTTON_ACTION_TYPE_BUTTON)
    ∧ ∃ d2, Spec.mouse.disable false 0 1 = Except.ok d2
      ∧ ∃ button, d2.button 0 1 = Except.ok button
        ∧ button.get_action_type = ratbag_button_action_type.RATBAG_BUTTON_ACTION_TYPE_NONE
        ∧ button.get_button = 0
        ∧ ∀ buffer sz, (button.get_key buffer sz).1 = 0 :=
  ⟨⟨_, rfl, (action_round_trip true Spec.mouse 1 0 _).1 5 rfl⟩,
    _, rfl, (action_round_trip false Spec.mouse 0 1 _).2.2.2 rfl⟩

/-- C16: in the library as the specification describes it, `get_key` on a
button whose action is not a key returns 0 and leaves the modifiers buffer
and `sz` as they were; on a button whose action is a key it returns the
keycode, writes the first modifiers to the start of the buffer, not more than
the capacity `sz`, leaves the rest of the buffer as it was, and leaves the
number of modifiers written in `sz`. -/
theorem get_key_mismatch_and_capacity (button : Spec.Button) (buffer : List Nat) (sz : Nat) :
    (button.get_action_type ≠ ratbag_button_action_type.RATBAG_BUTTON_ACTION_TYPE_KEY →
      button.get_key buffer sz = (0, buffer, sz))
    ∧ (∀ keycode modifiers, button.action = Spec.Action.key keycode modifiers →
      (button.get_key buffer sz).1 = keycode
      ∧ (button.get_key buffer sz).2.2 ≤ sz
      ∧ (button.get_key buffer sz).2.2 = min sz modifiers.length
      ∧ (button.get_key buffer sz).2.1.take (button.get_key buffer sz).2.2
        = modifiers.take (button.get_key buffer sz).2.2
      ∧ (button.get_key buffer sz).2.1.drop (button.get_key buffer sz).2.2
        = buffer.drop (button.get_key buffer sz).2.2) := by
  constructor
  · intro h
    unfold Spec.Button.get_key
    unfold Spec.Button.get_action_type at h
    split
    · rename_i heq
      rw [heq] at h
      exact absurd rfl h
    · rfl
  · intro keycode modifiers h
    have hlen : (modifiers.take sz).length = min sz modifiers.length := List.length_take _ _
    have hk : button.get_key buffer sz
        = (keycode, modifiers.take sz ++ buffer.drop (modifiers.take sz).length,
           (modifiers.take sz).length) := by
      simp only [Spec.Button.get_key, h]
    rw [hk]
    refine ⟨rfl, ?_, hlen, ?_, ?_⟩
    · show (modifiers.take sz).length ≤ sz
      rw [hlen]
      exact Nat.min_le_left _ _
    · show (modifiers.take sz ++ buffer.drop (modifiers.take sz).length).take
          (modifiers.take sz).length = modifiers.take (modifiers.take sz).length
      rw [List.take_left' rfl, hlen, List.take_eq_take]
      simp
    · show (modifiers.take sz ++ buffer.drop (modifiers.take sz).length).drop
          (modifiers.take sz).length = buffer.drop (modifiers.take sz).length
      rw [List.drop_left' rfl]

/-- An instance of `get_key_mismatch_and_capacity`: on the mouse, `get_key`
on the button with a button number leaves the buffer and `sz` alone, and on
the button with the key 115 and two modifiers it fills one entry of a buffer
of three entries when the capacity is 1, and two when it is 3. -/
theorem get_key_mismatch_and_capacity_witness :
    (({ button_type := 1, action := Spec.Action.button 1 } : Spec.Button).get_key [7, 8, 9] 3
      = (0, [7, 8, 9], 3))
    ∧ ({ button_type := 2, action := Spec.Action.key 115 [29, 42] } : Spec.Button).get_key
        [7, 8, 9] 1 = (115, [29, 8, 9], 1)
    ∧ ({ button_type := 2, action := Spec.Action.key 115 [29, 42] } : Spec.Button).get_key
        [7, 8, 9] 3 = (115, [29, 42, 9], 2) :=
  ⟨(get_key_mismatch_and_capacity { button_type := 1, action := Spec.Action.button 1 }
      [7, 8, 9] 3).1 (by decide), by decide, by decide⟩

/-! ### The names of the button types (C29) -/

/-- C29: `enum ratbag_button_type` has 24 members, with the values 0 to 23;
`button_type_to_str` gives them 24 names, no two the same and none of them
`UNKNOWN`, and gives `UNKNOWN` for every value that is the value of no
member. -/
theorem button_type_to_str_names :
    (∀ t : ratbag_button_type, t ∈ ratbag_button_type.members)
    ∧ ratbag_button_type.members.length = 24
    ∧ ratbag_button_type.members.map ratbag_button_type.val
        = (List.range 24).map (fun k : Nat => (k : Int))
    ∧ (ratbag_button_type.members.map fun t => button_type_to_str t.val).Nodup
    ∧ "UNKNOWN" ∉ ratbag_button_type.members.map (fun t => button_type_to_str t.val)
    ∧ ∀ type : Int, (∀ t : ratbag_button_type, t.val ≠ type) →
        button_type_to_str type = "UNKNOWN" := by
  refine ⟨fun t => by cases t <;> decide, rfl, by decide, by decide, by decide, ?_⟩
  intro type h
  unfold button_type_to_str
  rw [List.find?_eq_none.mpr]
  intro c _
  simpa using h c.1

/-! ### The names of the special actions (C23, C24) -/

/-- C24: of the eleven special actions in the table of
`str_to_special_action`, ten are printed by `button_action_special_to_str`
under the name that parses back to them; `DOUBLECLICK` is printed as
`double click`, which is not in the table (it has `doubleclick`), so its
printed name parses to `INVALID`. -/
theorem special_name_round_trip :
    str_to_special_action_map.length = 11
    ∧ special_to_str
        ratbag_button_action_special.RATBAG_BUTTON_ACTION_SPECIAL_DOUBLECLICK.val
      = "double click"
    ∧ str_to_special_action (special_to_str
        ratbag_button_action_special.RATBAG_BUTTON_ACTION_SPECIAL_DOUBLECLICK.val)
      = ratbag_button_action_special.RATBAG_BUTTON_ACTION_SPECIAL_INVALID
    ∧ str_to_special_action "doubleclick"
      = ratbag_button_action_special.RATBAG_BUTTON_ACTION_SPECIAL_DOUBLECLICK
    ∧ ∀ m ∈ str_to_special_action_map,
        m.1 ≠ ratbag_button_action_special.RATBAG_BUTTON_ACTION_SPECIAL_DOUBLECLICK →
        str_to_special_action (special_to_str m.1.val) = m.1 := by
  decide

/-- C22: change-button with the action `key` takes the result of
`libevdev_event_code_from_name` as an `unsigned int` and rejects 0 only.  For
a key name that libevdev does not resolve, result -1, it does not report
`Failed to resolve key`: on a device with the button-key capability, an
active profile and a button at the given index it opens the device and calls
`ratbag_button_set_key` with the key 4294967295 and no modifiers, then
commits the profile; the status is 0 if the library accepts both calls. -/
theorem change_button_sets_unresolved_key (L : Lib W) (Inv : W → Prop) (device : Ptr)
    (n : Int) (P : Int → Ptr) (active : Int → Prop)
    (hL : ShowsProfiles L Inv device n P active)
    (ratbag : Ptr) (flags : Nat) (arg action_arg path : String) (w : W)
    (hopen : (ratbag_cmd_open_device L ratbag path (St.init w)).1 = device) (hdev : device ≠ 0)
    (hinv : Inv (ratbag_cmd_open_device L ratbag path (St.init w)).2.world)
    (hcap : ∀ w, Inv w → (L.answer (Call.ratbag_device_has_capability device
      ratbag_capability.RATBAG_CAP_BUTTON_KEY) w).1.val ≠ 0)
    (a : Int) (ha0 : 0 ≤ a) (han : a < n) (hactive : active a)
    (hlow : ∀ i, 0 ≤ i → i < a → ¬ active i)
    (button : Ptr) (hb : button ≠ 0)
    (hbutton : ∀ w, Inv w → (L.answer
      (Call.ratbag_profile_get_button_by_index (P a) (u32 (L.atoi arg))) w).1.val = button)
    (hkey : L.libevdev_event_code_from_name EV_KEY action_arg = -1) :
    (change_button_action L "key" action_arg (St.init w))
      = (some (button_action.key 4294967295), St.init w)
    ∧ ∃ a1 a2 : Ans,
      setter_calls (ratbag_cmd_change_button L ratbag flags [arg, "key", action_arg, path]
          (St.init w)).2.trace
        = (Call.ratbag_button_set_key button 4294967295 [], a1)
            :: (if a1.val = 0 then [(Call.ratbag_profile_set_active (P a), a2)] else [])
      ∧ ((ratbag_cmd_change_button L ratbag flags [arg, "key", action_arg, path]
          (St.init w)).1 = 0 ↔ a1.val = 0 ∧ a2.val = 0) := by
  have hparse : (change_button_action L "key" action_arg (St.init w))
      = (some (button_action.key 4294967295), St.init w) := by
    unfold change_button_action
    rw [if_neg (by decide), if_pos rfl, hkey, if_neg (by decide)]
    rfl
  refine ⟨hparse, ?_⟩
  obtain ⟨s, hs, hi, heq⟩ := change_button_reaches_lookup L Inv device n P active hL ratbag
    flags arg "key" action_arg path w (button_action.key 4294967295) (by rw [hparse])
    hopen hdev hinv hcap a ha0 han hactive hlow
  rw [heq]
  have hbv : (libcall L (Call.ratbag_profile_get_button_by_index (P a) (u32 (L.atoi arg)))
      s).1.val = button := hbutton _ hi
  have hs2 : Steps L (fun e => e.no_setter = true) (St.init w)
      (libcall L (Call.ratbag_profile_get_button_by_index (P a) (u32 (L.atoi arg))) s).2 :=
    Steps.call _ hs rfl
  generalize libcall L (Call.ratbag_profile_get_button_by_index (P a) (u32 (L.atoi arg))) s
    = rb at hbv hs2 ⊢
  obtain ⟨ab, sb⟩ := rb
  simp only at hbv hs2 ⊢
  subst hbv
  rw [if_neg hb]
  have hset : setter_calls sb.trace = [] := hs2.setter_calls
  refine ⟨(libcall L (Call.ratbag_button_set_key ab.val 4294967295 []) sb).1,
    (libcall L (Call.ratbag_profile_set_active (P a))
      (libcall L (Call.ratbag_button_set_key ab.val 4294967295 []) sb).2).1, ?_, ?_⟩
  · simp only [change_button_setter]
    split_ifs with h1 h2 h3 h4 <;>
      simp_all [change_button_out, setter_calls_append, Call.is_setter]
  · simp only [change_button_setter]
    split_ifs with h1 h2 <;> simp_all [change_button_out]

/-- An instance of `change_button_sets_unresolved_key`: button 3 of the mouse
and the key name `KEY_FOO`, which the libevdev of the mouse does not know. -/
theorem change_button_sets_unresolved_key_witness :
    (change_button_action (Mouse.lib 3 2 8) "key" "KEY_FOO" (St.init { active := 1 }))
      = (some (button_action.key 4294967295), St.init { active := 1 })
    ∧ ∃ a1 a2 : Ans,
      setter_calls (ratbag_cmd_change_button (Mouse.lib 3 2 8) 1 0
          ["3", "key", "KEY_FOO", "/dev/input/event0"] (St.init { active := 1 })).2.trace
        = (Call.ratbag_button_set_key 2003 4294967295 [], a1)
            :: (if a1.val = 0 then [(Call.ratbag_profile_set_active (100 + 1), a2)] else [])
      ∧ ((ratbag_cmd_change_button (Mouse.lib 3 2 8) 1 0
          ["3", "key", "KEY_FOO", "/dev/input/event0"] (St.init { active := 1 })).1 = 0
        ↔ a1.val = 0 ∧ a2.val = 0) :=
  change_button_sets_unresolved_key (Mouse.lib 3 2 8) (fun m => m.active = 1) 10 3
    (fun i => 100 + i) (fun i => i = 1) (mouse_shows_profiles 3 2 8 (by decide) (by decide) 1)
    1 0 "3" "KEY_FOO" "/dev/input/event0" { active := 1 }
    (by decide) (by decide) rfl (fun _ _ => by simp [Mouse.lib, Mouse.answer])
    1 (by decide) (by decide) rfl (fun i _ _ _ => by omega) 2003 (by decide)
    (fun _ _ => rfl) (by decide)

/-- The run of change-button with the key name `KEY_FOO` on the small mouse,
evaluated: the status is 0, nothing is written on standard error, and the
setter calls are `ratbag_button_set_key` with 4294967295 and
`ratbag_profile_set_active`. -/
theorem change_button_unresolved_key_run :
    (ratbag_cmd_change_button (Mouse.lib 3 2 8) 1 0
        ["3", "key", "KEY_FOO", "/dev/input/event0"] (St.init { active := 1 })).1 = 0
    ∧ written Stream.stderr (ratbag_cmd_change_button (Mouse.lib 3 2 8) 1 0
        ["3", "key", "KEY_FOO", "/dev/input/event0"] (St.init { active := 1 })).2.trace = []
    ∧ (setter_calls (ratbag_cmd_change_button (Mouse.lib 3 2 8) 1 0
        ["3", "key", "KEY_FOO", "/dev/input/event0"] (St.init { active := 1 })).2.trace).map
          (fun ca => ca.1)
      = [Call.ratbag_button_set_key 2003 4294967295 [], Call.ratbag_profile_set_active 101] := by
  decide

/-! ### switch-profile to the active profile (C28) -/

/-- C28: on a device with switchable profiles, of fewer than `2 ^ 31`
profiles, switch-profile with the index `N` of a profile that reports active
calls no setter, so `ratbag_profile_set_active` on no profile, writes the
notice `is already in profile` with the name of the device and `N` on
standard output, and returns 1. -/
theorem switch_profile_already_active (L : Lib W) (Inv : W → Prop) (device : Ptr) (n : Int)
    (P : Int → Ptr) (active : Int → Prop) (hL : ShowsProfiles L Inv device n P active)
    (ratbag : Ptr) (flags : Nat) (arg path : String) (w : W)
    (hopen : (ratbag_cmd_open_device L ratbag path (St.init w)).1 = device) (hdev : device ≠ 0)
    (hinv : Inv (ratbag_cmd_open_device L ratbag path (St.init w)).2.world)
    (hcap : ∀ w, Inv w → (L.answer (Call.ratbag_device_has_capability device
      ratbag_capability.RATBAG_CAP_SWITCHABLE_PROFILE) w).1.val ≠ 0)
    (hn : n < 2147483648) (hN0 : 0 ≤ L.atoi arg) (hNn : L.atoi arg < n)
    (hNa : active (L.atoi arg)) :
    (ratbag_cmd_switch_profile L ratbag flags [arg, path] (St.init w)).1 = 1
    ∧ setter_calls (ratbag_cmd_switch_profile L ratbag flags [arg, path] (St.init w)).2.trace
      = []
    ∧ ¬ called Call.is_set_active
        (ratbag_cmd_switch_profile L ratbag flags [arg, path] (St.init w)).2.trace
    ∧ ∃ name : Option String,
        written Stream.stdout
          (ratbag_cmd_switch_profile L ratbag flags [arg, path] (St.init w)).2.trace
        = ["'" ++ fmt_s name ++ "' is already in profile '" ++ fmt_d (L.atoi arg) ++ "'\n"] := by
  have hK : ∀ e : Event, e.no_setter = true ∧ e.is_stdout = false →
      e.no_setter = true ∧ e.is_stdout = false := fun _ h => h
  have hs1 : Steps L (fun e => e.no_setter = true ∧ e.is_stdout = false) (St.init w)
      (ratbag_cmd_open_device L ratbag path (St.init w)).2 :=
    Steps.open_device ratbag path (Steps.refl _)
      (fun e he => ⟨is_open_no_setter e he, by cases e <;> first | rfl | (rename_i st _; cases st <;> first | rfl | cases he)⟩)
  have hi1 := hinv
  unfold ratbag_cmd_switch_profile
  dsimp only
  generalize ratbag_cmd_open_device L ratbag path (St.init w) = od at hopen hs1 hi1 ⊢
  obtain ⟨d, s1⟩ := od
  simp only at hopen hs1 hi1 ⊢
  subst hopen
  obtain ⟨hstable, hnum, hprof, hactive⟩ := id hL
  rw [if_neg hdev]
  -- the capability
  have hc : (libcall L (Call.ratbag_device_has_capability d
      ratbag_capability.RATBAG_CAP_SWITCHABLE_PROFILE) s1).1.val ≠ 0 := hcap _ hi1
  have hi2 : Inv (libcall L (Call.ratbag_device_has_capability d
      ratbag_capability.RATBAG_CAP_SWITCHABLE_PROFILE) s1).2.world := hstable _ _ rfl hi1
  have hs2 := Steps.call (Call.ratbag_device_has_capability d
      ratbag_capability.RATBAG_CAP_SWITCHABLE_PROFILE) hs1 ⟨rfl, rfl⟩
  generalize libcall L (Call.ratbag_device_has_capability d
      ratbag_capability.RATBAG_CAP_SWITCHABLE_PROFILE) s1 = r2 at hc hs2 hi2 ⊢
  obtain ⟨a2, s2⟩ := r2
  simp only at hc hs2 hi2 ⊢
  rw [if_neg hc]
  -- the number of profiles
  have hnp : u32 (libcall L (Call.ratbag_device_get_num_profiles d) s2).1.val = n := hnum _ hi2
  have hi3 : Inv (libcall L (Call.ratbag_device_get_num_profiles d) s2).2.world :=
    hstable _ _ rfl hi2
  have hs3 := Steps.call (Call.ratbag_device_get_num_profiles d) hs2 ⟨rfl, rfl⟩
  generalize libcall L (Call.ratbag_device_get_num_profiles d) s2 = r3 at hnp hs3 hi3 ⊢
  obtain ⟨a3, s3⟩ := r3
  simp only at hnp hs3 hi3 ⊢
  rw [hnp, i32_of_range n (by omega) hn, if_neg (by omega), u32_of_range _ hN0 (by omega)]
  -- the requested profile
  have hp : (libcall L (Call.ratbag_device_get_profile_by_index d (L.atoi arg)) s3).1.val
      = P (L.atoi arg) := (hprof _ _ hi3 hN0 hNn).1
  have hi4 : Inv (libcall L (Call.ratbag_device_get_profile_by_index d (L.atoi arg))
      s3).2.world := hstable _ _ rfl hi3
  have hs4 := Steps.call (Call.ratbag_device_get_profile_by_index d (L.atoi arg)) hs3
    ⟨rfl, rfl⟩
  generalize libcall L (Call.ratbag_device_get_profile_by_index d (L.atoi arg)) s3 = r4
    at hp hs4 hi4 ⊢
  obtain ⟨a4, s4⟩ := r4
  simp only at hp hs4 hi4 ⊢
  rw [hp]
  have hna : (libcall L (Call.ratbag_profile_is_active (P (L.atoi arg))) s4).1.val ≠ 0 :=
    (hactive _ _ hi4 hN0 hNn).2 hNa
  have hs5 := Steps.call (Call.ratbag_profile_is_active (P (L.atoi arg))) hs4 ⟨rfl, rfl⟩
  generalize libcall L (Call.ratbag_profile_is_active (P (L.atoi arg))) s4 = r5 at hna hs5 ⊢
  obtain ⟨a5, s5⟩ := r5
  simp only at hna hs5 ⊢
  rw [if_pos hna]
  have hset : setter_calls s5.trace = [] :=
    (hs5.mono (fun _ h => h.1)).setter_calls
  have hout : written Stream.stdout s5.trace = [] :=
    hs5.written_eq Stream.stdout (fun text h => by cases h.2)
  have hsc : setter_calls
      (switch_profile_out L d (P (L.atoi arg)) 0 1
        (printf ("'" ++ fmt_s (libcall L (Call.ratbag_device_get_name d) s5).1.str
          ++ "' is already in profile '" ++ fmt_d (L.atoi arg) ++ "'\n")
          (libcall L (Call.ratbag_device_get_name d) s5).2)).2.trace = [] := by
    simp [switch_profile_out, setter_calls_append, hset, Call.is_setter]
  refine ⟨rfl, hsc, ?_, (libcall L (Call.ratbag_device_get_name d) s5).1.str, ?_⟩
  · rintro ⟨ca, hmem, hq⟩
    have hmem2 : ca ∈ setter_calls
        (switch_profile_out L d (P (L.atoi arg)) 0 1
          (printf ("'" ++ fmt_s (libcall L (Call.ratbag_device_get_name d) s5).1.str
            ++ "' is already in profile '" ++ fmt_d (L.atoi arg) ++ "'\n")
            (libcall L (Call.ratbag_device_get_name d) s5).2)).2.trace := by
      unfold setter_calls
      rw [List.mem_filter]
      refine ⟨hmem, ?_⟩
      obtain ⟨c, a⟩ := ca
      cases c <;> first | rfl | cases hq
    rw [hsc] at hmem2
    cases hmem2
  · simp [switch_profile_out, written_append, written, hout]

/-- An instance of `switch_profile_already_active`: the mouse with three
profiles, profile 1 active, asked for profile 1. -/
theorem switch_profile_already_active_witness :
    (ratbag_cmd_switch_profile (Mouse.lib 3 2 8) 1 0 ["1", "/dev/input/event0"]
        (St.init { active := 1 })).1 = 1
    ∧ setter_calls (ratbag_cmd_switch_profile (Mouse.lib 3 2 8) 1 0
        ["1", "/dev/input/event0"] (St.init { active := 1 })).2.trace = []
    ∧ ¬ called Call.is_set_active
        (ratbag_cmd_switch_profile (Mouse.lib 3 2 8) 1 0 ["1", "/dev/input/event0"]
          (St.init { active := 1 })).2.trace
    ∧ ∃ name : Option String,
        written Stream.stdout
          (ratbag_cmd_switch_profile (Mouse.lib 3 2 8) 1 0 ["1", "/dev/input/event0"]
            (St.init { active := 1 })).2.trace
        = ["'" ++ fmt_s name ++ "' is already in profile '"
            ++ fmt_d ((Mouse.lib 3 2 8).atoi "1") ++ "'\n"] :=
  switch_profile_already_active (Mouse.lib 3 2 8) (fun m => m.active = 1) 10 3
    (fun i => 100 + i) (fun i => i = 1) (mouse_shows_profiles 3 2 8 (by decide) (by decide) 1)
    1 0 "1" "/dev/input/event0" { active := 1 }
    (by decide) (by decide) rfl (fun _ _ => by simp [Mouse.lib, Mouse.answer])
    (by decide) (by decide) (by decide) (by decide)

/-! ### The release of the context in main (C25) -/

theorem Steps.main_options {L : Lib W} {K : Event → Prop} {s : St W}
    (hk : ∀ e : Event, e.is_stdout = true → K e) (steps : List (Int × Option String))
    (flags : Nat) (t : St W) (h : Steps L K s t) :
    Steps L K s (Ratbag.main_options L steps flags t).2 := by
  induction steps generalizing flags with
  | nil => exact h
  | cons o rest ih =>
    obtain ⟨c, optarg⟩ := o
    rw [Ratbag.main_options]
    exact Steps.ite_snd (Steps.usage h hk)
      (Steps.ite_snd (Steps.ite_snd (ih _) (ih _)) (Steps.usage h hk))

theorem Steps.context_unref_calls {L : Lib W} {s t : St W}
    (h : Steps L (fun e => ∀ c a, e = Event.call c a → c.is_context_unref = false) s t) :
    Ratbag.context_unref_calls t.trace = Ratbag.context_unref_calls s.trace := by
  unfold Ratbag.context_unref_calls
  rw [h.calls_filter Call.is_context_unref (fun c a hc => hc c a rfl)]

theorem in_command_no_context_unref (e : Event) (h : e.in_command = true) (c : Call) (a : Ans)
    (he : e = Event.call c a) : c.is_context_unref = false := by
  subst he
  cases c <;> first | rfl | cases h

theorem context_unref_calls_unref (L : Lib W) (ratbag : Ptr) (s : St W) :
    context_unref_calls (libcall L (Call.ratbag_unref ratbag) s).2.trace
      = context_unref_calls s.trace ++ [Call.ratbag_unref ratbag] := by
  simp [context_unref_calls, calls_append, calls, Call.is_context_unref]

/-- C25: when there is a context, `main` releases it with one call of
`ratbag_unref` on every path but one: after help, with no command word, with
a known and with an unknown command word.  When `getopt_long` reports an
option that is neither help nor `--verbose`, `main` writes the usage and
returns 1 without any call of `ratbag_unref`. -/
theorem main_invalid_option_keeps_context (L : Lib W) (argv : List String) (w : W)
    (hctx : (libcall L Call.ratbag_create_context (St.init w)).1.val ≠ 0) :
    ((main_options L (L.getopt_long argv).steps 0
        (libcall L Call.ratbag_create_context (St.init w)).2).1 = OptionsEnd.invalid →
      (main L argv (St.init w)).1 = 1
      ∧ context_unref_calls (main L argv (St.init w)).2.trace = [])
    ∧ ((main_options L (L.getopt_long argv).steps 0
        (libcall L Call.ratbag_create_context (St.init w)).2).1 ≠ OptionsEnd.invalid →
      context_unref_calls (main L argv (St.init w)).2.trace
        = [Call.ratbag_unref (libcall L Call.ratbag_create_context (St.init w)).1.val]) := by
  have h0 : context_unref_calls (libcall L Call.ratbag_create_context (St.init w)).2.trace
      = [] := rfl
  have hk : ∀ e : Event, e.in_command = true →
      ∀ c a, e = Event.call c a → c.is_context_unref = false :=
    in_command_no_context_unref
  have hopt : Steps L (fun e => ∀ c a, e = Event.call c a → c.is_context_unref = false)
      (libcall L Call.ratbag_create_context (St.init w)).2
      (main_options L (L.getopt_long argv).steps 0
        (libcall L Call.ratbag_create_context (St.init w)).2).2 :=
    Steps.main_options (Steps.stdout_in_command hk) _ _ _ (Steps.refl _)
  have hopt0 := hopt.context_unref_calls
  rw [h0] at hopt0
  constructor
  · intro hinv
    unfold main
    simp only [if_neg hctx]
    generalize main_options L (L.getopt_long argv).steps 0
      (libcall L Call.ratbag_create_context (St.init w)).2 = opts at hinv hopt0 ⊢
    obtain ⟨e, so⟩ := opts
    dsimp only at hinv hopt0 ⊢
    subst hinv
    exact ⟨rfl, hopt0⟩
  · intro hne
    cases hend : (main_options L (L.getopt_long argv).steps 0
        (libcall L Call.ratbag_create_context (St.init w)).2).1 with
    | invalid => exact absurd hend hne
    | help =>
      unfold main
      simp only [if_neg hctx]
      generalize main_options L (L.getopt_long argv).steps 0
        (libcall L Call.ratbag_create_context (St.init w)).2 = opts at hend hopt0 ⊢
      obtain ⟨e, so⟩ := opts
      dsimp only at hend hopt0 ⊢
      subst hend
      simp only [main_out]
      rw [context_unref_calls_unref, hopt0]
      rfl
    | done flags =>
      have hs1 : Steps L (fun e => ∀ c a, e = Event.call c a → c.is_context_unref = false)
          (libcall L Call.ratbag_create_context (St.init w)).2
          (if flags &&& FLAG_VERBOSE_RAW ≠ 0 then
            (libcall L (Call.ratbag_log_set_priority
              (libcall L Call.ratbag_create_context (St.init w)).1.val
              RATBAG_LOG_PRIORITY_RAW)
              (libcall L Call.ratbag_create_context (St.init w)).2).2
          else if flags &&& FLAG_VERBOSE ≠ 0 then
            (libcall L (Call.ratbag_log_set_priority
              (libcall L Call.ratbag_create_context (St.init w)).1.val
              RATBAG_LOG_PRIORITY_DEBUG)
              (libcall L Call.ratbag_create_context (St.init w)).2).2
          else (libcall L Call.ratbag_create_context (St.init w)).2) :=
        Steps.ite (Steps.call _ (Steps.refl _) (fun c a h => by cases h; rfl))
          (Steps.ite (Steps.call _ (Steps.refl _) (fun c a h => by cases h; rfl))
            (Steps.refl _))
      by_cases hword : (L.getopt_long argv).optind < argv.length
      · rw [main_with_command L argv w flags hctx hend hword]
        dsimp only
        cases hfind : ratbag_commands.find?
            (fun cmd => cmd.1.name = argv.getD (L.getopt_long argv).optind "") with
        | some cmd =>
          have hmem : cmd ∈ ratbag_commands := List.mem_of_find?_eq_some hfind
          simp only [main_out]
          rw [context_unref_calls_unref,
            (Steps.command hk cmd hmem _ _ _ _ hs1).context_unref_calls, h0]
          rfl
        | none =>
          simp only [main_out]
          rw [context_unref_calls_unref,
            (Steps.usage (Steps.error _ hs1 (Steps.stderr_in_command hk))
              (Steps.stdout_in_command hk)).context_unref_calls, h0]
          rfl
      · have hdone := main_options_done L _ _ _ _ hend
        unfold main
        simp only [if_neg hctx, hdone, if_pos (not_lt.mp hword)]
        rw [context_unref_calls_unref,
          (Steps.usage (Steps.refl _) (Steps.stdout_in_command hk)).context_unref_calls, h0]
        rfl

/-- An instance of `main_invalid_option_keeps_context`: the small mouse, for
which `getopt_long` reports the character `?` (63) for the option `-x`. -/
theorem main_invalid_option_keeps_context_witness :
    (main ((Mouse.lib 1 1 1).with_getopt (fun _ => { steps := [(63, none)], optind := 2 }))
        ["ratbag-command", "-x", "info", "/dev/input/event0"] (St.init { active := 0 })).1 = 1
    ∧ context_unref_calls
        (main ((Mouse.lib 1 1 1).with_getopt (fun _ => { steps := [(63, none)], optind := 2 }))
          ["ratbag-command", "-x", "info", "/dev/input/event0"]
          (St.init { active := 0 })).2.trace = [] :=
  (main_invalid_option_keeps_context
    ((Mouse.lib 1 1 1).with_getopt (fun _ => { steps := [(63, none)], optind := 2 }))
    ["ratbag-command", "-x", "info", "/dev/input/event0"] { active := 0 } (by decide)).1 rfl

/-- Runs of `main` on the small mouse, evaluated: with the option `-x`, with
help, without a command word, with the command `info` and with an unknown
command word; the first makes no call of `ratbag_unref`, the others one. -/
theorem main_context_unref_runs :
    ([([(63, none)], 2, ["ratbag-command", "-x", "info", "/dev/input/event0"]),
      ([(104, none)], 2, ["ratbag-command", "-h"]),
      ([], 1, ["ratbag-command"]),
      ([], 1, ["ratbag-command", "info", "/dev/input/event0"]),
      ([], 1, ["ratbag-command", "foo"])].map
      fun (run : List (Int × Option String) × Nat × List String) =>
        context_unref_calls (main ((Mouse.lib 1 1 1).with_getopt
            (fun _ => { steps := run.1, optind := run.2.1 })) run.2.2
          (St.init { active := 0 })).2.trace)
    = [[], [Call.ratbag_unref 1], [Call.ratbag_unref 1], [Call.ratbag_unref 1],
       [Call.ratbag_unref 1]] := by
  decide

/-! ### list (C21) -/

theorem device_unref_calls_append (l1 l2 : List Event) :
    device_unref_calls (l1 ++ l2) = device_unref_calls l1 ++ device_unref_calls l2 := by
  simp [device_unref_calls, calls_append]

theorem Steps.device_unref_calls {L : Lib W} {K : Event → Prop} {s t : St W}
    (h : Steps L K s t) (hk : ∀ c a, K (Event.call c a) → c.is_device_unref = false) :
    Ratbag.device_unref_calls t.trace = Ratbag.device_unref_calls s.trace := by
  unfold Ratbag.device_unref_calls
  rw [h.calls_filter Call.is_device_unref hk]

theorem filter_event_node_iff (d_name : String) :
    filter_event_node d_name = true ↔ ∃ rest : String, d_name = "event" ++ rest := by
  unfold filter_event_node strneq
  constructor
  · intro h
    refine ⟨⟨d_name.data.drop 5⟩, ?_⟩
    apply String.ext
    have h2 : d_name.data.take 5 = "event".data := by simpa using h
    rw [String.data_append, ← h2]
    exact (List.take_append_drop 5 d_name.data).symm
  · rintro ⟨rest, rfl⟩
    rw [String.data_append]
    rfl

/-- The loop of list over entries whose paths fit in `path`: one line and one
release for each entry that opens, in the order of the entries, and no
`sprintf` past the end of the buffer. -/
theorem list_loop_obs (L : Lib W) (Inv : W → Prop) (ratbag : Ptr) (D : String → Ptr)
    (N : String → Option String)
    (hopen : ∀ (d_name : String) (s : St W), Inv s.world →
      (ratbag_cmd_open_device L ratbag ("/dev/input/" ++ d_name) s).1 = D d_name
      ∧ Inv (ratbag_cmd_open_device L ratbag ("/dev/input/" ++ d_name) s).2.world)
    (hname : ∀ (d_name : String) (w : W), Inv w → D d_name ≠ 0 →
      (L.answer (Call.ratbag_device_get_name (D d_name)) w).1.str = N d_name
      ∧ Inv (L.answer (Call.ratbag_device_get_name (D d_name)) w).2)
    (hunref : ∀ (d_name : String) (w : W), Inv w → D d_name ≠ 0 →
      Inv (L.answer (Call.ratbag_device_unref (D d_name)) w).2)
    (entries : List String)
    (hfit : ∀ d_name ∈ entries, ("/dev/input/" ++ d_name).utf8ByteSize < 256)
    (supported : Nat) (s : St W) (hs : Inv s.world) :
    (list_loop L ratbag entries supported s).1
      = supported + (entries.filter (fun d_name => decide (D d_name ≠ 0))).length
    ∧ written Stream.stdout (list_loop L ratbag entries supported s).2.trace
      = written Stream.stdout s.trace
        ++ (entries.filter (fun d_name => decide (D d_name ≠ 0))).map
          (fun d_name => "/dev/input/" ++ d_name ++ ":\t" ++ fmt_s (N d_name) ++ "\n")
    ∧ device_unref_calls (list_loop L ratbag entries supported s).2.trace
      = device_unref_calls s.trace
        ++ (entries.filter (fun d_name => decide (D d_name ≠ 0))).map
          (fun d_name => Call.ratbag_device_unref (D d_name))
    ∧ (calls (list_loop L ratbag entries supported s).2.trace).filter
        (fun ca => ca.1.is_sprintf)
      = (calls s.trace).filter (fun ca => ca.1.is_sprintf) := by
  induction entries generalizing supported s with
  | nil => simp [list_loop]
  | cons d_name rest ih =>
    rw [list_loop]
    have hfit0 : ¬ 256 ≤ ("/dev/input/" ++ d_name).utf8ByteSize :=
      not_le.mpr (hfit d_name (List.mem_cons_self _ _))
    have hfit1 : ∀ e ∈ rest, ("/dev/input/" ++ e).utf8ByteSize < 256 :=
      fun e he => hfit e (List.mem_cons_of_mem _ he)
    rw [if_neg hfit0]
    obtain ⟨hd, hi1⟩ := hopen d_name s hs
    have hst : Steps L (fun e => e.is_open = true) s
        (ratbag_cmd_open_device L ratbag ("/dev/input/" ++ d_name) s).2 :=
      Steps.open_device ratbag _ (Steps.refl _) (fun _ h => h)
    have hw1 := hst.written_eq Stream.stdout (fun text h => by cases h)
    have hu1 := hst.device_unref_calls (fun c a h => by cases c <;> first | rfl | cases h)
    have hp1 := hst.calls_filter Call.is_sprintf
      (fun c a h => by cases c <;> first | rfl | cases h)
    generalize ratbag_cmd_open_device L ratbag ("/dev/input/" ++ d_name) s = od
      at hd hi1 hw1 hu1 hp1 ⊢
    obtain ⟨d, s1⟩ := od
    dsimp only at hd hi1 hw1 hu1 hp1 ⊢
    subst hd
    by_cases h0 : D d_name = 0
    · rw [if_neg (by simpa using h0)]
      obtain ⟨i1, i2, i3, i4⟩ := ih hfit1 supported s1 hi1
      rw [i1, i2, i3, i4, hw1, hu1, hp1]
      simp [h0]
    · rw [if_pos h0]
      obtain ⟨hn, hi2⟩ := hname d_name s1.world hi1 h0
      have hi3 : Inv (libcall L (Call.ratbag_device_unref (D d_name))
          (printf ("/dev/input/" ++ d_name ++ ":\t"
            ++ fmt_s (libcall L (Call.ratbag_device_get_name (D d_name)) s1).1.str ++ "\n")
            (libcall L (Call.ratbag_device_get_name (D d_name)) s1).2)).2.world :=
        hunref d_name _ hi2 h0
      obtain ⟨i1, i2, i3, i4⟩ := ih hfit1 (supported + 1) _ hi3
      rw [i1, i2, i3, i4]
      have hn2 : (libcall L (Call.ratbag_device_get_name (D d_name)) s1).1.str = N d_name := hn
      rw [hn2]
      refine ⟨?_, ?_, ?_, ?_⟩
      · simp [h0]
        omega
      · simp [h0, written_append, written, hw1]
      · rw [libcall_trace, printf_trace, libcall_trace, device_unref_calls_append,
          device_unref_calls_append, device_unref_calls_append, hu1]
        simp [h0, device_unref_calls, calls, Call.is_device_unref]
      · rw [libcall_trace, printf_trace, libcall_trace, calls_append, calls_append,
          calls_append, List.filter_append, List.filter_append, List.filter_append, hp1]
        simp [calls, Call.is_sprintf]

/-- Without `/dev/input`, so with no entry at all, list returns 0 and writes
nothing: `scandir` fails, and `No supported devices found` is not printed. -/
theorem list_silent_without_directory :
    (((Mouse.lib 1 1 1).answering Mouse.no_directory).answer (Call.scandir "/dev/input")
        { active := 0 }).1.names.filter filter_event_node = []
    ∧ (ratbag_cmd_list_supported_devices ((Mouse.lib 1 1 1).answering Mouse.no_directory)
        1 0 [] (St.init { active := 0 })).1 = 0
    ∧ written Stream.stdout
        (ratbag_cmd_list_supported_devices ((Mouse.lib 1 1 1).answering Mouse.no_directory)
          1 0 [] (St.init { active := 0 })).2.trace = [] := by
  decide

/-- C21 (as the code behaves): `filter_event_node` selects the entries whose
name begins with `event`, and list visits them in the order of `alphasort`.
If `scandir` fails, list returns 0 after this one call and writes nothing.
If `scandir` succeeds and the path of every selected entry fits in
`path[256]`, list returns 0, writes one line `path:<TAB>name` for exactly the
entries whose device opens, in that order, and after them
`No supported devices found` exactly when there is no such entry, releases
each of these devices once, and no `sprintf` goes past the end of `path`. -/
theorem list_prints_supported_devices (L : Lib W) (Inv : W → Prop) (ratbag : Ptr)
    (flags : Nat) (D : String → Ptr) (N : String → Option String) (w : W)
    (hopen : ∀ (d_name : String) (s : St W), Inv s.world →
      (ratbag_cmd_open_device L ratbag ("/dev/input/" ++ d_name) s).1 = D d_name
      ∧ Inv (ratbag_cmd_open_device L ratbag ("/dev/input/" ++ d_name) s).2.world)
    (hname : ∀ (d_name : String) (w1 : W), Inv w1 → D d_name ≠ 0 →
      (L.answer (Call.ratbag_device_get_name (D d_name)) w1).1.str = N d_name
      ∧ Inv (L.answer (Call.ratbag_device_get_name (D d_name)) w1).2)
    (hunref : ∀ (d_name : String) (w1 : W), Inv w1 → D d_name ≠ 0 →
      Inv (L.answer (Call.ratbag_device_unref (D d_name)) w1).2) :
    (∀ d_name : String,
        filter_event_node d_name = true ↔ ∃ rest : String, d_name = "event" ++ rest)
    ∧ (∀ names : List String,
        ((names.filter filter_event_node).insertionSort alphasort).Sorted alphasort
        ∧ ((names.filter filter_event_node).insertionSort alphasort).Perm
            (names.filter filter_event_node))
    ∧ ((L.answer (Call.scandir "/dev/input") w).1.val < 0 →
        (ratbag_cmd_list_supported_devices L ratbag flags [] (St.init w)).1 = 0
        ∧ (ratbag_cmd_list_supported_devices L ratbag flags [] (St.init w)).2.trace
          = [Event.call (Call.scandir "/dev/input")
              (L.answer (Call.scandir "/dev/input") w).1])
    ∧ (0 ≤ (L.answer (Call.scandir "/dev/input") w).1.val →
       Inv (L.answer (Call.scandir "/dev/input") w).2 →
       (∀ d_name ∈ (L.answer (Call.scandir "/dev/input") w).1.names,
          filter_event_node d_name = true →
          ("/dev/input/" ++ d_name).utf8ByteSize < 256) →
       (ratbag_cmd_list_supported_devices L ratbag flags [] (St.init w)).1 = 0
       ∧ written Stream.stdout
           (ratbag_cmd_list_supported_devices L ratbag flags [] (St.init w)).2.trace
         = ((((L.answer (Call.scandir "/dev/input") w).1.names.filter
                filter_event_node).insertionSort alphasort).filter
              (fun d_name => decide (D d_name ≠ 0))).map
              (fun d_name => "/dev/input/" ++ d_name ++ ":\t" ++ fmt_s (N d_name) ++ "\n")
           ++ (if ∃ d_name ∈ (L.answer (Call.scandir "/dev/input") w).1.names,
                  filter_event_node d_name = true ∧ D d_name ≠ 0
               then [] else ["No supported devices found\n"])
       ∧ device_unref_calls
           (ratbag_cmd_list_supported_devices L ratbag flags [] (St.init w)).2.trace
         = ((((L.answer (Call.scandir "/dev/input") w).1.names.filter
                filter_event_node).insertionSort alphasort).filter
              (fun d_name => decide (D d_name ≠ 0))).map
              (fun d_name => Call.ratbag_device_unref (D d_name))
       ∧ ¬ called Call.is_sprintf
           (ratbag_cmd_list_supported_devices L ratbag flags [] (St.init w)).2.trace) := by
  refine ⟨filter_event_node_iff, ?_, ?_, ?_⟩
  · intro names
    haveI : IsTotal String alphasort := ⟨fun a b => le_total a b⟩
    haveI : IsTrans String alphasort := ⟨fun _ _ _ hab hbc => le_trans hab hbc⟩
    exact ⟨List.sorted_insertionSort alphasort _, List.perm_insertionSort alphasort _⟩
  · intro hfail
    have hfail2 : (libcall L (Call.scandir "/dev/input") (St.init w)).1.val < 0 := hfail
    simp only [ratbag_cmd_list_supported_devices]
    rw [if_pos hfail2]
    exact ⟨rfl, rfl⟩
  · intro hscan hinv hfit
    have hfit2 : ∀ d_name ∈ ((L.answer (Call.scandir "/dev/input") w).1.names.filter
        filter_event_node).insertionSort alphasort,
        ("/dev/input/" ++ d_name).utf8ByteSize < 256 := by
      intro d_name hm
      have hm2 := List.mem_filter.mp ((List.perm_insertionSort alphasort _).mem_iff.mp hm)
      exact hfit d_name hm2.1 hm2.2
    have hobs := list_loop_obs L Inv ratbag D N hopen hname hunref
      (((L.answer (Call.scandir "/dev/input") w).1.names.filter
        filter_event_node).insertionSort alphasort) hfit2 0
      (libcall L (Call.scandir "/dev/input") (St.init w)).2 hinv
    obtain ⟨h1, h2, h3, h4⟩ := hobs
    have hlen : (((((L.answer (Call.scandir "/dev/input") w).1.names.filter
          filter_event_node).insertionSort alphasort).filter
          (fun d_name => decide (D d_name ≠ 0))).length = 0)
        ↔ ¬ ∃ d_name ∈ (L.answer (Call.scandir "/dev/input") w).1.names,
            filter_event_node d_name = true ∧ D d_name ≠ 0 := by
      rw [List.length_eq_zero, List.filter_eq_nil_iff]
      constructor
      · rintro h ⟨d_name, hmem, hf, hd⟩
        have hm : d_name ∈ ((L.answer (Call.scandir "/dev/input") w).1.names.filter
            filter_event_node).insertionSort alphasort :=
          (List.perm_insertionSort alphasort _).mem_iff.mpr (List.mem_filter.mpr ⟨hmem, hf⟩)
        exact h d_name hm (by simpa using hd)
      · intro h d_name hm hd
        have hm2 := List.mem_filter.mp ((List.perm_insertionSort alphasort _).mem_iff.mp hm)
        exact h ⟨d_name, hm2.1, hm2.2, by simpa using hd⟩
    simp only [ratbag_cmd_list_supported_devices]
    have hscan2 : ¬ (libcall L (Call.scandir "/dev/input") (St.init w)).1.val < 0 :=
      not_lt.mpr hscan
    rw [if_neg hscan2]
    have hn : (libcall L (Call.scandir "/dev/input") (St.init w)).1.names
        = (L.answer (Call.scandir "/dev/input") w).1.names := rfl
    rw [hn]
    rw [Nat.zero_add] at h1
    have hw0 : written Stream.stdout
        (libcall L (Call.scandir "/dev/input") (St.init w)).2.trace = [] := rfl
    have hu0 : device_unref_calls
        (libcall L (Call.scandir "/dev/input") (St.init w)).2.trace = [] := rfl
    have hp0 : (calls (libcall L (Call.scandir "/dev/input") (St.init w)).2.trace).filter
        (fun ca => ca.1.is_sprintf) = [] := rfl
    rw [hw0, List.nil_append] at h2
    rw [hu0, List.nil_append] at h3
    rw [hp0] at h4
    have hnc : ∀ tr : List Event, (calls tr).filter (fun ca => ca.1.is_sprintf) = [] →
        ¬ called Call.is_sprintf tr := by
      intro tr htr hc
      obtain ⟨ca, hmem, hq⟩ := hc
      have : ca ∈ (calls tr).filter (fun ca => ca.1.is_sprintf) :=
        List.mem_filter.mpr ⟨hmem, hq⟩
      rw [htr] at this
      cases this
    by_cases hex : ∃ d_name ∈ (L.answer (Call.scandir "/dev/input") w).1.names,
        filter_event_node d_name = true ∧ D d_name ≠ 0
    · have hne : ¬ (list_loop L ratbag
          (((L.answer (Call.scandir "/dev/input") w).1.names.filter
            filter_event_node).insertionSort alphasort) 0
          (libcall L (Call.scandir "/dev/input") (St.init w)).2).1 = 0 := by
        rw [h1]
        exact fun h => hlen.mp h hex
      rw [if_neg hne, if_pos hex, List.append_nil]
      exact ⟨rfl, h2, h3, hnc _ h4⟩
    · have he : (list_loop L ratbag
          (((L.answer (Call.scandir "/dev/input") w).1.names.filter
            filter_event_node).insertionSort alphasort) 0
          (libcall L (Call.scandir "/dev/input") (St.init w)).2).1 = 0 := by
        rw [h1]
        exact hlen.mpr hex
      rw [if_pos he, if_neg hex]
      refine ⟨rfl, ?_, ?_, ?_⟩
      · rw [printf_trace, written_append, h2]
        rfl
      · rw [printf_trace, device_unref_calls_append, h3]
        exact List.append_nil _
      · apply hnc
        rw [printf_trace, calls_append, List.filter_append, h4]
        rfl

theorem with_keyboard_open (d_name : String) (s : St Mouse) :
    (ratbag_cmd_open_device ((Mouse.lib 1 1 1).answering Mouse.with_keyboard) 1
      ("/dev/input/" ++ d_name) s).1 = if d_name = "event1" then 0 else 10 := by
  by_cases h : d_name = "event1"
  · subst h
    rfl
  · have hp : "/dev/input/" ++ d_name ≠ "/dev/input/event1" := by
      intro he
      apply h
      have hd := congrArg String.data he
      rw [String.data_append] at hd
      exact String.ext (List.append_cancel_left hd)
    rw [if_neg h]
    unfold ratbag_cmd_open_device udev_device_from_path
    by_cases hs : strneq ("/dev/input/" ++ d_name) "/dev/input/event"
        "/dev/input/event".length = true
    · simp [hs, libcall, Lib.answering, Mouse.with_keyboard, Mouse.lib, Mouse.answer, hp]
    · simp [hs, libcall, Lib.answering, Mouse.with_keyboard, Mouse.lib, Mouse.answer]

/-- An instance: a mouse at `/dev/input/event0` and a keyboard at
`/dev/input/event1`; list writes the line of the mouse and releases it. -/
theorem list_prints_supported_devices_witness :
    written Stream.stdout
        (ratbag_cmd_list_supported_devices ((Mouse.lib 1 1 1).answering Mouse.with_keyboard)
          1 0 [] (St.init { active := 0 })).2.trace
      = ["/dev/input/event0:\tMouse\n"]
    ∧ device_unref_calls
        (ratbag_cmd_list_supported_devices ((Mouse.lib 1 1 1).answering Mouse.with_keyboard)
          1 0 [] (St.init { active := 0 })).2.trace
      = [Call.ratbag_device_unref 10] := by
  have hsort : List.insertionSort alphasort
      (["mouse0", "event1", "event0", "mice"].filter filter_event_node)
      = ["event0", "event1"] := by
    have h1 : ¬ alphasort "event1" "event0" := by
      unfold alphasort
      rw [not_le, String.lt_iff_toList_lt]
      decide
    have hf : ["mouse0", "event1", "event0", "mice"].filter filter_event_node
        = ["event1", "event0"] := by decide
    rw [hf]
    simp [List.insertionSort, List.orderedInsert, h1]
  have hnames : (((Mouse.lib 1 1 1).answering Mouse.with_keyboard).answer
      (Call.scandir "/dev/input") { active := 0 }).1.names
      = ["mouse0", "event1", "event0", "mice"] := rfl
  have h := (list_prints_supported_devices ((Mouse.lib 1 1 1).answering Mouse.with_keyboard)
    (fun _ => True) 1 0 (fun d_name => if d_name = "event1" then 0 else 10)
    (fun _ => some "Mouse") { active := 0 }
    (fun d_name s _ => ⟨with_keyboard_open d_name s, trivial⟩)
    (fun _ _ _ _ => ⟨rfl, trivial⟩) (fun _ _ _ _ => trivial)).2.2.2 (by decide) trivial
    (by rw [hnames]; decide)
  rw [hnames, hsort] at h
  refine ⟨h.2.1.trans ?_, h.2.2.1.trans ?_⟩
  · decide
  · decide

set_option maxRecDepth 8192 in
/-- An entry name of 245 bytes: its path does not fit in `path[256]`, and the
run ends its loop with the `sprintf` past the end of the buffer. -/
theorem list_long_name_run :
    ¬ ("/dev/input/" ++ ("event" ++ String.mk (List.replicate 240 'x'))).utf8ByteSize < 256
    ∧ (calls (ratbag_cmd_list_supported_devices ((Mouse.lib 1 1 1).answering Mouse.long_entry)
        1 0 [] (St.init { active := 0 })).2.trace).map (fun ca => ca.1)
      = [Call.scandir "/dev/input",
         Call.sprintf 256 ("/dev/input/" ++ ("event" ++ String.mk (List.replicate 240 'x')))] := by
  decide

/-! ### switch-etekcity, run twice (C27) -/

/-- The volume keys of a device with a modifier on button 6: the first run
of switch-etekcity disables both buttons, the second gives them the volume
keys again, but with no modifier, so the device is not as it was. -/
theorem etekcity_modifiers_not_restored :
    (Spec.etekcity_twice 1 0 "/dev/input/event0"
        (Spec.etekcity (Spec.Action.key 115 [29]) (Spec.Action.key 114 []))).1
      = (0, Spec.etekcity Spec.Action.none Spec.Action.none)
    ∧ (Spec.etekcity_twice 1 0 "/dev/input/event0"
        (Spec.etekcity (Spec.Action.key 115 [29]) (Spec.Action.key 114 []))).2
      = (0, Spec.etekcity (Spec.Action.key 115 []) (Spec.Action.key 114 []))
    ∧ (Spec.etekcity_twice 1 0 "/dev/input/event0"
        (Spec.etekcity (Spec.Action.key 115 [29]) (Spec.Action.key 114 []))).2.2
      ≠ Spec.etekcity (Spec.Action.key 115 [29]) (Spec.Action.key 114 []) := by
  decide

/-- A setter of a button that is there succeeds when the backend does; it
changes the action of this button and nothing else. -/
theorem spec_set_action (d : Spec.Device) (p i : Nat) (act : Spec.Action) (b : Spec.Button)
    (hb : d.button p i = Except.ok b) :
    ∃ d2, d.set_action true p i act = Except.ok d2
      ∧ d2.capabilities = d.capabilities
      ∧ d2.profiles.length = d.profiles.length
      ∧ (∀ j, d2.is_active j = d.is_active j)
      ∧ (∀ q j, d2.button q j
          = if q = p ∧ j = i then Except.ok { b with action := act } else d.button q j) := by
  unfold Spec.Device.button at hb
  split at hb
  · cases hb
  · rename_i pr hpr
    split at hb
    · cases hb
    · rename_i b2 hb2
      cases hb
      have hi : i < pr.buttons.length := by
        by_contra hc
        rw [List.getElem?_eq_none (by omega)] at hb2
        cases hb2
      refine ⟨{ d with
          profiles := d.profiles.modify
            (fun p => { p with
              buttons := p.buttons.modify (fun b => { b with action := act }) i })
            p }, ?_, rfl, ?_, ?_, ?_⟩
      · simp [Spec.Device.set_action, hpr, hi]
      · simp
      · intro j
        simp only [Spec.Device.is_active, List.getElem?_modify]
        by_cases hj : p = j
        · subst hj
          simp [hpr]
        · simp [hj]
      · intro q j
        simp only [Spec.Device.button, List.getElem?_modify]
        by_cases hq : p = q
        · subst hq
          simp only [if_true, hpr, Option.map_some', true_and, List.getElem?_modify]
          by_cases hj : i = j
          · subst hj
            simp [hb2]
          · have hj2 : ¬ j = i := fun h => hj h.symm
            simp [hj, hj2]
        · have hq2 : ¬ q = p := fun h => hq h.symm
          simp [hq, hq2]

/-- With the backend succeeding, `set_active` of a profile that is there
succeeds; afterwards this profile is the one that is active and the buttons
are as they were. -/
theorem spec_set_active (d : Spec.Device) (a : Nat) (ha : a < d.profiles.length) :
    ∃ d2, d.set_active true a = Except.ok d2
      ∧ d2.capabilities = d.capabilities
      ∧ d2.profiles.length = d.profiles.length
      ∧ (∀ j, d2.is_active j = true ↔ j = a)
      ∧ (∀ q j, d2.button q j = d.button q j) := by
  refine ⟨{ d with
      profiles := d.profiles.mapIdx fun i p => { p with is_active := decide (i = a) } },
    ?_, rfl, ?_, ?_, ?_⟩
  · simp [Spec.Device.set_active, ha]
  · simp
  · exact (active_profiles_mapIdx d a ha _ (fun _ _ => rfl)).2
  · intro q j
    simp only [Spec.Device.button, List.getElem?_mapIdx]
    cases d.profiles[q]? <;> rfl

theorem spec_button_handle (d : Spec.Device) (a : Nat) (i : Int) (h0 : 0 ≤ i)
    (hi : i < 4294967296) (b : Spec.Button) (hb : d.button a i.toNat = Except.ok b) :
    Spec.button_place (1 + 4294967296 * (a : Int) + i) = (a, i.toNat)
    ∧ d.button_of (1 + 4294967296 * (a : Int) + i) = some b := by
  have hp : Spec.button_place (1 + 4294967296 * (a : Int) + i) = (a, i.toNat) := by
    unfold Spec.button_place
    have e1 : (1 + 4294967296 * (a : Int) + i - 1) / 4294967296 = (a : Int) := by
      omega
    have e2 : (1 + 4294967296 * (a : Int) + i - 1) % 4294967296 = i := by
      omega
    rw [e1, e2, Int.toNat_ofNat]
  refine ⟨hp, ?_⟩
  unfold Spec.Device.button_of
  have h1 : (1 : Int) ≤ 1 + 4294967296 * (a : Int) + i := by omega
  rw [if_pos h1, hp]
  simp only [hb]

theorem spec_get_button (d : Spec.Device) (a : Nat) (i : Int) (h0 : 0 ≤ i)
    (hi : i < 4294967296) (b : Spec.Button) (hb : d.button a i.toNat = Except.ok b) :
    Spec.lib.answer (Call.ratbag_profile_get_button_by_index (1 + (a : Int)) i) d
      = ({ val := 1 + 4294967296 * (a : Int) + i }, d) := by
  have h0 : 1 + (a : Int) - 1 = (a : Int) := by omega
  have h1 : (1 + (a : Int) - 1).toNat = a := by rw [h0, Int.toNat_ofNat]
  have h2 : (1 : Int) ≤ 1 + (a : Int) ∧ (0 : Int) ≤ i ∧ i < 4294967296 := by
    omega
  simp only [Spec.lib, Spec.answer, if_pos h2, h0, Int.toNat_ofNat, hb]

theorem spec_get_key (d : Spec.Device) (h sz : Int) (b : Spec.Button)
    (hb : d.button_of h = some b) :
    (Spec.lib.answer (Call.ratbag_button_get_key h sz) d).1.val = (b.get_key [] sz.toNat).1
    ∧ (Spec.lib.answer (Call.ratbag_button_get_key h sz) d).2 = d := by
  simp only [Spec.lib, Spec.answer, hb, and_self]

theorem spec_get_action_type (d : Spec.Device) (h : Int) (b : Spec.Button)
    (hb : d.button_of h = some b) :
    (Spec.lib.answer (Call.ratbag_button_get_action_type h) d).1.val = b.get_action_type.val
    ∧ (Spec.lib.answer (Call.ratbag_button_get_action_type h) d).2 = d := by
  simp only [Spec.lib, Spec.answer, hb, and_self]

theorem spec_disable (d : Spec.Device) (h : Int) (a i : Nat) (b : Spec.Button)
    (d2 : Spec.Device) (hp : Spec.button_place h = (a, i)) (hb : d.button_of h = some b)
    (hd : d.set_action true a i Spec.Action.none = Except.ok d2) :
    Spec.lib.answer (Call.ratbag_button_disable h) d = ({ val := 0 }, d2) := by
  simp only [Spec.lib, Spec.answer, hb, hp, Spec.Device.disable, hd, Spec.Device.committed]

theorem spec_set_key (d : Spec.Device) (h key : Int) (a i : Nat) (b : Spec.Button)
    (d2 : Spec.Device) (hp : Spec.button_place h = (a, i)) (hb : d.button_of h = some b)
    (hd : d.set_action true a i (Spec.Action.key key.toNat []) = Except.ok d2) :
    Spec.lib.answer (Call.ratbag_button_set_key h key []) d = ({ val := 0 }, d2) := by
  simp only [Spec.lib, Spec.answer, hb, hp, Spec.Device.set_key, List.map_nil, hd,
    Spec.Device.committed]

/-- The first branch of the toggle: the two buttons hold the volume keys and
are disabled. -/
theorem spec_toggle_disable (s : St Spec.Device) (a : Nat) (b6 b7 : Spec.Button)
    (m6 m7 : List Nat)
    (hb6 : s.world.button a 6 = Except.ok b6) (hb7 : s.world.button a 7 = Except.ok b7)
    (h6 : b6.action = Spec.Action.key 115 m6) (h7 : b7.action = Spec.Action.key 114 m7) :
    (switch_etekcity_toggle Spec.lib (1 + 4294967296 * (a : Int) + 6)
      (1 + 4294967296 * (a : Int) + 7) s).1 = 1
    ∧ Spec.Device.Changed s.world
        (switch_etekcity_toggle Spec.lib (1 + 4294967296 * (a : Int) + 6)
          (1 + 4294967296 * (a : Int) + 7) s).2.world a
        { b6 with action := Spec.Action.none } { b7 with action := Spec.Action.none } := by
  obtain ⟨d1, hd1, c1, l1, i1, bt1⟩ := spec_set_action s.world a 6 Spec.Action.none b6 hb6
  have hb7a : d1.button a 7 = Except.ok b7 := by
    rw [bt1]
    simpa using hb7
  obtain ⟨d2, hd2, c2, l2, i2, bt2⟩ := spec_set_action d1 a 7 Spec.Action.none b7 hb7a
  obtain ⟨p6, o6⟩ := spec_button_handle s.world a 6 (by decide) (by decide) b6 hb6
  obtain ⟨p7, o7⟩ := spec_button_handle s.world a 7 (by decide) (by decide) b7 hb7
  obtain ⟨_, o7a⟩ := spec_button_handle d1 a 7 (by decide) (by decide) b7 hb7a
  have k6 := spec_get_key s.world _ 10 b6 o6
  have k7 := fun sz => spec_get_key s.world _ sz b7 o7
  have e6 : ∀ sz, (b6.get_key [] sz).1 = 115 := fun sz => by simp [Spec.Button.get_key, h6]
  have e7 : ∀ sz, (b7.get_key [] sz).1 = 114 := fun sz => by simp [Spec.Button.get_key, h7]
  have x6 := spec_disable s.world _ a 6 b6 d1 p6 o6 hd1
  have x7 := spec_disable d1 _ a 7 b7 d2 p7 o7a hd2
  unfold switch_etekcity_toggle
  simp only [libcall_fst, libcall_world, k6.1, k6.2, (k7 _).1, (k7 _).2, e6, e7, x6, x7,
    KEY_VOLUMEUP, KEY_VOLUMEDOWN, Nat.cast_ofNat, if_true, true_and]
  refine ⟨c2.trans c1, l2.trans l1, fun j => (i2 j).trans (i1 j), ?_⟩
  intro q j
  rw [bt2, bt1]
  by_cases hq : q = a ∧ j = 6
  · have : ¬ (q = a ∧ j = 7) := by omega
    simp [hq, this]
  · simp [hq]

/-- The second branch of the toggle: the two buttons have no action and get
the volume keys, with no modifier. -/
theorem spec_toggle_enable (s : St Spec.Device) (a : Nat) (b6 b7 : Spec.Button)
    (hb6 : s.world.button a 6 = Except.ok b6) (hb7 : s.world.button a 7 = Except.ok b7)
    (h6 : b6.action = Spec.Action.none) (h7 : b7.action = Spec.Action.none) :
    (switch_etekcity_toggle Spec.lib (1 + 4294967296 * (a : Int) + 6)
      (1 + 4294967296 * (a : Int) + 7) s).1 = 2
    ∧ Spec.Device.Changed s.world
        (switch_etekcity_toggle Spec.lib (1 + 4294967296 * (a : Int) + 6)
          (1 + 4294967296 * (a : Int) + 7) s).2.world a
        { b6 with action := Spec.Action.key 115 [] }
        { b7 with action := Spec.Action.key 114 [] } := by
  obtain ⟨d1, hd1, c1, l1, i1, bt1⟩ :=
    spec_set_action s.world a 6 (Spec.Action.key 115 []) b6 hb6
  have hb7a : d1.button a 7 = Except.ok b7 := by
    rw [bt1]
    simpa using hb7
  obtain ⟨d2, hd2, c2, l2, i2, bt2⟩ := spec_set_action d1 a 7 (Spec.Action.key 114 []) b7 hb7a
  obtain ⟨p6, o6⟩ := spec_button_handle s.world a 6 (by decide) (by decide) b6 hb6
  obtain ⟨p7, o7⟩ := spec_button_handle s.world a 7 (by decide) (by decide) b7 hb7
  obtain ⟨_, o7a⟩ := spec_button_handle d1 a 7 (by decide) (by decide) b7 hb7a
  have k6 := spec_get_key s.world _ 10 b6 o6
  have e6 : ∀ sz, (b6.get_key [] sz).1 = 0 := fun sz => by simp [Spec.Button.get_key, h6]
  have t6 := spec_get_action_type s.world _ b6 o6
  have t7 := spec_get_action_type s.world _ b7 o7
  have f6 : b6.get_action_type.val = 0 := by simp [Spec.Button.get_action_type, h6]; rfl
  have f7 : b7.get_action_type.val = 0 := by simp [Spec.Button.get_action_type, h7]; rfl
  have x6 := spec_set_key s.world _ KEY_VOLUMEUP a 6 b6 d1 p6 o6 hd1
  have x7 := spec_set_key d1 _ KEY_VOLUMEDOWN a 7 b7 d2 p7 o7a hd2
  unfold switch_etekcity_toggle switch_etekcity_enable
  simp only [libcall_fst, libcall_world, k6.1, k6.2, e6, t6.1, t6.2, t7.1, t7.2, f6, f7, x6, x7,
    RATBAG_BUTTON_ACTION_TYPE_NONE, Nat.cast_zero,
    (by decide : ¬ ((0 : Int) = KEY_VOLUMEUP)), if_false, if_true, true_and]
  refine ⟨ c2.trans c1, l2.trans l1, fun j => (i2 j).trans (i1 j), ?_⟩
  intro q j
  rw [bt2, bt1]
  by_cases hq : q = a ∧ j = 6
  · have : ¬ (q = a ∧ j = 7) := by omega
    simp [hq, this]
  · simp [hq]

theorem spec_get_key_eq (b : Spec.Button) (sz k : Nat) (hk : k ≠ 0) :
    (((b.get_key [] sz).1 : Nat) : Int) = (k : Int) ↔ ∃ m, b.action = Spec.Action.key k m := by
  unfold Spec.Button.get_key
  cases h : b.action <;> simp <;> omega

theorem spec_action_type_none (b : Spec.Button) :
    b.get_action_type.val = RATBAG_BUTTON_ACTION_TYPE_NONE ↔ b.action = Spec.Action.none := by
  unfold Spec.Button.get_action_type
  cases h : b.action <;> simp [ratbag_button_action_type.val, RATBAG_BUTTON_ACTION_TYPE_NONE]

/-- The toggle in every other state of the two buttons: no setter is called,
the device stays as it is and `commit` stays 0. -/
theorem spec_toggle_other (s : St Spec.Device) (a : Nat) (b6 b7 : Spec.Button)
    (hb6 : s.world.button a 6 = Except.ok b6) (hb7 : s.world.button a 7 = Except.ok b7)
    (hk : ¬ ∃ m6 m7, b6.action = Spec.Action.key 115 m6 ∧ b7.action = Spec.Action.key 114 m7)
    (hn : ¬ (b6.action = Spec.Action.none ∧ b7.action = Spec.Action.none)) :
    (switch_etekcity_toggle Spec.lib (1 + 4294967296 * (a : Int) + 6)
      (1 + 4294967296 * (a : Int) + 7) s).1 = 0
    ∧ (switch_etekcity_toggle Spec.lib (1 + 4294967296 * (a : Int) + 6)
        (1 + 4294967296 * (a : Int) + 7) s).2.world = s.world
    ∧ setter_calls (switch_etekcity_toggle Spec.lib (1 + 4294967296 * (a : Int) + 6)
        (1 + 4294967296 * (a : Int) + 7) s).2.trace = setter_calls s.trace := by
  obtain ⟨p6, o6⟩ := spec_button_handle s.world a 6 (by decide) (by decide) b6 hb6
  obtain ⟨p7, o7⟩ := spec_button_handle s.world a 7 (by decide) (by decide) b7 hb7
  have k6 := spec_get_key s.world _ 10 b6 o6
  have k7 := fun sz => spec_get_key s.world _ sz b7 o7
  have t6 := spec_get_action_type s.world _ b6 o6
  have t7 := spec_get_action_type s.world _ b7 o7
  have g6 := fun sz => spec_get_key_eq b6 sz 115 (by decide)
  have g7 := fun sz => spec_get_key_eq b7 sz 114 (by decide)
  unfold switch_etekcity_toggle switch_etekcity_enable
  simp only [libcall_fst, libcall_world, k6.1, k6.2, (k7 _).1, (k7 _).2, t6.1, t6.2, t7.1, t7.2]
  split_ifs with c1 c2 c3 c4 c5 c6
  · exfalso
    obtain ⟨m6, e6⟩ := (g6 _).mp c1
    obtain ⟨m7, e7⟩ := (g7 _).mp c2
    exact hk ⟨m6, m7, e6, e7⟩
  · exact absurd ⟨(spec_action_type_none b6).mp c3, (spec_action_type_none b7).mp c4⟩ hn
  · simp [k6.2, (k7 _).2, t6.2, t7.2, setter_calls_append, Call.is_setter]
  · simp [k6.2, (k7 _).2, t6.2, t7.2, setter_calls_append, Call.is_setter]
  · exact absurd ⟨(spec_action_type_none b6).mp c5, (spec_action_type_none b7).mp c6⟩ hn
  · simp [k6.2, (k7 _).2, t6.2, t7.2, setter_calls_append, Call.is_setter]
  · simp [k6.2, (k7 _).2, t6.2, t7.2, setter_calls_append, Call.is_setter]

theorem spec_open (ratbag : Ptr) (path : String) (s : St Spec.Device) :
    (ratbag_cmd_open_device Spec.lib ratbag path s).1 = 1
    ∧ (ratbag_cmd_open_device Spec.lib ratbag path s).2.world = s.world := by
  unfold ratbag_cmd_open_device udev_device_from_path
  by_cases hs : strneq path "/dev/input/event" "/dev/input/event".length = true
  · simp [hs, libcall, Spec.lib, Spec.answer]
  · simp [hs, libcall, Spec.lib, Spec.answer]

theorem spec_shows_profiles (d : Spec.Device) (hn : d.profiles.length < 4294967296) :
    ShowsProfiles Spec.lib (fun w => w = d) 1 d.profiles.length (fun i => 1 + i)
      (fun i => d.is_active i.toNat = true) := by
  refine ⟨?_, ?_, ?_, ?_⟩
  · intro c w hc hw
    subst hw
    cases c <;> first
      | rfl
      | (simp only [Spec.lib, Spec.answer]; split <;> rfl)
      | (simp only [Spec.lib, Spec.answer]; split_ifs <;> first | rfl | (split <;> rfl))
      | cases hc
  · intro w hw
    subst hw
    simp only [Spec.lib, Spec.answer, u32]
    omega
  · intro w i hw h0 hi
    subst hw
    have h2 : 0 ≤ i ∧ i < (w.profiles.length : Int) := ⟨h0, hi⟩
    have h3 : (Spec.lib.answer (Call.ratbag_device_get_profile_by_index 1 i) w).1.val
        = if 0 ≤ i ∧ i < (w.profiles.length : Int) then 1 + i else 0 := rfl
    refine ⟨?_, ?_⟩
    · rw [h3, if_pos h2]
    · show 1 + i ≠ 0
      omega
  · intro w i hw h0 hi
    subst hw
    have h1 : (1 : Int) ≤ 1 + i := by omega
    have h2 : 1 + i - 1 = i := by omega
    simp only [Spec.lib, Spec.answer, h1, h2, true_and]
    split_ifs with h <;> simp [h]

theorem spec_profile_set_active (d d2 : Spec.Device) (a : Nat)
    (h : d.set_active true a = Except.ok d2) :
    Spec.lib.answer (Call.ratbag_profile_set_active (1 + (a : Int))) d = ({ val := 0 }, d2) := by
  have h1 : (1 : Int) ≤ 1 + (a : Int) := by omega
  have h2 : 1 + (a : Int) - 1 = (a : Int) := by omega
  simp only [Spec.lib, Spec.answer, if_pos h1, h2, Int.toNat_ofNat, h, Spec.Device.committed]

/-- The end of switch-etekcity after a change of the two buttons: the handles
are released, the profile is committed with `ratbag_profile_set_active`, and
the status is 0. -/
theorem spec_etekcity_commit (device : Ptr) (a : Nat) (d : Spec.Device) (x6 x7 : Spec.Button)
    (hact : ∀ j, d.is_active j = true ↔ j = a) (ha : a < d.profiles.length)
    (commit : Int) (s : St Spec.Device) (h6 h7 : Ptr) (hc : commit ≠ 0)
    (hch : Spec.Device.Changed d s.world a x6 x7) :
    (if commit = 0 then
        profile_device_out Spec.lib device (1 + (a : Int)) 1
          (libcall Spec.lib (Call.ratbag_button_unref h7)
            (libcall Spec.lib (Call.ratbag_button_unref h6) s).2).2
      else
        if (libcall Spec.lib (Call.ratbag_profile_set_active (1 + (a : Int)))
            (libcall Spec.lib (Call.ratbag_button_unref h7)
              (libcall Spec.lib (Call.ratbag_button_unref h6) s).2).2).1.val = 0 then
          profile_device_out Spec.lib device (1 + (a : Int))
            (libcall Spec.lib (Call.ratbag_profile_set_active (1 + (a : Int)))
              (libcall Spec.lib (Call.ratbag_button_unref h7)
                (libcall Spec.lib (Call.ratbag_button_unref h6) s).2).2).1.val
            (printf ("Switched the current profile of '"
              ++ fmt_s (libcall Spec.lib (Call.ratbag_device_get_name device)
                  (libcall Spec.lib (Call.ratbag_profile_set_active (1 + (a : Int)))
                    (libcall Spec.lib (Call.ratbag_button_unref h7)
                      (libcall Spec.lib (Call.ratbag_button_unref h6) s).2).2).2).1.str
              ++ "' to " ++ (if commit = 1 then "not " else "") ++ "report the volume keys\n")
              (libcall Spec.lib (Call.ratbag_device_get_name device)
                (libcall Spec.lib (Call.ratbag_profile_set_active (1 + (a : Int)))
                  (libcall Spec.lib (Call.ratbag_button_unref h7)
                    (libcall Spec.lib (Call.ratbag_button_unref h6) s).2).2).2).2)
        else
          profile_device_out Spec.lib device (1 + (a : Int))
            (libcall Spec.lib (Call.ratbag_profile_set_active (1 + (a : Int)))
              (libcall Spec.lib (Call.ratbag_button_unref h7)
                (libcall Spec.lib (Call.ratbag_button_unref h6) s).2).2).1.val
            (libcall Spec.lib (Call.ratbag_profile_set_active (1 + (a : Int)))
              (libcall Spec.lib (Call.ratbag_button_unref h7)
                (libcall Spec.lib (Call.ratbag_button_unref h6) s).2).2).2)
      = r →
    r.1 = 0 ∧ Spec.Device.Changed d r.2.world a x6 x7 := by
  intro hr
  subst hr
  obtain ⟨c1, l1, i1, bt1⟩ := hch
  obtain ⟨d3, hd3, c3, l3, i3, bt3⟩ := spec_set_active s.world a (by omega)
  have hsa := spec_profile_set_active s.world d3 a hd3
  have hw : (libcall Spec.lib (Call.ratbag_button_unref h7)
      (libcall Spec.lib (Call.ratbag_button_unref h6) s).2).2.world = s.world := rfl
  have hv : (libcall Spec.lib (Call.ratbag_profile_set_active (1 + (a : Int)))
      (libcall Spec.lib (Call.ratbag_button_unref h7)
        (libcall Spec.lib (Call.ratbag_button_unref h6) s).2).2).1.val = 0 := by
    rw [libcall_fst, hw, hsa]
  have hw2 : (libcall Spec.lib (Call.ratbag_profile_set_active (1 + (a : Int)))
      (libcall Spec.lib (Call.ratbag_button_unref h7)
        (libcall Spec.lib (Call.ratbag_button_unref h6) s).2).2).2.world = d3 := by
    rw [libcall_world, hw, hsa]
  rw [if_neg hc, if_pos hv, hv]
  refine ⟨rfl, ?_⟩
  show Spec.Device.Changed d
    (libcall Spec.lib (Call.ratbag_profile_set_active (1 + (a : Int)))
      (libcall Spec.lib (Call.ratbag_button_unref h7)
        (libcall Spec.lib (Call.ratbag_button_unref h6) s).2).2).2.world a x6 x7
  rw [hw2]
  refine ⟨c3.trans c1, l3.trans l1, ?_, fun q j => (bt3 q j).trans (bt1 q j)⟩
  intro j
  rw [Bool.eq_iff_iff, i3 j, hact j]

/-- One run of switch-etekcity on the library of the specification, by the
state of the buttons 6 and 7 of the active profile. -/
theorem spec_etekcity_run (ratbag : Ptr) (flags : Nat) (path : String) (d : Spec.Device)
    (a : Nat) (b6 b7 : Spec.Button)
    (hcap : ratbag_capability.RATBAG_CAP_SWITCHABLE_PROFILE ∈ d.capabilities)
    (hn : d.profiles.length < 4294967296)
    (hact : ∀ j, d.is_active j = true ↔ j = a)
    (hb6 : d.button a 6 = Except.ok b6) (hb7 : d.button a 7 = Except.ok b7) :
    (∀ m6 m7, b6.action = Spec.Action.key 115 m6 → b7.action = Spec.Action.key 114 m7 →
      (ratbag_cmd_switch_etekcity Spec.lib ratbag flags [path] (St.init d)).1 = 0
      ∧ Spec.Device.Changed d
          (ratbag_cmd_switch_etekcity Spec.lib ratbag flags [path] (St.init d)).2.world a
          { b6 with action := Spec.Action.none } { b7 with action := Spec.Action.none })
    ∧ (b6.action = Spec.Action.none → b7.action = Spec.Action.none →
      (ratbag_cmd_switch_etekcity Spec.lib ratbag flags [path] (St.init d)).1 = 0
      ∧ Spec.Device.Changed d
          (ratbag_cmd_switch_etekcity Spec.lib ratbag flags [path] (St.init d)).2.world a
          { b6 with action := Spec.Action.key 115 [] }
          { b7 with action := Spec.Action.key 114 [] })
    ∧ ((¬ ∃ m6 m7, b6.action = Spec.Action.key 115 m6 ∧ b7.action = Spec.Action.key 114 m7) →
      ¬ (b6.action = Spec.Action.none ∧ b7.action = Spec.Action.none) →
      (ratbag_cmd_switch_etekcity Spec.lib ratbag flags [path] (St.init d)).1 = 1
      ∧ (ratbag_cmd_switch_etekcity Spec.lib ratbag flags [path] (St.init d)).2.world = d
      ∧ setter_calls
          (ratbag_cmd_switch_etekcity Spec.lib ratbag flags [path] (St.init d)).2.trace = []) := by
  have ha : a < d.profiles.length := by
    by_contra hc
    have : d.is_active a = false := by
      simp [Spec.Device.is_active, List.getElem?_eq_none (not_lt.mp hc)]
    rw [(hact a).mpr rfl] at this
    cases this
  have hL := spec_shows_profiles d hn
  have hs1 : Steps Spec.lib (fun e => e.no_setter = true) (St.init d)
      (ratbag_cmd_open_device Spec.lib ratbag path (St.init d)).2 :=
    Steps.open_device ratbag path (Steps.refl _) is_open_no_setter
  obtain ⟨ho1, ho2⟩ := spec_open ratbag path (St.init d)
  unfold ratbag_cmd_switch_etekcity
  dsimp only
  generalize ratbag_cmd_open_device Spec.lib ratbag path (St.init d) = od at ho1 ho2 hs1 ⊢
  obtain ⟨dev, s1⟩ := od
  simp only at ho1 ho2 hs1 ⊢
  subst ho1
  have hi1 : s1.world = d := ho2
  rw [if_neg (by decide : ¬ ((1 : Int) = 0))]
  have hc : (libcall Spec.lib (Call.ratbag_device_has_capability 1
      ratbag_capability.RATBAG_CAP_SWITCHABLE_PROFILE) s1).1.val ≠ 0 := by
    simp [Spec.lib, Spec.answer, hi1, hcap]
  obtain ⟨hs2, hi2⟩ := Steps.query hL.1 (Call.ratbag_device_has_capability 1
      ratbag_capability.RATBAG_CAP_SWITCHABLE_PROFILE) rfl hs1 hi1
  generalize libcall Spec.lib (Call.ratbag_device_has_capability 1
      ratbag_capability.RATBAG_CAP_SWITCHABLE_PROFILE) s1 = r2 at hc hs2 hi2 ⊢
  obtain ⟨a2, s2⟩ := r2
  simp only at hc hs2 hi2 ⊢
  rw [if_neg hc]
  obtain ⟨hf1, hf2, hf3⟩ := find_active_profile_search Spec.lib (fun w => w = d) 1
    d.profiles.length (fun i => 1 + i) (fun i => d.is_active i.toNat = true) hL (a : Int)
    (by omega) (by omega) (by simpa using (hact a).mpr rfl)
    (fun i h0 hia hi => by
      have := (hact i.toNat).mp hi
      omega) s2 hi2
  have hs3 : Steps Spec.lib (fun e => e.no_setter = true) (St.init d)
      (find_active_profile Spec.lib 1 s2).2 :=
    Steps.active_profile_loop 1 (is_search_no_setter 1) _ _ _ hs2
  generalize find_active_profile Spec.lib 1 s2 = r3 at hf1 hf2 hf3 hs3 ⊢
  obtain ⟨p3, s3⟩ := r3
  simp only at hf1 hf2 hf3 hs3 ⊢
  subst hf1
  rw [if_neg hf2]
  have hb6s : s3.world.button a (6 : Int).toNat = Except.ok b6 := by rw [hf3]; exact hb6
  have hb7s : s3.world.button a (7 : Int).toNat = Except.ok b7 := by rw [hf3]; exact hb7
  have g6 := spec_get_button s3.world a 6 (by decide) (by decide) b6 hb6s
  have g7 := spec_get_button s3.world a 7 (by decide) (by decide) b7 hb7s
  have v6 : (libcall Spec.lib (Call.ratbag_profile_get_button_by_index (1 + (a : Int)) 6)
      s3).1.val = 1 + 4294967296 * (a : Int) + 6 := by rw [libcall_fst, g6]
  have w6 : (libcall Spec.lib (Call.ratbag_profile_get_button_by_index (1 + (a : Int)) 6)
      s3).2.world = d := by rw [libcall_world, g6]; exact hf3
  have hs4 : Steps Spec.lib (fun e => e.no_setter = true) (St.init d)
      (libcall Spec.lib (Call.ratbag_profile_get_button_by_index (1 + (a : Int)) 6) s3).2 :=
    Steps.call _ hs3 rfl
  generalize libcall Spec.lib (Call.ratbag_profile_get_button_by_index (1 + (a : Int)) 6) s3
    = r4 at v6 w6 hs4 ⊢
  obtain ⟨a4, s4⟩ := r4
  simp only at v6 w6 hs4 ⊢
  rw [v6]
  have v7 : (libcall Spec.lib (Call.ratbag_profile_get_button_by_index (1 + (a : Int)) 7)
      s4).1.val = 1 + 4294967296 * (a : Int) + 7 := by rw [libcall_fst, w6, ← hf3, g7]
  have w7 : (libcall Spec.lib (Call.ratbag_profile_get_button_by_index (1 + (a : Int)) 7)
      s4).2.world = d := by rw [libcall_world, w6, ← hf3, g7]
  have hs5 : Steps Spec.lib (fun e => e.no_setter = true) (St.init d)
      (libcall Spec.lib (Call.ratbag_profile_get_button_by_index (1 + (a : Int)) 7) s4).2 :=
    Steps.call _ hs4 rfl
  generalize libcall Spec.lib (Call.ratbag_profile_get_button_by_index (1 + (a : Int)) 7) s4
    = r5 at v7 w7 hs5 ⊢
  obtain ⟨a5, s5⟩ := r5
  simp only at v7 w7 hs5 ⊢
  rw [v7]
  have hb6t : s5.world.button a 6 = Except.ok b6 := by rw [w7]; exact hb6
  have hb7t : s5.world.button a 7 = Except.ok b7 := by rw [w7]; exact hb7
  have hset5 : setter_calls s5.trace = [] := hs5.setter_calls
  refine ⟨?_, ?_, ?_⟩
  · intro m6 m7 h6 h7
    obtain ⟨t1, t2⟩ := spec_toggle_disable s5 a b6 b7 m6 m7 hb6t hb7t h6 h7
    rw [w7] at t2
    generalize switch_etekcity_toggle Spec.lib (1 + 4294967296 * (a : Int) + 6)
      (1 + 4294967296 * (a : Int) + 7) s5 = tg at t1 t2 ⊢
    obtain ⟨cm, s6⟩ := tg
    simp only at t1 t2 ⊢
    subst t1
    exact spec_etekcity_commit 1 a d _ _ hact ha 1 s6 _ _ (by decide) t2 rfl
  · intro h6 h7
    obtain ⟨t1, t2⟩ := spec_toggle_enable s5 a b6 b7 hb6t hb7t h6 h7
    rw [w7] at t2
    generalize switch_etekcity_toggle Spec.lib (1 + 4294967296 * (a : Int) + 6)
      (1 + 4294967296 * (a : Int) + 7) s5 = tg at t1 t2 ⊢
    obtain ⟨cm, s6⟩ := tg
    simp only at t1 t2 ⊢
    subst t1
    exact spec_etekcity_commit 1 a d _ _ hact ha 2 s6 _ _ (by decide) t2 rfl
  · intro hk hnn
    obtain ⟨t1, t2, t3⟩ := spec_toggle_other s5 a b6 b7 hb6t hb7t hk hnn
    rw [w7] at t2
    rw [hset5] at t3
    generalize switch_etekcity_toggle Spec.lib (1 + 4294967296 * (a : Int) + 6)
      (1 + 4294967296 * (a : Int) + 7) s5 = tg at t1 t2 t3 ⊢
    obtain ⟨cm, s6⟩ := tg
    simp only at t1 t2 t3 ⊢
    subst t1
    rw [if_pos rfl]
    refine ⟨rfl, t2, ?_⟩
    simp [profile_device_out, setter_calls_append, Call.is_setter, t3]

theorem spec_changed_trans (d d1 d2 : Spec.Device) (a : Nat) (x6 x7 y6 y7 : Spec.Button)
    (h1 : Spec.Device.Changed d d1 a x6 x7) (h2 : Spec.Device.Changed d1 d2 a y6 y7) :
    Spec.Device.Changed d d2 a y6 y7 := by
  obtain ⟨c1, l1, i1, bt1⟩ := h1
  obtain ⟨c2, l2, i2, bt2⟩ := h2
  refine ⟨c2.trans c1, l2.trans l1, fun j => (i2 j).trans (i1 j), ?_⟩
  intro q j
  rw [bt2, bt1]
  split_ifs <;> rfl

/-- The second run of switch-etekcity starts in the device the first one
left: it still has the capability, the same profile is active, and the buttons
6 and 7 are the changed ones. -/
theorem spec_etekcity_again (d d1 : Spec.Device) (a : Nat) (x6 x7 : Spec.Button)
    (hcap : ratbag_capability.RATBAG_CAP_SWITCHABLE_PROFILE ∈ d.capabilities)
    (hn : d.profiles.length < 4294967296)
    (hact : ∀ j, d.is_active j = true ↔ j = a)
    (h : Spec.Device.Changed d d1 a x6 x7) :
    ratbag_capability.RATBAG_CAP_SWITCHABLE_PROFILE ∈ d1.capabilities
    ∧ d1.profiles.length < 4294967296
    ∧ (∀ j, d1.is_active j = true ↔ j = a)
    ∧ d1.button a 6 = Except.ok x6 ∧ d1.button a 7 = Except.ok x7 := by
  obtain ⟨c1, l1, i1, bt1⟩ := h
  refine ⟨by rw [c1]; exact hcap, by rw [l1]; exact hn, fun j => by rw [i1 j]; exact hact j,
    ?_, ?_⟩
  · rw [bt1]
    simp
  · rw [bt1]
    simp

/-- C27 (as the code behaves): on the library of the specification, with the
buttons 6 and 7 of the active profile `a` there and every call succeeding,
two runs of switch-etekcity both return 0 and leave every button as it was if
the two buttons had no action at first; if they held the volume keys, two runs
return 0 and leave them with the volume keys and no modifiers, every other
button as it was, so that the device is as at first when the two lists of
modifiers were empty; in every other state of the two buttons one run returns
1, leaves the device as it is and calls no setter, `set_active` included. -/
theorem etekcity_twice_restores_without_modifiers (ratbag : Ptr) (flags : Nat)
    (path : String) (d : Spec.Device) (a : Nat) (b6 b7 : Spec.Button)
    (hcap : ratbag_capability.RATBAG_CAP_SWITCHABLE_PROFILE ∈ d.capabilities)
    (hn : d.profiles.length < 4294967296)
    (hact : ∀ j, d.is_active j = true ↔ j = a)
    (hb6 : d.button a 6 = Except.ok b6) (hb7 : d.button a 7 = Except.ok b7) :
    (b6.action = Spec.Action.none → b7.action = Spec.Action.none →
      (Spec.etekcity_twice ratbag flags path d).1.1 = 0
      ∧ Spec.Device.Changed d (Spec.etekcity_twice ratbag flags path d).1.2 a
          { b6 with action := Spec.Action.key 115 [] }
          { b7 with action := Spec.Action.key 114 [] }
      ∧ (Spec.etekcity_twice ratbag flags path d).2.1 = 0
      ∧ ∀ q j, (Spec.etekcity_twice ratbag flags path d).2.2.button q j = d.button q j)
    ∧ (∀ m6 m7, b6.action = Spec.Action.key 115 m6 → b7.action = Spec.Action.key 114 m7 →
      (Spec.etekcity_twice ratbag flags path d).1.1 = 0
      ∧ Spec.Device.Changed d (Spec.etekcity_twice ratbag flags path d).1.2 a
          { b6 with action := Spec.Action.none } { b7 with action := Spec.Action.none }
      ∧ (Spec.etekcity_twice ratbag flags path d).2.1 = 0
      ∧ Spec.Device.Changed d (Spec.etekcity_twice ratbag flags path d).2.2 a
          { b6 with action := Spec.Action.key 115 [] }
          { b7 with action := Spec.Action.key 114 [] }
      ∧ (m6 = [] → m7 = [] →
          ∀ q j, (Spec.etekcity_twice ratbag flags path d).2.2.button q j = d.button q j))
    ∧ ((¬ ∃ m6 m7, b6.action = Spec.Action.key 115 m6 ∧ b7.action = Spec.Action.key 114 m7) →
      ¬ (b6.action = Spec.Action.none ∧ b7.action = Spec.Action.none) →
      (ratbag_cmd_switch_etekcity Spec.lib ratbag flags [path] (St.init d)).1 = 1
      ∧ (ratbag_cmd_switch_etekcity Spec.lib ratbag flags [path] (St.init d)).2.world = d
      ∧ setter_calls
          (ratbag_cmd_switch_etekcity Spec.lib ratbag flags [path] (St.init d)).2.trace = []) := by
  obtain ⟨r1, r2, r3⟩ := spec_etekcity_run ratbag flags path d a b6 b7 hcap hn hact hb6 hb7
  refine ⟨?_, ?_, r3⟩
  · intro h6 h7
    obtain ⟨s1, ch1⟩ := r2 h6 h7
    obtain ⟨hcap1, hn1, hact1, hx6, hx7⟩ := spec_etekcity_again d _ a _ _ hcap hn hact ch1
    obtain ⟨s2, ch2⟩ := (spec_etekcity_run ratbag flags path _ a _ _ hcap1 hn1 hact1 hx6 hx7).1
      [] [] rfl rfl
    have ch := spec_changed_trans d _ _ a _ _ _ _ ch1 ch2
    refine ⟨s1, ch1, s2, ?_⟩
    intro q j
    have hq := ch.2.2.2 q j
    have e6 : ({ button_type := b6.button_type, action := Spec.Action.none } : Spec.Button)
        = b6 := by rw [← h6]
    have e7 : ({ button_type := b7.button_type, action := Spec.Action.none } : Spec.Button)
        = b7 := by rw [← h7]
    simp only [e6, e7] at hq
    refine hq.trans ?_
    split_ifs with c1 c2
    · rw [c1.1, c1.2, hb6]
    · rw [c2.1, c2.2, hb7]
    · rfl
  · intro m6 m7 h6 h7
    obtain ⟨s1, ch1⟩ := r1 m6 m7 h6 h7
    obtain ⟨hcap1, hn1, hact1, hx6, hx7⟩ := spec_etekcity_again d _ a _ _ hcap hn hact ch1
    obtain ⟨s2, ch2⟩ := (spec_etekcity_run ratbag flags path _ a _ _ hcap1 hn1 hact1
      hx6 hx7).2.1 rfl rfl
    have ch := spec_changed_trans d _ _ a _ _ _ _ ch1 ch2
    refine ⟨s1, ch1, s2, ch, ?_⟩
    intro e6 e7 q j
    subst e6 e7
    have hq := ch.2.2.2 q j
    have e6 : ({ button_type := b6.button_type, action := Spec.Action.key 115 [] }
        : Spec.Button) = b6 := by rw [← h6]
    have e7 : ({ button_type := b7.button_type, action := Spec.Action.key 114 [] }
        : Spec.Button) = b7 := by rw [← h7]
    simp only [e6, e7] at hq
    refine hq.trans ?_
    split_ifs with c1 c2
    · rw [c1.1, c1.2, hb6]
    · rw [c2.1, c2.2, hb7]
    · rfl

/-- An instance: the device for instances with no action on the buttons 6 and
7; two runs return 0 and button 6 is as it was. -/
theorem etekcity_twice_restores_without_modifiers_witness :
    (Spec.etekcity_twice 1 0 "/dev/input/event0"
        (Spec.etekcity Spec.Action.none Spec.Action.none)).1.1 = 0
    ∧ (Spec.etekcity_twice 1 0 "/dev/input/event0"
        (Spec.etekcity Spec.Action.none Spec.Action.none)).2.1 = 0
    ∧ (Spec.etekcity_twice 1 0 "/dev/input/event0"
        (Spec.etekcity Spec.Action.none Spec.Action.none)).2.2.button 0 6
      = (Spec.etekcity Spec.Action.none Spec.Action.none).button 0 6 := by
  have h := (etekcity_twice_restores_without_modifiers 1 0 "/dev/input/event0"
    (Spec.etekcity Spec.Action.none Spec.Action.none) 0
    { button_type := 0, action := Spec.Action.none }
    { button_type := 0, action := Spec.Action.none } (by decide) (by decide)
    (fun j => by cases j <;> simp [Spec.etekcity, Spec.Device.is_active]) rfl rfl).1 rfl rfl
  exact ⟨h.1, h.2.2.1, h.2.2.2 0 6⟩

/-! ### The balance of references (C26) -/

theorem track_append (l1 l2 : List Event) (held : List (HandleKind × Ptr)) :
    track (l1 ++ l2) held = (track l1 held).bind (track l2) := by
  induction l1 generalizing held with
  | nil => rfl
  | cons e l ih =>
    simp only [List.cons_append, track]
    cases track_event held e with
    | none => rfl
    | some h => exact ih h

theorem held_event {s : St W} {held held2 : List (HandleKind × Ptr)} (e : Event)
    (h : Held s held) (he : track_event held e = some held2) :
    track (s.trace ++ [e]) [] = some held2 := by
  rw [track_append, h]
  simp [track, he]

theorem held_printf {s : St W} {held : List (HandleKind × Ptr)} (text : String)
    (h : Held s held) : Held (Ratbag.printf text s) held :=
  held_event _ h rfl

theorem held_error {s : St W} {held : List (HandleKind × Ptr)} (text : String)
    (h : Held s held) : Held (Ratbag.error text s) held := by
  have h1 : Held (⟨s.world, s.trace ++ [Event.out Stream.stderr "Error: "]⟩ : St W) held :=
    held_event _ h rfl
  have h2 := held_event (Event.out Stream.stderr text) h1 rfl
  unfold Held
  rw [error_trace]
  simpa using h2

theorem held_usage {L : Lib W} {s : St W} {held : List (HandleKind × Ptr)}
    (h : Held s held) : Held (Ratbag.usage L s) held := by
  unfold Ratbag.usage
  apply held_printf
  have : ∀ (l : List ratbag_cmd) (u : St W), Held u held →
      Held (l.foldl (fun t cmd => Ratbag.printf (usage_line cmd) t) u) held := by
    intro l
    induction l with
    | nil => intro u hu; exact hu
    | cons c l ih => intro u hu; exact ih _ (held_printf _ hu)
  exact this _ _ (held_printf _ h)

/-- A call that takes no handle and returns none. -/
theorem held_plain {L : Lib W} {s : St W} {held : List (HandleKind × Ptr)} (c : Call)
    (h : Held s held) (h1 : c.releases = none) (h2 : c.works_on = none)
    (h3 : c.obtains = none) : Held (libcall L c s).2 held :=
  held_event _ h (by simp [track_event, obtained, h1, h2, h3])

/-- A call that takes no handle and returns one. -/
theorem held_create {L : Lib W} {s : St W} {held : List (HandleKind × Ptr)} (c : Call)
    (kind : HandleKind) (h : Held s held) (h1 : c.releases = none) (h2 : c.works_on = none)
    (h3 : c.obtains = some kind) :
    Held (libcall L c s).2 (push kind (libcall L c s).1.val held) :=
  held_event _ h (by simp [track_event, obtained, h1, h2, h3])

/-- A call on a handle that returns no handle. -/
theorem held_use {L : Lib W} {s : St W} {held : List (HandleKind × Ptr)} (c : Call)
    (x : HandleKind × Ptr) (h : Held s held) (hx : usable held x) (h1 : c.releases = none)
    (h2 : c.works_on = some x) (h3 : c.obtains = none) : Held (libcall L c s).2 held :=
  held_event _ h (by simp [track_event, obtained, h1, h2, h3, hx])

/-- A call on a handle that returns a handle. -/
theorem held_obtain {L : Lib W} {s : St W} {held : List (HandleKind × Ptr)} (c : Call)
    (x : HandleKind × Ptr) (kind : HandleKind) (h : Held s held) (hx : usable held x)
    (h1 : c.releases = none) (h2 : c.works_on = some x) (h3 : c.obtains = some kind) :
    Held (libcall L c s).2 (push kind (libcall L c s).1.val held) :=
  held_event _ h (by simp [track_event, obtained, h1, h2, h3, hx])

theorem usable_push (kind : HandleKind) (p : Ptr) (held : List (HandleKind × Ptr)) :
    usable (push kind p held) (kind, p) := by
  unfold usable push
  by_cases hp : p = 0
  · exact Or.inl hp
  · rw [if_neg hp]
    exact Or.inr (List.mem_cons_self _ _)

theorem usable_push_of (kind : HandleKind) (p : Ptr) {held : List (HandleKind × Ptr)}
    {x : HandleKind × Ptr} (h : usable held x) : usable (push kind p held) x := by
  unfold usable push at *
  split_ifs
  · exact h
  · exact h.imp id (List.mem_cons_of_mem _)

/-- The unref of the pointer stored last gives up its reference. -/
theorem held_release {L : Lib W} {s : St W} {held : List (HandleKind × Ptr)} (c : Call)
    (kind : HandleKind) (p : Ptr) (h : Held s (push kind p held))
    (h1 : c.releases = some (kind, p)) : Held (libcall L c s).2 held := by
  refine held_event _ h ?_
  unfold push
  by_cases hp : p = 0
  · simp [track_event, h1, hp]
  · simp [track_event, h1, hp]

/-- The unref of the pointer stored before the last one. -/
theorem held_release_second {L : Lib W} {s : St W} {held : List (HandleKind × Ptr)}
    (c : Call) (kind kind2 : HandleKind) (p q : Ptr)
    (h : Held s (push kind2 q (push kind p held))) (h1 : c.releases = some (kind, p)) :
    Held (libcall L c s).2 (push kind2 q held) := by
  refine held_event _ h ?_
  unfold push
  by_cases hp : p = 0
  · simp [track_event, h1, hp]
  · by_cases hq : q = 0
    · simp [track_event, h1, hp, hq]
    · simp only [track_event, h1, hp, hq, if_false, List.mem_cons, true_or, or_true, if_true]
      by_cases he : (kind2, q) = (kind, p)
      · rw [he, List.erase_cons_head]
      · rw [List.erase_cons_tail (by simpa using he), List.erase_cons_head]

theorem push_zero (kind : HandleKind) (held : List (HandleKind × Ptr)) :
    push kind 0 held = held := rfl

theorem held_ite_snd {α : Type} {c : Prop} [Decidable c] {x y : α × St W}
    {held : List (HandleKind × Ptr)} (hx : c → Held x.2 held) (hy : ¬ c → Held y.2 held) :
    Held (if c then x else y).2 held := by
  split_ifs with h
  · exact hx h
  · exact hy h

theorem held_udev_device_from_path {L : Lib W} {s : St W} {held : List (HandleKind × Ptr)}
    (udev : Ptr) (path : String) (h : Held s held) :
    Held (Ratbag.udev_device_from_path L udev path s).2 held := by
  unfold Ratbag.udev_device_from_path
  dsimp only
  split_ifs
  · exact held_error _ (held_plain _ h rfl rfl rfl)
  · exact held_error _ (held_plain _ (held_plain _ h rfl rfl rfl) rfl rfl rfl)
  · exact held_plain _ (held_plain _ h rfl rfl rfl) rfl rfl rfl
  · exact held_error _ (held_plain _ h rfl rfl rfl)
  · exact held_plain _ h rfl rfl rfl

/-- The device that `ratbag_cmd_open_device` returns is one more reference. -/
theorem held_open_device {L : Lib W} {s : St W} {held : List (HandleKind × Ptr)}
    (ratbag : Ptr) (path : String) (h : Held s held) :
    Held (ratbag_cmd_open_device L ratbag path s).2
      (push HandleKind.device (ratbag_cmd_open_device L ratbag path s).1 held) := by
  unfold ratbag_cmd_open_device
  dsimp only
  have hu := held_udev_device_from_path (L := L) (libcall L Call.udev_new s).1.val path
    (held_plain (L := L) Call.udev_new h rfl rfl rfl)
  split_ifs
  · exact held_plain _ hu rfl rfl rfl
  · exact held_plain _ (held_plain _ (held_create _ HandleKind.device hu rfl rfl rfl)
      rfl rfl rfl) rfl rfl rfl

/-- The search for the active profile keeps the references and adds the one
to the profile it returns. -/
theorem held_active_profile_loop {L : Lib W} {held : List (HandleKind × Ptr)} (device : Ptr)
    (hd : usable held (HandleKind.device, device)) (fuel : Nat) (i : Int) (s : St W)
    (h : Held s held) :
    Held (Ratbag.active_profile_loop L device fuel i s).2
      (push HandleKind.profile (Ratbag.active_profile_loop L device fuel i s).1 held) := by
  induction fuel generalizing i s with
  | zero => exact h
  | succ fuel ih =>
    rw [Ratbag.active_profile_loop]
    dsimp only
    have hn := held_use (L := L) (Call.ratbag_device_get_num_profiles device) _ h hd rfl rfl rfl
    split_ifs with h1 h2
    · exact held_use _ _ (held_obtain _ _ HandleKind.profile hn hd rfl rfl rfl)
        (usable_push _ _ _) rfl rfl rfl
    · exact ih _ _ (held_release _ HandleKind.profile _
        (held_use _ _ (held_obtain _ _ HandleKind.profile hn hd rfl rfl rfl)
          (usable_push _ _ _) rfl rfl rfl) rfl)
    · exact hn

theorem held_switch_profile_loop {L : Lib W} {held : List (HandleKind × Ptr)} (device : Ptr)
    (hd : usable held (HandleKind.device, device)) (left : Nat) (i : Int) (s : St W)
    (h : Held s held) :
    Held (Ratbag.switch_profile_loop L device left i s).2
      (push HandleKind.profile (Ratbag.switch_profile_loop L device left i s).1 held) := by
  induction left generalizing i s with
  | zero => exact h
  | succ left ih =>
    rw [Ratbag.switch_profile_loop]
    split_ifs with h1
    · exact held_use _ _ (held_obtain _ _ HandleKind.profile h hd rfl rfl rfl)
        (usable_push _ _ _) rfl rfl rfl
    · exact ih _ _ (held_release _ HandleKind.profile _
        (held_use _ _ (held_obtain _ _ HandleKind.profile h hd rfl rfl rfl)
          (usable_push _ _ _) rfl rfl rfl) rfl)

theorem held_button_action_to_str {L : Lib W} {s : St W} {held : List (HandleKind × Ptr)}
    (button : Ptr) (hb : usable held (HandleKind.button, button)) (h : Held s held) :
    Held (Ratbag.button_action_to_str L button s).2 held := by
  unfold Ratbag.button_action_to_str button_action_button_to_str button_action_key_to_str
    button_action_special_to_str
  dsimp only
  have ht := held_use (L := L) (Call.ratbag_button_get_action_type button) _ h hb rfl rfl rfl
  split_ifs
  · exact held_use _ _ ht hb rfl rfl rfl
  · exact held_use _ _ ht hb rfl rfl rfl
  · exact held_use _ _ ht hb rfl rfl rfl
  · exact ht
  · exact ht
  · exact held_error _ ht

theorem held_info_resolutions {L : Lib W} {held : List (HandleKind × Ptr)} (profile : Ptr)
    (hp : usable held (HandleKind.profile, profile)) (fuel : Nat) (j : Int) (s : St W)
    (h : Held s held) : Held (Ratbag.info_resolutions L profile fuel j s) held := by
  induction fuel generalizing j s with
  | zero => exact h
  | succ fuel ih =>
    rw [Ratbag.info_resolutions]
    dsimp only
    have hn := held_use (L := L) (Call.ratbag_profile_get_num_resolutions profile) _ h hp
      rfl rfl rfl
    by_cases h1 : j < i32 (libcall L (Call.ratbag_profile_get_num_resolutions profile) s).1.val
    · rw [if_pos h1]
      refine ih _ _ (held_release _ HandleKind.resolution _ ?_ rfl)
      have hr := held_use (L := L) (Call.ratbag_resolution_get_report_rate _) _
        (held_use (L := L) (Call.ratbag_resolution_get_dpi _) _
          (held_obtain (L := L) (Call.ratbag_profile_get_resolution profile j) _
            HandleKind.resolution hn hp rfl rfl rfl)
          (usable_push _ _ _) rfl rfl rfl)
        (usable_push _ _ _) rfl rfl rfl
      by_cases h2 : (libcall L (Call.ratbag_resolution_get_dpi
          (libcall L (Call.ratbag_profile_get_resolution profile j)
            (libcall L (Call.ratbag_profile_get_num_resolutions profile) s).2).1.val)
          (libcall L (Call.ratbag_profile_get_resolution profile j)
            (libcall L (Call.ratbag_profile_get_num_resolutions profile) s).2).2).1.val = 0
      · rw [if_pos h2]
        exact held_printf _ hr
      · rw [if_neg h2]
        exact held_printf _ (held_use _ _ (held_use _ _ hr (usable_push _ _ _) rfl rfl rfl)
          (usable_push _ _ _) rfl rfl rfl)
    · rw [if_neg h1]
      exact hn

theorem held_info_buttons {L : Lib W} {held : List (HandleKind × Ptr)} (profile : Ptr)
    (hp : usable held (HandleKind.profile, profile)) (left : Nat) (b : Int) (s : St W)
    (h : Held s held) : Held (Ratbag.info_buttons L profile left b s) held := by
  induction left generalizing b s with
  | zero => exact h
  | succ left ih =>
    rw [Ratbag.info_buttons]
    exact ih _ _ (held_release _ HandleKind.button _
      (held_printf _ (held_button_action_to_str _ (usable_push _ _ _)
        (held_use _ _ (held_obtain _ _ HandleKind.button h hp rfl rfl rfl)
          (usable_push _ _ _) rfl rfl rfl))) rfl)

theorem held_info_profiles {L : Lib W} {held : List (HandleKind × Ptr)} (device : Ptr)
    (hd : usable held (HandleKind.device, device)) (num_buttons : Int) (left : Nat) (i : Int)
    (s : St W) (h : Held s held) :
    Held (Ratbag.info_profiles L device num_buttons left i s) held := by
  induction left generalizing i s with
  | zero => exact h
  | succ left ih =>
    rw [Ratbag.info_profiles]
    exact ih _ _ (held_release _ HandleKind.profile _
      (held_info_buttons _ (usable_push _ _ _) _ _ _
        (held_info_resolutions _ (usable_push _ _ _) _ _ _
          (held_printf _ (held_printf _
            (held_use _ _ (held_obtain _ _ HandleKind.profile h hd rfl rfl rfl)
              (usable_push _ _ _) rfl rfl rfl))))) rfl)

theorem held_info_capability {L : Lib W} {s : St W} {held : List (HandleKind × Ptr)}
    (device : Ptr) (cap : ratbag_capability) (token : String)
    (hd : usable held (HandleKind.device, device)) (h : Held s held) :
    Held (Ratbag.info_capability L device cap token s) held := by
  unfold Ratbag.info_capability
  dsimp only
  split_ifs
  · exact held_printf _ (held_use _ _ h hd rfl rfl rfl)
  · exact held_use _ _ h hd rfl rfl rfl

theorem held_list_loop {L : Lib W} {held : List (HandleKind × Ptr)} (ratbag : Ptr)
    (entries : List String) (supported : Nat) (s : St W) (h : Held s held) :
    Held (Ratbag.list_loop L ratbag entries supported s).2 held := by
  induction entries generalizing supported s with
  | nil => exact h
  | cons d_name rest ih =>
    rw [Ratbag.list_loop]
    dsimp only
    have ho := held_open_device (L := L) ratbag ("/dev/input/" ++ d_name) h
    by_cases h0 : 256 ≤ ("/dev/input/" ++ d_name).utf8ByteSize
    · rw [if_pos h0]
      exact held_plain _ h rfl rfl rfl
    · rw [if_neg h0]
      by_cases h1 : (ratbag_cmd_open_device L ratbag ("/dev/input/" ++ d_name) s).1 ≠ 0
      · rw [if_pos h1]
        exact ih _ _ (held_release _ HandleKind.device _
          (held_printf _ (held_use _ _ ho (usable_push _ _ _) rfl rfl rfl)) rfl)
      · rw [if_neg h1]
        rw [not_not.mp h1] at ho
        exact ih _ _ ho

theorem held_switch_dpi_loop {L : Lib W} {held : List (HandleKind × Ptr)}
    (device profile : Ptr) (dpi : Int) (hd : usable held (HandleKind.device, device))
    (hp : usable held (HandleKind.profile, profile)) (fuel : Nat) (i rc : Int) (s : St W)
    (h : Held s held) :
    Held (Ratbag.switch_dpi_loop L device profile dpi fuel i rc s).2 held := by
  induction fuel generalizing i rc s with
  | zero => exact h
  | succ fuel ih =>
    rw [Ratbag.switch_dpi_loop]
    dsimp only
    have hn := held_use (L := L) (Call.ratbag_profile_get_num_resolutions profile) _ h hp
      rfl rfl rfl
    have ha := held_use (L := L) (Call.ratbag_resolution_is_active _) _
      (held_obtain (L := L) (Call.ratbag_profile_get_resolution profile i) _
        HandleKind.resolution hn hp rfl rfl rfl)
      (usable_push _ _ _) rfl rfl rfl
    split_ifs with h1 h2 h3
    · exact ih _ _ _ (held_release _ HandleKind.resolution _
        (held_printf _ (held_use _ _ (held_use _ _ ha (usable_push _ _ _) rfl rfl rfl)
          (usable_push_of _ _ hd) rfl rfl rfl)) rfl)
    · exact ih _ _ _ (held_release _ HandleKind.resolution _
        (held_error _ (held_use _ _ ha (usable_push _ _ _) rfl rfl rfl)) rfl)
    · exact ih _ _ _ (held_release _ HandleKind.resolution _ ha rfl)
    · exact hn

theorem held_switch_etekcity_enable {L : Lib W} {s : St W} {held : List (HandleKind × Ptr)}
    (button_6 button_7 : Ptr) (h6 : usable held (HandleKind.button, button_6))
    (h7 : usable held (HandleKind.button, button_7)) (h : Held s held) :
    Held (Ratbag.switch_etekcity_enable L button_6 button_7 s).2 held := by
  unfold Ratbag.switch_etekcity_enable
  dsimp only
  have ht := held_use (L := L) (Call.ratbag_button_get_action_type button_6) _ h h6 rfl rfl rfl
  split_ifs
  · exact held_use _ _ (held_use _ _ (held_use _ _ ht h7 rfl rfl rfl) h6 rfl rfl rfl) h7
      rfl rfl rfl
  · exact held_use _ _ ht h7 rfl rfl rfl
  · exact ht

theorem held_switch_etekcity_toggle {L : Lib W} {s : St W} {held : List (HandleKind × Ptr)}
    (button_6 button_7 : Ptr) (h6 : usable held (HandleKind.button, button_6))
    (h7 : usable held (HandleKind.button, button_7)) (h : Held s held) :
    Held (Ratbag.switch_etekcity_toggle L button_6 button_7 s).2 held := by
  unfold Ratbag.switch_etekcity_toggle
  dsimp only
  have hk := held_use (L := L) (Call.ratbag_button_get_key button_6 10) _ h h6 rfl rfl rfl
  split_ifs
  · exact held_use _ _ (held_use _ _ (held_use _ _ hk h7 rfl rfl rfl) h6 rfl rfl rfl) h7
      rfl rfl rfl
  · exact held_switch_etekcity_enable _ _ h6 h7 (held_use _ _ hk h7 rfl rfl rfl)
  · exact held_switch_etekcity_enable _ _ h6 h7 hk

theorem held_change_button_action {L : Lib W} {s : St W} {held : List (HandleKind × Ptr)}
    (action_str action_arg : String) (h : Held s held) :
    Held (Ratbag.change_button_action L action_str action_arg s).2 held := by
  unfold Ratbag.change_button_action
  split_ifs
  all_goals first
    | exact h
    | exact held_error _ h
    | exact held_usage h

/-- The code after the label `out` of switch-etekcity and switch-dpi gives up
the references to the profile and the device. -/
theorem held_profile_device_out {L : Lib W} {s : St W} (device profile : Ptr) (rc : Int)
    (h : Held s (push HandleKind.profile profile (push HandleKind.device device []))) :
    Held (Ratbag.profile_device_out L device profile rc s).2 [] :=
  held_release _ HandleKind.device _ (held_release _ HandleKind.profile _ h rfl) rfl

theorem held_change_button_out {L : Lib W} {s : St W} (device profile button : Ptr) (rc : Int)
    (h : Held s (push HandleKind.button button
      (push HandleKind.profile profile (push HandleKind.device device [])))) :
    Held (Ratbag.change_button_out L device profile button rc s).2 [] :=
  held_release _ HandleKind.device _ (held_release _ HandleKind.profile _
    (held_release _ HandleKind.button _ h rfl) rfl) rfl

theorem held_switch_profile_out {L : Lib W} {s : St W} (device profile active_profile : Ptr)
    (rc : Int)
    (h : Held s (push HandleKind.profile active_profile
      (push HandleKind.profile profile (push HandleKind.device device [])))) :
    Held (Ratbag.switch_profile_out L device profile active_profile rc s).2 [] :=
  held_release _ HandleKind.device _ (held_release _ HandleKind.profile _
    (held_release_second _ HandleKind.profile HandleKind.profile _ _ h rfl) rfl) rfl

theorem held_ratbag_cmd_info {L : Lib W} (ratbag : Ptr) (flags : Nat) (argv : List String)
    (s : St W) (h : Held s []) : Held (Ratbag.ratbag_cmd_info L ratbag flags argv s).2 [] := by
  unfold Ratbag.ratbag_cmd_info
  split
  · rename_i path
    dsimp only
    have ho := held_open_device (L := L) ratbag path h
    by_cases h1 : (ratbag_cmd_open_device L ratbag path s).1 = 0
    · rw [if_pos h1]
      rw [h1] at ho
      exact held_error _ ho
    · rw [if_neg h1]
      have hd := usable_push HandleKind.device (ratbag_cmd_open_device L ratbag path s).1 []
      exact held_release _ HandleKind.device _
        (held_info_profiles _ hd _ _ _ _
          (held_printf _ (held_use _ _ (held_printf _ (held_use _ _ (held_printf _
            (held_info_capability _ _ _ hd (held_info_capability _ _ _ hd
              (held_info_capability _ _ _ hd (held_info_capability _ _ _ hd
                (held_printf _ (held_printf _ (held_use _ _ ho hd rfl rfl rfl))))))))
            hd rfl rfl rfl)) hd rfl rfl rfl))) rfl
  · exact held_usage h

theorem held_ratbag_cmd_list_supported_devices {L : Lib W} (ratbag : Ptr) (flags : Nat)
    (argv : List String) (s : St W) (h : Held s []) :
    Held (Ratbag.ratbag_cmd_list_supported_devices L ratbag flags argv s).2 [] := by
  unfold Ratbag.ratbag_cmd_list_supported_devices
  split
  · dsimp only
    have hn := held_plain (L := L) (Call.scandir "/dev/input") h rfl rfl rfl
    split_ifs
    · exact hn
    · exact held_printf _ (held_list_loop _ _ _ _ hn)
    · exact held_list_loop _ _ _ _ hn
  · exact held_usage h

theorem held_ratbag_cmd_switch_dpi {L : Lib W} (ratbag : Ptr) (flags : Nat)
    (argv : List String) (s : St W) (h : Held s []) :
    Held (Ratbag.ratbag_cmd_switch_dpi L ratbag flags argv s).2 [] := by
  unfold Ratbag.ratbag_cmd_switch_dpi
  split
  · rename_i arg path
    dsimp only
    have ho := held_open_device (L := L) ratbag path h
    have hd := usable_push HandleKind.device (ratbag_cmd_open_device L ratbag path s).1 []
    by_cases h1 : (ratbag_cmd_open_device L ratbag path s).1 = 0
    · rw [if_pos h1]
      rw [h1] at ho
      exact held_error _ ho
    · rw [if_neg h1]
      have hc := held_use (L := L) (Call.ratbag_device_has_capability
        (ratbag_cmd_open_device L ratbag path s).1
        ratbag_capability.RATBAG_CAP_SWITCHABLE_RESOLUTION) _ ho hd rfl rfl rfl
      have hf := held_active_profile_loop (L := L) _ hd 4294967296 0 _ hc
      split_ifs with h2 h3
      · exact held_profile_device_out _ _ _ (held_error _ hc)
      · refine held_profile_device_out _ _ _ (held_error _ ?_)
        exact hf
      · refine held_profile_device_out _ _ _ ?_
        exact held_switch_dpi_loop _ _ _ (usable_push_of _ _ hd) (usable_push _ _ _) _ _ _ _ hf
  · exact held_usage h

theorem held_ratbag_cmd_switch_etekcity {L : Lib W} (ratbag : Ptr) (flags : Nat)
    (argv : List String) (s : St W) (h : Held s []) :
    Held (Ratbag.ratbag_cmd_switch_etekcity L ratbag flags argv s).2 [] := by
  unfold Ratbag.ratbag_cmd_switch_etekcity
  split
  · rename_i path
    dsimp only
    have ho := held_open_device (L := L) ratbag path h
    generalize ratbag_cmd_open_device L ratbag path s = od at ho ⊢
    obtain ⟨d, s1⟩ := od
    dsimp only at ho ⊢
    have hd := usable_push HandleKind.device d []
    by_cases h1 : d = 0
    · rw [if_pos h1]
      rw [h1] at ho
      exact held_error _ ho
    · rw [if_neg h1]
      have hc := held_use (L := L) (Call.ratbag_device_has_capability d
        ratbag_capability.RATBAG_CAP_SWITCHABLE_PROFILE) _ ho hd rfl rfl rfl
      generalize libcall L (Call.ratbag_device_has_capability d
        ratbag_capability.RATBAG_CAP_SWITCHABLE_PROFILE) s1 = r2 at hc ⊢
      obtain ⟨a2, s2⟩ := r2
      dsimp only at hc ⊢
      by_cases h2 : a2.val = 0
      · rw [if_pos h2]
        exact held_profile_device_out _ _ _ (held_error _ hc)
      · rw [if_neg h2]
        have hf : Held (find_active_profile L d s2).2
            (push HandleKind.profile (find_active_profile L d s2).1
              (push HandleKind.device d [])) :=
          held_active_profile_loop (L := L) _ hd 4294967296 0 _ hc
        generalize find_active_profile L d s2 = r3 at hf ⊢
        obtain ⟨p, s3⟩ := r3
        dsimp only at hf ⊢
        have hp := usable_push HandleKind.profile p (push HandleKind.device d [])
        by_cases h3 : p = 0
        · rw [if_pos h3]
          exact held_profile_device_out _ _ _ (held_error _ hf)
        · rw [if_neg h3]
          have hb6 := held_obtain (L := L) (Call.ratbag_profile_get_button_by_index p 6) _
            HandleKind.button hf hp rfl rfl rfl
          generalize libcall L (Call.ratbag_profile_get_button_by_index p 6) s3 = r4 at hb6 ⊢
          obtain ⟨b6, s4⟩ := r4
          dsimp only at hb6 ⊢
          have hb7 := held_obtain (L := L) (Call.ratbag_profile_get_button_by_index p 7) _
            HandleKind.button hb6 (usable_push_of _ _ hp) rfl rfl rfl
          generalize libcall L (Call.ratbag_profile_get_button_by_index p 7) s4 = r5 at hb7 ⊢
          obtain ⟨b7, s5⟩ := r5
          dsimp only at hb7 ⊢
          have ht := held_switch_etekcity_toggle (L := L) b6.val b7.val
            (usable_push_of _ _ (usable_push _ _ _)) (usable_push _ _ _) hb7
          generalize Ratbag.switch_etekcity_toggle L b6.val b7.val s5 = r6 at ht ⊢
          obtain ⟨commit, s6⟩ := r6
          dsimp only at ht ⊢
          have hu := held_release (L := L) (Call.ratbag_button_unref b7.val) HandleKind.button _
            (held_release_second (L := L) (Call.ratbag_button_unref b6.val) HandleKind.button
              HandleKind.button _ _ ht rfl) rfl
          generalize (libcall L (Call.ratbag_button_unref b7.val)
            (libcall L (Call.ratbag_button_unref b6.val) s6).2).2 = s7 at hu ⊢
          by_cases h4 : commit = 0
          · rw [if_pos h4]
            exact held_profile_device_out _ _ _ hu
          · rw [if_neg h4]
            have hsa := held_use (L := L) (Call.ratbag_profile_set_active p) _ hu hp rfl rfl rfl
            by_cases h5 : (libcall L (Call.ratbag_profile_set_active p) s7).1.val = 0
            · rw [if_pos h5]
              exact held_profile_device_out _ _ _ (held_printf _
                (held_use (Call.ratbag_device_get_name d) _ hsa (usable_push_of _ _ hd)
                  rfl rfl rfl))
            · rw [if_neg h5]
              exact held_profile_device_out _ _ _ hsa
  · exact held_usage h

theorem held_ratbag_cmd_change_button {L : Lib W} (ratbag : Ptr) (flags : Nat)
    (argv : List String) (s : St W) (h : Held s []) :
    Held (Ratbag.ratbag_cmd_change_button L ratbag flags argv s).2 [] := by
  unfold Ratbag.ratbag_cmd_change_button
  split
  · rename_i arg action_str action_arg path
    dsimp only
    have hact := held_change_button_action (L := L) action_str action_arg h
    generalize Ratbag.change_button_action L action_str action_arg s = ra at hact ⊢
    obtain ⟨act, s0⟩ := ra
    dsimp only at hact ⊢
    cases act with
    | none => exact hact
    | some act =>
      dsimp only
      have ho := held_open_device (L := L) ratbag path hact
      generalize ratbag_cmd_open_device L ratbag path s0 = od at ho ⊢
      obtain ⟨d, s1⟩ := od
      dsimp only at ho ⊢
      have hd := usable_push HandleKind.device d []
      by_cases h1 : d = 0
      · rw [if_pos h1]
        rw [h1] at ho
        exact held_error _ ho
      · rw [if_neg h1]
        have hc := held_use (L := L) (Call.ratbag_device_has_capability d
          ratbag_capability.RATBAG_CAP_BUTTON_KEY) _ ho hd rfl rfl rfl
        generalize libcall L (Call.ratbag_device_has_capability d
          ratbag_capability.RATBAG_CAP_BUTTON_KEY) s1 = r2 at hc ⊢
        obtain ⟨a2, s2⟩ := r2
        dsimp only at hc ⊢
        by_cases h2 : a2.val = 0
        · rw [if_pos h2]
          exact held_change_button_out _ _ _ _ (held_error _ hc)
        · rw [if_neg h2]
          have hf : Held (find_active_profile L d s2).2
              (push HandleKind.profile (find_active_profile L d s2).1
                (push HandleKind.device d [])) :=
            held_active_profile_loop (L := L) _ hd 4294967296 0 _ hc
          generalize find_active_profile L d s2 = r3 at hf ⊢
          obtain ⟨p, s3⟩ := r3
          dsimp only at hf ⊢
          have hp := usable_push HandleKind.profile p (push HandleKind.device d [])
          by_cases h3 : p = 0
          · rw [if_pos h3]
            exact held_change_button_out _ _ _ _ (held_error _ hf)
          · rw [if_neg h3]
            have hb := held_obtain (L := L)
              (Call.ratbag_profile_get_button_by_index p (u32 (L.atoi arg))) _
              HandleKind.button hf hp rfl rfl rfl
            generalize libcall L (Call.ratbag_profile_get_button_by_index p (u32 (L.atoi arg)))
              s3 = r4 at hb ⊢
            obtain ⟨b, s4⟩ := r4
            dsimp only at hb ⊢
            have hbu := usable_push HandleKind.button b.val
              (push HandleKind.profile p (push HandleKind.device d []))
            by_cases h4 : b.val = 0
            · rw [if_pos h4]
              exact held_change_button_out _ _ _ _ (held_error _ hb)
            · rw [if_neg h4]
              have hset : Held (libcall L (change_button_setter b.val act) s4).2
                  (push HandleKind.button b.val
                    (push HandleKind.profile p (push HandleKind.device d []))) := by
                cases act <;> exact held_use _ _ hb hbu rfl rfl rfl
              generalize libcall L (change_button_setter b.val act) s4 = r5 at hset ⊢
              obtain ⟨rc, s5⟩ := r5
              dsimp only at hset ⊢
              by_cases h5 : rc.val ≠ 0
              · rw [if_pos h5]
                exact held_change_button_out _ _ _ _ (held_error _ hset)
              · rw [if_neg h5]
                have hsa := held_use (L := L) (Call.ratbag_profile_set_active p) _ hset
                  (usable_push_of _ _ hp) rfl rfl rfl
                by_cases h6 : (libcall L (Call.ratbag_profile_set_active p) s5).1.val ≠ 0
                · rw [if_pos h6]
                  exact held_change_button_out _ _ _ _ (held_error _ hsa)
                · rw [if_neg h6]
                  exact held_change_button_out _ _ _ _ hsa
  · exact held_usage h

theorem held_ratbag_cmd_switch_profile {L : Lib W} (ratbag : Ptr) (flags : Nat)
    (argv : List String) (s : St W) (h : Held s []) :
    Held (Ratbag.ratbag_cmd_switch_profile L ratbag flags argv s).2 [] := by
  unfold Ratbag.ratbag_cmd_switch_profile
  split
  · rename_i arg path
    dsimp only
    have ho := held_open_device (L := L) ratbag path h
    generalize ratbag_cmd_open_device L ratbag path s = od at ho ⊢
    obtain ⟨d, s1⟩ := od
    dsimp only at ho ⊢
    have hd := usable_push HandleKind.device d []
    by_cases h1 : d = 0
    · rw [if_pos h1]
      rw [h1] at ho
      exact held_error _ ho
    · rw [if_neg h1]
      have hc := held_use (L := L) (Call.ratbag_device_has_capability d
        ratbag_capability.RATBAG_CAP_SWITCHABLE_PROFILE) _ ho hd rfl rfl rfl
      generalize libcall L (Call.ratbag_device_has_capability d
        ratbag_capability.RATBAG_CAP_SWITCHABLE_PROFILE) s1 = r2 at hc ⊢
      obtain ⟨a2, s2⟩ := r2
      dsimp only at hc ⊢
      by_cases h2 : a2.val = 0
      · rw [if_pos h2]
        exact held_switch_profile_out _ _ _ _ (held_error _ hc)
      · rw [if_neg h2]
        have hn := held_use (L := L) (Call.ratbag_device_get_num_profiles d) _ hc hd rfl rfl rfl
        generalize libcall L (Call.ratbag_device_get_num_profiles d) s2 = r3 at hn ⊢
        obtain ⟨np, s3⟩ := r3
        dsimp only at hn ⊢
        by_cases h3 : L.atoi arg > i32 (u32 np.val)
        · rw [if_pos h3]
          exact held_switch_profile_out _ _ _ _ (held_error _ hn)
        · rw [if_neg h3]
          have hp := held_obtain (L := L)
            (Call.ratbag_device_get_profile_by_index d (u32 (L.atoi arg))) _
            HandleKind.profile hn hd rfl rfl rfl
          generalize libcall L (Call.ratbag_device_get_profile_by_index d (u32 (L.atoi arg)))
            s3 = r4 at hp ⊢
          obtain ⟨p, s4⟩ := r4
          dsimp only at hp ⊢
          have hpu := usable_push HandleKind.profile p.val (push HandleKind.device d [])
          have hdu := usable_push_of HandleKind.profile p.val hd
          have ha := held_use (L := L) (Call.ratbag_profile_is_active p.val) _ hp hpu rfl rfl rfl
          generalize libcall L (Call.ratbag_profile_is_active p.val) s4 = r5 at ha ⊢
          obtain ⟨act, s5⟩ := r5
          dsimp only at ha ⊢
          by_cases h4 : act.val ≠ 0
          · rw [if_pos h4]
            exact held_switch_profile_out _ _ _ _ (held_printf _
              (held_use (Call.ratbag_device_get_name d) _ ha hdu rfl rfl rfl))
          · rw [if_neg h4]
            have hl := held_switch_profile_loop (L := L) d hdu (i32 (u32 np.val)).toNat 0 s5 ha
            generalize Ratbag.switch_profile_loop L d (i32 (u32 np.val)).toNat 0 s5 = r6 at hl ⊢
            obtain ⟨ap, s6⟩ := r6
            dsimp only at hl ⊢
            by_cases h5 : ap = 0
            · rw [if_pos h5]
              exact held_switch_profile_out _ _ _ _ (held_error _ hl)
            · rw [if_neg h5]
              have hsa := held_use (L := L) (Call.ratbag_profile_set_active p.val) _ hl
                (usable_push_of _ _ hpu) rfl rfl rfl
              by_cases h6 : (libcall L (Call.ratbag_profile_set_active p.val) s6).1.val = 0
              · rw [if_pos h6]
                exact held_switch_profile_out _ _ _ _ (held_printf _
                  (held_use (Call.ratbag_device_get_name d) _ hsa
                    (usable_push_of _ _ hdu) rfl rfl rfl))
              · rw [if_neg h6]
                exact held_switch_profile_out _ _ _ _ hsa
  · exact held_usage h

/-- C26: in every run of info, list, change-button, switch-etekcity,
switch-dpi and switch-profile, whatever the library answers, the trace is
balanced: an unref of `NULL` counting as nothing, every device, profile,
resolution and button handle the handler obtains is released by one unref of
its kind before the handler returns, and every handle passed to the library
is `NULL` or one to which a reference is still held. -/
theorem handlers_release_every_handle (L : Lib W) (ratbag : Ptr) (flags : Nat)
    (argv : List String) (w : W) :
    balanced (ratbag_cmd_info L ratbag flags argv (St.init w)).2.trace
    ∧ balanced (ratbag_cmd_list_supported_devices L ratbag flags argv (St.init w)).2.trace
    ∧ balanced (ratbag_cmd_change_button L ratbag flags argv (St.init w)).2.trace
    ∧ balanced (ratbag_cmd_switch_etekcity L ratbag flags argv (St.init w)).2.trace
    ∧ balanced (ratbag_cmd_switch_dpi L ratbag flags argv (St.init w)).2.trace
    ∧ balanced (ratbag_cmd_switch_profile L ratbag flags argv (St.init w)).2.trace :=
  ⟨held_ratbag_cmd_info ratbag flags argv _ rfl,
   held_ratbag_cmd_list_supported_devices ratbag flags argv _ rfl,
   held_ratbag_cmd_change_button ratbag flags argv _ rfl,
   held_ratbag_cmd_switch_etekcity ratbag flags argv _ rfl,
   held_ratbag_cmd_switch_dpi ratbag flags argv _ rfl,
   held_ratbag_cmd_switch_profile ratbag flags argv _ rfl⟩

set_option maxRecDepth 8192 in
/-- The bookkeeping on small traces: a profile that is fetched and released is
balanced; one that is fetched and not released, released twice, or used after
its release is not, and an unref of `NULL` counts as nothing. -/
theorem balanced_examples :
    balanced [Event.call (Call.ratbag_device_get_profile_by_index 0 1) { val := 5 },
      Event.call (Call.ratbag_profile_is_active 5) {},
      Event.call (Call.ratbag_profile_unref 5) {}]
    ∧ ¬ balanced [Event.call (Call.ratbag_device_get_profile_by_index 0 1) { val := 5 }]
    ∧ ¬ balanced [Event.call (Call.ratbag_device_get_profile_by_index 0 1) { val := 5 },
      Event.call (Call.ratbag_profile_unref 5) {},
      Event.call (Call.ratbag_profile_unref 5) {}]
    ∧ ¬ balanced [Event.call (Call.ratbag_device_get_profile_by_index 0 1) { val := 5 },
      Event.call (Call.ratbag_profile_unref 5) {},
      Event.call (Call.ratbag_profile_is_active 5) {}]
    ∧ ¬ balanced [Event.call (Call.ratbag_device_get_profile_by_index 0 1) { val := 5 },
      Event.call (Call.ratbag_button_unref 5) {}]
    ∧ balanced [Event.call (Call.ratbag_device_get_profile_by_index 0 1) { val := 0 },
      Event.call (Call.ratbag_profile_unref 0) {}]
    ∧ balanced (ratbag_cmd_info (Mouse.lib 2 2 3) 1 0 ["/dev/input/event0"]
        (St.init { active := 1 })).2.trace
    ∧ balanced (ratbag_cmd_switch_profile (Mouse.lib 2 2 3) 1 0 ["0", "/dev/input/event0"]
        (St.init { active := 1 })).2.trace := by
  decide

end Ratbag
